import Mathlib

/-!
# Wycheproof regress harness: test-vector dispatch, judgment and coordination

A shallow embedding of `regress/lib/libcrypto/wycheproof/wycheproof.go`.

* The library under test (libcrypto, reached through cgo) is a collaborator of
  the harness: every C call is a parameter of the model (a function giving
  the call's return value), so that each theorem holds for every behaviour
  of the library.
* `log.Fatal`/`log.Fatalf` end the process: a model function that can reach
  one returns an `Outcome`, with `Outcome.fatal` for that exit.
* `fmt.Printf` only reports; it is left out.
* Go `string` is `String`, Go `[]byte` is `List Nat` (each entry below 256),
  Go/C `int` is `Int`.
-/

namespace Wycheproof

/-! ## Outcomes and traces -/

/-- How a Go function of the harness ends. -/
inductive Outcome (α : Type) where
  /-- The function returned a value. -/
  | returned (a : α)
  /-- The function called `log.Fatal`: the whole process exits. -/
  | fatal (msg : String)
  /-- The function waits on a channel operation that never completes. -/
  | blocked
  deriving DecidableEq, Repr

/-- A run of a harness function: how it ended and, in order, the operations on
its collaborators (channel operations, library calls) it performed. -/
structure Run (ε α : Type) where
  out : Outcome α
  trace : List ε

namespace Run

variable {ε α β : Type}

/-- Return without touching a collaborator. -/
def ret (a : α) : Run ε α := ⟨Outcome.returned a, []⟩

/-- Sequencing: the continuation runs only if the first part returned. -/
def andThen (m : Run ε α) (f : α → Run ε β) : Run ε β :=
  match m.out with
  | Outcome.returned a => ⟨(f a).out, m.trace ++ (f a).trace⟩
  | Outcome.fatal msg => ⟨Outcome.fatal msg, m.trace⟩
  | Outcome.blocked => ⟨Outcome.blocked, m.trace⟩

instance : Monad (Run ε) where
  pure := ret
  bind := andThen

/-- Perform one operation on a collaborator. -/
def emit (e : ε) : Run ε Unit := ⟨Outcome.returned (), [e]⟩

/-- Go `log.Fatal(msg)`. -/
def fatal (msg : String) : Run ε α := ⟨Outcome.fatal msg, []⟩

/-- A channel operation that never completes. -/
def block : Run ε α := ⟨Outcome.blocked, []⟩

end Run

/-! ## Test variants and the registry -/

/-- Go `testVariant`. -/
inductive testVariant where
  | Normal | EcPoint | P1363 | Webcrypto | Asn1 | Pem | Jwk | Skip
  deriving DecidableEq, Repr

/-- The concrete types behind the interface `wycheproofTestGroupRunner`; the
Go value `&wycheproofTestGroupX{}` is the constructor `X`, and `nil` is
`none` of `Option wycheproofTestGroupRunner`. -/
inductive wycheproofTestGroupRunner where
  | wycheproofTestGroupAesCbcPkcs5
  | wycheproofTestGroupAesAead
  | wycheproofTestGroupAesCmac
  | wycheproofTestGroupKW
  | wycheproofTestGroupChaCha
  | wycheproofTestGroupDSA
  | wycheproofTestGroupEcCurve
  | wycheproofTestGroupECDHWebCrypto
  | wycheproofTestGroupECDH
  | wycheproofTestGroupECDSA
  | wycheproofTestGroupEdDSA
  | wycheproofTestGroupHkdf
  | wycheproofTestGroupHmac
  | wycheproofTestGroupMLKEM
  | wycheproofTestGroupPbkdf2HmacSha
  | wycheproofTestGroupPrimality
  | wycheproofTestGroupRsaesOaep
  | wycheproofTestGroupRsaesPkcs1
  | wycheproofTestGroupRsassa
  | wycheproofTestGroupRSA
  | wycheproofTestGroupX25519
  deriving DecidableEq, Repr

/-- Go `wycheproofTestVectorsV1`; `Raw` stands for `json.RawMessage`. -/
structure wycheproofTestVectorsV1 (Raw : Type) where
  Algorithm : String
  Schema : String
  NumberOfTests : Int
  Header : List String
  TestGroups : List Raw

/-- Go `strings.HasPrefix`. -/
def stringsHasPrefix (s pre : String) : Bool := pre.data.isPrefixOf s.data

open testVariant wycheproofTestGroupRunner in
/-- Go `testGroupFromTestVector`: one `if` per `case` of the `switch` on
`wtv.Algorithm`, in the order of the source. -/
def testGroupFromTestVector {Raw : Type} (wtv : wycheproofTestVectorsV1 Raw) :
    Option wycheproofTestGroupRunner × testVariant :=
  let variant := testVariant.Normal
  if wtv.Algorithm ∈ ["A128CBC-HS256", "A192CBC-HS384", "A256CBC-HS512"] then
    (none, Skip)
  else if wtv.Algorithm ∈ ["AEGIS128", "AEGIS128L", "AEGIS256"] then
    (none, Skip)
  else if wtv.Algorithm ∈ ["AEAD-AES-SIV-CMAC"] then
    (none, Skip)
  else if wtv.Algorithm ∈ ["AES-CBC-PKCS5"] then
    (some wycheproofTestGroupAesCbcPkcs5, variant)
  else if wtv.Algorithm ∈ ["AES-CCM", "AES-GCM"] then
    (some wycheproofTestGroupAesAead, variant)
  else if wtv.Algorithm ∈ ["AES-CMAC"] then
    (some wycheproofTestGroupAesCmac, variant)
  else if wtv.Algorithm ∈ ["AES-EAX", "AES-FF1", "AES-GCM-SIV", "AES-GMAC", "AES-KWP",
      "AES-SIV-CMAC", "AES-XTS"] then
    (none, Skip)
  else if wtv.Algorithm ∈ ["AES-WRAP"] then
    (some wycheproofTestGroupKW, variant)
  else if wtv.Algorithm ∈ ["ARIA-CBC-PKCS5", "ARIA-CCM", "ARIA-CMAC", "ARIA-GCM", "ARIA-KWP",
      "ARIA-WRAP"] then
    (none, Skip)
  else if wtv.Algorithm ∈ ["ASCON128", "ASCON128A", "ASCON80PQ"] then
    (none, Skip)
  else if wtv.Algorithm ∈ ["CAMELLIA-CBC-PKCS5", "CAMELLIA-CCM", "CAMELLIA-CMAC",
      "CAMELLIA-WRAP"] then
    (none, Skip)
  else if wtv.Algorithm ∈ ["CHACHA20-POLY1305", "XCHACHA20-POLY1305"] then
    (some wycheproofTestGroupChaCha, variant)
  else if wtv.Algorithm ∈ ["DSA"] then
    let variant := if wtv.Schema = "dsa_p1363_verify_schema_v1.json" then P1363 else variant
    (some wycheproofTestGroupDSA, variant)
  else if wtv.Algorithm ∈ ["EcCurveTest"] then
    (some wycheproofTestGroupEcCurve, variant)
  else if wtv.Algorithm ∈ ["ECDH"] then
    if wtv.Schema = "ecdh_webcrypto_test_schema_v1.json" then
      (some wycheproofTestGroupECDHWebCrypto, Webcrypto)
    else
      let variant := if wtv.Schema = "ecdh_ecpoint_test_schema_v1.json" then EcPoint else variant
      let variant := if wtv.Schema = "ecdh_pem_test_schema_v1.json" then Skip else variant
      (some wycheproofTestGroupECDH, variant)
  else if wtv.Algorithm ∈ ["ECDSA"] then
    let variant := if wtv.Schema = "ecdsa_bitcoin_verify_schema.json" then Skip else variant
    let variant := if wtv.Schema = "ecdsa_p1363_verify_schema_v1.json" then P1363 else variant
    (some wycheproofTestGroupECDSA, variant)
  else if wtv.Algorithm ∈ ["EDDSA"] then
    (some wycheproofTestGroupEdDSA, variant)
  else if wtv.Algorithm ∈ ["HKDF-SHA-1", "HKDF-SHA-256", "HKDF-SHA-384", "HKDF-SHA-512"] then
    (some wycheproofTestGroupHkdf, variant)
  else if wtv.Algorithm ∈ ["HMACSHA1", "HMACSHA224", "HMACSHA256", "HMACSHA384", "HMACSHA512",
      "HMACSHA512/224", "HMACSHA512/256", "HMACSHA3-224", "HMACSHA3-256", "HMACSHA3-384",
      "HMACSHA3-512", "HMACSM3"] then
    (some wycheproofTestGroupHmac, variant)
  else if wtv.Algorithm ∈ ["KMAC128", "KMAC256"] then
    (none, Skip)
  else if wtv.Algorithm ∈ ["ML-DSA-44", "ML-DSA-65", "ML-DSA-87"] then
    (none, Skip)
  else if wtv.Algorithm ∈ ["ML-KEM"] then
    (some wycheproofTestGroupMLKEM, testVariant.Normal)
  else if wtv.Algorithm ∈ ["MORUS640", "MORUS1280"] then
    (none, Skip)
  else if wtv.Algorithm ∈ ["PbeWithHmacSha1AndAes_128", "PbeWithHmacSha1AndAes_192",
      "PbeWithHmacSha1AndAes_256", "PbeWithHmacSha224AndAes_128", "PbeWithHmacSha224AndAes_192",
      "PbeWithHmacSha224AndAes_256", "PbeWithHmacSha256AndAes_128", "PbeWithHmacSha256AndAes_192",
      "PbeWithHmacSha256AndAes_256", "PbeWithHmacSha384AndAes_128", "PbeWithHmacSha384AndAes_192",
      "PbeWithHmacSha384AndAes_256", "PbeWithHmacSha512AndAes_128", "PbeWithHmacSha512AndAes_192",
      "PbeWithHmacSha512AndAes_256"] then
    (none, Skip)
  else if wtv.Algorithm ∈ ["PBKDF2-HMACSHA1", "PBKDF2-HMACSHA224", "PBKDF2-HMACSHA256",
      "PBKDF2-HMACSHA384", "PBKDF2-HMACSHA512"] then
    (some wycheproofTestGroupPbkdf2HmacSha, Skip)
  else if wtv.Algorithm ∈ ["PrimalityTest"] then
    (some wycheproofTestGroupPrimality, variant)
  else if wtv.Algorithm ∈ ["RSAES-OAEP"] then
    (some wycheproofTestGroupRsaesOaep, variant)
  else if wtv.Algorithm ∈ ["RSAES-PKCS1-v1_5"] then
    (some wycheproofTestGroupRsaesPkcs1, variant)
  else if wtv.Algorithm ∈ ["RSASSA-PSS"] then
    (some wycheproofTestGroupRsassa, variant)
  else if wtv.Algorithm ∈ ["RSASSA-PKCS1-v1_5", "RSASig"] then
    (some wycheproofTestGroupRSA, variant)
  else if wtv.Algorithm ∈ ["SEED-CCM", "SEED-GCM", "SEED-WRAP"] then
    (none, Skip)
  else if wtv.Algorithm ∈ ["SipHash-1-3", "SipHash-2-4", "SipHash-4-8", "SipHashX-2-4",
      "SipHashX-4-8"] then
    (none, Skip)
  else if wtv.Algorithm ∈ ["SM4-CCM", "SM4-GCM"] then
    (none, Skip)
  else if wtv.Algorithm ∈ ["VMAC-AES"] then
    (none, Skip)
  else if wtv.Algorithm ∈ ["XDH"] then
    let variant :=
      if wtv.Schema ∈ ["xdh_asn_comp_schema_v1.json", "xdh_jwk_comp_schema_v1.json",
          "xdh_pem_comp_schema_v1.json"] then Skip
      else if wtv.Schema ∈ ["xdh_comp_schema_v1.json"] then testVariant.Normal
      else variant
    (some wycheproofTestGroupX25519, variant)
  else
    -- XXX - JOSE tests don't set an Algorithm...
    if stringsHasPrefix wtv.Schema "json_web_" then
      (none, Skip)
    else
      (none, testVariant.Normal)

/-- The `case` labels of the `switch` in `testGroupFromTestVector`: the
algorithm names that have an entry in the registry. -/
def registryAlgorithms : List String :=
  ["A128CBC-HS256", "A192CBC-HS384", "A256CBC-HS512",
   "AEGIS128", "AEGIS128L", "AEGIS256",
   "AEAD-AES-SIV-CMAC",
   "AES-CBC-PKCS5",
   "AES-CCM", "AES-GCM",
   "AES-CMAC",
   "AES-EAX", "AES-FF1", "AES-GCM-SIV", "AES-GMAC", "AES-KWP", "AES-SIV-CMAC", "AES-XTS",
   "AES-WRAP",
   "ARIA-CBC-PKCS5", "ARIA-CCM", "ARIA-CMAC", "ARIA-GCM", "ARIA-KWP", "ARIA-WRAP",
   "ASCON128", "ASCON128A", "ASCON80PQ",
   "CAMELLIA-CBC-PKCS5", "CAMELLIA-CCM", "CAMELLIA-CMAC", "CAMELLIA-WRAP",
   "CHACHA20-POLY1305", "XCHACHA20-POLY1305",
   "DSA",
   "EcCurveTest",
   "ECDH",
   "ECDSA",
   "EDDSA",
   "HKDF-SHA-1", "HKDF-SHA-256", "HKDF-SHA-384", "HKDF-SHA-512",
   "HMACSHA1", "HMACSHA224", "HMACSHA256", "HMACSHA384", "HMACSHA512", "HMACSHA512/224",
   "HMACSHA512/256", "HMACSHA3-224", "HMACSHA3-256", "HMACSHA3-384", "HMACSHA3-512", "HMACSM3",
   "KMAC128", "KMAC256",
   "ML-DSA-44", "ML-DSA-65", "ML-DSA-87",
   "ML-KEM",
   "MORUS640", "MORUS1280",
   "PbeWithHmacSha1AndAes_128", "PbeWithHmacSha1AndAes_192", "PbeWithHmacSha1AndAes_256",
   "PbeWithHmacSha224AndAes_128", "PbeWithHmacSha224AndAes_192", "PbeWithHmacSha224AndAes_256",
   "PbeWithHmacSha256AndAes_128", "PbeWithHmacSha256AndAes_192", "PbeWithHmacSha256AndAes_256",
   "PbeWithHmacSha384AndAes_128", "PbeWithHmacSha384AndAes_192", "PbeWithHmacSha384AndAes_256",
   "PbeWithHmacSha512AndAes_128", "PbeWithHmacSha512AndAes_192", "PbeWithHmacSha512AndAes_256",
   "PBKDF2-HMACSHA1", "PBKDF2-HMACSHA224", "PBKDF2-HMACSHA256", "PBKDF2-HMACSHA384",
   "PBKDF2-HMACSHA512",
   "PrimalityTest",
   "RSAES-OAEP",
   "RSAES-PKCS1-v1_5",
   "RSASSA-PSS",
   "RSASSA-PKCS1-v1_5", "RSASig",
   "SEED-CCM", "SEED-GCM", "SEED-WRAP",
   "SipHash-1-3", "SipHash-2-4", "SipHash-4-8", "SipHashX-2-4", "SipHashX-4-8",
   "SM4-CCM", "SM4-GCM",
   "VMAC-AES",
   "XDH"]

/-! ## The corpus driver -/

/-- The closure `func() bool { return wtg.run(wtv.Algorithm, variant) }` that
`runTestVectors` hands to the coordinator: the decoded group and the two
arguments it captures. -/
structure Job (G : Type) where
  wtg : G
  algorithm : String
  variant : testVariant

/-- The operations of `runTestVectors` on the coordinator `testc`. -/
inductive Event (G : Type) where
  /-- The call `testc.runTest(job)`. -/
  | runTest (job : Job G)
  /-- The receive `result := <-testc.resultCh`. -/
  | recv (result : Bool)

/-- The first loop of `runTestVectors`, over the test groups still to submit.
`some b` says the function returned `b` from inside the loop.
`Unmarshal wtg tg` is `json.Unmarshal(tg, wtg)`: `none` is an error,
`some g` the filled-in group. -/
def runTestVectors.submit {Raw G : Type}
    (Unmarshal : wycheproofTestGroupRunner → Raw → Option G)
    (wtv : wycheproofTestVectorsV1 Raw) : List Raw → Run (Event G) (Option Bool)
  | [] => pure none
  | tg :: rest =>
    match testGroupFromTestVector wtv with
    | (wtg, variant) =>
      if variant = testVariant.Skip then
        pure (some true)
      else
        match wtg with
        | none => Run.fatal "INFO: Unknown test vector algorithm"
        | some wtg =>
          match Unmarshal wtg tg with
          | none => Run.fatal "Failed to unmarshal test groups JSON"
          | some g => do
            Run.emit (Event.runTest ⟨g, wtv.Algorithm, variant⟩)
            runTestVectors.submit Unmarshal wtv rest

/-- The second loop of `runTestVectors`, over the test groups again: one
receive from `testc.resultCh` per group. `resultCh` lists the values the
channel hands to this goroutine, in order; when it has none left the receive
never completes. -/
def runTestVectors.collect {Raw G : Type} :
    List Raw → List Bool → Bool → Run (Event G) Bool
  | [], _, success => pure success
  | _ :: rest, resultCh, success =>
    match resultCh with
    | [] => Run.block
    | result :: resultCh => do
      Run.emit (Event.recv result)
      runTestVectors.collect rest resultCh (if !result then false else success)

/-- Go `runTestVectors`, from the point where the file has been read and
unmarshalled into `wtv`. -/
def runTestVectors {Raw G : Type}
    (Unmarshal : wycheproofTestGroupRunner → Raw → Option G)
    (wtv : wycheproofTestVectorsV1 Raw) (resultCh : List Bool) : Run (Event G) Bool := do
  let success := true
  match ← runTestVectors.submit Unmarshal wtv wtv.TestGroups with
  | some b => pure b
  | none => runTestVectors.collect wtv.TestGroups resultCh success

/-- The jobs `runTestVectors` builds for a file: one closure per test group
that unmarshals, capturing the decoded group, the file's algorithm and the
variant of the registry. -/
def runTestVectors.jobs {Raw G : Type}
    (Unmarshal : wycheproofTestGroupRunner → Raw → Option G)
    (wtv : wycheproofTestVectorsV1 Raw) : List (Job G) :=
  wtv.TestGroups.filterMap fun tg =>
    match (testGroupFromTestVector wtv).1 with
    | none => none
    | some wtg =>
      (Unmarshal wtg tg).map fun g => ⟨g, wtv.Algorithm, (testGroupFromTestVector wtv).2⟩

/-! ## The test coordinator

`testCoordinator` and its goroutines as a transition system. A state holds
the two buffered channels, one slot per `testRunner` goroutine, and one
entry per goroutine that drives the coordinator the way `runTestVectors`
does (first hand every job to `runTest`, then receive one result per job).
An `Action` is one atomic step of one goroutine; a schedule is a list of
actions. `shutdown` (closing `testFuncCh` at the end of `main`) is not part
of the model. -/

/-- A buffered Go channel: its capacity and the values it holds, oldest
first. -/
structure Chan (α : Type) where
  cap : Nat
  buf : List α

/-- Go `make(chan T, cap)`. -/
def Chan.make {α : Type} (cap : Nat) : Chan α := ⟨cap, []⟩

/-- Go `testCoordinator`. -/
structure testCoordinator where
  testFuncCh : Chan (Unit → Bool)
  resultCh : Chan Bool

/-- The channels made by Go `newTestCoordinator`; `runnerCount` is
`runtime.NumCPU()`. The `runnerCount` goroutines it starts are the `runners`
of `Harness.start`. -/
def newTestCoordinator (runnerCount : Nat) : testCoordinator :=
  { testFuncCh := Chan.make runnerCount
    resultCh := Chan.make 1024 }

/-- The `select` statement of `testRunner`, entered with the value `b` of
`testFunc()`: the send case when `resultCh` has room, the `default` case
(`log.Fatal`) when it is full. -/
def testRunner.select (resultCh : Chan Bool) (b : Bool) : Outcome (Chan Bool) :=
  if resultCh.buf.length < resultCh.cap then
    Outcome.returned { resultCh with buf := resultCh.buf ++ [b] }
  else
    Outcome.fatal "result channel is full"

/-- A goroutine using the coordinator as `runTestVectors` does. -/
structure Client where
  /-- Jobs the first loop has still to pass to `runTest`. -/
  pending : List (Unit → Bool)
  /-- Iterations the second loop has still to do. -/
  awaiting : Nat
  /-- The results received so far. -/
  got : List Bool

/-- The coordinator together with its goroutines. -/
structure Harness where
  tc : testCoordinator
  /-- One entry per `testRunner` goroutine: `none` while it waits on
  `testFuncCh`, `some b` when it has evaluated `testFunc()` to `b` and
  stands at the `select`. -/
  runners : List (Option Bool)
  clients : List Client
  /-- Set once a goroutine has called `log.Fatal`. -/
  fatal : Bool

/-- One atomic step of one goroutine. -/
inductive Action where
  /-- Client `c` calls `tc.runTest` on its next job. -/
  | runTest (c : Nat)
  /-- Runner `r` receives a job from `testFuncCh` and evaluates it. -/
  | take (r : Nat)
  /-- Runner `r` executes its `select`. -/
  | send (r : Nat)
  /-- Client `c` receives from `resultCh`. -/
  | recv (c : Nat)
  deriving DecidableEq, Repr

/-- The state after `newTestCoordinator`, with one client per list of jobs. -/
def Harness.start (runnerCount : Nat) (files : List (List (Unit → Bool))) : Harness :=
  { tc := newTestCoordinator runnerCount
    runners := List.replicate runnerCount none
    clients := files.map fun jobs => ⟨jobs, jobs.length, []⟩
    fatal := false }

/-- The step `a` from state `s`; `none` when the goroutine cannot take it
(it does not exist, its channel operation would wait, or the process has
exited). -/
def Harness.step (s : Harness) (a : Action) : Option Harness :=
  if s.fatal then none else
  match a with
  | Action.runTest c =>
    match s.clients.get? c with
    | some ⟨testFunc :: pending, awaiting, got⟩ =>
      -- tc.testFuncCh <- testFunc
      if s.tc.testFuncCh.buf.length < s.tc.testFuncCh.cap then
        some { s with
          tc := { s.tc with
            testFuncCh := { s.tc.testFuncCh with buf := s.tc.testFuncCh.buf ++ [testFunc] } }
          clients := s.clients.set c ⟨pending, awaiting, got⟩ }
      else none
    | _ => none
  | Action.take r =>
    match s.runners.get? r, s.tc.testFuncCh.buf with
    | some none, testFunc :: buf =>
      some { s with
        tc := { s.tc with testFuncCh := { s.tc.testFuncCh with buf := buf } }
        runners := s.runners.set r (some (testFunc ())) }
    | _, _ => none
  | Action.send r =>
    match s.runners.get? r with
    | some (some b) =>
      match testRunner.select s.tc.resultCh b with
      | Outcome.returned resultCh =>
        some { s with tc := { s.tc with resultCh := resultCh }, runners := s.runners.set r none }
      | _ => some { s with fatal := true }
    | _ => none
  | Action.recv c =>
    match s.clients.get? c, s.tc.resultCh.buf with
    | some ⟨[], awaiting + 1, got⟩, result :: buf =>
      some { s with
        tc := { s.tc with resultCh := { s.tc.resultCh with buf := buf } }
        clients := s.clients.set c ⟨[], awaiting, got ++ [result]⟩ }
    | _, _ => none

/-- Run a schedule; `none` when one of its actions cannot be taken. -/
def Harness.exec (s : Harness) : List Action → Option Harness
  | [] => some s
  | a :: rest => (s.step a).bind fun t => t.exec rest

/-- The results of the jobs no client has submitted yet. -/
def Harness.unsubmitted (s : Harness) : List Bool :=
  (s.clients.map fun c => c.pending.map fun testFunc => testFunc ()).flatten

/-- The results of the jobs waiting in `testFuncCh`. -/
def Harness.queued (s : Harness) : List Bool :=
  s.tc.testFuncCh.buf.map fun testFunc => testFunc ()

/-- The results the runners have computed and not sent yet. -/
def Harness.unsent (s : Harness) : List Bool :=
  s.runners.reduceOption

/-- The results the clients have received, client by client. -/
def Harness.received (s : Harness) : List Bool :=
  (s.clients.map fun c => c.got).flatten

/-- Every result in the system, wherever it stands: still to submit, in the
work queue, held by a runner, in the result queue, or received. -/
def Harness.pool (s : Harness) : List Bool :=
  s.unsubmitted ++ s.queued ++ s.unsent ++ s.tc.resultCh.buf ++ s.received

/-- The steps still ahead of the jobs in the system: four for a job not yet
submitted (submit, take, send, receive), three for a queued one, two for one
held by a runner, one for a result in the result queue. -/
def Harness.work (s : Harness) : Nat :=
  4 * s.unsubmitted.length + 3 * s.queued.length + 2 * s.unsent.length +
    s.tc.resultCh.buf.length

/-- The number of receives the clients have still to do. -/
def Harness.awaitingTotal (s : Harness) : Nat :=
  (s.clients.map fun c => c.awaiting).sum

/-- The steps of `Harness.step`, as a relation between states written out in
full. -/
inductive Harness.Step : Harness → Harness → Prop where
  | runTest (tc : testCoordinator) (runners : List (Option Bool)) (before after : List Client)
      (testFunc : Unit → Bool) (pending : List (Unit → Bool)) (awaiting : Nat) (got : List Bool)
      (hroom : tc.testFuncCh.buf.length < tc.testFuncCh.cap) :
      Harness.Step
        ⟨tc, runners, before ++ ⟨testFunc :: pending, awaiting, got⟩ :: after, false⟩
        ⟨⟨⟨tc.testFuncCh.cap, tc.testFuncCh.buf ++ [testFunc]⟩, tc.resultCh⟩, runners,
          before ++ ⟨pending, awaiting, got⟩ :: after, false⟩
  | take (cap : Nat) (testFunc : Unit → Bool) (buf : List (Unit → Bool)) (resultCh : Chan Bool)
      (before after : List (Option Bool)) (clients : List Client) :
      Harness.Step
        ⟨⟨⟨cap, testFunc :: buf⟩, resultCh⟩, before ++ none :: after, clients, false⟩
        ⟨⟨⟨cap, buf⟩, resultCh⟩, before ++ some (testFunc ()) :: after, clients, false⟩
  | send (tc : testCoordinator) (before after : List (Option Bool)) (b : Bool)
      (clients : List Client) (hroom : tc.resultCh.buf.length < tc.resultCh.cap) :
      Harness.Step
        ⟨tc, before ++ some b :: after, clients, false⟩
        ⟨⟨tc.testFuncCh, ⟨tc.resultCh.cap, tc.resultCh.buf ++ [b]⟩⟩, before ++ none :: after,
          clients, false⟩
  | full (tc : testCoordinator) (before after : List (Option Bool)) (b : Bool)
      (clients : List Client) (hfull : ¬ tc.resultCh.buf.length < tc.resultCh.cap) :
      Harness.Step
        ⟨tc, before ++ some b :: after, clients, false⟩
        ⟨tc, before ++ some b :: after, clients, true⟩
  | recv (testFuncCh : Chan (Unit → Bool)) (cap : Nat) (result : Bool) (buf : List Bool)
      (runners : List (Option Bool)) (before after : List Client) (awaiting : Nat)
      (got : List Bool) :
      Harness.Step
        ⟨⟨testFuncCh, ⟨cap, result :: buf⟩⟩, runners,
          before ++ ⟨[], awaiting + 1, got⟩ :: after, false⟩
        ⟨⟨testFuncCh, ⟨cap, buf⟩⟩, runners,
          before ++ ⟨[], awaiting, got ++ [result]⟩ :: after, false⟩

/-- What holds in every state the coordinator reaches from `Harness.start`
with `runnerCount` runners and the job lists `files`. -/
structure Harness.Inv (runnerCount : Nat) (files : List (List (Unit → Bool)))
    (s : Harness) : Prop where
  resultCap : s.tc.resultCh.cap = 1024
  testFuncCap : s.tc.testFuncCh.cap = runnerCount
  runnersLength : s.runners.length = runnerCount
  /-- No result is lost or made up. -/
  conserved : ∀ b, s.pool.count b = (files.flatten.map fun testFunc => testFunc ()).count b
  poolLength : s.pool.length = (files.map List.length).sum
  /-- Each client receives as many results as it had jobs. -/
  perClient : (s.clients.map fun c => c.awaiting + c.got.length) = files.map List.length
  notFatal : s.fatal = false

/-- A job that passes: `func() bool { return true }`. -/
def passingJob : Unit → Bool := fun _ => true

/-- The state after one client has had its one passing job run by the one
runner and has received the result. -/
def oneJobDone : Harness :=
  ⟨⟨⟨1, []⟩, ⟨1024, []⟩⟩, [none], [⟨[], 0, [true]⟩], false⟩

/-- The state in which one client has submitted its one passing job, which
waits in the work queue, and the one runner is idle. -/
def oneJobQueued : Harness :=
  ⟨⟨⟨1, [passingJob]⟩, ⟨1024, []⟩⟩, [none], [⟨[], 1, []⟩], false⟩

/-- The schedule in which one client and one runner handle `n` jobs one after
the other and nothing is received: submit, take, send, `n` times. -/
def serialSchedule : Nat → List Action
  | 0 => []
  | n + 1 => Action.runTest 0 :: Action.take 0 :: Action.send 0 :: serialSchedule n

/-! ## Strings, hex fields and libcrypto -/

/-- The bytes of a Go string (its UTF-8 encoding): `[]byte(s)`. -/
def bytesOf (s : String) : List Nat :=
  s.data.flatMap fun c => (String.utf8EncodeChar c).map UInt8.toNat

/-- Go `len(s)` of a string: its number of bytes. -/
def len (s : String) : Nat := (bytesOf s).length

/-- Go `encoding/hex`, `fromHexChar`: the value of one hex digit. -/
def fromHexChar (c : Nat) : Option Nat :=
  if 48 ≤ c ∧ c ≤ 57 then some (c - 48)
  else if 97 ≤ c ∧ c ≤ 102 then some (c - 97 + 10)
  else if 65 ≤ c ∧ c ≤ 70 then some (c - 65 + 10)
  else none

/-- Go `hex.Decode` on the bytes of the source: `none` for an odd length or
a byte that is no hex digit. -/
def hexDecode : List Nat → Option (List Nat)
  | [] => some []
  | [_] => none
  | a :: b :: rest =>
    match fromHexChar a, fromHexChar b with
    | some x, some y => (hexDecode rest).map fun out => (x * 16 + y) :: out
    | _, _ => none

/-- Go `hex.DecodeString`, with `none` for a non-nil error. -/
def hexDecodeString (s : String) : Option (List Nat) := hexDecode (bytesOf s)

/-- One call of a C function, with the value it gave: the event is the
function's name. Calls that only release memory are left out of the model. -/
def Run.call {α : Type} (fn : String) (result : α) : Run String α :=
  ⟨Outcome.returned result, [fn]⟩

/-- Go `mustDecodeHexString`: the buffer (one zero byte when the decoding is
empty) and the logical length. -/
def mustDecodeHexString (str descr : String) : Run String (List Nat × Nat) :=
  match hexDecodeString str with
  | none => Run.fatal ("Failed to decode " ++ descr)
  | some out =>
    let outLen := out.length
    let out := if outLen = 0 then out ++ [0] else out
    pure (out, outLen)

/-- What the harness sees of libcrypto in the functions modelled here. A
pointer result is an `Option` (`none` for `NULL`) or, for an allocation whose
value is not looked at, a `Bool` (`false` for `NULL`); a `BIGNUM` is the
integer it holds; keys and digests are handles. A buffer argument is passed
as the bytes the C function is told to read. -/
structure Libcrypto where
  EVP_MD_size : Nat → Int
  /-- `EVP_Digest(data, count, md_out, NULL, md, NULL)`: return value and
  digest written. -/
  EVP_Digest : List Nat → Nat → Int × List Nat
  malloc : Int → Bool
  BN_new : Bool
  BN_bin2bn : List Nat → Option Int
  BN_set_negative : Int → Int → Int
  /-- `BN_hex2bn(&bn, str)`: `none` for the return value 0. -/
  BN_hex2bn : List Nat → Option Int
  BN_is_prime_ex : Int → Int
  DSA_SIG_new : Bool
  DSA_SIG_set0 : Int → Int → Int
  /-- `i2d_DSA_SIG(sig, pp)` on the signature `(r, s)`; the flag says whether
  `pp` is an output buffer (`true`) or `NULL` (`false`). -/
  i2d_DSA_SIG : Int → Int → Bool → Int × List Nat
  DSA_verify : List Nat → List Nat → Nat → Int
  ECDSA_SIG_new : Bool
  ECDSA_SIG_set0 : Int → Int → Int
  i2d_ECDSA_SIG : Int → Int → Bool → Int × List Nat
  ECDSA_verify : List Nat → List Nat → Nat → Int
  /-- `EC_GROUP_order_bits(EC_KEY_get0_group(key))`. -/
  EC_GROUP_order_bits : Nat → Int
  EVP_MD_CTX_new : Bool
  EVP_DigestVerifyInit : Nat → Int
  /-- `EVP_DigestVerify(ctx, sig, siglen, msg, msglen)` for the key of `ctx`. -/
  EVP_DigestVerify : List Nat → List Nat → Nat → Int
  RSA_verify : Int → List Nat → List Nat → Nat → Int
  /-- `EC_KEY_new_by_curve_name(nid)`; the second argument numbers the calls
  within one test case. -/
  EC_KEY_new_by_curve_name : Int → Nat → Option Nat
  EC_KEY_set_private_key : Nat → Int → Int
  o2i_ECPublicKey : Nat → List Nat → Option Nat
  d2i_EC_PUBKEY : List Nat → Option Nat
  /-- `EC_GROUP_get_degree(EC_KEY_get0_group(key))`. -/
  EC_GROUP_get_degree : Nat → Int
  /-- `ECDH_compute_key(out, outlen, EC_KEY_get0_public_key(pub), priv, NULL)`:
  return value and bytes written to `out`. -/
  ECDH_compute_key : Int → Nat → Nat → Int × List Nat

/-- C `EVP_MAX_MD_SIZE`. -/
def EVP_MAX_MD_SIZE : Int := 64

/-- Go `mustHashHexMessage`. -/
def mustHashHexMessage (lib : Libcrypto) (md : Nat) (message : String) :
    Run String (List Nat × Int) := do
  let size ← Run.call "EVP_MD_size" (lib.EVP_MD_size md)
  if size ≤ 0 ∨ size > EVP_MAX_MD_SIZE then
    Run.fatal "unexpected MD size"
  else do
    let (msg, msgLen) ← mustDecodeHexString message "for hex message digest"
    let (ret, digest) ← Run.call "EVP_Digest" (lib.EVP_Digest (msg.take msgLen) md)
    if ret ≠ 1 then
      Run.fatal "EVP_Digest failed"
    else
      pure (digest, size)

/-- Go `(*big.Int).Bytes`: the absolute value, big-endian. -/
def bigIntBytes (bi : Int) : List Nat := (Nat.digits 256 bi.natAbs).reverse

/-- Go `mustConvertBigIntToBigNum`. -/
def mustConvertBigIntToBigNum (lib : Libcrypto) (bi : Int) : Run String Int := do
  let value := bigIntBytes bi
  let value := if value.length = 0 then value ++ [0] else value
  let bn ← Run.call "BN_new" lib.BN_new
  if bn = false then
    Run.fatal "BN_new failed"
  else do
    match ← Run.call "BN_bin2bn" (lib.BN_bin2bn value) with
    | none => Run.fatal "BN_bin2bn failed"
    | some bn =>
      if bi.sign = -1 then
        Run.call "BN_set_negative" (lib.BN_set_negative bn 1)
      else
        pure bn

/-! ## Test-case checks -/

/-- Go `C.CString(s)` as C reads it: the bytes before the first NUL. -/
def cString (s : List Nat) : List Nat := s.takeWhile fun b => b != 0

/-- Go `wycheproofTestPrimality`; `Value` is the integer of the `*BigInt`. -/
structure wycheproofTestPrimality where
  TCID : Int
  Comment : String
  Value : Int
  Result : String
  Flags : List String

/-- Go `runPrimalityTest`. -/
def runPrimalityTest (lib : Libcrypto) (wt : wycheproofTestPrimality) : Run String Bool := do
  let bnValue ← mustConvertBigIntToBigNum lib wt.Value
  let ret ← Run.call "BN_is_prime_ex" (lib.BN_is_prime_ex bnValue)
  let success := wt.Result == "acceptable" || (ret == 0 && wt.Result == "invalid") ||
    (ret == 1 && wt.Result == "valid")
  pure success

/-- Go `wycheproofTestDSA`. -/
structure wycheproofTestDSA where
  TCID : Int
  Comment : String
  Msg : String
  Sig : String
  Result : String
  Flags : List String

/-- Go `encodeDSAP1363Sig`: `none` for the result `nil, 0`, else the DER
buffer and its length. -/
def encodeDSAP1363Sig (lib : Libcrypto) (wtSig : String) :
    Run String (Option (List Nat × Int)) := do
  let cSig ← Run.call "DSA_SIG_new" lib.DSA_SIG_new
  if cSig = false then
    Run.fatal "DSA_SIG_new() failed"
  else do
    let sigLen := len wtSig
    let r := cString ((bytesOf wtSig).take (sigLen / 2))
    let s := cString ((bytesOf wtSig).drop (sigLen / 2))
    match ← Run.call "BN_hex2bn" (lib.BN_hex2bn r) with
    | none => pure none
    | some sigR =>
      match ← Run.call "BN_hex2bn" (lib.BN_hex2bn s) with
      | none => pure none
      | some sigS =>
        if (← Run.call "DSA_SIG_set0" (lib.DSA_SIG_set0 sigR sigS)) = 0 then
          pure none
        else do
          let (derLen, _) ← Run.call "i2d_DSA_SIG" (lib.i2d_DSA_SIG sigR sigS false)
          if derLen = 0 then
            pure none
          else if (← Run.call "malloc" (lib.malloc derLen)) = false then
            Run.fatal "malloc failed"
          else do
            let (ret, cDer) ← Run.call "i2d_DSA_SIG" (lib.i2d_DSA_SIG sigR sigS true)
            if ret = 0 ∨ ret ≠ derLen then
              pure none
            else
              pure (some (cDer, derLen))

/-- The first part of Go `runDSATest`, up to the `DSA_verify` call: `Sum.inl b`
when the function returns `b` before the call, `Sum.inr ret` with the value
of `DSA_verify` otherwise. -/
def runDSATest.verify (lib : Libcrypto) (dsa md : Nat) (variant : testVariant)
    (wt : wycheproofTestDSA) : Run String (Bool ⊕ Int) := do
  let (msg, msgLen) ← mustHashHexMessage lib md wt.Msg
  if variant = testVariant.P1363 then
    match ← encodeDSAP1363Sig lib wt.Sig with
    | none => pure (Sum.inl false)
    | some (cDer, derLen) =>
      let ret ← Run.call "DSA_verify"
        (lib.DSA_verify (msg.take msgLen.toNat) (cDer.take derLen.toNat) dsa)
      pure (Sum.inr ret)
  else do
    let (sig, sigLen) ← mustDecodeHexString wt.Sig "sig"
    let ret ← Run.call "DSA_verify" (lib.DSA_verify (msg.take msgLen.toNat) (sig.take sigLen) dsa)
    pure (Sum.inr ret)

/-- Go `runDSATest`. -/
def runDSATest (lib : Libcrypto) (dsa md : Nat) (variant : testVariant)
    (wt : wycheproofTestDSA) : Run String Bool := do
  match ← runDSATest.verify lib dsa md variant wt with
  | Sum.inl b => pure b
  | Sum.inr ret =>
    let success := true
    if (ret == 1) != (wt.Result == "valid") then
      pure false
    else
      pure success

/-- Go `wycheproofTestECDSA`. -/
structure wycheproofTestECDSA where
  TCID : Int
  Comment : String
  Msg : String
  Sig : String
  Result : String
  Flags : List String

/-- Go `encodeECDSAWebCryptoSig`: `none` for the result `nil, 0`, else the
DER buffer and its length. -/
def encodeECDSAWebCryptoSig (lib : Libcrypto) (wtSig : String) :
    Run String (Option (List Nat × Int)) := do
  let cSig ← Run.call "ECDSA_SIG_new" lib.ECDSA_SIG_new
  if cSig = false then
    Run.fatal "ECDSA_SIG_new() failed"
  else do
    let sigLen := len wtSig
    let r := cString ((bytesOf wtSig).take (sigLen / 2))
    let s := cString ((bytesOf wtSig).drop (sigLen / 2))
    match ← Run.call "BN_hex2bn" (lib.BN_hex2bn r) with
    | none => pure none
    | some sigR =>
      match ← Run.call "BN_hex2bn" (lib.BN_hex2bn s) with
      | none => pure none
      | some sigS =>
        if (← Run.call "ECDSA_SIG_set0" (lib.ECDSA_SIG_set0 sigR sigS)) = 0 then
          pure none
        else do
          let (derLen, _) ← Run.call "i2d_ECDSA_SIG" (lib.i2d_ECDSA_SIG sigR sigS false)
          if derLen = 0 then
            pure none
          else if (← Run.call "malloc" (lib.malloc derLen)) = false then
            Run.fatal "malloc failed"
          else do
            let (ret, cDer) ← Run.call "i2d_ECDSA_SIG" (lib.i2d_ECDSA_SIG sigR sigS true)
            if ret = 0 ∨ ret ≠ derLen then
              pure none
            else
              pure (some (cDer, derLen))

/-- The first part of Go `runECDSATest`, up to the `ECDSA_verify` call:
`Sum.inl b` when the function returns `b` before the call, `Sum.inr ret`
with the value of `ECDSA_verify` otherwise. -/
def runECDSATest.verify (lib : Libcrypto) (ecKey md : Nat) (_nid : Int) (variant : testVariant)
    (wt : wycheproofTestECDSA) : Run String (Bool ⊕ Int) := do
  let (msg, msgLen) ← mustHashHexMessage lib md wt.Msg
  if variant = testVariant.P1363 then
    let order_bytes ← Run.call "EC_GROUP_order_bits"
      (Int.tdiv (lib.EC_GROUP_order_bits ecKey + 7) 8)
    if ((len wt.Sig / 2 : Nat) : Int) ≠ 2 * order_bytes then
      if wt.Result == "valid" then
        pure (Sum.inl false)
      else
        pure (Sum.inl true)
    else
      match ← encodeECDSAWebCryptoSig lib wt.Sig with
      | none => pure (Sum.inl false)
      | some (cDer, derLen) =>
        let ret ← Run.call "ECDSA_verify"
          (lib.ECDSA_verify (msg.take msgLen.toNat) (cDer.take derLen.toNat) ecKey)
        pure (Sum.inr ret)
  else do
    let (sig, sigLen) ← mustDecodeHexString wt.Sig "sig"
    let ret ← Run.call "ECDSA_verify"
      (lib.ECDSA_verify (msg.take msgLen.toNat) (sig.take sigLen) ecKey)
    pure (Sum.inr ret)

/-- Go `runECDSATest`. -/
def runECDSATest (lib : Libcrypto) (ecKey md : Nat) (nid : Int) (variant : testVariant)
    (wt : wycheproofTestECDSA) : Run String Bool := do
  match ← runECDSATest.verify lib ecKey md nid variant wt with
  | Sum.inl b => pure b
  | Sum.inr ret =>
    -- XXX audit acceptable cases...
    let success := true
    if (ret == 1) != (wt.Result == "valid") && wt.Result != "acceptable" then
      pure false
    else
      pure success

/-- Go `wycheproofTestEdDSA`. -/
structure wycheproofTestEdDSA where
  TCID : Int
  Comment : String
  Msg : String
  Sig : String
  Result : String
  Flags : List String

/-- The first part of Go `runEdDSATest`: the value of `EVP_DigestVerify`. -/
def runEdDSATest.verify (lib : Libcrypto) (pkey : Nat) (wt : wycheproofTestEdDSA) :
    Run String Int := do
  let mdctx ← Run.call "EVP_MD_CTX_new" lib.EVP_MD_CTX_new
  if mdctx = false then
    Run.fatal "EVP_MD_CTX_new failed"
  else if (← Run.call "EVP_DigestVerifyInit" (lib.EVP_DigestVerifyInit pkey)) ≠ 1 then
    Run.fatal "EVP_DigestVerifyInit failed"
  else do
    let (msg, msgLen) ← mustDecodeHexString wt.Msg "msg"
    let (sig, sigLen) ← mustDecodeHexString wt.Sig "sig"
    Run.call "EVP_DigestVerify" (lib.EVP_DigestVerify (sig.take sigLen) (msg.take msgLen) pkey)

/-- Go `runEdDSATest`. -/
def runEdDSATest (lib : Libcrypto) (pkey : Nat) (wt : wycheproofTestEdDSA) :
    Run String Bool := do
  let ret ← runEdDSATest.verify lib pkey wt
  let success := true
  if (ret == 1) != (wt.Result == "valid") then
    pure false
  else
    pure success

/-- Go `wycheproofTestRSA`. -/
structure wycheproofTestRSA where
  TCID : Int
  Comment : String
  Msg : String
  Sig : String
  Padding : String
  Result : String
  Flags : List String

/-- The first part of Go `runRSATest`: the value of `RSA_verify`. -/
def runRSATest.verify (lib : Libcrypto) (rsa md : Nat) (nid : Int) (wt : wycheproofTestRSA) :
    Run String Int := do
  let (msg, msgLen) ← mustHashHexMessage lib md wt.Msg
  let (sig, sigLen) ← mustDecodeHexString wt.Sig "sig"
  Run.call "RSA_verify" (lib.RSA_verify nid (msg.take msgLen.toNat) (sig.take sigLen) rsa)

/-- Go `runRSATest`. -/
def runRSATest (lib : Libcrypto) (rsa md : Nat) (nid : Int) (wt : wycheproofTestRSA) :
    Run String Bool := do
  let ret ← runRSATest.verify lib rsa md nid wt
  -- XXX audit acceptable cases...
  let success := true
  if (ret == 1) != (wt.Result == "valid") && wt.Result != "acceptable" then
    pure false
  else
    pure success

/-- Go `wycheproofTestECDH`. -/
structure wycheproofTestECDH where
  TCID : Int
  Comment : String
  Public : String
  Private : String
  Shared : String
  Result : String
  Flags : List String

/-- Writing `data` over the start of `buf`, as a C function filling the
buffer it was handed does. -/
def overwrite (buf data : List Nat) : List Nat :=
  data.take buf.length ++ buf.drop data.length

/-- The first part of Go `runECDHTest`, up to the check of the value of
`ECDH_compute_key`: `Sum.inl b` when the function returns `b` there or
before, `Sum.inr (secLen, secret)` when the key agreement gave `secLen`
bytes, with the slice `secret` as the call left it. -/
def runECDHTest.agree (lib : Libcrypto) (nid : Int) (variant : testVariant)
    (wt : wycheproofTestECDH) : Run String (Bool ⊕ (Int × List Nat)) := do
  match ← Run.call "EC_KEY_new_by_curve_name" (lib.EC_KEY_new_by_curve_name nid 0) with
  | none => Run.fatal "EC_KEY_new_by_curve_name failed"
  | some privKey =>
    match ← Run.call "BN_hex2bn" (lib.BN_hex2bn (cString (bytesOf wt.Private))) with
    | none => Run.fatal "Failed to decode wPriv"
    | some bnPriv =>
      let ret ← Run.call "EC_KEY_set_private_key" (lib.EC_KEY_set_private_key privKey bnPriv)
      if ret ≠ 1 then
        pure (Sum.inl false)
      else do
        let (pub, pubLen) ← mustDecodeHexString wt.Public "public key"
        if (← Run.call "malloc" (lib.malloc pubLen)) = false then
          Run.fatal "malloc failed"
        else do
          let pubKey ←
            if variant = testVariant.EcPoint then
              match ← Run.call "EC_KEY_new_by_curve_name" (lib.EC_KEY_new_by_curve_name nid 1) with
              | none => Run.fatal "EC_KEY_new_by_curve_name failed"
              | some pubKey =>
                Run.call "o2i_ECPublicKey" (lib.o2i_ECPublicKey pubKey (pub.take pubLen))
            else
              Run.call "d2i_EC_PUBKEY" (lib.d2i_EC_PUBKEY (pub.take pubLen))
          match pubKey with
          | none =>
            if wt.Result == "invalid" || wt.Result == "acceptable" then
              pure (Sum.inl true)
            else
              pure (Sum.inl false)
          | some pubKey =>
            let secLen ← Run.call "EC_GROUP_get_degree"
              (Int.tdiv (lib.EC_GROUP_get_degree privKey + 7) 8)
            if secLen < 0 then
              Run.fatal "panic: makeslice: len out of range"
            else do
              let secret := List.replicate secLen.toNat 0
              let secret := if secLen = 0 then secret ++ [0] else secret
              let (ret, out) ← Run.call "ECDH_compute_key"
                (lib.ECDH_compute_key secLen pubKey privKey)
              let secret := overwrite secret out
              if ret ≠ secLen then
                if wt.Result == "invalid" then
                  pure (Sum.inl true)
                else
                  pure (Sum.inl false)
              else
                pure (Sum.inr (secLen, secret))

/-- The `if` before the comparison in Go `runECDHTest`: the secret to compare,
with a zero byte put in front when `shared` is one byte longer than the
secret and starts with a zero byte.
XXX The shared fields of the secp224k1 test cases have a 0 byte preprended. -/
def runECDHTest.prepend (secLen : Int) (secret shared : List Nat) (sharedLen : Nat) :
    List Nat :=
  if (sharedLen : Int) = secLen + 1 ∧ shared.head? = some 0 then
    [0] ++ secret
  else
    secret

/-- The last part of Go `runECDHTest`: the comparison of the computed secret
with the `shared` field. -/
def runECDHTest.compare (secLen : Int) (secret : List Nat) (wt : wycheproofTestECDH) :
    Run String Bool := do
  let (shared, sharedLen) ← mustDecodeHexString wt.Shared "shared secret"
  let secret := runECDHTest.prepend secLen secret shared sharedLen
  let success := true
  if (shared != secret) then
    pure false
  else
    pure success

/-- Go `runECDHTest`. -/
def runECDHTest (lib : Libcrypto) (nid : Int) (variant : testVariant)
    (wt : wycheproofTestECDH) : Run String Bool := do
  match ← runECDHTest.agree lib nid variant wt with
  | Sum.inl b => pure b
  | Sum.inr (secLen, secret) => runECDHTest.compare secLen secret wt

/-- A well-formed hex string, in the words of the specification: an even
number of bytes, each of them a hex digit. -/
def wellFormedHex (s : String) : Prop :=
  len s % 2 = 0 ∧ ∀ c ∈ bytesOf s, (fromHexChar c).isSome = true


instance (s : String) : Decidable (wellFormedHex s) := by
  unfold wellFormedHex
  infer_instance

/-! ## AEAD test cases -/

/-- Go `wycheproofTestAead`. -/
structure wycheproofTestAead where
  TCID : Int
  Comment : String
  Key : String
  IV : String
  AAD : String
  Msg : String
  CT : String
  Tag : String
  Result : String
  Flags : List String

/-- An `EVP_AEAD_CTX` after `EVP_AEAD_CTX_init`: the `EVP_AEAD` (a handle,
0 for `NULL`), the key and the tag length it was set up with. -/
structure EVP_AEAD_CTX where
  aead : Nat
  key : List Nat
  tagLen : Nat

/-- The AEAD interface of libcrypto. -/
structure LibcryptoAead where
  EVP_AEAD_CTX_new : Bool
  /-- `EVP_AEAD_CTX_init(ctx, aead, key, key_len, tag_len, NULL)`. -/
  EVP_AEAD_CTX_init : Nat → List Nat → Nat → Int
  /-- `EVP_AEAD_CTX_open(ctx, out, &out_len, max_out_len, nonce, nonce_len,
  in, in_len, ad, ad_len)`, by context, `max_out_len`, nonce, input and
  additional data: the return value and the bytes written to `out`, whose
  number is `out_len`. -/
  EVP_AEAD_CTX_open : EVP_AEAD_CTX → Nat → List Nat → List Nat → List Nat → Int × List Nat
  /-- `EVP_AEAD_CTX_seal`, with the same arguments. -/
  EVP_AEAD_CTX_seal : EVP_AEAD_CTX → Nat → List Nat → List Nat → List Nat → Int × List Nat

/-- Go `make([]byte, n)` followed by `append(buf, 0)` when `n == 0`: the
output buffer handed to a C function, never empty. -/
def makeBuffer (n : Nat) : List Nat :=
  if n = 0 then List.replicate n 0 ++ [0] else List.replicate n 0

/-- Go `checkAeadOpen`. The slice `opened[0:openedMsgLen]` is taken within
the length of `opened`: Go allows it up to the capacity, which for the
one-byte buffer is the choice of the allocator. -/
def checkAeadOpen (lib : LibcryptoAead) (ctx : EVP_AEAD_CTX) (iv : List Nat) (ivLen : Nat)
    (aad : List Nat) (aadLen : Nat) (msg : List Nat) (msgLen : Nat) (ct : List Nat)
    (ctLen : Nat) (tag : List Nat) (tagLen : Nat) (wt : wycheproofTestAead) :
    Run String Bool := do
  let maxOutLen := ctLen + tagLen
  let opened := makeBuffer maxOutLen
  let catCtTag := ct ++ tag
  let catCtTagLen := catCtTag.length
  let catCtTag := if catCtTagLen = 0 then catCtTag ++ [0] else catCtTag
  let (openRet, written) ← Run.call "EVP_AEAD_CTX_open"
    (lib.EVP_AEAD_CTX_open ctx maxOutLen (iv.take ivLen) (catCtTag.take catCtTagLen)
      (aad.take aadLen))
  let opened := overwrite opened written
  let openedMsgLen := written.length
  if openRet ≠ 1 then
    if wt.Result == "invalid" then
      pure true
    else
      pure false
  else if openedMsgLen ≠ msgLen then
    pure false
  else if opened.length < openedMsgLen then
    Run.fatal "panic: slice bounds out of range"
  else
    let openedMsg := opened.take openedMsgLen
    let msg := if msgLen = 0 then [] else msg
    let success := false
    if (openedMsg == msg) == (wt.Result != "invalid") then
      pure true
    else
      pure success

/-- Go `checkAeadSeal`. -/
def checkAeadSeal (lib : LibcryptoAead) (ctx : EVP_AEAD_CTX) (iv : List Nat) (ivLen : Nat)
    (aad : List Nat) (aadLen : Nat) (msg : List Nat) (msgLen : Nat) (ct : List Nat)
    (_ctLen : Nat) (tag : List Nat) (tagLen : Nat) (wt : wycheproofTestAead) :
    Run String Bool := do
  let maxOutLen := msgLen + tagLen
  let sealed := makeBuffer maxOutLen
  let (sealRet, written) ← Run.call "EVP_AEAD_CTX_seal"
    (lib.EVP_AEAD_CTX_seal ctx maxOutLen (iv.take ivLen) (msg.take msgLen) (aad.take aadLen))
  let sealed := overwrite sealed written
  let sealedLen := written.length
  if sealRet ≠ 1 then
    let success := wt.Result == "invalid"
    pure success
  else if sealedLen ≠ maxOutLen then
    pure false
  else
    let sealedCt := sealed.take msgLen
    let sealedTag := (sealed.take maxOutLen).drop msgLen
    let success := false
    if ((sealedCt == ct) && (sealedTag == tag)) == (wt.Result != "invalid") then
      pure true
    else
      pure success

/-- C `EVP_aead_chacha20_poly1305()`, as a handle. -/
def EVP_aead_chacha20_poly1305 : Nat := 1

/-- C `EVP_aead_xchacha20_poly1305()`, as a handle. -/
def EVP_aead_xchacha20_poly1305 : Nat := 2

/-- The two direction checks of Go `runChaCha20Poly1305Test`, in the order
they are made: `(openSuccess, sealSuccess)`. -/
def runChaCha20Poly1305Test.checks (lib : LibcryptoAead) (algorithm : String)
    (wt : wycheproofTestAead) : Run String (Bool × Bool) := do
  let aead :=
    if algorithm = "CHACHA20-POLY1305" then EVP_aead_chacha20_poly1305
    else if algorithm = "XCHACHA20-POLY1305" then EVP_aead_xchacha20_poly1305
    else 0
  let (key, keyLen) ← mustDecodeHexString wt.Key "key"
  let (iv, ivLen) ← mustDecodeHexString wt.IV "iv"
  let (aad, aadLen) ← mustDecodeHexString wt.AAD "aad"
  let (msg, msgLen) ← mustDecodeHexString wt.Msg "msg"
  -- ct and tag are concatenated in checkAeadOpen(), so no mustDecodeHexString() here
  match hexDecodeString wt.CT with
  | none => Run.fatal "Failed to decode ct"
  | some ct =>
    match hexDecodeString wt.Tag with
    | none => Run.fatal "Failed to decode tag"
    | some tag =>
      let ctLen := ct.length
      let tagLen := tag.length
      if (← Run.call "EVP_AEAD_CTX_new" lib.EVP_AEAD_CTX_new) = false then
        Run.fatal "EVP_AEAD_CTX_new() failed"
      else if (← Run.call "EVP_AEAD_CTX_init"
          (lib.EVP_AEAD_CTX_init aead (key.take keyLen) tagLen)) ≠ 1 then
        Run.fatal "Failed to initialize AEAD context"
      else do
        let ctx : EVP_AEAD_CTX := ⟨aead, key.take keyLen, tagLen⟩
        let openSuccess ← checkAeadOpen lib ctx iv ivLen aad aadLen msg msgLen ct ctLen tag
          tagLen wt
        let sealSuccess ← checkAeadSeal lib ctx iv ivLen aad aadLen msg msgLen ct ctLen tag
          tagLen wt
        pure (openSuccess, sealSuccess)

/-- Go `runChaCha20Poly1305Test`. -/
def runChaCha20Poly1305Test (lib : LibcryptoAead) (algorithm : String)
    (wt : wycheproofTestAead) : Run String Bool := do
  let (openSuccess, sealSuccess) ← runChaCha20Poly1305Test.checks lib algorithm wt
  pure (openSuccess && sealSuccess)

/-- The operands of one call of `checkAesAead`, as the cipher context gets to
see them: the algorithm, the direction, and the bytes of key, IV, additional
data, input and tag. -/
structure AesAeadOperands where
  algorithm : String
  doEncrypt : Int
  key : List Nat
  iv : List Nat
  aad : List Nat
  input : List Nat
  tag : List Nat

/-- The answers of libcrypto's `EVP_CIPHER_CTX` to the calls `checkAesAead`
makes, in the order of the source, each as a function of the operands of the
check. -/
structure LibcryptoCipher where
  /-- `EVP_CipherInit_ex(ctx, NULL, NULL, NULL, NULL, enc)`. -/
  EVP_CipherInit_ex_enc : AesAeadOperands → Int
  /-- `EVP_CIPHER_CTX_ctrl(ctx, ctrlSetIVLen, ivLen, NULL)`. -/
  EVP_CIPHER_CTX_ctrl_ivlen : AesAeadOperands → Int
  /-- `EVP_CIPHER_CTX_ctrl(ctx, ctrlSetTag, tagLen, setTag)`. -/
  EVP_CIPHER_CTX_ctrl_settag : AesAeadOperands → Int
  /-- `EVP_CipherInit_ex(ctx, NULL, NULL, key, iv, enc)`. -/
  EVP_CipherInit_ex_key : AesAeadOperands → Int
  /-- `EVP_CipherUpdate(ctx, NULL, &len, NULL, inLen)`, CCM only. -/
  EVP_CipherUpdate_len : AesAeadOperands → Int
  /-- `EVP_CipherUpdate(ctx, NULL, &len, aad, aadLen)`. -/
  EVP_CipherUpdate_aad : AesAeadOperands → Int
  /-- `EVP_CipherUpdate(ctx, out, &len, in, inLen)`: return value, `len` and
  the bytes written to `out`. -/
  EVP_CipherUpdate : AesAeadOperands → Int × Int × List Nat
  /-- `EVP_CipherFinal_ex(ctx, out, &len)`: return value and `len`. -/
  EVP_CipherFinal_ex : AesAeadOperands → Int × Int
  /-- `EVP_CIPHER_CTX_ctrl(ctx, ctrlGetTag, tagLen, tagOut)`: return value and
  the bytes written to `tagOut`. -/
  EVP_CIPHER_CTX_ctrl_gettag : AesAeadOperands → Int × List Nat

/-- The part of Go `checkAesAead` after the additional data has been
processed: the `EVP_CipherUpdate` on the input and the comparisons. -/
def checkAesAead.finish (lib : LibcryptoCipher) (ops : AesAeadOperands) (doEncrypt : Int)
    (inLen : Nat) (out : List Nat) (outLen : Nat) (tag : List Nat) (tagLen : Nat)
    (wt : wycheproofTestAead) : Run String Bool := do
  let cipherOut := makeBuffer inLen
  let (ret, cipherOutLen, written) ← Run.call "EVP_CipherUpdate" (lib.EVP_CipherUpdate ops)
  let cipherOut := overwrite cipherOut written
  if ret ≠ 1 then
    if wt.Result == "invalid" then
      pure true
    else
      pure false
  else do
    let final : Run String (Option Int) :=
      if doEncrypt = 1 then do
        let (ret, tmpLen) ← Run.call "EVP_CipherFinal_ex" (lib.EVP_CipherFinal_ex ops)
        if ret ≠ 1 then
          pure none
        else
          pure (some (cipherOutLen + tmpLen))
      else
        pure (some cipherOutLen)
    match ← final with
    | none => pure false
    | some cipherOutLen =>
      if cipherOutLen ≠ (outLen : Int) then
        pure false
      else
        let success := true
        let success := if cipherOut != out then false else success
        if doEncrypt = 1 then
          if tagLen = 0 then
            Run.fatal "panic: index out of range"
          else do
            let tagOut := List.replicate tagLen 0
            let (ret, written) ← Run.call "EVP_CIPHER_CTX_ctrl"
              (lib.EVP_CIPHER_CTX_ctrl_gettag ops)
            let tagOut := overwrite tagOut written
            if ret ≠ 1 then
              pure false
            else if (tagOut == tag) != (wt.Result == "valid" || wt.Result == "acceptable") then
              pure false
            else
              pure success
        else
          pure success

/-- Go `checkAesAead`. -/
def checkAesAead (lib : LibcryptoCipher) (algorithm : String) (doEncrypt : Int)
    (key : List Nat) (_keyLen : Nat) (iv : List Nat) (ivLen : Nat) (aad : List Nat)
    (aadLen : Nat) (inp : List Nat) (inLen : Nat) (out : List Nat) (outLen : Nat)
    (tag : List Nat) (tagLen : Nat) (wt : wycheproofTestAead) : Run String Bool := do
  let doCCM := algorithm == "AES-CCM"
  let ops : AesAeadOperands :=
    ⟨algorithm, doEncrypt, key, iv.take ivLen, aad.take aadLen, inp.take inLen, tag.take tagLen⟩
  let ret ← Run.call "EVP_CipherInit_ex" (lib.EVP_CipherInit_ex_enc ops)
  if ret ≠ 1 then
    Run.fatal "cipher init failed"
  else do
    let ret ← Run.call "EVP_CIPHER_CTX_ctrl" (lib.EVP_CIPHER_CTX_ctrl_ivlen ops)
    if ret ≠ 1 then
      if wt.Comment == "Nonce is too long" || wt.Comment == "Invalid nonce size" ||
          wt.Comment == "0 size IV is not valid" || wt.Comment == "Very long nonce" then
        pure true
      else
        pure false
    else do
      let setTag : Run String (Option Bool) :=
        if doEncrypt = 0 ∨ doCCM = true then do
          let ret ← Run.call "EVP_CIPHER_CTX_ctrl" (lib.EVP_CIPHER_CTX_ctrl_settag ops)
          if ret ≠ 1 then
            if wt.Comment == "Invalid tag size" then
              pure (some true)
            else
              pure (some false)
          else
            pure none
        else
          pure none
      match ← setTag with
      | some b => pure b
      | none =>
        let ret ← Run.call "EVP_CipherInit_ex" (lib.EVP_CipherInit_ex_key ops)
        if ret ≠ 1 then
          pure false
        else do
          let setLen : Run String Bool :=
            if doCCM = true then do
              let ret ← Run.call "EVP_CipherUpdate" (lib.EVP_CipherUpdate_len ops)
              pure (ret == 1)
            else
              pure true
          if (← setLen) = false then
            pure false
          else do
            let ret ← Run.call "EVP_CipherUpdate" (lib.EVP_CipherUpdate_aad ops)
            if ret ≠ 1 then
              pure false
            else
              checkAesAead.finish lib ops doEncrypt inLen out outLen tag tagLen wt

/-- The two AEAD-interface checks of Go `runAesAeadTest`, the block under
`if aead != nil`, given the decoded fields: `(openAead, sealAead)`. -/
def runAesAeadTest.aeadChecks (alib : LibcryptoAead) (aead : Nat) (key : List Nat)
    (keyLen : Nat) (iv : List Nat) (ivLen : Nat) (aad : List Nat) (aadLen : Nat)
    (msg : List Nat) (msgLen : Nat) (ct : List Nat) (ctLen : Nat) (tag : List Nat)
    (tagLen : Nat) (wt : wycheproofTestAead) : Run String (Bool × Bool) := do
  if aead ≠ 0 then
    if (← Run.call "EVP_AEAD_CTX_new" alib.EVP_AEAD_CTX_new) = false then
      Run.fatal "EVP_AEAD_CTX_new() failed"
    else if (← Run.call "EVP_AEAD_CTX_init"
        (alib.EVP_AEAD_CTX_init aead (key.take keyLen) tagLen)) ≠ 1 then
      Run.fatal "Failed to initialize AEAD context"
    else do
      let ctx : EVP_AEAD_CTX := ⟨aead, key.take keyLen, tagLen⟩
      -- Make sure we do not accidentally prepend or compare against a 0.
      let ct := if ctLen = 0 then [] else ct
      let openAead ← checkAeadOpen alib ctx iv ivLen aad aadLen msg msgLen ct ctLen tag
        tagLen wt
      let sealAead ← checkAeadSeal alib ctx iv ivLen aad aadLen msg msgLen ct ctLen tag
        tagLen wt
      pure (openAead, sealAead)
  else
    pure (true, true)

/-- The decoding of the fields at the start of Go `runAesAeadTest`. -/
def runAesAeadTest.decode (wt : wycheproofTestAead) :
    Run String ((List Nat × Nat) × (List Nat × Nat) × (List Nat × Nat) × (List Nat × Nat) ×
      (List Nat × Nat) × (List Nat × Nat)) := do
  let key ← mustDecodeHexString wt.Key "key"
  let iv ← mustDecodeHexString wt.IV "iv"
  let aad ← mustDecodeHexString wt.AAD "aad"
  let msg ← mustDecodeHexString wt.Msg "msg"
  let ct ← mustDecodeHexString wt.CT "CT"
  let tag ← mustDecodeHexString wt.Tag "tag"
  pure (key, iv, aad, msg, ct, tag)

/-- Go `runAesAeadTest`; `aead` is a handle, 0 for `nil`. -/
def runAesAeadTest (lib : LibcryptoCipher) (alib : LibcryptoAead) (algorithm : String)
    (aead : Nat) (wt : wycheproofTestAead) : Run String Bool := do
  let ((key, keyLen), (iv, ivLen), (aad, aadLen), (msg, msgLen), (ct, ctLen), (tag, tagLen)) ←
    runAesAeadTest.decode wt
  let openEvp ← checkAesAead lib algorithm 0 key keyLen iv ivLen aad aadLen ct ctLen msg msgLen
    tag tagLen wt
  let sealEvp ← checkAesAead lib algorithm 1 key keyLen iv ivLen aad aadLen msg msgLen ct ctLen
    tag tagLen wt
  let (openAead, sealAead) ← runAesAeadTest.aeadChecks alib aead key keyLen iv ivLen aad aadLen
    msg msgLen ct ctLen tag tagLen wt
  pure (openEvp && sealEvp && openAead && sealAead)

/-! ## Key derivation, MAC and key agreement test cases -/

/-- Go `wycheproofTestHkdf`. -/
structure wycheproofTestHkdf where
  TCID : Int
  Comment : String
  Ikm : String
  Salt : String
  Info : String
  Size : Int
  Okm : String
  Result : String
  Flags : List String

/-- The HKDF interface of libcrypto, an `EVP_PKEY_CTX` of type
`EVP_PKEY_HKDF`. -/
structure LibcryptoHkdf where
  EVP_PKEY_CTX_new_id : Bool
  EVP_PKEY_derive_init : Int
  EVP_PKEY_CTX_set_hkdf_md : Nat → Int
  EVP_PKEY_CTX_set1_hkdf_salt : List Nat → Int
  EVP_PKEY_CTX_set1_hkdf_key : List Nat → Int
  EVP_PKEY_CTX_add1_hkdf_info : List Nat → Int
  /-- `EVP_PKEY_derive(pctx, out, &outLen)` by digest, salt, key, info and the
  `outLen` passed in: the return value, the bytes written to `out` and the
  `outLen` left behind. -/
  EVP_PKEY_derive : Nat → List Nat → List Nat → List Nat → Nat → Int × List Nat × Nat

/-- C `INT_MAX`. -/
def INT_MAX : Nat := 2147483647

/-- C `wp_EVP_PKEY_CTX_set_hkdf_md` of the cgo preamble. -/
def wp_EVP_PKEY_CTX_set_hkdf_md (lib : LibcryptoHkdf) (md : Nat) : Int :=
  lib.EVP_PKEY_CTX_set_hkdf_md md

/-- C `wp_EVP_PKEY_CTX_set1_hkdf_salt` of the cgo preamble. -/
def wp_EVP_PKEY_CTX_set1_hkdf_salt (lib : LibcryptoHkdf) (salt : List Nat) (salt_len : Nat) :
    Int :=
  if salt_len > INT_MAX then 0 else lib.EVP_PKEY_CTX_set1_hkdf_salt (salt.take salt_len)

/-- C `wp_EVP_PKEY_CTX_set1_hkdf_key` of the cgo preamble. -/
def wp_EVP_PKEY_CTX_set1_hkdf_key (lib : LibcryptoHkdf) (ikm : List Nat) (ikm_len : Nat) :
    Int :=
  if ikm_len > INT_MAX then 0 else lib.EVP_PKEY_CTX_set1_hkdf_key (ikm.take ikm_len)

/-- C `wp_EVP_PKEY_CTX_add1_hkdf_info` of the cgo preamble. -/
def wp_EVP_PKEY_CTX_add1_hkdf_info (lib : LibcryptoHkdf) (info : List Nat) (info_len : Nat) :
    Int :=
  if info_len > INT_MAX then 0 else lib.EVP_PKEY_CTX_add1_hkdf_info (info.take info_len)

/-- The part of Go `runHkdfTest` from `EVP_PKEY_derive` on. The slice
`out[:outLen]` is taken within the length of `out`. -/
def runHkdfTest.derive (lib : LibcryptoHkdf) (md : Nat) (ikm : List Nat) (ikmLen : Nat)
    (salt : List Nat) (saltLen : Nat) (info : List Nat) (infoLen : Nat) (out : List Nat)
    (outLen : Nat) (wt : wycheproofTestHkdf) : Run String Bool := do
  let (ret, written, outLen) ← Run.call "EVP_PKEY_derive"
    (lib.EVP_PKEY_derive md (salt.take saltLen) (ikm.take ikmLen) (info.take infoLen) outLen)
  let out := overwrite out written
  if ret ≤ 0 then
    let success := wt.Result == "invalid"
    pure success
  else do
    let (okm, _) ← mustDecodeHexString wt.Okm "okm"
    if out.length < outLen then
      Run.fatal "panic: slice bounds out of range"
    else
      -- a mismatch of out[:outLen] and okm is printed and nothing else
      let _mismatch := out.take outLen != okm
      pure (wt.Result == "valid")

/-- Go `runHkdfTest`. -/
def runHkdfTest (lib : LibcryptoHkdf) (md : Nat) (wt : wycheproofTestHkdf) :
    Run String Bool := do
  let (ikm, ikmLen) ← mustDecodeHexString wt.Ikm "ikm"
  let (salt, saltLen) ← mustDecodeHexString wt.Salt "salt"
  let (info, infoLen) ← mustDecodeHexString wt.Info "info"
  let outLen := wt.Size
  if outLen < 0 then
    Run.fatal "panic: makeslice: len out of range"
  else do
    let out := makeBuffer outLen.toNat
    if (← Run.call "EVP_PKEY_CTX_new_id" lib.EVP_PKEY_CTX_new_id) = false then
      Run.fatal "EVP_PKEY_CTX_new_id failed"
    else if (← Run.call "EVP_PKEY_derive_init" lib.EVP_PKEY_derive_init) ≤ 0 then
      Run.fatal "EVP_PKEY_derive_init failed"
    else if (← Run.call "wp_EVP_PKEY_CTX_set_hkdf_md"
        (wp_EVP_PKEY_CTX_set_hkdf_md lib md)) ≤ 0 then
      Run.fatal "EVP_PKEY_CTX_set_hkdf_md failed"
    else if (← Run.call "wp_EVP_PKEY_CTX_set1_hkdf_salt"
        (wp_EVP_PKEY_CTX_set1_hkdf_salt lib salt saltLen)) ≤ 0 then
      Run.fatal "EVP_PKEY_CTX_set1_hkdf_salt failed"
    else if (← Run.call "wp_EVP_PKEY_CTX_set1_hkdf_key"
        (wp_EVP_PKEY_CTX_set1_hkdf_key lib ikm ikmLen)) ≤ 0 then
      Run.fatal "EVP_PKEY_CTX_set1_hkdf_key failed"
    else if (← Run.call "wp_EVP_PKEY_CTX_add1_hkdf_info"
        (wp_EVP_PKEY_CTX_add1_hkdf_info lib info infoLen)) ≤ 0 then
      Run.fatal "EVP_PKEY_CTX_add1_hkdf_info failed"
    else
      runHkdfTest.derive lib md ikm ikmLen salt saltLen info infoLen out outLen.toNat wt

/-- Go `wycheproofTestHmac`. -/
structure wycheproofTestHmac where
  TCID : Int
  Comment : String
  Key : String
  Msg : String
  Tag : String
  Result : String
  Flags : List String

/-- Go `wycheproofTestGroupHmac`. -/
structure wycheproofTestGroupHmac where
  KeySize : Int
  TagSize : Int
  Type_ : String
  Tests : List wycheproofTestHmac

/-- The one-shot MAC of libcrypto. -/
structure LibcryptoHmac where
  /-- `HMAC(md, key, keyLen, msg, msgLen, got, &gotLen)` by digest, key and
  message: `none` for `NULL`, else the bytes written to `got`, whose number
  is `gotLen`. -/
  HMAC : Nat → List Nat → List Nat → Option (List Nat)

/-- Go `runHmacTest`. -/
def runHmacTest (lib : LibcryptoHmac) (md : Nat) (tagBytes : Int) (wt : wycheproofTestHmac) :
    Run String Bool := do
  let (key, keyLen) ← mustDecodeHexString wt.Key "key"
  let (msg, msgLen) ← mustDecodeHexString wt.Msg "msg"
  let got := List.replicate EVP_MAX_MD_SIZE.toNat 0
  let ret ← Run.call "HMAC" (lib.HMAC md (key.take keyLen) (msg.take msgLen))
  let success := true
  match ret with
  | none =>
    if wt.Result != "invalid" then
      pure false
    else
      pure success
  | some written =>
    let got := overwrite got written
    let gotLen : Int := written.length
    if gotLen < tagBytes then
      pure false
    else do
      let (tag, _) ← mustDecodeHexString wt.Tag "tag"
      if tagBytes < 0 ∨ (got.length : Int) < tagBytes then
        Run.fatal "panic: slice bounds out of range"
      else
        let success := (got.take tagBytes.toNat == tag) == (wt.Result == "valid")
        pure success

/-- Go `wycheproofTestX25519`. -/
structure wycheproofTestX25519 where
  TCID : Int
  Comment : String
  Curve : String
  Public : String
  Private : String
  Shared : String
  Result : String
  Flags : List String

/-- C `X25519_KEY_LENGTH`. -/
def X25519_KEY_LENGTH : Nat := 32

/-- The X25519 function of libcrypto. -/
structure LibcryptoX25519 where
  /-- `X25519(out, private_key, peer_public_value)` by the buffers of the
  private and of the public value: the return value and the bytes written to
  `out`. -/
  X25519 : List Nat → List Nat → Int × List Nat

/-- Go `runX25519Test`. -/
def runX25519Test (lib : LibcryptoX25519) (wt : wycheproofTestX25519) : Run String Bool := do
  let (pub, _) ← mustDecodeHexString wt.Public "public"
  let (priv, _) ← mustDecodeHexString wt.Private "private"
  let (shared, _) ← mustDecodeHexString wt.Shared "shared"
  let got := List.replicate X25519_KEY_LENGTH 0
  let (ret, written) ← Run.call "X25519" (lib.X25519 priv pub)
  let got := overwrite got written
  let result := if ret ≠ 1 then false else got == shared
  let success := true
  if result != (wt.Result == "valid") && wt.Result != "acceptable" then
    pure false
  else
    pure success

/-! ## RSA encryption test cases -/

/-- Go `wycheproofTestRsaes`. -/
structure wycheproofTestRsaes where
  TCID : Int
  Comment : String
  Msg : String
  CT : String
  Label : String
  Result : String
  Flags : List String

/-- C `RSA_PKCS1_PADDING`. -/
def RSA_PKCS1_PADDING : Int := 1

/-- C `RSA_NO_PADDING`. -/
def RSA_NO_PADDING : Int := 3

/-- The RSA decryption functions of libcrypto. -/
structure LibcryptoRsaes where
  RSA_size : Nat → Int
  /-- `RSA_private_decrypt(flen, from, to, rsa, padding)` by ciphertext, key
  and padding: the return value and the bytes written to `to`. -/
  RSA_private_decrypt : List Nat → Nat → Int → Int × List Nat
  /-- `RSA_padding_check_PKCS1_OAEP_mgf1(to, tlen, from, flen, num, param,
  plen, md, mgf1md)` by `from`, the size passed as `tlen`, `flen` and `num`,
  the label and the two digests: the return value and the bytes written to
  `to`. -/
  RSA_padding_check_PKCS1_OAEP_mgf1 : List Nat → Int → List Nat → Nat → Nat → Int × List Nat

/-- The part of Go `runRsaesOaepTest` after a decryption of `rsaSize` bytes:
the padding check and the comparison. -/
def runRsaesOaepTest.unpad (lib : LibcryptoRsaes) (sha mgfSha : Nat) (rsaSize : Int)
    (decrypted : List Nat) (wt : wycheproofTestRsaes) : Run String Bool := do
  let success := true
  let (label, labelLen) ← mustDecodeHexString wt.Label "label"
  let (msg, msgLen) ← mustDecodeHexString wt.Msg "msg"
  let to_ := List.replicate rsaSize.toNat 0
  let (ret, written) ← Run.call "RSA_padding_check_PKCS1_OAEP_mgf1"
    (lib.RSA_padding_check_PKCS1_OAEP_mgf1 decrypted rsaSize (label.take labelLen) sha mgfSha)
  let to_ := overwrite to_ written
  if ret ≠ (msgLen : Int) then
    let success := wt.Result == "invalid"
    pure success
  else if to_.length < msgLen then
    Run.fatal "panic: slice bounds out of range"
  else
    let to_ := to_.take msgLen
    if msg.take msgLen != to_ then
      pure false
    else
      pure success

/-- Go `runRsaesOaepTest`. -/
def runRsaesOaepTest (lib : LibcryptoRsaes) (rsa sha mgfSha : Nat) (wt : wycheproofTestRsaes) :
    Run String Bool := do
  let (ct, ctLen) ← mustDecodeHexString wt.CT "CT"
  let rsaSize ← Run.call "RSA_size" (lib.RSA_size rsa)
  if rsaSize < 0 then
    Run.fatal "panic: makeslice: len out of range"
  else if rsaSize = 0 then
    Run.fatal "panic: index out of range"
  else do
    let decrypted := List.replicate rsaSize.toNat 0
    let (ret, written) ← Run.call "RSA_private_decrypt"
      (lib.RSA_private_decrypt (ct.take ctLen) rsa RSA_NO_PADDING)
    let decrypted := overwrite decrypted written
    if ret ≠ rsaSize then
      let success := wt.Result == "invalid"
      pure success
    else
      runRsaesOaepTest.unpad lib sha mgfSha rsaSize decrypted wt

/-- Go `runRsaesPkcs1Test`. -/
def runRsaesPkcs1Test (lib : LibcryptoRsaes) (rsa : Nat) (wt : wycheproofTestRsaes) :
    Run String Bool := do
  let (ct, ctLen) ← mustDecodeHexString wt.CT "CT"
  let rsaSize ← Run.call "RSA_size" (lib.RSA_size rsa)
  if rsaSize < 0 then
    Run.fatal "panic: makeslice: len out of range"
  else if rsaSize = 0 then
    Run.fatal "panic: index out of range"
  else do
    let decrypted := List.replicate rsaSize.toNat 0
    let success := true
    let (ret, written) ← Run.call "RSA_private_decrypt"
      (lib.RSA_private_decrypt (ct.take ctLen) rsa RSA_PKCS1_PADDING)
    let decrypted := overwrite decrypted written
    if ret = -1 then
      let success := wt.Result == "invalid"
      pure success
    else do
      let (msg, msgLen) ← mustDecodeHexString wt.Msg "msg"
      if ret ≠ (msgLen : Int) then
        pure false
      else if decrypted.length < msgLen then
        Run.fatal "panic: slice bounds out of range"
      else if msg.take msgLen != decrypted.take msgLen then
        pure false
      else
        pure success

/-! ## ML-KEM test cases -/

/-- Go `wycheproofTestMLKEM`. -/
structure wycheproofTestMLKEM where
  TCID : Int
  Comment : String
  Seed : String
  Ek : String
  M : String
  C : String
  K : String
  Result : String
  Flags : List String

/-- The ML-KEM public-key functions of libcrypto. -/
structure LibcryptoMLKEM where
  MLKEM_public_key_new : Int → Bool
  /-- `MLKEM_parse_public_key(pubKey, in, in_len)` for a key of the given
  rank. -/
  MLKEM_parse_public_key : Int → List Nat → Int

/-- Go `runMLKEMEncapsTestGroup`. -/
def runMLKEMEncapsTestGroup (lib : LibcryptoMLKEM) (rank : Int) (wt : wycheproofTestMLKEM) :
    Run String Bool := do
  if (← Run.call "MLKEM_public_key_new" (lib.MLKEM_public_key_new rank)) = false then
    Run.fatal "MLKEM_public_key_new failed"
  else do
    let (ek, ekLen) ← mustDecodeHexString wt.C "eK"
    if (← Run.call "MLKEM_parse_public_key"
        (lib.MLKEM_parse_public_key rank (ek.take ekLen))) ≠ 0 ∨ wt.Result ≠ "invalid" then
      pure false
    else
      pure true

/-! ## CCTV Ed25519 vectors -/

/-- Go `Flags` of `cctv.go`, a set of bits. -/
abbrev Flags := Nat

/-- Go `LowOrderR`. -/
def LowOrderR : Flags := 1 <<< 0

/-- Go `LowOrderA`. -/
def LowOrderA : Flags := 1 <<< 1

/-- Go `LowOrderComponentR`. -/
def LowOrderComponentR : Flags := 1 <<< 2

/-- Go `LowOrderComponentA`. -/
def LowOrderComponentA : Flags := 1 <<< 3

/-- Go `LowOrderResidue`. -/
def LowOrderResidue : Flags := 1 <<< 4

/-- Go `NonCanonicalA`. -/
def NonCanonicalA : Flags := 1 <<< 5

/-- Go `NonCanonicalR`. -/
def NonCanonicalR : Flags := 1 <<< 6

/-- Go `ReencodedK`. -/
def ReencodedK : Flags := 1 <<< 7

/-- Go `ed25519Vector`. -/
structure ed25519Vector where
  Number : Int
  PublicKey : String
  Signature : String
  Message : String
  Flags : Flags

/-- The loop of Go `(*Flags).UnmarshalJSON` over the decoded list of flag
names, from the value `f`. -/
def Flags.UnmarshalJSON (f : Flags) : List String → Run String Flags
  | [] => pure f
  | flag :: v =>
    if flag = "low_order_A" then Flags.UnmarshalJSON (f ||| LowOrderA) v
    else if flag = "low_order_R" then Flags.UnmarshalJSON (f ||| LowOrderR) v
    else if flag = "low_order_component_A" then Flags.UnmarshalJSON (f ||| LowOrderComponentA) v
    else if flag = "low_order_component_R" then Flags.UnmarshalJSON (f ||| LowOrderComponentR) v
    else if flag = "low_order_residue" then Flags.UnmarshalJSON (f ||| LowOrderResidue) v
    else if flag = "non_canonical_A" then Flags.UnmarshalJSON (f ||| NonCanonicalA) v
    else if flag = "non_canonical_R" then Flags.UnmarshalJSON (f ||| NonCanonicalR) v
    else if flag = "reencoded_k" then Flags.UnmarshalJSON (f ||| ReencodedK) v
    else Run.fatal ("unknown flag " ++ flag)

/-- What `evpEd25519Verify` uses of libcrypto. -/
structure LibcryptoEd25519 where
  /-- `EVP_PKEY_new_raw_public_key(EVP_PKEY_ED25519, NULL, pub, len)`: a
  handle, `none` for `NULL`. -/
  EVP_PKEY_new_raw_public_key : List Nat → Option Nat
  EVP_MD_CTX_new : Bool
  EVP_DigestVerifyInit : Nat → Int
  /-- `EVP_DigestVerify(ctx, sig, siglen, msg, msglen)` for the key of `ctx`. -/
  EVP_DigestVerify : List Nat → List Nat → Nat → Int

/-- Go `evpEd25519Verify`. -/
def evpEd25519Verify (lib : LibcryptoEd25519) (pubkey msg sig : List Nat) : Run String Bool := do
  if pubkey.length = 0 then
    Run.fatal "panic: index out of range"
  else
    match ← Run.call "EVP_PKEY_new_raw_public_key" (lib.EVP_PKEY_new_raw_public_key pubkey) with
    | none => Run.fatal "EVP_PKEY_new_raw_public_key failed"
    | some pkey =>
      if (← Run.call "EVP_MD_CTX_new" lib.EVP_MD_CTX_new) = false then
        Run.fatal "EVP_MD_CTX_new failed"
      else if (← Run.call "EVP_DigestVerifyInit" (lib.EVP_DigestVerifyInit pkey)) ≠ 1 then
        Run.fatal "EVP_DigestVerifyInit failed"
      else if sig.length = 0 ∨ msg.length = 0 then
        Run.fatal "panic: index out of range"
      else do
        let ret ← Run.call "EVP_DigestVerify" (lib.EVP_DigestVerify sig msg pkey)
        if ret < 0 then
          Run.fatal "EVP_DigestVerify errored"
        else
          pure (ret == 1)

/-- Go `ed25519.PublicKeySize`. -/
def ed25519.PublicKeySize : Nat := 32

/-- Go `ed25519.Verify` of the standard library: it panics for a public key
that has not `PublicKeySize` bytes; its verdict otherwise is the function
`verify`. -/
def ed25519.Verify (verify : List Nat → List Nat → List Nat → Bool)
    (publicKey message sig : List Nat) : Run String Bool :=
  if publicKey.length ≠ ed25519.PublicKeySize then
    Run.fatal "panic: ed25519: bad public key length"
  else
    pure (verify publicKey message sig)

/-- Go `runEd25519Test`. -/
def runEd25519Test (lib : LibcryptoEd25519) (verify : List Nat → List Nat → List Nat → Bool)
    (tv : ed25519Vector) : Run String Bool :=
  match hexDecodeString tv.PublicKey with
  | none => Run.fatal "Failed to decode key"
  | some pubkey =>
    match hexDecodeString tv.Signature with
    | none => Run.fatal "Failed to decode Signature"
    | some sig => do
      let msg := bytesOf tv.Message
      -- Implementations derived from "ref10" reject LowOrderResidue and
      -- NonCanonicalR and accept everything else.
      let reject := LowOrderResidue ||| NonCanonicalR
      let want_verify := (tv.Flags &&& reject) == 0
      let c_verified ← evpEd25519Verify lib pubkey msg sig
      let go_verified ← ed25519.Verify verify pubkey msg sig
      let success := true
      if c_verified != want_verify || go_verified != want_verify then
        pure false
      else
        pure success

/-! ## Test-group executors -/

/-- Go `for _, x := range xs`, with the variables the body assigns as the
state `s`. -/
def forRange {ε σ τ : Type} (body : τ → σ → Run ε σ) : List τ → σ → Run ε σ
  | [], s => pure s
  | x :: xs, s => (body x s).andThen fun s => forRange body xs s

/-- Go `wycheproofTestGroupPrimality`. -/
structure wycheproofTestGroupPrimality where
  Type_ : String
  Tests : List wycheproofTestPrimality

/-- Go `(*wycheproofTestGroupPrimality).run`. -/
def wycheproofTestGroupPrimality.run (lib : Libcrypto) (wtg : wycheproofTestGroupPrimality)
    (_algorithm : String) (_variant : testVariant) : Run String Bool := do
  let success := true
  let success ← forRange (fun wt success => do
    if !(← runPrimalityTest lib wt) then
      pure false
    else
      pure success) wtg.Tests success
  pure success

/-- Go `evpMds`, with the digests as handles. -/
def evpMds : List (String × Nat) :=
  [("SHA-1", 1), ("SHA-224", 2), ("SHA-256", 3), ("SHA-384", 4), ("SHA-512", 5),
    ("SHA-512/224", 6), ("SHA-512/256", 7), ("SHA3-224", 8), ("SHA3-256", 9),
    ("SHA3-384", 10), ("SHA3-512", 11), ("SM3", 12)]

/-- Go `hashEvpMdFromString`, with `none` for a non-nil error. -/
def hashEvpMdFromString (hs : String) : Option Nat := evpMds.lookup hs

/-- Go `wycheproofDSAKey`. -/
structure wycheproofDSAKey where
  G : String
  KeySize : Int
  P : String
  Q : String
  Type_ : String
  Y : String

/-- Go `wycheproofTestGroupDSA`. -/
structure wycheproofTestGroupDSA where
  Key : wycheproofDSAKey
  KeyDER : String
  KeyPEM : String
  SHA : String
  Type_ : String
  Tests : List wycheproofTestDSA

/-- What `(*wycheproofTestGroupDSA).run` uses of libcrypto to build its
keys. A `DSA` key is a handle, 0 for `NULL`. -/
structure LibcryptoDSAKey where
  DSA_new : Nat
  DSA_set0_pqg : Nat → Int → Int → Int → Int
  DSA_set0_key : Nat → Int → Int
  d2i_DSA_PUBKEY : List Nat → Nat
  BIO_new_mem_buf : List Nat → Bool
  PEM_read_bio_DSA_PUBKEY : List Nat → Nat

/-- The part of Go `(*wycheproofTestGroupDSA).run` before the loop over the
test cases: the keys `dsa`, `dsaDER`, `dsaPEM` and the digest `md`. -/
def wycheproofTestGroupDSA.run.keys (lib : Libcrypto) (klib : LibcryptoDSAKey)
    (wtg : wycheproofTestGroupDSA) : Run String (Nat × Nat × Nat × Nat) := do
  let dsa ← Run.call "DSA_new" klib.DSA_new
  if dsa = 0 then
    Run.fatal "DSA_new failed"
  else
    match ← Run.call "BN_hex2bn" (lib.BN_hex2bn (cString (bytesOf wtg.Key.G))) with
    | none => Run.fatal "Failed to decode g"
    | some bnG =>
    match ← Run.call "BN_hex2bn" (lib.BN_hex2bn (cString (bytesOf wtg.Key.P))) with
    | none => Run.fatal "Failed to decode p"
    | some bnP =>
    match ← Run.call "BN_hex2bn" (lib.BN_hex2bn (cString (bytesOf wtg.Key.Q))) with
    | none => Run.fatal "Failed to decode q"
    | some bnQ =>
    if (← Run.call "DSA_set0_pqg" (klib.DSA_set0_pqg dsa bnP bnQ bnG)) ≠ 1 then
      Run.fatal "DSA_set0_pqg failed"
    else
      match ← Run.call "BN_hex2bn" (lib.BN_hex2bn (cString (bytesOf wtg.Key.Y))) with
      | none => Run.fatal "Failed to decode y"
      | some bnY =>
      if (← Run.call "DSA_set0_key" (klib.DSA_set0_key dsa bnY)) ≠ 1 then
        Run.fatal "DSA_set0_key failed"
      else
        match hashEvpMdFromString wtg.SHA with
        | none => Run.fatal "Failed to get hash"
        | some md => do
          let (der, derLen) ← mustDecodeHexString wtg.KeyDER "DER encoded key"
          if (← Run.call "malloc" (lib.malloc derLen)) = false then
            Run.fatal "malloc failed"
          else do
            let dsaDER ← Run.call "d2i_DSA_PUBKEY" (klib.d2i_DSA_PUBKEY (der.take derLen))
            if (← Run.call "BIO_new_mem_buf"
                (klib.BIO_new_mem_buf (bytesOf wtg.KeyPEM))) = false then
              Run.fatal "BIO_new_mem_buf failed"
            else do
              let dsaPEM ← Run.call "PEM_read_bio_DSA_PUBKEY"
                (klib.PEM_read_bio_DSA_PUBKEY (bytesOf wtg.KeyPEM))
              if dsaPEM = 0 then
                Run.fatal "PEM_read_bio_DSA_PUBKEY failed"
              else
                pure (dsa, md, dsaDER, dsaPEM)

/-- The body of the loop of Go `(*wycheproofTestGroupDSA).run`. -/
def wycheproofTestGroupDSA.run.body (lib : Libcrypto) (dsa md dsaDER dsaPEM : Nat)
    (variant : testVariant) (wt : wycheproofTestDSA) (success : Bool) : Run String Bool := do
  let ok ← runDSATest lib dsa md variant wt
  let success := if !ok then false else success
  let ok ← runDSATest lib dsaDER md variant wt
  let success := if !ok then false else success
  let ok ← runDSATest lib dsaPEM md variant wt
  let success := if !ok then false else success
  pure success

/-- Go `(*wycheproofTestGroupDSA).run`. -/
def wycheproofTestGroupDSA.run (lib : Libcrypto) (klib : LibcryptoDSAKey)
    (wtg : wycheproofTestGroupDSA) (_algorithm : String) (variant : testVariant) :
    Run String Bool := do
  let (dsa, md, dsaDER, dsaPEM) ← wycheproofTestGroupDSA.run.keys lib klib wtg
  let success := true
  let success ← forRange (wycheproofTestGroupDSA.run.body lib dsa md dsaDER dsaPEM variant)
    wtg.Tests success
  pure success

/-- Go `strings.TrimPrefix`. -/
def stringsTrimPrefix (s pre : String) : String :=
  if stringsHasPrefix s pre then ⟨s.data.drop pre.data.length⟩ else s

/-- Go `(*wycheproofTestGroupHmac).run`. -/
def wycheproofTestGroupHmac.run (lib : LibcryptoHmac) (wtg : wycheproofTestGroupHmac)
    (algorithm : String) (_variant : testVariant) : Run String Bool := do
  let pre := "SHA-"
  let pre := if stringsHasPrefix algorithm "HMACSHA3-" then "SHA" else pre
  let (pre, algorithm) := if algorithm = "HMACSM3" then ("", "SM3") else (pre, algorithm)
  match hashEvpMdFromString (pre ++ stringsTrimPrefix algorithm "HMACSHA") with
  | none => Run.fatal "Failed to get hash"
  | some md =>
    let success := true
    let success ← forRange (fun wt success => do
      if !(← runHmacTest lib md (Int.tdiv wtg.TagSize 8) wt) then
        pure false
      else
        pure success) wtg.Tests success
    pure success

/-! ## Block cipher and key wrap test cases -/

/-- Go `wycheproofTestAesCbcPkcs5`. -/
structure wycheproofTestAesCbcPkcs5 where
  TCID : Int
  Comment : String
  Key : String
  IV : String
  Msg : String
  CT : String
  Result : String
  Flags : List String

/-- C `EVP_MAX_BLOCK_LENGTH`. -/
def EVP_MAX_BLOCK_LENGTH : Nat := 32

/-- The operands of one call of `checkAesCbcPkcs5`, as the cipher context
gets to see them: the direction and the bytes of key, IV and input. -/
structure AesCbcOperands where
  doEncrypt : Int
  key : List Nat
  iv : List Nat
  input : List Nat

/-- The answers of a CBC `EVP_CIPHER_CTX` to the calls `checkAesCbcPkcs5`
makes, each as a function of the operands of the check. -/
structure LibcryptoCbc where
  /-- `EVP_CipherInit_ex(ctx, NULL, NULL, key, iv, enc)`. -/
  EVP_CipherInit_ex : AesCbcOperands → Int
  /-- `EVP_CipherUpdate(ctx, out, &len, in, inLen)`: return value, `len` and
  the bytes written to `out`. -/
  EVP_CipherUpdate : AesCbcOperands → Int × Int × List Nat
  /-- `EVP_CipherFinal_ex(ctx, out, &len)`: return value, `len` and the bytes
  written to `out`. -/
  EVP_CipherFinal_ex : AesCbcOperands → Int × Int × List Nat

/-- The part of Go `checkAesCbcPkcs5` after a successful
`EVP_CipherUpdate` that gave `cipherOutLen`: the final block and the
comparison. An index or slice bound beyond the length of `cipherOut`
panics. -/
def checkAesCbcPkcs5.finish (lib : LibcryptoCbc) (ops : AesCbcOperands) (cipherOut : List Nat)
    (cipherOutLen : Int) (out : List Nat) (outLen : Nat) (wt : wycheproofTestAesCbcPkcs5) :
    Run String Bool := do
  if cipherOutLen < 0 ∨ (cipherOut.length : Int) ≤ cipherOutLen then
    Run.fatal "panic: index out of range"
  else do
    let (ret, finallen, written) ← Run.call "EVP_CipherFinal_ex" (lib.EVP_CipherFinal_ex ops)
    let cipherOut := cipherOut.take cipherOutLen.toNat ++
      overwrite (cipherOut.drop cipherOutLen.toNat) written
    if ret ≠ 1 then
      if wt.Result == "invalid" then
        pure true
      else
        pure false
    else
      let cipherOutLen := cipherOutLen + finallen
      if cipherOutLen ≠ (outLen : Int) ∧ wt.Result ≠ "invalid" then
        pure false
      else if cipherOutLen < 0 ∨ (cipherOut.length : Int) < cipherOutLen then
        Run.fatal "panic: slice bounds out of range"
      else
        let openedMsg := cipherOut.take cipherOutLen.toNat
        let out := if outLen = 0 then [] else out
        let success := false
        if (openedMsg == out) == (wt.Result != "invalid") then
          pure true
        else
          pure success

/-- Go `checkAesCbcPkcs5`. -/
def checkAesCbcPkcs5 (lib : LibcryptoCbc) (doEncrypt : Int) (key : List Nat) (_keyLen : Nat)
    (iv : List Nat) (_ivLen : Nat) (inp : List Nat) (inLen : Nat) (out : List Nat)
    (outLen : Nat) (wt : wycheproofTestAesCbcPkcs5) : Run String Bool := do
  let ops : AesCbcOperands := ⟨doEncrypt, key, iv, inp.take inLen⟩
  let ret ← Run.call "EVP_CipherInit_ex" (lib.EVP_CipherInit_ex ops)
  if ret ≠ 1 then
    Run.fatal "EVP_CipherInit_ex failed"
  else do
    let cipherOut := List.replicate (inLen + EVP_MAX_BLOCK_LENGTH) 0
    let (ret, cipherOutLen, written) ← Run.call "EVP_CipherUpdate" (lib.EVP_CipherUpdate ops)
    let cipherOut := overwrite cipherOut written
    if ret ≠ 1 then
      if wt.Result == "invalid" then
        pure true
      else
        pure false
    else
      checkAesCbcPkcs5.finish lib ops cipherOut cipherOutLen out outLen wt

/-- Go `runAesCbcPkcs5Test`. -/
def runAesCbcPkcs5Test (lib : LibcryptoCbc) (wt : wycheproofTestAesCbcPkcs5) :
    Run String Bool := do
  let (key, keyLen) ← mustDecodeHexString wt.Key "key"
  let (iv, ivLen) ← mustDecodeHexString wt.IV "iv"
  let (ct, ctLen) ← mustDecodeHexString wt.CT "ct"
  let (msg, msgLen) ← mustDecodeHexString wt.Msg "message"
  let openSuccess ← checkAesCbcPkcs5 lib 0 key keyLen iv ivLen ct ctLen msg msgLen wt
  let sealSuccess ← checkAesCbcPkcs5 lib 1 key keyLen iv ivLen msg msgLen ct ctLen wt
  pure (openSuccess && sealSuccess)

/-- Go `wycheproofTestKW`. -/
structure wycheproofTestKW where
  TCID : Int
  Comment : String
  Key : String
  Msg : String
  CT : String
  Result : String
  Flags : List String

/-- The AES key wrap of libcrypto. An `AES_KEY` is the key buffer and the
number of bits it was set up with. -/
structure LibcryptoAesWrap where
  /-- `AES_set_encrypt_key(userKey, bits, &aesKey)`. -/
  AES_set_encrypt_key : List Nat → Int → Int
  /-- `AES_set_decrypt_key(userKey, bits, &aesKey)`. -/
  AES_set_decrypt_key : List Nat → Int → Int
  /-- `AES_wrap_key(&aesKey, NULL, out, in, inlen)` by key, bits and input:
  the return value and the bytes written to `out`. -/
  AES_wrap_key : List Nat → Int → List Nat → Int × List Nat
  /-- `AES_unwrap_key(&aesKey, NULL, out, in, inlen)` by key, bits and input:
  the return value and the bytes written to `out`. -/
  AES_unwrap_key : List Nat → Int → List Nat → Int × List Nat

/-- Go `runKWTestWrap`. -/
def runKWTestWrap (lib : LibcryptoAesWrap) (keySize : Int) (key : List Nat) (_keyLen : Nat)
    (msg : List Nat) (msgLen : Nat) (ct : List Nat) (_ctLen : Nat) (wt : wycheproofTestKW) :
    Run String Bool := do
  let ret ← Run.call "AES_set_encrypt_key" (lib.AES_set_encrypt_key key keySize)
  if ret ≠ 0 then
    pure false
  else do
    let outLen := msgLen
    let out := overwrite (List.replicate outLen 0) msg
    let out := out ++ List.replicate 8 0
    let (ret, written) ← Run.call "AES_wrap_key" (lib.AES_wrap_key key keySize (out.take msgLen))
    let out := overwrite out written
    let success := false
    if ret = (out.length : Int) ∧ out = ct then
      if wt.Result ≠ "invalid" then
        pure true
      else
        pure success
    else if wt.Result ≠ "valid" then
      pure true
    else
      pure success

/-- Go `runKWTestUnWrap`. The slice `msg[0:ret]` is taken within the length
of `msg`: Go allows it up to the capacity of the decoded buffer. -/
def runKWTestUnWrap (lib : LibcryptoAesWrap) (keySize : Int) (key : List Nat) (_keyLen : Nat)
    (msg : List Nat) (_msgLen : Nat) (ct : List Nat) (ctLen : Nat) (wt : wycheproofTestKW) :
    Run String Bool := do
  let ret ← Run.call "AES_set_decrypt_key" (lib.AES_set_decrypt_key key keySize)
  if ret ≠ 0 then
    pure false
  else do
    let out := overwrite (List.replicate ctLen 0) ct
    let out := if ctLen = 0 then out ++ [0] else out
    let (ret, written) ← Run.call "AES_unwrap_key"
      (lib.AES_unwrap_key key keySize (out.take ctLen))
    let out := overwrite out written
    let success := false
    if ret = (ctLen : Int) - 8 then
      if ret < 0 ∨ (out.length : Int) < ret ∨ (msg.length : Int) < ret then
        Run.fatal "panic: slice bounds out of range"
      else if out.take ret.toNat = msg.take ret.toNat then
        if wt.Result ≠ "invalid" then
          pure true
        else
          pure success
      else if wt.Result ≠ "valid" then
        pure true
      else
        pure success
    else if wt.Result ≠ "valid" then
      pure true
    else
      pure success

/-- Go `runKWTest`. -/
def runKWTest (lib : LibcryptoAesWrap) (keySize : Int) (wt : wycheproofTestKW) :
    Run String Bool := do
  let (key, keyLen) ← mustDecodeHexString wt.Key "key"
  let (msg, msgLen) ← mustDecodeHexString wt.Msg "msg"
  let (ct, ctLen) ← mustDecodeHexString wt.CT "CT"
  let wrapSuccess ← runKWTestWrap lib keySize key keyLen msg msgLen ct ctLen wt
  let unwrapSuccess ← runKWTestUnWrap lib keySize key keyLen msg msgLen ct ctLen wt
  pure (wrapSuccess && unwrapSuccess)

/-! ## PBKDF2 test cases and the executors of the key derivations -/

/-- Go `wycheproofTestPbkdf`. -/
structure wycheproofTestPbkdf where
  TCID : Int
  Comment : String
  Flags : List String
  Password : String
  Salt : String
  IterationCount : Int
  DkLen : Int
  Dk : String
  Result : String

/-- Go `wycheproofTestGroupPbkdf2HmacSha`. -/
structure wycheproofTestGroupPbkdf2HmacSha where
  Type_ : String
  Tests : List wycheproofTestPbkdf

/-- The PBKDF2 of libcrypto. -/
structure LibcryptoPbkdf where
  /-- `PKCS5_PBKDF2_HMAC(pass, passlen, salt, saltlen, iter, digest, keylen,
  out)` by password, salt, iteration count, digest and key length: the
  return value and the bytes written to `out`. -/
  PKCS5_PBKDF2_HMAC : List Nat → List Nat → Int → Nat → Int → Int × List Nat

/-- Go `runPbkdfTest`. -/
def runPbkdfTest (lib : LibcryptoPbkdf) (md : Nat) (wt : wycheproofTestPbkdf) :
    Run String Bool := do
  let (pw, pwLen) ← mustDecodeHexString wt.Password "password"
  let (salt, saltLen) ← mustDecodeHexString wt.Salt "salt"
  let (dk, _) ← mustDecodeHexString wt.Dk "dk"
  if wt.DkLen < 0 then
    Run.fatal "panic: makeslice: len out of range"
  else if wt.DkLen = 0 then
    Run.fatal "panic: index out of range"
  else do
    let out := List.replicate wt.DkLen.toNat 0
    let (ret, written) ← Run.call "PKCS5_PBKDF2_HMAC"
      (lib.PKCS5_PBKDF2_HMAC (pw.take pwLen) (salt.take saltLen) wt.IterationCount md wt.DkLen)
    let out := overwrite out written
    let success := true
    if ret ≠ 1 ∨ dk ≠ out ∨ wt.Result ≠ "valid" then
      pure false
    else
      pure success

/-- Go `(*wycheproofTestGroupPbkdf2HmacSha).run`. -/
def wycheproofTestGroupPbkdf2HmacSha.run (lib : LibcryptoPbkdf)
    (wtg : wycheproofTestGroupPbkdf2HmacSha) (algorithm : String) (_variant : testVariant) :
    Run String Bool := do
  match hashEvpMdFromString ("SHA-" ++ stringsTrimPrefix algorithm "PBKDF2-HMACSHA") with
  | none => Run.fatal "Failed to get hash"
  | some md =>
    let success := true
    let success ← forRange (fun wt success => do
      if !(← runPbkdfTest lib md wt) then
        pure false
      else
        pure success) wtg.Tests success
    pure success

/-- Go `wycheproofTestGroupHkdf`. -/
structure wycheproofTestGroupHkdf where
  Type_ : String
  KeySize : Int
  Tests : List wycheproofTestHkdf

/-- Go `(*wycheproofTestGroupHkdf).run`. -/
def wycheproofTestGroupHkdf.run (lib : LibcryptoHkdf) (wtg : wycheproofTestGroupHkdf)
    (algorithm : String) (_variant : testVariant) : Run String Bool := do
  match hashEvpMdFromString (stringsTrimPrefix algorithm "HKDF-") with
  | none => Run.fatal "Failed to get hash"
  | some md =>
    let success := true
    let success ← forRange (fun wt success => do
      if !(← runHkdfTest lib md wt) then
        pure false
      else
        pure success) wtg.Tests success
    pure success

/-- C `EVP_aead_aes_128_gcm()`, as a handle. -/
def EVP_aead_aes_128_gcm : Nat := 3

/-! ## The executor of the AES AEAD test groups -/

/-- Go `wycheproofTestGroupAead`; `wycheproofTestGroupAesAead` and
`wycheproofTestGroupChaCha` are this type. -/
structure wycheproofTestGroupAead where
  IVSize : Int
  KeySize : Int
  TagSize : Int
  Type_ : String
  Tests : List wycheproofTestAead

/-- Go `aesCbcs`, with the ciphers as handles. -/
def aesCbcs : List (Int × Nat) := [(128, 11), (192, 12), (256, 13)]

/-- Go `aesCcms`, with the ciphers as handles. -/
def aesCcms : List (Int × Nat) := [(128, 21), (192, 22), (256, 23)]

/-- Go `aesGcms`, with the ciphers as handles. -/
def aesGcms : List (Int × Nat) := [(128, 31), (192, 32), (256, 33)]

/-- Go `aeses`. -/
def aeses : List (String × List (Int × Nat)) :=
  [("AES-CBC", aesCbcs), ("AES-CCM", aesCcms), ("AES-GCM", aesGcms)]

/-- Go `cipherAes`, with `none` for a non-nil error. A name that is no key of
`aeses` gives the nil map, in which no size is found. -/
def cipherAes (algorithm : String) (size : Int) : Option Nat :=
  ((aeses.lookup algorithm).getD []).lookup size

/-- C `EVP_aead_aes_256_gcm()`, as a handle. -/
def EVP_aead_aes_256_gcm : Nat := 4

/-- Go `aesAeads`, with the AEADs as handles, 0 for `nil`. -/
def aesAeads : List (Int × Nat) :=
  [(128, EVP_aead_aes_128_gcm), (192, 0), (256, EVP_aead_aes_256_gcm)]

/-- Go `aeadAes`, with `none` for a non-nil error. -/
def aeadAes (size : Int) : Option Nat := aesAeads.lookup size

/-- What `(*wycheproofTestGroupAesAead).run` itself uses of libcrypto. -/
structure LibcryptoCipherCtx where
  EVP_CIPHER_CTX_new : Bool
  /-- `EVP_CipherInit_ex(ctx, cipher, NULL, NULL, NULL, 1)`. -/
  EVP_CipherInit_ex_cipher : Nat → Int

/-- The part of Go `(*wycheproofTestGroupAesAead).run` after the lookups of
the cipher and of the AEAD. -/
def wycheproofTestGroupAesAead.run.tests (clib : LibcryptoCipherCtx) (lib : LibcryptoCipher)
    (alib : LibcryptoAead) (wtg : wycheproofTestGroupAead) (algorithm : String)
    (cipher aead : Nat) : Run String Bool := do
  if (← Run.call "EVP_CIPHER_CTX_new" clib.EVP_CIPHER_CTX_new) = false then
    Run.fatal "EVP_CIPHER_CTX_new() failed"
  else do
    let _ ← Run.call "EVP_CipherInit_ex" (clib.EVP_CipherInit_ex_cipher cipher)
    let success := true
    let success ← forRange (fun wt success => do
      if !(← runAesAeadTest lib alib algorithm aead wt) then
        pure false
      else
        pure success) wtg.Tests success
    pure success

/-- Go `(*wycheproofTestGroupAesAead).run`. -/
def wycheproofTestGroupAesAead.run (clib : LibcryptoCipherCtx) (lib : LibcryptoCipher)
    (alib : LibcryptoAead) (wtg : wycheproofTestGroupAead) (algorithm : String)
    (_variant : testVariant) : Run String Bool :=
  match cipherAes algorithm wtg.KeySize with
  | none =>
    -- INFO: Skipping tests
    pure true
  | some cipher =>
    if algorithm = "AES-GCM" then
      match aeadAes wtg.KeySize with
      | none => Run.fatal "invalid key size"
      | some aead => wycheproofTestGroupAesAead.run.tests clib lib alib wtg algorithm cipher aead
    else
      wycheproofTestGroupAesAead.run.tests clib lib alib wtg algorithm cipher 0

/-! ## The names of the CCTV flags -/

/-- The slice `flags` that Go `Flags.String` builds: the names of the bits
set in `f`, in the order of the constants. -/
def Flags.String.flags (f : Flags) : List String :=
  let flags : List String := []
  let flags := if f &&& LowOrderR ≠ 0 then flags ++ ["low_order_R"] else flags
  let flags := if f &&& LowOrderA ≠ 0 then flags ++ ["low_order_A"] else flags
  let flags := if f &&& LowOrderComponentR ≠ 0 then flags ++ ["low_order_component_R"] else flags
  let flags := if f &&& LowOrderComponentA ≠ 0 then flags ++ ["low_order_component_A"] else flags
  let flags := if f &&& LowOrderResidue ≠ 0 then flags ++ ["low_order_residue"] else flags
  let flags := if f &&& NonCanonicalA ≠ 0 then flags ++ ["non_canonical_A"] else flags
  let flags := if f &&& NonCanonicalR ≠ 0 then flags ++ ["non_canonical_R"] else flags
  let flags := if f &&& ReencodedK ≠ 0 then flags ++ ["reencoded_k"] else flags
  flags

/-- Go `fmt.Sprintf("%v", flags)` for a slice of strings: the elements
between brackets, separated by blanks. -/
def sprintfSlice (flags : List String) : String := "[" ++ " ".intercalate flags ++ "]"

/-- Go `Flags.String`. -/
def Flags.String (f : Flags) : String := sprintfSlice (Flags.String.flags f)

/-- The bit that the `switch` of `(*Flags).UnmarshalJSON` sets for a flag
name; 0 for a name it does not know. -/
def namedBit (flag : String) : Flags :=
  if flag = "low_order_A" then LowOrderA
  else if flag = "low_order_R" then LowOrderR
  else if flag = "low_order_component_A" then LowOrderComponentA
  else if flag = "low_order_component_R" then LowOrderComponentR
  else if flag = "low_order_residue" then LowOrderResidue
  else if flag = "non_canonical_A" then NonCanonicalA
  else if flag = "non_canonical_R" then NonCanonicalR
  else if flag = "reencoded_k" then ReencodedK
  else 0

/-- The flag names `(*Flags).UnmarshalJSON` knows. -/
def flagNames : List String :=
  ["low_order_A", "low_order_R", "low_order_component_A", "low_order_component_R",
    "low_order_residue", "non_canonical_A", "non_canonical_R", "reencoded_k"]

/-! ## Big integers in the corpus -/

/-- Go `(*big.Int).SetBytes`: the unsigned integer with the big-endian bytes
`buf`. -/
def bigIntSetBytes (buf : List Nat) : Int :=
  ((buf.foldl (fun acc b => acc * 256 + b) 0 : Nat) : Int)

/-- Go `(*BigInt).UnmarshalJSON`: the integer it stores in `bi`. -/
def BigInt.UnmarshalJSON (data : List Nat) : Run String Int :=
  if data.length < 2 ∨ data.head? ≠ some 34 ∨ data.getLast? ≠ some 34 then
    Run.fatal "Failed to decode: too short or unquoted"
  else
    let data := (data.take (data.length - 1)).drop 1
    let data :=
      if data.length % 2 = 1 then
        let pad := if data.headD 0 ≥ 48 ∧ data.headD 0 ≤ 55 then [48] else [102]
        pad ++ data
      else
        data
    match hexDecode data with
    | none => Run.fatal "Failed to decode"
    | some src =>
      let bi := bigIntSetBytes src
      match data with
      | [] => Run.fatal "panic: index out of range"
      | c :: _ =>
        if c ≥ 56 then
          let y : Int := 2 ^ (4 * data.length)
          pure (bi - y)
        else
          pure bi

/-- The unsigned value of a string of hex digits, in the words of the
claim. -/
def hexValue (digits : List Nat) : Nat :=
  digits.foldl (fun acc c => acc * 16 + (fromHexChar c).getD 0) 0

/-! ## Protocol versions of the Go interface to libtls -/

/-- The protocol constants of `tls.h`, which `tls.go` reads through cgo. -/
structure TlsHeader where
  TLS_PROTOCOL_TLSv1_0 : Nat
  TLS_PROTOCOL_TLSv1_1 : Nat
  TLS_PROTOCOL_TLSv1_2 : Nat
  TLS_PROTOCOL_TLSv1_3 : Nat
  TLS_PROTOCOLS_ALL : Nat

/-- Go `ProtocolVersion`, a `uint32`. -/
abbrev ProtocolVersion := Nat

/-- Go `ProtocolTLSv10`. -/
def ProtocolTLSv10 (h : TlsHeader) : ProtocolVersion := h.TLS_PROTOCOL_TLSv1_0

/-- Go `ProtocolTLSv11`. -/
def ProtocolTLSv11 (h : TlsHeader) : ProtocolVersion := h.TLS_PROTOCOL_TLSv1_1

/-- Go `ProtocolTLSv12`. -/
def ProtocolTLSv12 (h : TlsHeader) : ProtocolVersion := h.TLS_PROTOCOL_TLSv1_2

/-- Go `ProtocolTLSv13`. -/
def ProtocolTLSv13 (h : TlsHeader) : ProtocolVersion := h.TLS_PROTOCOL_TLSv1_3

/-- Go `ProtocolsAll`. -/
def ProtocolsAll (h : TlsHeader) : ProtocolVersion := h.TLS_PROTOCOLS_ALL

/-- Go `protocolNames`, the entries of the map literal. Go compiles the
literal only if its constant keys are distinct. -/
def protocolNames (h : TlsHeader) : List (ProtocolVersion × String) :=
  [(ProtocolTLSv10 h, "TLSv1"), (ProtocolTLSv11 h, "TLSv1.1"), (ProtocolTLSv12 h, "TLSv1.2"),
    (ProtocolTLSv13 h, "TLSv1.3"), (ProtocolsAll h, "all")]

/-- Go `fmt.Sprintf("unknown protocol version %x", uint32(pv))`. -/
def sprintfUnknownVersion (pv : Nat) : String :=
  "unknown protocol version " ++ ⟨Nat.toDigits 16 pv⟩

/-- Go `ProtocolVersion.String`. -/
def ProtocolVersion.String (h : TlsHeader) (pv : ProtocolVersion) :=
  match (protocolNames h).lookup pv with
  | none => sprintfUnknownVersion pv
  | some name => name

/-- Go `ProtocolVersionFromString`: the version and the error, `none` for
`nil`. Go ranges over a map in an order of its own choosing; `order` is the
sequence of entries of one such loop. -/
def ProtocolVersionFromString (order : List (ProtocolVersion × String)) (version : String) :
    ProtocolVersion × Option String :=
  match order with
  | [] => (0, some ("unknown protocol version " ++ version.quote))
  | (proto, name) :: order =>
    if version = name then
      (proto, none)
    else
      ProtocolVersionFromString order version

/-! ## Skipped curves and hashes; the ECDSA and RSA group executors -/

/-- The `NID_*` constants of `openssl/objects.h` that `wycheproof.go` reads
through cgo. -/
structure ObjectsHeader where
  NID_brainpoolP224r1 : Int
  NID_brainpoolP256r1 : Int
  NID_brainpoolP320r1 : Int
  NID_brainpoolP384r1 : Int
  NID_brainpoolP512r1 : Int
  NID_brainpoolP224t1 : Int
  NID_brainpoolP256t1 : Int
  NID_brainpoolP320t1 : Int
  NID_brainpoolP384t1 : Int
  NID_brainpoolP512t1 : Int
  NID_FRP256v1 : Int
  NID_secp160k1 : Int
  NID_secp160r1 : Int
  NID_secp160r2 : Int
  NID_secp192k1 : Int
  NID_X9_62_prime192v1 : Int
  NID_secp224k1 : Int
  NID_secp224r1 : Int
  NID_secp256k1 : Int
  NID_X9_62_prime256v1 : Int
  NID_sect283k1 : Int
  NID_sect283r1 : Int
  NID_secp384r1 : Int
  NID_sect409k1 : Int
  NID_sect409r1 : Int
  NID_secp521r1 : Int
  NID_sect571k1 : Int
  NID_sect571r1 : Int
  NID_sha1 : Int
  NID_sha224 : Int
  NID_sha256 : Int
  NID_sha384 : Int
  NID_sha512 : Int
  NID_sha512_224 : Int
  NID_sha512_256 : Int
  NID_sha3_224 : Int
  NID_sha3_256 : Int
  NID_sha3_384 : Int
  NID_sha3_512 : Int

/-- Go `nids`. -/
def nids (h : ObjectsHeader) : List (String × Int) :=
  [("brainpoolP224r1", h.NID_brainpoolP224r1),
    ("brainpoolP256r1", h.NID_brainpoolP256r1),
    ("brainpoolP320r1", h.NID_brainpoolP320r1),
    ("brainpoolP384r1", h.NID_brainpoolP384r1),
    ("brainpoolP512r1", h.NID_brainpoolP512r1),
    ("brainpoolP224t1", h.NID_brainpoolP224t1),
    ("brainpoolP256t1", h.NID_brainpoolP256t1),
    ("brainpoolP320t1", h.NID_brainpoolP320t1),
    ("brainpoolP384t1", h.NID_brainpoolP384t1),
    ("brainpoolP512t1", h.NID_brainpoolP512t1),
    ("FRP256v1", h.NID_FRP256v1),
    ("secp160k1", h.NID_secp160k1),
    ("secp160r1", h.NID_secp160r1),
    ("secp160r2", h.NID_secp160r2),
    ("secp192k1", h.NID_secp192k1),
    ("secp192r1", h.NID_X9_62_prime192v1),
    ("secp224k1", h.NID_secp224k1),
    ("secp224r1", h.NID_secp224r1),
    ("secp256k1", h.NID_secp256k1),
    ("P-256K", h.NID_secp256k1),
    ("secp256r1", h.NID_X9_62_prime256v1),
    ("P-256", h.NID_X9_62_prime256v1),
    ("sect283k1", h.NID_sect283k1),
    ("sect283r1", h.NID_sect283r1),
    ("secp384r1", h.NID_secp384r1),
    ("P-384", h.NID_secp384r1),
    ("sect409k1", h.NID_sect409k1),
    ("sect409r1", h.NID_sect409r1),
    ("secp521r1", h.NID_secp521r1),
    ("sect571k1", h.NID_sect571k1),
    ("sect571r1", h.NID_sect571r1),
    ("P-521", h.NID_secp521r1),
    ("SHA-1", h.NID_sha1),
    ("SHA-224", h.NID_sha224),
    ("SHA-256", h.NID_sha256),
    ("SHA-384", h.NID_sha384),
    ("SHA-512", h.NID_sha512),
    ("SHA-512/224", h.NID_sha512_224),
    ("SHA-512/256", h.NID_sha512_256),
    ("SHA3-224", h.NID_sha3_224),
    ("SHA3-256", h.NID_sha3_256),
    ("SHA3-384", h.NID_sha3_384),
    ("SHA3-512", h.NID_sha3_512)]
/-- Go `nidFromString`, with `none` for a non-nil error. -/
def nidFromString (h : ObjectsHeader) (ns : String) : Option Int := (nids h).lookup ns

/-- Go `skipHash`. -/
def skipHash (hash : String) : Bool :=
  hash == "SHAKE128" || hash == "SHAKE256"

/-- Go `skipCurve`. -/
def skipCurve (h : ObjectsHeader) (nid : Int) : Bool :=
  if nid = h.NID_secp160k1 ∨ nid = h.NID_secp160r1 ∨ nid = h.NID_secp160r2 ∨
      nid = h.NID_secp192k1 ∨ nid = h.NID_X9_62_prime192v1 then
    true
  else if nid = h.NID_sect283k1 ∨ nid = h.NID_sect283r1 ∨ nid = h.NID_sect409k1 ∨
      nid = h.NID_sect409r1 ∨ nid = h.NID_sect571k1 ∨ nid = h.NID_sect571r1 then
    true
  else
    false

/-- Go `wycheproofECDSAKey`. -/
structure wycheproofECDSAKey where
  Curve : String
  KeySize : Int
  Type_ : String
  Uncompressed : String
  WX : String
  WY : String

/-- Go `wycheproofTestGroupECDSA`; the pointer `Key` is `none` for `nil`. -/
structure wycheproofTestGroupECDSA where
  Key : Option wycheproofECDSAKey
  KeyDER : String
  KeyPEM : String
  SHA : String
  Type_ : String
  Tests : List wycheproofTestECDSA

/-- What `(*wycheproofTestGroupECDSA).run` uses of libcrypto to set its key. -/
structure LibcryptoECKey where
  EC_KEY_set_public_key_affine_coordinates : Nat → Int → Int → Int

/-- The part of Go `(*wycheproofTestGroupECDSA).run` after the two skips: the
key of the group on the curve `nid`, the digest, and the loop over the test
cases. -/
def wycheproofTestGroupECDSA.run.tests (h : ObjectsHeader) (lib : Libcrypto)
    (klib : LibcryptoECKey) (key : wycheproofECDSAKey) (wtg : wycheproofTestGroupECDSA)
    (nid : Int) (variant : testVariant) : Run String Bool := do
  match ← Run.call "EC_KEY_new_by_curve_name" (lib.EC_KEY_new_by_curve_name nid 0) with
  | none => Run.fatal "EC_KEY_new_by_curve_name failed"
  | some ecKey =>
  match ← Run.call "BN_hex2bn" (lib.BN_hex2bn (cString (bytesOf key.WX))) with
  | none => Run.fatal "Failed to decode WX"
  | some bnX =>
  match ← Run.call "BN_hex2bn" (lib.BN_hex2bn (cString (bytesOf key.WY))) with
  | none => Run.fatal "Failed to decode WY"
  | some bnY =>
  if (← Run.call "EC_KEY_set_public_key_affine_coordinates"
      (klib.EC_KEY_set_public_key_affine_coordinates ecKey bnX bnY)) ≠ 1 then
    Run.fatal "Failed to set EC public key"
  else
    match nidFromString h wtg.SHA with
    | none => Run.fatal "Failed to get MD NID"
    | some nid =>
    match hashEvpMdFromString wtg.SHA with
    | none => Run.fatal "Failed to get hash"
    | some md =>
      let success := true
      let success ← forRange (fun wt success => do
        if !(← runECDSATest lib ecKey md nid variant wt) then
          pure false
        else
          pure success) wtg.Tests success
      pure success

/-- Go `(*wycheproofTestGroupECDSA).run`. The first statement prints
`wtg.Key.Curve`, which panics for a `nil` key. -/
def wycheproofTestGroupECDSA.run (h : ObjectsHeader) (lib : Libcrypto) (klib : LibcryptoECKey)
    (wtg : wycheproofTestGroupECDSA) (_algorithm : String) (variant : testVariant) :
    Run String Bool :=
  match wtg.Key with
  | none => Run.fatal "panic: invalid memory address or nil pointer dereference"
  | some key =>
    match nidFromString h key.Curve with
    | none => Run.fatal "Failed to get nid for curve"
    | some nid =>
      if skipCurve h nid then
        pure true
      else if skipHash wtg.SHA then
        pure true
      else
        wycheproofTestGroupECDSA.run.tests h lib klib key wtg nid variant

/-- Go `wycheproofRSAPublicKey`. -/
structure wycheproofRSAPublicKey where
  Modulus : String
  PublicExponent : String

/-- Go `wycheproofRSAPrivateKey`. -/
structure wycheproofRSAPrivateKey where
  Modulus : String
  PrivateExponent : String
  PublicExponent : String
  Prime1 : String
  Prime2 : String
  Exponent1 : String
  Exponent2 : String
  Coefficient : String

/-- What the RSA group executors use of libcrypto to build their key. An
`RSA` key is a handle, 0 for `NULL`; the last argument of `RSA_set0_key` is
`none` for `NULL`. -/
structure LibcryptoRsaKey where
  RSA_new : Nat
  RSA_set0_key : Nat → Int → Int → Option Int → Int

/-- Go `wycheproofTestGroupRsaesOaep`, without the field `PrivateKeyJwk`,
which `run` does not read; the pointer `PrivateKey` is `none` for `nil`. -/
structure wycheproofTestGroupRsaesOaep where
  Type_ : String
  KeySize : Int
  SHA : String
  MGF : String
  MGFSHA : String
  PrivateKey : Option wycheproofRSAPrivateKey
  PrivateKeyPem : String
  PrivateKeyPkcs8 : String
  Tests : List wycheproofTestRsaes

/-- The part of Go `(*wycheproofTestGroupRsaesOaep).run` after the skip. -/
def wycheproofTestGroupRsaesOaep.run.tests (lib : Libcrypto) (klib : LibcryptoRsaKey)
    (rlib : LibcryptoRsaes) (wtg : wycheproofTestGroupRsaesOaep) : Run String Bool := do
  let rsa ← Run.call "RSA_new" klib.RSA_new
  if rsa = 0 then
    Run.fatal "RSA_new failed"
  else
    match wtg.PrivateKey with
    | none => Run.fatal "panic: invalid memory address or nil pointer dereference"
    | some priv =>
    match ← Run.call "BN_hex2bn" (lib.BN_hex2bn (cString (bytesOf priv.PrivateExponent))) with
    | none => Run.fatal "Failed to set RSA d"
    | some rsaD =>
    match ← Run.call "BN_hex2bn" (lib.BN_hex2bn (cString (bytesOf priv.PublicExponent))) with
    | none => Run.fatal "Failed to set RSA e"
    | some rsaE =>
    match ← Run.call "BN_hex2bn" (lib.BN_hex2bn (cString (bytesOf priv.Modulus))) with
    | none => Run.fatal "Failed to set RSA n"
    | some rsaN =>
    if (← Run.call "RSA_set0_key" (klib.RSA_set0_key rsa rsaN rsaE (some rsaD))) = 0 then
      Run.fatal "RSA_set0_key failed"
    else
      match hashEvpMdFromString wtg.SHA with
      | none => Run.fatal "Failed to get hash"
      | some sha =>
      match hashEvpMdFromString wtg.MGFSHA with
      | none => Run.fatal "Failed to get MGF hash"
      | some mgfSha =>
        let success := true
        let success ← forRange (fun wt success => do
          if !(← runRsaesOaepTest rlib rsa sha mgfSha wt) then
            pure false
          else
            pure success) wtg.Tests success
        pure success

/-- Go `(*wycheproofTestGroupRsaesOaep).run`. -/
def wycheproofTestGroupRsaesOaep.run (lib : Libcrypto) (klib : LibcryptoRsaKey)
    (rlib : LibcryptoRsaes) (wtg : wycheproofTestGroupRsaesOaep) (_algorithm : String)
    (_variant : testVariant) : Run String Bool :=
  if skipHash wtg.SHA then
    pure true
  else
    wycheproofTestGroupRsaesOaep.run.tests lib klib rlib wtg

/-- Go `wycheproofTestRsassa`. -/
structure wycheproofTestRsassa where
  TCID : Int
  Comment : String
  Msg : String
  Sig : String
  Result : String
  Flags : List String

/-- Go `wycheproofTestGroupRsassa`; the two key pointers are `none` for
`nil`. -/
structure wycheproofTestGroupRsassa where
  PrivateKey : Option wycheproofRSAPrivateKey
  PublicKey : Option wycheproofRSAPublicKey
  KeyASN : String
  KeyDER : String
  KeyPEM : String
  KeySize : Int
  MGF : String
  MGFSHA : String
  SLen : Int
  SHA : String
  Type_ : String
  Tests : List wycheproofTestRsassa

/-- The RSASSA-PSS functions of libcrypto. -/
structure LibcryptoRsassa where
  RSA_size : Nat → Int
  /-- `RSA_public_decrypt(flen, from, to, rsa, padding)` by signature, key and
  padding: the return value and the bytes written to `to`. -/
  RSA_public_decrypt : List Nat → Nat → Int → Int × List Nat
  /-- `RSA_verify_PKCS1_PSS_mgf1(rsa, mHash, Hash, mgf1Hash, EM, sLen)`. -/
  RSA_verify_PKCS1_PSS_mgf1 : Nat → List Nat → Nat → Nat → List Nat → Int → Int

/-- Go `runRsassaTest`. -/
def runRsassaTest (lib : Libcrypto) (rlib : LibcryptoRsassa) (rsa sha mgfSha : Nat)
    (sLen : Int) (wt : wycheproofTestRsassa) : Run String Bool := do
  let (msg, _) ← mustHashHexMessage lib sha wt.Msg
  let (sig, sigLen) ← mustDecodeHexString wt.Sig "sig"
  let rsaSize ← Run.call "RSA_size" (rlib.RSA_size rsa)
  if rsaSize - 11 < 0 then
    Run.fatal "panic: makeslice: len out of range"
  else
    let sigOut := List.replicate (rsaSize - 11).toNat 0
    let sigOut := if sigLen = 0 then sigOut ++ [0] else sigOut
    if sigOut.length = 0 then
      Run.fatal "panic: index out of range"
    else do
      let (ret, written) ← Run.call "RSA_public_decrypt"
        (rlib.RSA_public_decrypt (sig.take sigLen) rsa RSA_NO_PADDING)
      let sigOut := overwrite sigOut written
      if ret = -1 then
        if wt.Result == "invalid" then
          pure true
        else
          pure false
      else do
        let ret ← Run.call "RSA_verify_PKCS1_PSS_mgf1"
          (rlib.RSA_verify_PKCS1_PSS_mgf1 rsa msg sha mgfSha sigOut sLen)
        let success := false
        if ret = 1 ∧ (wt.Result = "valid" ∨ wt.Result = "acceptable") then
          -- All acceptable cases that pass use SHA-1 and are flagged:
          -- "WeakHash" : "The key for this test vector uses a weak hash function."
          pure true
        else if ret = 0 ∧ (wt.Result = "invalid" ∨ wt.Result = "acceptable") then
          pure true
        else
          pure success

/-- The part of Go `(*wycheproofTestGroupRsassa).run` after the skip. -/
def wycheproofTestGroupRsassa.run.tests (lib : Libcrypto) (klib : LibcryptoRsaKey)
    (rlib : LibcryptoRsassa) (wtg : wycheproofTestGroupRsassa) : Run String Bool := do
  let rsa ← Run.call "RSA_new" klib.RSA_new
  if rsa = 0 then
    Run.fatal "RSA_new failed"
  else
    let (publicExponent, modulus) :=
      match wtg.PublicKey, wtg.PrivateKey with
      | some pub, _ => (pub.PublicExponent, pub.Modulus)
      | none, some priv => (priv.PublicExponent, priv.Modulus)
      | none, none => ("", "")
    if publicExponent = "" ∨ modulus = "" then
      pure true
    else
      match ← Run.call "BN_hex2bn" (lib.BN_hex2bn (cString (bytesOf publicExponent))) with
      | none => Run.fatal "Failed to set RSA e"
      | some rsaE =>
      match ← Run.call "BN_hex2bn" (lib.BN_hex2bn (cString (bytesOf modulus))) with
      | none => Run.fatal "Failed to set RSA n"
      | some rsaN =>
      if (← Run.call "RSA_set0_key" (klib.RSA_set0_key rsa rsaN rsaE none)) = 0 then
        Run.fatal "RSA_set0_key failed"
      else
        match hashEvpMdFromString wtg.SHA with
        | none => Run.fatal "Failed to get hash"
        | some sha =>
        match hashEvpMdFromString wtg.MGFSHA with
        | none => Run.fatal "Failed to get MGF hash"
        | some mgfSha =>
          let success := true
          let success ← forRange (fun wt success => do
            if !(← runRsassaTest lib rlib rsa sha mgfSha wtg.SLen wt) then
              pure false
            else
              pure success) wtg.Tests success
          pure success

/-- Go `(*wycheproofTestGroupRsassa).run`. -/
def wycheproofTestGroupRsassa.run (lib : Libcrypto) (klib : LibcryptoRsaKey)
    (rlib : LibcryptoRsassa) (wtg : wycheproofTestGroupRsassa) (_algorithm : String)
    (_variant : testVariant) : Run String Bool :=
  if skipHash wtg.SHA then
    pure true
  else
    wycheproofTestGroupRsassa.run.tests lib klib rlib wtg

/-! ## The remaining test-case checks and test-group executors -/

/-- Go `wycheproofTestGroupAesCbcPkcs5`. -/
structure wycheproofTestGroupAesCbcPkcs5 where
  IVSize : Int
  KeySize : Int
  Type_ : String
  Tests : List wycheproofTestAesCbcPkcs5

/-- What `(*wycheproofTestGroupAesCbcPkcs5).run` itself uses of libcrypto. -/
structure LibcryptoCbcCtx where
  EVP_CIPHER_CTX_new : Bool
  /-- `EVP_CipherInit_ex(ctx, cipher, NULL, NULL, NULL, 0)`. -/
  EVP_CipherInit_ex_cipher : Nat → Int

/-- Go `(*wycheproofTestGroupAesCbcPkcs5).run`. -/
def wycheproofTestGroupAesCbcPkcs5.run (clib : LibcryptoCbcCtx) (lib : LibcryptoCbc)
    (wtg : wycheproofTestGroupAesCbcPkcs5) (_algorithm : String) (_variant : testVariant) :
    Run String Bool := do
  match cipherAes "AES-CBC" wtg.KeySize with
  | none => Run.fatal "invalid key size"
  | some cipher =>
    if (← Run.call "EVP_CIPHER_CTX_new" clib.EVP_CIPHER_CTX_new) = false then
      Run.fatal "EVP_CIPHER_CTX_new() failed"
    else do
      let ret ← Run.call "EVP_CipherInit_ex" (clib.EVP_CipherInit_ex_cipher cipher)
      if ret ≠ 1 then
        Run.fatal "EVP_CipherInit_ex failed"
      else
        let success := true
        let success ← forRange (fun wt success => do
          if !(← runAesCbcPkcs5Test lib wt) then
            pure false
          else
            pure success) wtg.Tests success
        pure success

/-- Go `wycheproofTestAesCmac`. -/
structure wycheproofTestAesCmac where
  TCID : Int
  Comment : String
  Key : String
  Msg : String
  Tag : String
  Result : String
  Flags : List String

/-- Go `wycheproofTestGroupAesCmac`. -/
structure wycheproofTestGroupAesCmac where
  KeySize : Int
  TagSize : Int
  Type_ : String
  Tests : List wycheproofTestAesCmac

/-- The CMAC functions of libcrypto. A key is a handle, `none` for `NULL`. -/
structure LibcryptoCmac where
  EVP_MD_CTX_new : Bool
  /-- `EVP_PKEY_new_CMAC_key(NULL, key, keyLen, cipher)`. -/
  EVP_PKEY_new_CMAC_key : List Nat → Nat → Option Nat
  /-- `EVP_DigestSignInit(mdctx, NULL, NULL, NULL, pkey)`. -/
  EVP_DigestSignInit : Nat → Int
  /-- `EVP_DigestSign(mdctx, outTag, &outLen, msg, msgLen)` for the key of
  `mdctx`: the return value and the bytes written to `outTag`. -/
  EVP_DigestSign : Nat → List Nat → Int × List Nat

/-- Go `runAesCmacTest`. -/
def runAesCmacTest (lib : LibcryptoCmac) (cipher : Nat) (wt : wycheproofTestAesCmac) :
    Run String Bool := do
  let (key, keyLen) ← mustDecodeHexString wt.Key "key"
  let (msg, msgLen) ← mustDecodeHexString wt.Msg "msg"
  let (tag, tagLen) ← mustDecodeHexString wt.Tag "tag"
  if (← Run.call "EVP_MD_CTX_new" lib.EVP_MD_CTX_new) = false then
    Run.fatal "EVP_MD_CTX_new failed"
  else
    match ← Run.call "EVP_PKEY_new_CMAC_key"
      (lib.EVP_PKEY_new_CMAC_key (key.take keyLen) cipher) with
    | none => Run.fatal "CMAC_CTX_new failed"
    | some pkey =>
      let ret ← Run.call "EVP_DigestSignInit" (lib.EVP_DigestSignInit pkey)
      if ret ≠ 1 then
        pure false
      else do
        let outTag := List.replicate 16 0
        let (ret, written) ← Run.call "EVP_DigestSign"
          (lib.EVP_DigestSign pkey (msg.take msgLen))
        let outTag := overwrite outTag written
        if ret ≠ 1 then
          pure false
        else if outTag.length < tagLen then
          Run.fatal "panic: slice bounds out of range"
        else
          let outTag := outTag.take tagLen
          let success := true
          if (tag == outTag) != (wt.Result == "valid") then
            pure false
          else
            pure success

/-- Go `(*wycheproofTestGroupAesCmac).run`. -/
def wycheproofTestGroupAesCmac.run (lib : LibcryptoCmac) (wtg : wycheproofTestGroupAesCmac)
    (_algorithm : String) (_variant : testVariant) : Run String Bool := do
  match cipherAes "AES-CBC" wtg.KeySize with
  | none =>
    -- INFO: Skipping tests
    pure true
  | some cipher =>
    let success := true
    let success ← forRange (fun wt success => do
      if !(← runAesCmacTest lib cipher wt) then
        pure false
      else
        pure success) wtg.Tests success
    pure success

/-- C `EVP_chacha20_poly1305()`, as a handle. -/
def EVP_chacha20_poly1305 : Nat := 5

/-- The operands of one run of `runEvpChaCha20Poly1305Test`, as the cipher
context gets to see them: the cipher (a handle, 0 for `NULL`) and the bytes
of key, IV, additional data, of the input of the encryption, of the input of
the decryption and of the tag. -/
structure EvpChaChaOperands where
  cipher : Nat
  key : List Nat
  iv : List Nat
  aad : List Nat
  msg : List Nat
  ct : List Nat
  tag : List Nat

/-- The answers of libcrypto's `EVP_CIPHER_CTX` to the calls
`runEvpChaCha20Poly1305Test` makes, in the order of the source, each as a
function of the operands of the test case; first the context that
`(*wycheproofTestGroupChaCha).run` makes. A call that fills a buffer also
gives the bytes it writes. -/
structure LibcryptoEvpChaCha where
  EVP_CIPHER_CTX_new : Bool
  /-- `EVP_EncryptInit_ex(ctx, aead, NULL, NULL, NULL)`. -/
  EVP_EncryptInit_ex_cipher : EvpChaChaOperands → Int
  /-- `EVP_CIPHER_CTX_ctrl(ctx, EVP_CTRL_AEAD_SET_IVLEN, ivLen, NULL)`, when
  encrypting. -/
  EVP_CIPHER_CTX_ctrl_ivlen_enc : EvpChaChaOperands → Int
  /-- `EVP_EncryptInit_ex(ctx, NULL, NULL, key, NULL)`. -/
  EVP_EncryptInit_ex_key : EvpChaChaOperands → Int
  /-- `EVP_EncryptInit_ex(ctx, NULL, NULL, NULL, iv)`. -/
  EVP_EncryptInit_ex_iv : EvpChaChaOperands → Int
  /-- `EVP_EncryptUpdate(ctx, NULL, &len, aad, aadLen)`. -/
  EVP_EncryptUpdate_aad : EvpChaChaOperands → Int
  /-- `EVP_EncryptUpdate(ctx, sealed, &len, sealed, msgLen)`: return value,
  `len` and the bytes written. -/
  EVP_EncryptUpdate : EvpChaChaOperands → Int × Int × List Nat
  /-- `EVP_EncryptFinal_ex(ctx, &sealed[outLen], &len)`: return value, `len`
  and the bytes written. -/
  EVP_EncryptFinal_ex : EvpChaChaOperands → Int × Int × List Nat
  /-- `EVP_CIPHER_CTX_ctrl(ctx, EVP_CTRL_AEAD_GET_TAG, tagLen,
  &sealed[outLen])`: return value and the bytes written. -/
  EVP_CIPHER_CTX_ctrl_gettag : EvpChaChaOperands → Int × List Nat
  /-- `EVP_DecryptInit_ex(ctx, aead, NULL, NULL, NULL)`. -/
  EVP_DecryptInit_ex_cipher : EvpChaChaOperands → Int
  /-- `EVP_DecryptInit_ex(ctx, NULL, NULL, key, NULL)`. -/
  EVP_DecryptInit_ex_key : EvpChaChaOperands → Int
  /-- `EVP_CIPHER_CTX_ctrl(ctx, EVP_CTRL_AEAD_SET_IVLEN, ivLen, NULL)`, when
  decrypting. -/
  EVP_CIPHER_CTX_ctrl_ivlen_dec : EvpChaChaOperands → Int
  /-- `EVP_DecryptInit_ex(ctx, NULL, NULL, NULL, iv)`. -/
  EVP_DecryptInit_ex_iv : EvpChaChaOperands → Int
  /-- `EVP_CIPHER_CTX_ctrl(ctx, EVP_CTRL_AEAD_SET_TAG, tagLen, tag)`. -/
  EVP_CIPHER_CTX_ctrl_settag : EvpChaChaOperands → Int
  /-- `EVP_DecryptUpdate(ctx, NULL, &len, aad, aadLen)`. -/
  EVP_DecryptUpdate_aad : EvpChaChaOperands → Int
  /-- `EVP_DecryptUpdate(ctx, opened, &len, opened, ctLen)`: return value,
  `len` and the bytes written. -/
  EVP_DecryptUpdate : EvpChaChaOperands → Int × Int × List Nat
  /-- `EVP_DecryptFinal_ex(ctx, &opened[outLen], &len)`: return value, `len`
  and the bytes written. -/
  EVP_DecryptFinal_ex : EvpChaChaOperands → Int × Int × List Nat

/-- Writing `data` into `buf` from the index `off` on, as a C function
handed `&buf[off]` does. -/
def overwriteAt (buf : List Nat) (off : Nat) (data : List Nat) : List Nat :=
  buf.take off ++ overwrite (buf.drop off) data

/-- The encryption half of Go `runEvpChaCha20Poly1305Test`, from the first
`EVP_EncryptInit_ex` to `sealSuccess`. Taking the address of an element
beyond the length of `sealed` panics. -/
def runEvpChaCha20Poly1305Test.seal (lib : LibcryptoEvpChaCha) (ops : EvpChaChaOperands)
    (msg : List Nat) (ct : List Nat) (ctLen : Nat) (tag : List Nat) (tagLen : Nat)
    (wt : wycheproofTestAead) : Run String Bool := do
  if (← Run.call "EVP_EncryptInit_ex" (lib.EVP_EncryptInit_ex_cipher ops)) ≠ 1 then
    Run.fatal "Failed to initialize EVP_CIPHER_CTX with cipher"
  else if (← Run.call "EVP_CIPHER_CTX_ctrl" (lib.EVP_CIPHER_CTX_ctrl_ivlen_enc ops)) ≠ 1 then
    Run.fatal "Failed EVP_CTRL_AEAD_SET_IVLEN"
  else if (← Run.call "EVP_EncryptInit_ex" (lib.EVP_EncryptInit_ex_key ops)) ≠ 1 then
    Run.fatal "Failed EVP_EncryptInit_ex key"
  else if (← Run.call "EVP_EncryptInit_ex" (lib.EVP_EncryptInit_ex_iv ops)) ≠ 1 then
    Run.fatal "Failed EVP_EncryptInit_ex iv"
  else if (← Run.call "EVP_EncryptUpdate" (lib.EVP_EncryptUpdate_aad ops)) ≠ 1 then
    Run.fatal "Failed EVP_EncryptUpdate aad"
  else
    let sealed := List.replicate (ctLen + tagLen) 0
    let sealed := overwrite sealed msg
    if sealed.length = 0 then
      Run.fatal "panic: index out of range"
    else do
      let (ret, len, written) ← Run.call "EVP_EncryptUpdate" (lib.EVP_EncryptUpdate ops)
      let sealed := overwrite sealed written
      if ret ≠ 1 then
        Run.fatal "Failed EVP_EncryptUpdate msg"
      else
        let outLen := len
        if outLen < 0 ∨ (sealed.length : Int) ≤ outLen then
          Run.fatal "panic: index out of range"
        else do
          let (ret, len, written) ← Run.call "EVP_EncryptFinal_ex" (lib.EVP_EncryptFinal_ex ops)
          let sealed := overwriteAt sealed outLen.toNat written
          if ret ≠ 1 then
            Run.fatal "Failed EVP_EncryptFinal msg"
          else
            let outLen := outLen + len
            if outLen < 0 ∨ (sealed.length : Int) ≤ outLen then
              Run.fatal "panic: index out of range"
            else do
              let (ret, written) ← Run.call "EVP_CIPHER_CTX_ctrl"
                (lib.EVP_CIPHER_CTX_ctrl_gettag ops)
              let sealed := overwriteAt sealed outLen.toNat written
              if ret ≠ 1 then
                Run.fatal "Failed EVP_CTRL_AEAD_GET_TAG"
              else
                let sealSuccess := false
                let ctMatch := ct == sealed.take ctLen
                let tagMatch := tag == sealed.drop ctLen
                if (ctMatch && tagMatch) == (wt.Result != "invalid") then
                  pure true
                else
                  pure sealSuccess

/-- The end of Go `runEvpChaCha20Poly1305Test`, from the second
`EVP_DecryptUpdate` on: the input is decrypted in place in `opened`, and
`EVP_DecryptFinal_ex` has to return 1 for a case that is not declared
"invalid" and 0 for one that is, or the process ends. -/
def runEvpChaCha20Poly1305Test.final (lib : LibcryptoEvpChaCha) (ops : EvpChaChaOperands)
    (msg : List Nat) (msgLen : Nat) (opened : List Nat) (wt : wycheproofTestAead) :
    Run String Bool := do
  if opened.length = 0 then
    Run.fatal "panic: index out of range"
  else do
    let (ret, len, written) ← Run.call "EVP_DecryptUpdate" (lib.EVP_DecryptUpdate ops)
    let opened := overwrite opened written
    if ret ≠ 1 then
      Run.fatal "Failed EVP_EncryptUpdate msg"
    else
      let outLen := len
      let ret : Int := if wt.Result != "invalid" then 1 else 0
      if outLen < 0 ∨ (opened.length : Int) ≤ outLen then
        Run.fatal "panic: index out of range"
      else do
        let (finalRet, len, written) ← Run.call "EVP_DecryptFinal_ex"
          (lib.EVP_DecryptFinal_ex ops)
        let opened := overwriteAt opened outLen.toNat written
        if finalRet ≠ ret then
          Run.fatal "Failed EVP_EncryptFinal msg"
        else
          let outLen := outLen + len
          let openSuccess := true
          let openSuccess := if (msgLen : Int) ≠ outLen then false else openSuccess
          if wt.Result != "invalid" then
            if outLen < 0 ∨ (opened.length : Int) < outLen then
              Run.fatal "panic: slice bounds out of range"
            else if opened.take outLen.toNat != msg.take msgLen then
              pure false
            else
              pure openSuccess
          else
            pure openSuccess

/-- The decryption half of Go `runEvpChaCha20Poly1305Test`, from the first
`EVP_DecryptInit_ex` to `openSuccess`. The tag comes from `hex.DecodeString`,
so `&tag[0]` panics for an empty tag. The slice `opened[:outLen]` is taken
within the length of `opened`: Go allows it up to the capacity. -/
def runEvpChaCha20Poly1305Test.open (lib : LibcryptoEvpChaCha) (ops : EvpChaChaOperands)
    (aadLen : Nat) (msg : List Nat) (msgLen : Nat) (ct : List Nat) (ctLen : Nat)
    (tag : List Nat) (tagLen : Nat) (wt : wycheproofTestAead) : Run String Bool := do
  if (← Run.call "EVP_DecryptInit_ex" (lib.EVP_DecryptInit_ex_cipher ops)) ≠ 1 then
    Run.fatal "Failed to initialize EVP_CIPHER_CTX with cipher"
  else if (← Run.call "EVP_DecryptInit_ex" (lib.EVP_DecryptInit_ex_key ops)) ≠ 1 then
    Run.fatal "Failed EVP_EncryptInit_ex key"
  else if (← Run.call "EVP_CIPHER_CTX_ctrl" (lib.EVP_CIPHER_CTX_ctrl_ivlen_dec ops)) ≠ 1 then
    Run.fatal "Failed EVP_CTRL_AEAD_SET_IVLEN"
  else if (← Run.call "EVP_DecryptInit_ex" (lib.EVP_DecryptInit_ex_iv ops)) ≠ 1 then
    Run.fatal "Failed EVP_EncryptInit_ex iv"
  else if tag.length = 0 then
    Run.fatal "panic: index out of range"
  else if (← Run.call "EVP_CIPHER_CTX_ctrl" (lib.EVP_CIPHER_CTX_ctrl_settag ops)) ≠ 1 then
    Run.fatal "Failed EVP_CTRL_AEAD_SET_TAG"
  else
    let ct := if ctLen = 0 then ct ++ [0] else ct
    let opened := List.replicate (msgLen + tagLen) 0
    let opened := overwrite opened ct
    let opened := if msgLen + aadLen = 0 then opened ++ [0] else opened
    if (← Run.call "EVP_DecryptUpdate" (lib.EVP_DecryptUpdate_aad ops)) ≠ 1 then
      Run.fatal "Failed EVP_EncryptUpdate msg"
    else
      runEvpChaCha20Poly1305Test.final lib ops msg msgLen opened wt

/-- The operands of Go `runEvpChaCha20Poly1305Test` for the decoded fields:
the encryption reads `msgLen` bytes of `sealed` after `copy(sealed, msg)`,
the decryption `ctLen` bytes of `opened` after `copy(opened, ct)`. -/
def runEvpChaCha20Poly1305Test.operands (cipher : Nat) (key iv : List Nat) (ivLen : Nat)
    (aad : List Nat) (aadLen : Nat) (msg : List Nat) (msgLen : Nat) (ct : List Nat)
    (tag : List Nat) : EvpChaChaOperands :=
  { cipher := cipher
    key := key
    iv := iv.take ivLen
    aad := aad.take aadLen
    msg := (overwrite (List.replicate (ct.length + tag.length) 0) msg).take msgLen
    ct := (overwrite (List.replicate (msgLen + tag.length) 0)
      (if ct.length = 0 then ct ++ [0] else ct)).take ct.length
    tag := tag }

/-- Go `runEvpChaCha20Poly1305Test`. -/
def runEvpChaCha20Poly1305Test (lib : LibcryptoEvpChaCha) (algorithm : String)
    (wt : wycheproofTestAead) : Run String Bool := do
  if algorithm = "XCHACHA20-POLY1305" then
    pure true
  else do
    let aead := if algorithm = "CHACHA20-POLY1305" then EVP_chacha20_poly1305 else 0
    let (key, _) ← mustDecodeHexString wt.Key "key"
    let (iv, ivLen) ← mustDecodeHexString wt.IV "iv"
    let (aad, aadLen) ← mustDecodeHexString wt.AAD "aad"
    let (msg, msgLen) ← mustDecodeHexString wt.Msg "msg"
    match hexDecodeString wt.CT with
    | none => Run.fatal "Failed to decode ct"
    | some ct =>
      match hexDecodeString wt.Tag with
      | none => Run.fatal "Failed to decode tag"
      | some tag =>
        let ctLen := ct.length
        let tagLen := tag.length
        let ops := runEvpChaCha20Poly1305Test.operands aead key iv ivLen aad aadLen msg msgLen
          ct tag
        let sealSuccess ← runEvpChaCha20Poly1305Test.seal lib ops msg ct ctLen tag tagLen wt
        let openSuccess ← runEvpChaCha20Poly1305Test.open lib ops aadLen msg msgLen ct ctLen
          tag tagLen wt
        pure (sealSuccess && openSuccess)

/-- The body of the loop of Go `(*wycheproofTestGroupChaCha).run`. -/
def wycheproofTestGroupChaCha.run.body (alib : LibcryptoAead) (lib : LibcryptoEvpChaCha)
    (algorithm : String) (wt : wycheproofTestAead) (success : Bool) : Run String Bool := do
  let ok ← runChaCha20Poly1305Test alib algorithm wt
  let success := if !ok then false else success
  let ok ← runEvpChaCha20Poly1305Test lib algorithm wt
  let success := if !ok then false else success
  pure success

/-- Go `(*wycheproofTestGroupChaCha).run`. -/
def wycheproofTestGroupChaCha.run (alib : LibcryptoAead) (lib : LibcryptoEvpChaCha)
    (wtg : wycheproofTestGroupAead) (algorithm : String) (_variant : testVariant) :
    Run String Bool := do
  -- ChaCha20-Poly1305 currently only supports nonces of length 12 (96 bits)
  if algorithm = "CHACHA20-POLY1305" ∧ wtg.IVSize ≠ 96 then
    pure true
  else if (← Run.call "EVP_CIPHER_CTX_new" lib.EVP_CIPHER_CTX_new) = false then
    Run.fatal "EVP_CIPHER_CTX_new() failed"
  else do
    let success := true
    let success ← forRange (wycheproofTestGroupChaCha.run.body alib lib algorithm) wtg.Tests
      success
    pure success

/-- Go `wycheproofTestGroupECDH`. -/
structure wycheproofTestGroupECDH where
  Curve : String
  Encoding : String
  Type_ : String
  Tests : List wycheproofTestECDH

/-- Go `(*wycheproofTestGroupECDH).run`. -/
def wycheproofTestGroupECDH.run (h : ObjectsHeader) (lib : Libcrypto)
    (wtg : wycheproofTestGroupECDH) (_algorithm : String) (variant : testVariant) :
    Run String Bool := do
  match nidFromString h wtg.Curve with
  | none => Run.fatal "Failed to get nid for curve"
  | some nid =>
    if skipCurve h nid then
      pure true
    else
      let success := true
      let success ← forRange (fun wt success => do
        if !(← runECDHTest lib nid variant wt) then
          pure false
        else
          pure success) wtg.Tests success
      pure success

/-- Go `wycheproofJWKPublic`. -/
structure wycheproofJWKPublic where
  Crv : String
  KID : String
  KTY : String
  X : String
  Y : String

/-- Go `wycheproofJWKPrivate`. -/
structure wycheproofJWKPrivate where
  Crv : String
  D : String
  KID : String
  KTY : String
  X : String
  Y : String

/-- Go `wycheproofTestECDHWebCrypto`; the two key pointers are `none` for
`nil`. -/
structure wycheproofTestECDHWebCrypto where
  TCID : Int
  Comment : String
  Public : Option wycheproofJWKPublic
  Private : Option wycheproofJWKPrivate
  Shared : String
  Result : String
  Flags : List String

/-- Go `wycheproofTestGroupECDHWebCrypto`. -/
structure wycheproofTestGroupECDHWebCrypto where
  Curve : String
  Encoding : String
  Type_ : String
  Tests : List wycheproofTestECDHWebCrypto

/-- What `runECDHWebCryptoTest` uses of libcrypto, and the base64 decoder of
the Go standard library. A key is a handle, `none` for `NULL`; a `BIGNUM` is
the integer it holds. -/
structure LibcryptoECDHWebCrypto where
  /-- Go `base64.RawURLEncoding.DecodeString`, with `none` for a non-nil
  error. -/
  base64RawURLDecodeString : String → Option (List Nat)
  /-- `EC_KEY_new_by_curve_name(nid)`; the second argument numbers the calls
  within one test case. -/
  EC_KEY_new_by_curve_name : Int → Nat → Option Nat
  /-- `BN_bin2bn(s, len, NULL)`. -/
  BN_bin2bn : List Nat → Option Int
  EC_KEY_set_private_key : Nat → Int → Int
  EC_KEY_set_public_key_affine_coordinates : Nat → Int → Int → Int
  /-- `EC_GROUP_get_degree(EC_KEY_get0_group(key))`. -/
  EC_GROUP_get_degree : Nat → Int
  /-- `ECDH_compute_key(out, outlen, EC_KEY_get0_public_key(pub), priv, NULL)`
  by `outlen`, the public key with the coordinates it was given and the
  private key with the number it was given: return value and bytes written
  to `out`. -/
  ECDH_compute_key : Int → Nat → Int → Int → Nat → Int → Int × List Nat

/-- The part of Go `runECDHWebCryptoTest` after the private key has been
set: the public key, the key agreement and the comparison. -/
def runECDHWebCryptoTest.agree (lib : LibcryptoECDHWebCrypto) (nid : Int) (privKey : Nat)
    (bnD : Int) (pub : wycheproofJWKPublic) (wt : wycheproofTestECDHWebCrypto) :
    Run String Bool := do
  match lib.base64RawURLDecodeString pub.X with
  | none => Run.fatal "Failed to base64 decode x"
  | some x =>
  if x.length = 0 then
    Run.fatal "panic: index out of range"
  else
  match ← Run.call "BN_bin2bn" (lib.BN_bin2bn x) with
  | none => Run.fatal "Failed to decode X"
  | some bnX =>
  match lib.base64RawURLDecodeString pub.Y with
  | none => Run.fatal "Failed to base64 decode y"
  | some y =>
  if y.length = 0 then
    Run.fatal "panic: index out of range"
  else
  match ← Run.call "BN_bin2bn" (lib.BN_bin2bn y) with
  | none => Run.fatal "Failed to decode Y"
  | some bnY =>
  match ← Run.call "EC_KEY_new_by_curve_name" (lib.EC_KEY_new_by_curve_name nid 1) with
  | none => Run.fatal "Failed to create EC_KEY"
  | some pubKey =>
    let ret ← Run.call "EC_KEY_set_public_key_affine_coordinates"
      (lib.EC_KEY_set_public_key_affine_coordinates pubKey bnX bnY)
    if ret ≠ 1 then
      if wt.Result == "invalid" then
        pure true
      else
        pure false
    else do
      let secLen ← Run.call "EC_GROUP_get_degree"
        (Int.tdiv (lib.EC_GROUP_get_degree privKey + 7) 8)
      if secLen < 0 then
        Run.fatal "panic: makeslice: len out of range"
      else do
        let secret := List.replicate secLen.toNat 0
        let secret := if secLen = 0 then secret ++ [0] else secret
        let (ret, out) ← Run.call "ECDH_compute_key"
          (lib.ECDH_compute_key secLen pubKey bnX bnY privKey bnD)
        let secret := overwrite secret out
        if ret ≠ secLen then
          if wt.Result == "invalid" then
            pure true
          else
            pure false
        else do
          let (shared, _) ← mustDecodeHexString wt.Shared "shared secret"
          let success := true
          if shared != secret then
            pure false
          else
            pure success

/-- Go `runECDHWebCryptoTest`. Reading a field of a `nil` key panics, and so
does `&d[0]` for an empty decoding. -/
def runECDHWebCryptoTest (lib : LibcryptoECDHWebCrypto) (nid : Int)
    (wt : wycheproofTestECDHWebCrypto) : Run String Bool := do
  match ← Run.call "EC_KEY_new_by_curve_name" (lib.EC_KEY_new_by_curve_name nid 0) with
  | none => Run.fatal "EC_KEY_new_by_curve_name failed"
  | some privKey =>
  match wt.Private with
  | none => Run.fatal "panic: invalid memory address or nil pointer dereference"
  | some priv =>
  match lib.base64RawURLDecodeString priv.D with
  | none => Run.fatal "Failed to base64 decode d"
  | some d =>
  if d.length = 0 then
    Run.fatal "panic: index out of range"
  else
  match ← Run.call "BN_bin2bn" (lib.BN_bin2bn d) with
  | none => Run.fatal "Failed to decode D"
  | some bnD =>
    let ret ← Run.call "EC_KEY_set_private_key" (lib.EC_KEY_set_private_key privKey bnD)
    if ret ≠ 1 then
      pure false
    else
      match wt.Public with
      | none => Run.fatal "panic: invalid memory address or nil pointer dereference"
      | some pub => runECDHWebCryptoTest.agree lib nid privKey bnD pub wt

/-- Go `(*wycheproofTestGroupECDHWebCrypto).run`. -/
def wycheproofTestGroupECDHWebCrypto.run (h : ObjectsHeader) (lib : LibcryptoECDHWebCrypto)
    (wtg : wycheproofTestGroupECDHWebCrypto) (_algorithm : String) (_variant : testVariant) :
    Run String Bool := do
  match nidFromString h wtg.Curve with
  | none => Run.fatal "Failed to get nid for curve"
  | some nid =>
    let success := true
    let success ← forRange (fun wt success => do
      if !(← runECDHWebCryptoTest lib nid wt) then
        pure false
      else
        pure success) wtg.Tests success
    pure success

/-- Go `wycheproofTestEcCurve`; `P`, `N`, `A`, `B`, `Gx` and `Gy` are the
integers of the `*BigInt`. -/
structure wycheproofTestEcCurve where
  TCID : Int
  Comment : String
  Flags : List String
  Name : String
  OID : String
  Ref : String
  P : Int
  N : Int
  A : Int
  B : Int
  Gx : Int
  Gy : Int
  H : Int
  Result : String

/-- Go `wycheproofTestGroupEcCurve`. -/
structure wycheproofTestGroupEcCurve where
  Type_ : String
  Tests : List wycheproofTestEcCurve

/-- The curve functions of libcrypto that `runEcCurveTest` uses. A group or
a point is a handle, `none` for `NULL`. -/
structure LibcryptoEcCurve where
  /-- `OBJ_txt2nid(oid)`, with `none` for `NID_undef`. -/
  OBJ_txt2nid : List Nat → Option Int
  EC_GROUP_new_by_curve_name : Int → Option Nat
  /-- `EC_GROUP_new_curve_GFp(p, a, b, NULL)`. -/
  EC_GROUP_new_curve_GFp : Int → Int → Int → Option Nat
  EC_POINT_new : Nat → Option Nat
  /-- `EC_POINT_set_affine_coordinates(group, point, x, y, NULL)`. -/
  EC_POINT_set_affine_coordinates : Nat → Nat → Int → Int → Int
  /-- `EC_GROUP_set_generator(group, point, n, NULL)`, for the point with the
  coordinates it was given. -/
  EC_GROUP_set_generator : Nat → Nat → Int → Int → Int → Int
  /-- `EC_GROUP_cmp(group, builtinGroup, NULL)`, for the group with the
  generator and the order it was given. -/
  EC_GROUP_cmp : Nat → Int → Int → Int → Nat → Int

/-- Go `runEcCurveTest`. -/
def runEcCurveTest (lib : Libcrypto) (elib : LibcryptoEcCurve) (wt : wycheproofTestEcCurve) :
    Run String Bool := do
  match ← Run.call "OBJ_txt2nid" (elib.OBJ_txt2nid (cString (bytesOf wt.OID))) with
  | none =>
    -- INFO: unknown OID
    pure false
  | some nid =>
  match ← Run.call "EC_GROUP_new_by_curve_name" (elib.EC_GROUP_new_by_curve_name nid) with
  | none =>
    -- INFO: no builtin curve for OID
    pure true
  | some builtinGroup =>
    let p ← mustConvertBigIntToBigNum lib wt.P
    let a ← mustConvertBigIntToBigNum lib wt.A
    let b ← mustConvertBigIntToBigNum lib wt.B
    let n ← mustConvertBigIntToBigNum lib wt.N
    let x ← mustConvertBigIntToBigNum lib wt.Gx
    let y ← mustConvertBigIntToBigNum lib wt.Gy
    match ← Run.call "EC_GROUP_new_curve_GFp" (elib.EC_GROUP_new_curve_GFp p a b) with
    | none => Run.fatal "EC_GROUP_new_curve_GFp failed"
    | some group =>
    match ← Run.call "EC_POINT_new" (elib.EC_POINT_new group) with
    | none => Run.fatal "EC_POINT_new failed"
    | some point =>
    if (← Run.call "EC_POINT_set_affine_coordinates"
        (elib.EC_POINT_set_affine_coordinates group point x y)) = 0 then
      Run.fatal "EC_POINT_set_affine_coordinates failed"
    else if (← Run.call "EC_GROUP_set_generator"
        (elib.EC_GROUP_set_generator group point x y n)) = 0 then
      Run.fatal "EC_POINT_set_generator failed"
    else do
      let success := true
      if (← Run.call "EC_GROUP_cmp" (elib.EC_GROUP_cmp group x y n builtinGroup)) ≠ 0 then
        pure false
      else
        pure success

/-- Go `(*wycheproofTestGroupEcCurve).run`. -/
def wycheproofTestGroupEcCurve.run (lib : Libcrypto) (elib : LibcryptoEcCurve)
    (wtg : wycheproofTestGroupEcCurve) (_algorithm : String) (_variant : testVariant) :
    Run String Bool := do
  let success := true
  let success ← forRange (fun wt success => do
    if !(← runEcCurveTest lib elib wt) then
      pure false
    else
      pure success) wtg.Tests success
  pure success

/-- Go `wycheproofEdDSAKey`. -/
structure wycheproofEdDSAKey where
  Curve : String
  KeySize : Int
  Pk : String
  Sk : String
  Type_ : String

/-- Go `wycheproofTestGroupEdDSA`, without the field `JWK`, which `run` does
not read; the pointer `Key` is `none` for `nil`. -/
structure wycheproofTestGroupEdDSA where
  Key : Option wycheproofEdDSAKey
  KeyDer : String
  KeyPem : String
  Type_ : String
  Tests : List wycheproofTestEdDSA

/-- What `(*wycheproofTestGroupEdDSA).run` uses of libcrypto to make its
key. -/
structure LibcryptoEdDSAKey where
  /-- `EVP_PKEY_new_raw_public_key(EVP_PKEY_ED25519, NULL, pub, len)`: the key
  as a handle, `none` for `NULL`. -/
  EVP_PKEY_new_raw_public_key : List Nat → Option Nat

/-- Go `(*wycheproofTestGroupEdDSA).run`. Reading the curve of a `nil` key
panics. -/
def wycheproofTestGroupEdDSA.run (lib : Libcrypto) (klib : LibcryptoEdDSAKey)
    (wtg : wycheproofTestGroupEdDSA) (_algorithm : String) (_variant : testVariant) :
    Run String Bool := do
  match wtg.Key with
  | none => Run.fatal "panic: invalid memory address or nil pointer dereference"
  | some key =>
    if key.Curve = "edwards25519" then do
      let (pubKey, pubKeyLen) ← mustDecodeHexString key.Pk "pubkey"
      match ← Run.call "EVP_PKEY_new_raw_public_key"
        (klib.EVP_PKEY_new_raw_public_key (pubKey.take pubKeyLen)) with
      | none => Run.fatal "EVP_PKEY_new_raw_public_key failed"
      | some pkey =>
        let success := true
        let success ← forRange (fun wt success => do
          if !(← runEdDSATest lib pkey wt) then
            pure false
          else
            pure success) wtg.Tests success
        pure success
    else
      -- INFO: Skipping test group
      pure true

/-- Go `wycheproofTestGroupKW`. -/
structure wycheproofTestGroupKW where
  KeySize : Int
  Type_ : String
  Tests : List wycheproofTestKW

/-- Go `(*wycheproofTestGroupKW).run`. -/
def wycheproofTestGroupKW.run (lib : LibcryptoAesWrap) (wtg : wycheproofTestGroupKW)
    (_algorithm : String) (_variant : testVariant) : Run String Bool := do
  let success := true
  let success ← forRange (fun wt success => do
    if !(← runKWTest lib wtg.KeySize wt) then
      pure false
    else
      pure success) wtg.Tests success
  pure success

/-- The key and decapsulation functions of libcrypto that `runMLKEMTestGroup`
uses, each by the rank and the bytes the key was made from. -/
structure LibcryptoMLKEMDecap where
  MLKEM_private_key_new : Int → Bool
  MLKEM_public_key_new : Int → Bool
  /-- `MLKEM_private_key_from_seed(privKey, seed, seedLen)`. -/
  MLKEM_private_key_from_seed : Int → List Nat → Int
  /-- `MLKEM_public_from_private(privKey, pubKey)`, for the private key of
  this seed. -/
  MLKEM_public_from_private : Int → List Nat → Int
  /-- `MLKEM_marshal_public_key(pubKey, &out, &outLen)`, for the public key
  of the private key of this seed: the return value and the bytes of
  `out`. -/
  MLKEM_marshal_public_key : Int → List Nat → Int × List Nat
  /-- `MLKEM_decap(privKey, c, cLen, &sharedSecret, &sharedSecretLen)`, for
  the private key of this seed: the return value and the bytes of
  `sharedSecret`. -/
  MLKEM_decap : Int → List Nat → List Nat → Int × List Nat

/-- Go `runMLKEMTestGroup`. -/
def runMLKEMTestGroup (lib : LibcryptoMLKEMDecap) (rank : Int) (wt : wycheproofTestMLKEM) :
    Run String Bool := do
  if (← Run.call "MLKEM_private_key_new" (lib.MLKEM_private_key_new rank)) = false then
    Run.fatal "MLKEM_private_key_new failed"
  else if (← Run.call "MLKEM_public_key_new" (lib.MLKEM_public_key_new rank)) = false then
    Run.fatal "MLKEM_public_key_new failed"
  else do
    let (seed, seedLen) ← mustDecodeHexString wt.Seed "seed"
    let (ek, _) ← mustDecodeHexString wt.Ek "ek"
    if (← Run.call "MLKEM_private_key_from_seed"
        (lib.MLKEM_private_key_from_seed rank (seed.take seedLen))) ≠ 1 then
      pure false
    else if (← Run.call "MLKEM_public_from_private"
        (lib.MLKEM_public_from_private rank (seed.take seedLen))) ≠ 1 then
      pure false
    else do
      let (ret, gotEk) ← Run.call "MLKEM_marshal_public_key"
        (lib.MLKEM_marshal_public_key rank (seed.take seedLen))
      if ret ≠ 1 then
        pure false
      else if ek != gotEk then
        pure false
      else do
        let (c, cLen) ← mustDecodeHexString wt.C "c"
        let (ret, gotK) ← Run.call "MLKEM_decap"
          (lib.MLKEM_decap rank (seed.take seedLen) (c.take cLen))
        if ret ≠ 1 then
          pure false
        else do
          let (k, _) ← mustDecodeHexString wt.K "K"
          if k != gotK then
            pure false
          else
            pure true

/-- Go `wycheproofTestGroupMLKEM`. -/
structure wycheproofTestGroupMLKEM where
  Type_ : String
  ParameterSet : String
  Tests : List wycheproofTestMLKEM

/-- The rank constants of `openssl/mlkem.h`, which `wycheproof.go` reads
through cgo. -/
structure MlkemHeader where
  RANK768 : Int
  RANK1024 : Int

/-- The two `switch` statements of Go `(*wycheproofTestGroupMLKEM).run`:
`none` when `run` returns `true` at once, else the rank and the function
`runTest`. -/
def wycheproofTestGroupMLKEM.run.select (m : MlkemHeader) (lib : LibcryptoMLKEM)
    (dlib : LibcryptoMLKEMDecap) (wtg : wycheproofTestGroupMLKEM) :
    Run String (Option (Int × (Int → wycheproofTestMLKEM → Run String Bool))) :=
  if wtg.ParameterSet = "ML-KEM-512" then
    -- INFO: skipping test group
    pure none
  else if wtg.ParameterSet ≠ "ML-KEM-768" ∧ wtg.ParameterSet ≠ "ML-KEM-1024" then
    Run.fatal "Unknown ML-KEM parameterSet"
  else
    let rank := if wtg.ParameterSet = "ML-KEM-768" then m.RANK768 else m.RANK1024
    if wtg.Type_ = "MLKEMTest" then
      pure (some (rank, runMLKEMTestGroup dlib))
    else if wtg.Type_ = "MLKEMEncapsTest" then
      pure (some (rank, runMLKEMEncapsTestGroup lib))
    else
      Run.fatal "Unknown ML-KEM test type"

/-- Go `(*wycheproofTestGroupMLKEM).run`. -/
def wycheproofTestGroupMLKEM.run (m : MlkemHeader) (lib : LibcryptoMLKEM)
    (dlib : LibcryptoMLKEMDecap) (wtg : wycheproofTestGroupMLKEM) (_algorithm : String)
    (_variant : testVariant) : Run String Bool := do
  match ← wycheproofTestGroupMLKEM.run.select m lib dlib wtg with
  | none => pure true
  | some (rank, runTest) =>
    let success := true
    let success ← forRange (fun wt success => do
      if !(← runTest rank wt) then
        pure false
      else
        pure success) wtg.Tests success
    pure success

/-- Go `wycheproofTestGroupRsaesPkcs1`, without the field `PrivateKeyJwk`,
which `run` does not read; the pointer `PrivateKey` is `none` for `nil`. -/
structure wycheproofTestGroupRsaesPkcs1 where
  Type_ : String
  PrivateKey : Option wycheproofRSAPrivateKey
  PrivateKeyPem : String
  PrivateKeyPkcs8 : String
  KeySize : Int
  Tests : List wycheproofTestRsaes

/-- Go `(*wycheproofTestGroupRsaesPkcs1).run`. Reading a field of a `nil`
key panics. -/
def wycheproofTestGroupRsaesPkcs1.run (lib : Libcrypto) (klib : LibcryptoRsaKey)
    (rlib : LibcryptoRsaes) (wtg : wycheproofTestGroupRsaesPkcs1) (_algorithm : String)
    (_variant : testVariant) : Run String Bool := do
  let rsa ← Run.call "RSA_new" klib.RSA_new
  if rsa = 0 then
    Run.fatal "RSA_new failed"
  else
    match wtg.PrivateKey with
    | none => Run.fatal "panic: invalid memory address or nil pointer dereference"
    | some priv =>
    match ← Run.call "BN_hex2bn" (lib.BN_hex2bn (cString (bytesOf priv.PrivateExponent))) with
    | none => Run.fatal "Failed to set RSA d"
    | some rsaD =>
    match ← Run.call "BN_hex2bn" (lib.BN_hex2bn (cString (bytesOf priv.PublicExponent))) with
    | none => Run.fatal "Failed to set RSA e"
    | some rsaE =>
    match ← Run.call "BN_hex2bn" (lib.BN_hex2bn (cString (bytesOf priv.Modulus))) with
    | none => Run.fatal "Failed to set RSA n"
    | some rsaN =>
    if (← Run.call "RSA_set0_key" (klib.RSA_set0_key rsa rsaN rsaE (some rsaD))) = 0 then
      Run.fatal "RSA_set0_key failed"
    else
      let success := true
      let success ← forRange (fun wt success => do
        if !(← runRsaesPkcs1Test rlib rsa wt) then
          pure false
        else
          pure success) wtg.Tests success
      pure success

/-- Go `wycheproofTestGroupRSA`; the two key pointers are `none` for `nil`. -/
structure wycheproofTestGroupRSA where
  PrivateKey : Option wycheproofRSAPrivateKey
  PublicKey : Option wycheproofRSAPublicKey
  KeyASN : String
  KeyDER : String
  KeyPEM : String
  KeySize : Int
  SHA : String
  Type_ : String
  Tests : List wycheproofTestRSA

/-- Go `(*wycheproofTestGroupRSA).run`. -/
def wycheproofTestGroupRSA.run (h : ObjectsHeader) (lib : Libcrypto) (klib : LibcryptoRsaKey)
    (wtg : wycheproofTestGroupRSA) (_algorithm : String) (_variant : testVariant) :
    Run String Bool := do
  let rsa ← Run.call "RSA_new" klib.RSA_new
  if rsa = 0 then
    Run.fatal "RSA_new failed"
  else
    let (publicExponent, modulus) :=
      match wtg.PublicKey, wtg.PrivateKey with
      | some pub, _ => (pub.PublicExponent, pub.Modulus)
      | none, some priv => (priv.PublicExponent, priv.Modulus)
      | none, none => ("", "")
    if publicExponent = "" ∨ modulus = "" then
      pure true
    else
      match ← Run.call "BN_hex2bn" (lib.BN_hex2bn (cString (bytesOf publicExponent))) with
      | none => Run.fatal "Failed to set RSA e"
      | some rsaE =>
      match ← Run.call "BN_hex2bn" (lib.BN_hex2bn (cString (bytesOf modulus))) with
      | none => Run.fatal "Failed to set RSA n"
      | some rsaN =>
      if (← Run.call "RSA_set0_key" (klib.RSA_set0_key rsa rsaN rsaE none)) = 0 then
        Run.fatal "RSA_set0_key failed"
      else
        match nidFromString h wtg.SHA with
        | none => Run.fatal "Failed to get MD NID"
        | some nid =>
        match hashEvpMdFromString wtg.SHA with
        | none => Run.fatal "Failed to get hash"
        | some md =>
          let success := true
          let success ← forRange (fun wt success => do
            if !(← runRSATest lib rsa md nid wt) then
              pure false
            else
              pure success) wtg.Tests success
          pure success

/-- Go `wycheproofTestGroupX25519`. -/
structure wycheproofTestGroupX25519 where
  Curve : String
  Tests : List wycheproofTestX25519

/-- Go `(*wycheproofTestGroupX25519).run`. -/
def wycheproofTestGroupX25519.run (lib : LibcryptoX25519) (wtg : wycheproofTestGroupX25519)
    (_algorithm : String) (_variant : testVariant) : Run String Bool := do
  if wtg.Curve = "curve25519" then
    let success := true
    let success ← forRange (fun wt success => do
      if !(← runX25519Test lib wt) then
        pure false
      else
        pure success) wtg.Tests success
    pure success
  else
    -- INFO: Skipping test group
    pure true

/-! ## Concrete inputs -/

/-- A corpus file of an algorithm the registry skips, with two test groups. -/
def skippedFile : wycheproofTestVectorsV1 Nat :=
  { Algorithm := "AES-EAX", Schema := "aead_test_schema_v1.json", NumberOfTests := 2,
    Header := [], TestGroups := [0, 1] }

/-- A corpus file of an algorithm the registry does not know, with no test
group. -/
def unknownEmptyFile : wycheproofTestVectorsV1 Nat :=
  { Algorithm := "NOPE", Schema := "nope_test_schema_v1.json", NumberOfTests := 0,
    Header := [], TestGroups := [] }

/-- A corpus file of an algorithm the registry does not know, with one test
group. -/
def unknownFile : wycheproofTestVectorsV1 Nat :=
  { Algorithm := "NOPE", Schema := "nope_test_schema_v1.json", NumberOfTests := 1,
    Header := [], TestGroups := [0] }

/-- A primality corpus file with three test groups. -/
def primalityFile : wycheproofTestVectorsV1 Nat :=
  { Algorithm := "PrimalityTest", Schema := "primality_test_schema_v1.json", NumberOfTests := 3,
    Header := [], TestGroups := [10, 11, 12] }

/-- A `json.Unmarshal` that always succeeds and keeps the raw group. -/
def unmarshalAll (_ : wycheproofTestGroupRunner) (tg : Nat) : Option Nat := some tg

/-- A libcrypto in which every call succeeds: digests have 32 bytes,
every verification accepts (returns 1), every number is reported prime,
curves have 16-bit fields and orders, and the key agreement gives the two
bytes 1, 2. -/
def acceptingLib : Libcrypto :=
  { EVP_MD_size := fun _ => 32
    EVP_Digest := fun _ _ => (1, List.replicate 32 0)
    malloc := fun _ => true
    BN_new := true
    BN_bin2bn := fun _ => some 7
    BN_set_negative := fun bn _ => -bn
    BN_hex2bn := fun _ => some 1
    BN_is_prime_ex := fun _ => 1
    DSA_SIG_new := true
    DSA_SIG_set0 := fun _ _ => 1
    i2d_DSA_SIG := fun _ _ _ => (8, [48, 6, 2, 1, 1, 2, 1, 1])
    DSA_verify := fun _ _ _ => 1
    ECDSA_SIG_new := true
    ECDSA_SIG_set0 := fun _ _ => 1
    i2d_ECDSA_SIG := fun _ _ _ => (8, [48, 6, 2, 1, 1, 2, 1, 1])
    ECDSA_verify := fun _ _ _ => 1
    EC_GROUP_order_bits := fun _ => 16
    EVP_MD_CTX_new := true
    EVP_DigestVerifyInit := fun _ => 1
    EVP_DigestVerify := fun _ _ _ => 1
    RSA_verify := fun _ _ _ _ => 1
    EC_KEY_new_by_curve_name := fun _ n => some n
    EC_KEY_set_private_key := fun _ _ => 1
    o2i_ECPublicKey := fun key _ => some key
    d2i_EC_PUBKEY := fun _ => some 1
    EC_GROUP_get_degree := fun _ => 16
    ECDH_compute_key := fun _ _ _ => (2, [1, 2]) }

/-- A primality test case for 7, declared valid. -/
def primeCase : wycheproofTestPrimality :=
  { TCID := 1, Comment := "small prime", Value := 7, Result := "valid", Flags := [] }

/-- An ECDSA test case declared valid. -/
def ecdsaCase : wycheproofTestECDSA :=
  { TCID := 1, Comment := "signature", Msg := "313233", Sig := "3006020101020101",
    Result := "valid", Flags := [] }

/-- An RSA signature test case declared acceptable. -/
def rsaCase : wycheproofTestRSA :=
  { TCID := 2, Comment := "signature", Msg := "313233", Sig := "0102", Padding := "",
    Result := "acceptable", Flags := [] }

/-- A DSA test case declared acceptable. -/
def dsaAcceptable : wycheproofTestDSA :=
  { TCID := 3, Comment := "legacy encoding", Msg := "313233", Sig := "3006020101020101",
    Result := "acceptable", Flags := [] }

/-- An EdDSA test case declared acceptable. -/
def eddsaAcceptable : wycheproofTestEdDSA :=
  { TCID := 4, Comment := "ambiguous", Msg := "313233", Sig := "0102",
    Result := "acceptable", Flags := [] }

/-- A libcrypto like `acceptingLib` whose DSA and EdDSA verifications fail
(return 0). -/
def rejectingLib : Libcrypto :=
  { acceptingLib with
    DSA_verify := fun _ _ _ => 0
    EVP_DigestVerify := fun _ _ _ => 0 }

/-- An ECDSA test case in P1363 form with a two-byte signature, declared
invalid. -/
def shortSigCase : wycheproofTestECDSA :=
  { TCID := 5, Comment := "truncated", Msg := "313233", Sig := "0102",
    Result := "invalid", Flags := [] }

/-- An ECDH test case whose shared field has a zero byte in front. -/
def ecdhCase : wycheproofTestECDH :=
  { TCID := 6, Comment := "leading zero", Public := "3000", Private := "01",
    Shared := "000102", Result := "valid", Flags := [] }

/-- An `EVP_CIPHER_CTX` that accepts every request of `checkAesAead`, writes
nothing and reports empty outputs. -/
def acceptingCipher : LibcryptoCipher :=
  { EVP_CipherInit_ex_enc := fun _ => 1
    EVP_CIPHER_CTX_ctrl_ivlen := fun _ => 1
    EVP_CIPHER_CTX_ctrl_settag := fun _ => 1
    EVP_CipherInit_ex_key := fun _ => 1
    EVP_CipherUpdate_len := fun _ => 1
    EVP_CipherUpdate_aad := fun _ => 1
    EVP_CipherUpdate := fun _ => (1, 0, [])
    EVP_CipherFinal_ex := fun _ => (1, 0)
    EVP_CIPHER_CTX_ctrl_gettag := fun _ => (1, []) }

/-- An `EVP_CIPHER_CTX` like `acceptingCipher` that refuses to set the IV
length. -/
def ivLenRejectingCipher : LibcryptoCipher :=
  { acceptingCipher with EVP_CIPHER_CTX_ctrl_ivlen := fun _ => 0 }

/-- An AES-GCM test case declared invalid because of its tag, with a
thirteen-byte nonce. -/
def modifiedTagCase : wycheproofTestAead :=
  { TCID := 7, Comment := "Flipped bit 0 in tag", Key := "000102030405060708090a0b0c0d0e0f",
    IV := "505152535455565758595a5b5c", AAD := "", Msg := "202122", CT := "eb156d",
    Tag := "d9847dbc326a06e988c77ad3863e6083", Result := "invalid", Flags := [] }

/-- A test case declared invalid for its nonce, with the comment
`checkAesAead` knows. -/
def longNonceCase : wycheproofTestAead :=
  { modifiedTagCase with TCID := 8, Comment := "Nonce is too long" }

/-- An AES-GCM test case with every variable-length field empty, the tag
included, declared valid. -/
def emptyTagCase : wycheproofTestAead :=
  { TCID := 9, Comment := "empty tag", Key := "000102030405060708090a0b0c0d0e0f",
    IV := "505152535455565758595a5b", AAD := "", Msg := "", CT := "", Tag := "",
    Result := "valid", Flags := [] }

/-- An AEAD implementation with tags of the length asked for, all zero, and
the identity as cipher: sealing gives the message followed by `tagLen` zero
bytes, opening takes the zero tag off again and rejects everything else. -/
def zeroTagAead : LibcryptoAead :=
  { EVP_AEAD_CTX_new := true
    EVP_AEAD_CTX_init := fun _ _ _ => 1
    EVP_AEAD_CTX_open := fun ctx _ _ input _ =>
      if ctx.tagLen ≤ input.length ∧
          input.drop (input.length - ctx.tagLen) = List.replicate ctx.tagLen 0 then
        (1, input.take (input.length - ctx.tagLen))
      else
        (0, [])
    EVP_AEAD_CTX_seal := fun ctx _ _ input _ => (1, input ++ List.replicate ctx.tagLen 0) }

/-- The ChaCha20-Poly1305 test case with the fields of `emptyTagCase` and a
32-byte key. -/
def emptyTagChaChaCase : wycheproofTestAead :=
  { emptyTagCase with
    Key := "000102030405060708090a0b0c0d0e0f101112131415161718191a1b1c1d1e1f" }

/-- An HKDF in which every call succeeds and the derivation writes `outLen`
bytes 170. -/
def constantHkdf : LibcryptoHkdf :=
  { EVP_PKEY_CTX_new_id := true
    EVP_PKEY_derive_init := 1
    EVP_PKEY_CTX_set_hkdf_md := fun _ => 1
    EVP_PKEY_CTX_set1_hkdf_salt := fun _ => 1
    EVP_PKEY_CTX_set1_hkdf_key := fun _ => 1
    EVP_PKEY_CTX_add1_hkdf_info := fun _ => 1
    EVP_PKEY_derive := fun _ _ _ _ outLen => (1, List.replicate outLen 170, outLen) }

/-- An HKDF test case declared valid, with four bytes of expected output. -/
def hkdfCase : wycheproofTestHkdf :=
  { TCID := 1, Comment := "RFC 5869 inputs", Ikm := "0b0b0b0b0b0b0b0b0b0b0b0b0b0b0b0b0b0b0b0b0b0b",
    Salt := "000102030405060708090a0b0c", Info := "f0f1f2f3f4f5f6f7f8f9", Size := 4,
    Okm := "3cb25f25", Result := "valid", Flags := [] }

/-- An HMAC whose value is always a zero byte followed by 31 bytes 7. -/
def constantHmac : LibcryptoHmac :=
  { HMAC := fun _ _ _ => some (0 :: List.replicate 31 7) }

/-- An HMAC test case declared valid whose expected tag is the empty
string. -/
def hmacEmptyTagCase : wycheproofTestHmac :=
  { TCID := 1, Comment := "empty tag", Key := "0102030405060708090a0b0c0d0e0f1011121314151617",
    Msg := "4869205468657265", Tag := "", Result := "valid", Flags := [] }

/-- An HMAC test group with tag size 0 and the case `hmacEmptyTagCase`. -/
def hmacEmptyTagGroup : wycheproofTestGroupHmac :=
  { KeySize := 184, TagSize := 0, Type_ := "MacTest", Tests := [hmacEmptyTagCase] }

/-- An RSA of eight bytes whose decryption always succeeds: without padding
it gives eight bytes, with PKCS #1 padding the byte 65, and the OAEP padding
check gives the byte 65. -/
def decryptingRsa : LibcryptoRsaes :=
  { RSA_size := fun _ => 8
    RSA_private_decrypt := fun _ _ padding =>
      if padding = RSA_NO_PADDING then (8, [0, 1, 2, 3, 4, 5, 6, 7]) else (1, [65])
    RSA_padding_check_PKCS1_OAEP_mgf1 := fun _ _ _ _ _ => (1, [65]) }

/-- An RSA encryption test case declared invalid, with the message `A`. -/
def rsaesInvalidCase : wycheproofTestRsaes :=
  { TCID := 1, Comment := "modified ciphertext", Msg := "41", CT := "0badc0de0badc0de",
    Label := "", Result := "invalid", Flags := [] }

/-- An ML-KEM whose parser accepts (returns 1 for) every non-empty key and
rejects the empty one. -/
def nonEmptyMLKEM : LibcryptoMLKEM :=
  { MLKEM_public_key_new := fun _ => true
    MLKEM_parse_public_key := fun _ key => if key = [] then 0 else 1 }

/-- An ML-KEM encapsulation test case declared invalid, with an
encapsulation key of two bytes and no ciphertext. -/
def mlkemEncapsCase : wycheproofTestMLKEM :=
  { TCID := 1, Comment := "short ek", Seed := "", Ek := "aabb", M := "00", C := "", K := "",
    Result := "invalid", Flags := [] }

/-- An X25519 that always succeeds and writes the bytes 1 to 32. -/
def countingX25519 : LibcryptoX25519 :=
  { X25519 := fun _ _ => (1, List.range' 1 32) }

/-- An X25519 test case declared acceptable whose expected shared secret is
all zero. -/
def x25519AcceptableCase : wycheproofTestX25519 :=
  { TCID := 1, Comment := "public key on twist", Curve := "curve25519",
    Public := "0000000000000000000000000000000000000000000000000000000000000000",
    Private := "0101010101010101010101010101010101010101010101010101010101010101",
    Shared := "0000000000000000000000000000000000000000000000000000000000000000",
    Result := "acceptable", Flags := ["Twist"] }

/-- An Ed25519 of libcrypto that accepts every signature. -/
def acceptingEd25519 : LibcryptoEd25519 :=
  { EVP_PKEY_new_raw_public_key := fun _ => some 1
    EVP_MD_CTX_new := true
    EVP_DigestVerifyInit := fun _ => 1
    EVP_DigestVerify := fun _ _ _ => 1 }

/-- A reference verification that accepts every signature. -/
def acceptingVerify : List Nat → List Nat → List Nat → Bool := fun _ _ _ => true

/-- A CCTV vector with the flags `low_order_R` and `non_canonical_R`. -/
def nonCanonicalVector : ed25519Vector :=
  { Number := 1,
    PublicKey := "0101010101010101010101010101010101010101010101010101010101010101",
    Signature := "0202", Message := "ed25519vectors", Flags := 65 }

/-- A primality test case for 8, declared invalid. -/
def compositeCase : wycheproofTestPrimality :=
  { TCID := 2, Comment := "small composite", Value := 8, Result := "invalid", Flags := [] }

/-- A primality test group of two cases; with `acceptingLib` the first one
fails and the second one passes. -/
def primalityGroup : wycheproofTestGroupPrimality :=
  { Type_ := "PrimalityTest", Tests := [compositeCase, primeCase] }

/-- A libcrypto that builds every DSA key asked for. -/
def acceptingDSAKey : LibcryptoDSAKey :=
  { DSA_new := 1
    DSA_set0_pqg := fun _ _ _ _ => 1
    DSA_set0_key := fun _ _ => 1
    d2i_DSA_PUBKEY := fun _ => 2
    BIO_new_mem_buf := fun _ => true
    PEM_read_bio_DSA_PUBKEY := fun _ => 3 }

/-- A DSA test case declared valid. -/
def dsaValid : wycheproofTestDSA :=
  { TCID := 4, Comment := "signature", Msg := "313233", Sig := "3006020101020101",
    Result := "valid", Flags := [] }

/-- A DSA test group of two cases; with `acceptingLib` the first one fails
and the second one passes. -/
def dsaGroup : wycheproofTestGroupDSA :=
  { Key := { G := "02", KeySize := 16, P := "0b", Q := "05", Type_ := "DSAPublicKey", Y := "04" },
    KeyDER := "3000", KeyPEM := "-----BEGIN PUBLIC KEY-----", SHA := "SHA-256",
    Type_ := "DsaVerify", Tests := [dsaAcceptable, dsaValid] }

/-- A CBC cipher whose decryption fails in `EVP_CipherUpdate` and whose
encryption of any input is the byte 187. -/
def encryptOnlyCbc : LibcryptoCbc :=
  { EVP_CipherInit_ex := fun _ => 1
    EVP_CipherUpdate := fun ops => if ops.doEncrypt = 1 then (1, 1, [187]) else (0, 0, [])
    EVP_CipherFinal_ex := fun _ => (1, 0, []) }

/-- An AES-CBC-PKCS5 test case declared valid. -/
def cbcCase : wycheproofTestAesCbcPkcs5 :=
  { TCID := 1, Comment := "one byte", Key := "000102030405060708090a0b0c0d0e0f",
    IV := "101112131415161718191a1b1c1d1e1f", Msg := "aa", CT := "bb", Result := "valid",
    Flags := [] }

/-- A key wrap that checks the lengths of its input (a multiple of 8 bytes,
at least 16 to wrap and 24 to unwrap, else the return value -1) and the key
size; wrapping puts eight bytes 166 in front, unwrapping reports an
integrity failure (0) unless the input starts with eight bytes 166. -/
def lengthCheckingWrap : LibcryptoAesWrap :=
  { AES_set_encrypt_key := fun _ bits => if bits = 128 ∨ bits = 192 ∨ bits = 256 then 0 else -2
    AES_set_decrypt_key := fun _ bits => if bits = 128 ∨ bits = 192 ∨ bits = 256 then 0 else -2
    AES_wrap_key := fun _ _ input =>
      if input.length % 8 ≠ 0 ∨ input.length < 16 then (-1, [])
      else ((input.length : Int) + 8, List.replicate 8 166 ++ input)
    AES_unwrap_key := fun _ _ input =>
      if input.length % 8 ≠ 0 ∨ input.length < 24 then (-1, [])
      else if input.take 8 = List.replicate 8 166 then
        ((input.length : Int) - 8, input.drop 8)
      else (0, List.replicate (input.length - 8) 0) }

/-- A key wrap test case declared invalid whose ciphertext has seven
bytes. -/
def kwShortCase : wycheproofTestKW :=
  { TCID := 1, Comment := "wrapped key is too short", Key := "000102030405060708090a0b0c0d0e0f",
    Msg := "", CT := "00112233445566", Result := "invalid", Flags := [] }

/-- A key wrap like `lengthCheckingWrap` that cannot wrap. -/
def unwrapOnlyWrap : LibcryptoAesWrap :=
  { lengthCheckingWrap with AES_wrap_key := fun _ _ _ => (-1, []) }

/-- A key wrap test case declared valid, with a message of 16 bytes. -/
def kwCase : wycheproofTestKW :=
  { TCID := 2, Comment := "wrapped key", Key := "000102030405060708090a0b0c0d0e0f",
    Msg := "00112233445566778899aabbccddeeff",
    CT := "a6a6a6a6a6a6a6a600112233445566778899aabbccddeeff", Result := "valid", Flags := [] }

/-- An AEAD like `zeroTagAead` that cannot open. -/
def sealOnlyAead : LibcryptoAead :=
  { zeroTagAead with EVP_AEAD_CTX_open := fun _ _ _ _ _ => (0, []) }

/-- A ChaCha20-Poly1305 test case declared valid, with a tag of one zero
byte. -/
def chachaCase : wycheproofTestAead :=
  { TCID := 3, Comment := "one byte",
    Key := "000102030405060708090a0b0c0d0e0f101112131415161718191a1b1c1d1e1f",
    IV := "505152535455565758595a5b", AAD := "", Msg := "aa", CT := "aa", Tag := "00",
    Result := "valid", Flags := [] }

/-- A PBKDF2 that always reports an error. -/
def failingPbkdf : LibcryptoPbkdf :=
  { PKCS5_PBKDF2_HMAC := fun _ _ _ _ _ => (0, []) }

/-- A PBKDF2 that always succeeds and derives bytes 170. -/
def constantPbkdf : LibcryptoPbkdf :=
  { PKCS5_PBKDF2_HMAC := fun _ _ _ _ keylen => (1, List.replicate keylen.toNat 170) }

/-- A PBKDF2 test case declared invalid. -/
def pbkdfInvalidCase : wycheproofTestPbkdf :=
  { TCID := 1, Comment := "iteration count 0", Flags := [], Password := "70617373776f7264",
    Salt := "73616c74", IterationCount := 0, DkLen := 2, Dk := "0c60", Result := "invalid" }

/-- A PBKDF2 test case declared valid whose expected key is two bytes 170. -/
def pbkdfValidCase : wycheproofTestPbkdf :=
  { TCID := 2, Comment := "two bytes", Flags := [], Password := "70617373776f7264",
    Salt := "73616c74", IterationCount := 1, DkLen := 2, Dk := "aaaa", Result := "valid" }

/-- An HMAC-SHA3-256 corpus file. -/
def hmacSha3File : wycheproofTestVectorsV1 Nat :=
  { Algorithm := "HMACSHA3-256", Schema := "mac_test_schema_v1.json", NumberOfTests := 1,
    Header := [], TestGroups := [0] }

/-- An HKDF-SHA-512 corpus file. -/
def hkdfFile : wycheproofTestVectorsV1 Nat :=
  { Algorithm := "HKDF-SHA-512", Schema := "hkdf_test_schema_v1.json", NumberOfTests := 1,
    Header := [], TestGroups := [0] }

/-- A PBKDF2-HMACSHA224 corpus file. -/
def pbkdfFile : wycheproofTestVectorsV1 Nat :=
  { Algorithm := "PBKDF2-HMACSHA224", Schema := "pbkdf_test_schema_v1.json", NumberOfTests := 1,
    Header := [], TestGroups := [0] }

/-- A cipher context that can be made. -/
def acceptingCipherCtx : LibcryptoCipherCtx :=
  { EVP_CIPHER_CTX_new := true
    EVP_CipherInit_ex_cipher := fun _ => 1 }

/-- An AES-GCM test group with 192-bit keys and no test case. -/
def gcm192Group : wycheproofTestGroupAead :=
  { IVSize := 96, KeySize := 192, TagSize := 128, Type_ := "AeadTest", Tests := [] }

/-- An AES-CCM test group with 512-bit keys, which no cipher has. -/
def ccm512Group : wycheproofTestGroupAead :=
  { IVSize := 96, KeySize := 512, TagSize := 128, Type_ := "AeadTest", Tests := [emptyTagCase] }

/-- A `tls.h` with one bit per protocol version and all of them in
`TLS_PROTOCOLS_ALL`. -/
def bitwiseTlsHeader : TlsHeader :=
  { TLS_PROTOCOL_TLSv1_0 := 2, TLS_PROTOCOL_TLSv1_1 := 4, TLS_PROTOCOL_TLSv1_2 := 8,
    TLS_PROTOCOL_TLSv1_3 := 16, TLS_PROTOCOLS_ALL := 30 }

/-- An `objects.h` that numbers the constants from 1 to 39, in the order of
the structure. -/
def numberedObjectsHeader : ObjectsHeader :=
  { NID_brainpoolP224r1 := 1, NID_brainpoolP256r1 := 2, NID_brainpoolP320r1 := 3,
    NID_brainpoolP384r1 := 4, NID_brainpoolP512r1 := 5, NID_brainpoolP224t1 := 6,
    NID_brainpoolP256t1 := 7, NID_brainpoolP320t1 := 8, NID_brainpoolP384t1 := 9,
    NID_brainpoolP512t1 := 10, NID_FRP256v1 := 11, NID_secp160k1 := 12, NID_secp160r1 := 13,
    NID_secp160r2 := 14, NID_secp192k1 := 15, NID_X9_62_prime192v1 := 16, NID_secp224k1 := 17,
    NID_secp224r1 := 18, NID_secp256k1 := 19, NID_X9_62_prime256v1 := 20, NID_sect283k1 := 21,
    NID_sect283r1 := 22, NID_secp384r1 := 23, NID_sect409k1 := 24, NID_sect409r1 := 25,
    NID_secp521r1 := 26, NID_sect571k1 := 27, NID_sect571r1 := 28, NID_sha1 := 29,
    NID_sha224 := 30, NID_sha256 := 31, NID_sha384 := 32, NID_sha512 := 33, NID_sha512_224 := 34,
    NID_sha512_256 := 35, NID_sha3_224 := 36, NID_sha3_256 := 37, NID_sha3_384 := 38,
    NID_sha3_512 := 39 }

/-- An ECDSA test case. -/
def shakeEcdsaCase : wycheproofTestECDSA :=
  { TCID := 1, Comment := "", Msg := "", Sig := "", Result := "valid", Flags := [] }

/-- An EC public key whose curve name is not in `nids`. -/
def unknownCurveKey : wycheproofECDSAKey :=
  { Curve := "curve448", KeySize := 448, Type_ := "EcPublicKey", Uncompressed := "",
    WX := "01", WY := "02" }

/-- An EC public key on `secp256r1`. -/
def p256Key : wycheproofECDSAKey :=
  { Curve := "secp256r1", KeySize := 256, Type_ := "EcPublicKey", Uncompressed := "",
    WX := "01", WY := "02" }

/-- An ECDSA group over SHAKE128 whose curve name is not in `nids`. -/
def shakeUnknownCurveGroup : wycheproofTestGroupECDSA :=
  { Key := some unknownCurveKey, KeyDER := "", KeyPEM := "", SHA := "SHAKE128",
    Type_ := "EcdsaVerify", Tests := [shakeEcdsaCase] }

/-- An ECDSA group over SHAKE256 on `secp256r1`. -/
def shakeP256Group : wycheproofTestGroupECDSA :=
  { Key := some p256Key, KeyDER := "", KeyPEM := "", SHA := "SHAKE256",
    Type_ := "EcdsaVerify", Tests := [shakeEcdsaCase] }

/-- A library that sets every EC public key. -/
def acceptingECKey : LibcryptoECKey :=
  { EC_KEY_set_public_key_affine_coordinates := fun _ _ _ => 1 }

/-- A library that allocates the RSA key 1 and sets every key. -/
def acceptingRsaKey : LibcryptoRsaKey :=
  { RSA_new := 1, RSA_set0_key := fun _ _ _ _ => 1 }

/-- A library whose keys have 256 bytes and that accepts every signature. -/
def acceptingRsassa : LibcryptoRsassa :=
  { RSA_size := fun _ => 256,
    RSA_public_decrypt := fun sig _ _ => (256, sig),
    RSA_verify_PKCS1_PSS_mgf1 := fun _ _ _ _ _ _ => 1 }

/-- An RSA public key. -/
def smallRsaPublicKey : wycheproofRSAPublicKey :=
  { Modulus := "0a", PublicExponent := "03" }

/-- An RSASSA-PSS test case. -/
def shakeRsassaCase : wycheproofTestRsassa :=
  { TCID := 1, Comment := "", Msg := "", Sig := "00", Result := "valid", Flags := [] }

/-- An RSASSA-PSS group over SHAKE128, with a public key and one case. -/
def shakeRsassaGroup : wycheproofTestGroupRsassa :=
  { PrivateKey := none, PublicKey := some smallRsaPublicKey, KeyASN := "", KeyDER := "",
    KeyPEM := "", KeySize := 2048, MGF := "SHAKE128", MGFSHA := "", SLen := 32,
    SHA := "SHAKE128", Type_ := "RsassaPssVerify", Tests := [shakeRsassaCase] }

/-- An RSAES test case. -/
def shakeRsaesCase : wycheproofTestRsaes :=
  { TCID := 1, Comment := "", Msg := "", CT := "00", Label := "", Result := "valid",
    Flags := [] }

/-- An RSAES-OAEP group over SHAKE256, with no private key and one case. -/
def shakeRsaesOaepGroup : wycheproofTestGroupRsaesOaep :=
  { Type_ := "RsaesOaepDecrypt", KeySize := 2048, SHA := "SHAKE256", MGF := "MGF1",
    MGFSHA := "SHA-1", PrivateKey := none, PrivateKeyPem := "", PrivateKeyPkcs8 := "",
    Tests := [shakeRsaesCase] }

/-- An AES-GCM test case declared valid, with a sixteen-byte nonce and every
other variable-length field empty, the tag included. -/
def emptyTagLongNonceCase : wycheproofTestAead :=
  { TCID := 10, Comment := "Very long nonce", Key := "000102030405060708090a0b0c0d0e0f",
    IV := "505152535455565758595a5b5c5d5e5f", AAD := "", Msg := "", CT := "", Tag := "",
    Result := "valid", Flags := [] }

/-- A cipher context for CBC that can be made and set up. -/
def acceptingCbcCtx : LibcryptoCbcCtx :=
  { EVP_CIPHER_CTX_new := true
    EVP_CipherInit_ex_cipher := fun _ => 1 }

/-- An AES-CBC-PKCS5 test group with 128-bit keys and the case `cbcCase`. -/
def cbcGroup : wycheproofTestGroupAesCbcPkcs5 :=
  { IVSize := 128, KeySize := 128, Type_ := "IndCpaTest", Tests := [cbcCase] }

/-- An AES-GCM test group with 128-bit keys and the case `modifiedTagCase`. -/
def gcm128Group : wycheproofTestGroupAead :=
  { IVSize := 104, KeySize := 128, TagSize := 128, Type_ := "AeadTest",
    Tests := [modifiedTagCase] }

/-- A CMAC whose tag is always sixteen bytes 7. -/
def constantCmac : LibcryptoCmac :=
  { EVP_MD_CTX_new := true
    EVP_PKEY_new_CMAC_key := fun _ _ => some 1
    EVP_DigestSignInit := fun _ => 1
    EVP_DigestSign := fun _ _ => (1, List.replicate 16 7) }

/-- An AES-CMAC test case declared valid, with a tag of two bytes 7. -/
def cmacCase : wycheproofTestAesCmac :=
  { TCID := 1, Comment := "truncated tag", Key := "000102030405060708090a0b0c0d0e0f",
    Msg := "aa", Tag := "0707", Result := "valid", Flags := [] }

/-- An AES-CMAC test case declared valid with a tag the CMAC does not give. -/
def cmacWrongCase : wycheproofTestAesCmac :=
  { cmacCase with TCID := 2, Comment := "other tag", Tag := "0808" }

/-- An AES-CMAC test group with 128-bit keys whose first case fails and whose
second case passes with `constantCmac`. -/
def cmacGroup : wycheproofTestGroupAesCmac :=
  { KeySize := 128, TagSize := 16, Type_ := "MacTest", Tests := [cmacWrongCase, cmacCase] }

/-- A ChaCha20-Poly1305 through `EVP_CIPHER_CTX` in which every call
succeeds: the cipher is the identity, the tag is all zero, and
`EVP_DecryptFinal_ex` accepts every tag. -/
def acceptingEvpChaCha : LibcryptoEvpChaCha :=
  { EVP_CIPHER_CTX_new := true
    EVP_EncryptInit_ex_cipher := fun _ => 1
    EVP_CIPHER_CTX_ctrl_ivlen_enc := fun _ => 1
    EVP_EncryptInit_ex_key := fun _ => 1
    EVP_EncryptInit_ex_iv := fun _ => 1
    EVP_EncryptUpdate_aad := fun _ => 1
    EVP_EncryptUpdate := fun ops => (1, ops.msg.length, ops.msg)
    EVP_EncryptFinal_ex := fun _ => (1, 0, [])
    EVP_CIPHER_CTX_ctrl_gettag := fun ops => (1, List.replicate ops.tag.length 0)
    EVP_DecryptInit_ex_cipher := fun _ => 1
    EVP_DecryptInit_ex_key := fun _ => 1
    EVP_CIPHER_CTX_ctrl_ivlen_dec := fun _ => 1
    EVP_DecryptInit_ex_iv := fun _ => 1
    EVP_CIPHER_CTX_ctrl_settag := fun _ => 1
    EVP_DecryptUpdate_aad := fun _ => 1
    EVP_DecryptUpdate := fun ops => (1, ops.ct.length, ops.ct)
    EVP_DecryptFinal_ex := fun _ => (1, 0, []) }

/-- A ChaCha20-Poly1305 test case declared invalid: `chachaCase` with the
tag changed. -/
def chachaForgedCase : wycheproofTestAead :=
  { chachaCase with TCID := 4, Comment := "modified tag", Tag := "01", Result := "invalid" }

/-- A ChaCha20-Poly1305 test case declared valid whose ciphertext is not the
one the identity cipher gives. -/
def chachaWrongCtCase : wycheproofTestAead :=
  { chachaCase with TCID := 5, Comment := "other ciphertext", CT := "bb" }

/-- A ChaCha20-Poly1305 test group whose first case has a forged tag. -/
def chachaForgedGroup : wycheproofTestGroupAead :=
  { IVSize := 96, KeySize := 256, TagSize := 8, Type_ := "AeadTest",
    Tests := [chachaForgedCase, chachaCase] }

/-- A ChaCha20-Poly1305 test group whose first case fails and whose second
case passes with `zeroTagAead` and `acceptingEvpChaCha`. -/
def chachaGroup : wycheproofTestGroupAead :=
  { IVSize := 96, KeySize := 256, TagSize := 8, Type_ := "AeadTest",
    Tests := [chachaWrongCtCase, chachaCase] }

/-- An ECDH test group on `secp256r1` with the case `ecdhCase`. -/
def ecdhGroup : wycheproofTestGroupECDH :=
  { Curve := "secp256r1", Encoding := "asn", Type_ := "EcdhTest", Tests := [ecdhCase] }

/-- A libcrypto for the WebCrypto key agreement in which every call
succeeds: fields have 16 bits and the shared secret is the two bytes 1, 2.
The base64 decoder is the one of Go on the three strings used here. -/
def acceptingWebCrypto : LibcryptoECDHWebCrypto :=
  { base64RawURLDecodeString := fun s =>
      if s = "AQ" then some [1] else if s = "Ag" then some [2] else if s = "Aw" then some [3]
      else none
    EC_KEY_new_by_curve_name := fun _ n => some n
    BN_bin2bn := fun _ => some 7
    EC_KEY_set_private_key := fun _ _ => 1
    EC_KEY_set_public_key_affine_coordinates := fun _ _ _ => 1
    EC_GROUP_get_degree := fun _ => 16
    ECDH_compute_key := fun _ _ _ _ _ _ => (2, [1, 2]) }

/-- A public key in JWK form. -/
def jwkPublic : wycheproofJWKPublic :=
  { Crv := "P-256", KID := "none", KTY := "EC", X := "AQ", Y := "Ag" }

/-- A private key in JWK form. -/
def jwkPrivate : wycheproofJWKPrivate :=
  { Crv := "P-256", D := "Aw", KID := "none", KTY := "EC", X := "AQ", Y := "Ag" }

/-- An ECDH WebCrypto test case declared valid. -/
def webCryptoCase : wycheproofTestECDHWebCrypto :=
  { TCID := 1, Comment := "normal case", Public := some jwkPublic, Private := some jwkPrivate,
    Shared := "0102", Result := "valid", Flags := [] }

/-- An ECDH WebCrypto test case declared valid with another shared secret. -/
def webCryptoWrongCase : wycheproofTestECDHWebCrypto :=
  { webCryptoCase with TCID := 2, Comment := "other secret", Shared := "0103" }

/-- An ECDH WebCrypto test group on `P-256` whose first case fails and whose
second case passes with `acceptingWebCrypto`. -/
def webCryptoGroup : wycheproofTestGroupECDHWebCrypto :=
  { Curve := "P-256", Encoding := "webcrypto", Type_ := "EcdhWebcryptoTest",
    Tests := [webCryptoWrongCase, webCryptoCase] }

/-- An ECDSA test group on `secp256r1` over SHA-256 whose first case fails
and whose second case passes with `acceptingLib`. -/
def ecdsaGroup : wycheproofTestGroupECDSA :=
  { Key := some p256Key, KeyDER := "", KeyPEM := "", SHA := "SHA-256",
    Type_ := "EcdsaVerify", Tests := [shortSigCase, ecdsaCase] }

/-- A libcrypto that knows every OID as the curve 415, has a builtin group
for it, and finds every group equal to it. -/
def acceptingEcCurve : LibcryptoEcCurve :=
  { OBJ_txt2nid := fun _ => some 415
    EC_GROUP_new_by_curve_name := fun _ => some 1
    EC_GROUP_new_curve_GFp := fun _ _ _ => some 2
    EC_POINT_new := fun _ => some 3
    EC_POINT_set_affine_coordinates := fun _ _ _ _ => 1
    EC_GROUP_set_generator := fun _ _ _ _ _ => 1
    EC_GROUP_cmp := fun _ _ _ _ _ => 0 }

/-- An EC curve test case with small parameters. -/
def curveCase : wycheproofTestEcCurve :=
  { TCID := 1, Comment := "", Flags := [], Name := "secp256r1", OID := "1.2.840.10045.3.1.7",
    Ref := "ANSI X9.62", P := 11, N := 7, A := 1, B := 6, Gx := 2, Gy := 4, H := 1,
    Result := "valid" }

/-- An EC curve test group with the case `curveCase`. -/
def curveGroup : wycheproofTestGroupEcCurve :=
  { Type_ := "EcCurveTest", Tests := [curveCase] }

/-- A libcrypto that makes the key 1 of every raw public key. -/
def acceptingEdDSAKey : LibcryptoEdDSAKey :=
  { EVP_PKEY_new_raw_public_key := fun _ => some 1 }

/-- An Ed25519 public key of two bytes. -/
def ed25519Key : wycheproofEdDSAKey :=
  { Curve := "edwards25519", KeySize := 255, Pk := "aabb", Sk := "", Type_ := "EDDSAPublicKey" }

/-- An EdDSA test group with the case `eddsaAcceptable`. -/
def eddsaGroup : wycheproofTestGroupEdDSA :=
  { Key := some ed25519Key, KeyDer := "", KeyPem := "", Type_ := "EddsaVerify",
    Tests := [eddsaAcceptable] }

/-- An HKDF test group with the case `hkdfCase`. -/
def hkdfGroup : wycheproofTestGroupHkdf :=
  { Type_ := "HkdfTest", KeySize := 176, Tests := [hkdfCase] }

/-- A key wrap test group with 128-bit keys and the case `kwCase`. -/
def kwGroup : wycheproofTestGroupKW :=
  { KeySize := 128, Type_ := "KeywrapTest", Tests := [kwCase] }

/-- The ranks 3 and 4 for ML-KEM-768 and ML-KEM-1024. -/
def mlkemRanks : MlkemHeader :=
  { RANK768 := 3, RANK1024 := 4 }

/-- An ML-KEM in which every call succeeds; the encapsulation key is the
seed and the shared secret is the ciphertext. -/
def acceptingMLKEMDecap : LibcryptoMLKEMDecap :=
  { MLKEM_private_key_new := fun _ => true
    MLKEM_public_key_new := fun _ => true
    MLKEM_private_key_from_seed := fun _ _ => 1
    MLKEM_public_from_private := fun _ _ => 1
    MLKEM_marshal_public_key := fun _ seed => (1, seed)
    MLKEM_decap := fun _ _ c => (1, c) }

/-- An ML-KEM-768 encapsulation test group with the case `mlkemEncapsCase`. -/
def mlkemEncapsGroup : wycheproofTestGroupMLKEM :=
  { Type_ := "MLKEMEncapsTest", ParameterSet := "ML-KEM-768", Tests := [mlkemEncapsCase] }

/-- A PBKDF2 test group whose first case fails and whose second case passes
with `constantPbkdf`. -/
def pbkdfGroup : wycheproofTestGroupPbkdf2HmacSha :=
  { Type_ := "PbkdfTest", Tests := [pbkdfInvalidCase, pbkdfValidCase] }

/-- An RSA private key. -/
def smallRsaPrivateKey : wycheproofRSAPrivateKey :=
  { Modulus := "0a", PrivateExponent := "07", PublicExponent := "03", Prime1 := "02",
    Prime2 := "05", Exponent1 := "01", Exponent2 := "03", Coefficient := "01" }

/-- An RSAES-OAEP test group over SHA-1 with the case `rsaesInvalidCase`. -/
def rsaesOaepGroup : wycheproofTestGroupRsaesOaep :=
  { Type_ := "RsaesOaepDecrypt", KeySize := 64, SHA := "SHA-1", MGF := "MGF1",
    MGFSHA := "SHA-1", PrivateKey := some smallRsaPrivateKey, PrivateKeyPem := "",
    PrivateKeyPkcs8 := "", Tests := [rsaesInvalidCase] }

/-- An RSAES-PKCS1 test group with the case `rsaesInvalidCase`. -/
def rsaesPkcs1Group : wycheproofTestGroupRsaesPkcs1 :=
  { Type_ := "RsaesPkcs1Decrypt", PrivateKey := some smallRsaPrivateKey, PrivateKeyPem := "",
    PrivateKeyPkcs8 := "", KeySize := 64, Tests := [rsaesInvalidCase] }

/-- An RSASSA-PSS test group over SHA-256 with a public key and one case. -/
def rsassaGroup : wycheproofTestGroupRsassa :=
  { PrivateKey := none, PublicKey := some smallRsaPublicKey, KeyASN := "", KeyDER := "",
    KeyPEM := "", KeySize := 96, MGF := "MGF1", MGFSHA := "SHA-256", SLen := 32,
    SHA := "SHA-256", Type_ := "RsassaPssVerify", Tests := [shakeRsassaCase] }

/-- An RSA signature test group over SHA-256 with a private key only and the
case `rsaCase`. -/
def rsaGroup : wycheproofTestGroupRSA :=
  { PrivateKey := some smallRsaPrivateKey, PublicKey := none, KeyASN := "", KeyDER := "",
    KeyPEM := "", KeySize := 64, SHA := "SHA-256", Type_ := "RsassaPkcs1Verify",
    Tests := [rsaCase] }

/-- An X25519 test group with the case `x25519AcceptableCase`. -/
def x25519Group : wycheproofTestGroupX25519 :=
  { Curve := "curve25519", Tests := [x25519AcceptableCase] }

/-- A library whose keys have twelve bytes and that accepts every signature. -/
def smallRsassa : LibcryptoRsassa :=
  { RSA_size := fun _ => 12,
    RSA_public_decrypt := fun sig _ _ => (12, sig),
    RSA_verify_PKCS1_PSS_mgf1 := fun _ _ _ _ _ _ => 1 }

/-! # Theorems -/

/-! ## The `Run` monad -/

section RunLemmas

variable {ε α β : Type}

@[simp]
theorem Run.pure_out (a : α) : (pure a : Run ε α).out = Outcome.returned a := rfl

@[simp]
theorem Run.pure_trace (a : α) : (pure a : Run ε α).trace = [] := rfl

@[simp]
theorem Run.fatal_out (msg : String) :
    (Run.fatal msg : Run ε α).out = Outcome.fatal msg := rfl

@[simp]
theorem Run.fatal_trace (msg : String) : (Run.fatal msg : Run ε α).trace = [] := rfl

@[simp]
theorem Run.block_out : (Run.block : Run ε α).out = Outcome.blocked := rfl

@[simp]
theorem Run.block_trace : (Run.block : Run ε α).trace = [] := rfl

@[simp]
theorem Run.emit_out (e : ε) : (Run.emit e).out = Outcome.returned () := rfl

@[simp]
theorem Run.emit_trace (e : ε) : (Run.emit e).trace = [e] := rfl

@[simp]
theorem Run.call_out (fn : String) (a : α) :
    (Run.call fn a).out = Outcome.returned a := rfl

@[simp]
theorem Run.call_trace (fn : String) (a : α) : (Run.call fn a).trace = [fn] := rfl

theorem Run.bind_def (m : Run ε α) (f : α → Run ε β) : m >>= f = Run.andThen m f := rfl

/-- A bind whose first part returned continues with the second part. -/
theorem Run.bind_returned {m : Run ε α} {a : α} (f : α → Run ε β)
    (h : m.out = Outcome.returned a) :
    (m >>= f).out = (f a).out ∧ (m >>= f).trace = m.trace ++ (f a).trace := by
  simp [Run.bind_def, Run.andThen, h]

/-- A bind whose first part was fatal is fatal, with the trace so far. -/
theorem Run.bind_fatal {m : Run ε α} {msg : String} (f : α → Run ε β)
    (h : m.out = Outcome.fatal msg) :
    (m >>= f).out = Outcome.fatal msg ∧ (m >>= f).trace = m.trace := by
  simp [Run.bind_def, Run.andThen, h]

/-- A bind whose first part blocked is blocked, with the trace so far. -/
theorem Run.bind_blocked {m : Run ε α} (f : α → Run ε β)
    (h : m.out = Outcome.blocked) :
    (m >>= f).out = Outcome.blocked ∧ (m >>= f).trace = m.trace := by
  simp [Run.bind_def, Run.andThen, h]

theorem Run.ext_iff_fields (m n : Run ε α) : m = n ↔ m.out = n.out ∧ m.trace = n.trace := by
  cases m; cases n; simp

end RunLemmas

/-! ## The corpus driver -/

/-- The first loop returns `true` at once when the registry says `Skip` and
there is a test group. -/
theorem runTestVectors.submit_skip {Raw G : Type}
    (Unmarshal : wycheproofTestGroupRunner → Raw → Option G)
    (wtv : wycheproofTestVectorsV1 Raw) (tg : Raw) (rest : List Raw)
    (h : (testGroupFromTestVector wtv).2 = testVariant.Skip) :
    runTestVectors.submit Unmarshal wtv (tg :: rest) = pure (some true) := by
  rw [runTestVectors.submit]
  split
  next wtg variant heq =>
    have : variant = testVariant.Skip := by rw [heq] at h; exact h
    simp [this]

/-- C1: for every corpus file for which `testGroupFromTestVector` gives the
variant `Skip`, with any number of test groups, `runTestVectors` returns
`true` and performs no operation on the coordinator: no job is submitted
(so no executor's `run` is ever invoked) and no result is received. -/
theorem runTestVectors_skip {Raw G : Type}
    (Unmarshal : wycheproofTestGroupRunner → Raw → Option G)
    (wtv : wycheproofTestVectorsV1 Raw) (resultCh : List Bool)
    (h : (testGroupFromTestVector wtv).2 = testVariant.Skip) :
    (runTestVectors Unmarshal wtv resultCh).out = Outcome.returned true ∧
      (runTestVectors Unmarshal wtv resultCh).trace = [] := by
  unfold runTestVectors
  cases hg : wtv.TestGroups with
  | nil => simp [runTestVectors.submit, runTestVectors.collect, Run.bind_def, Run.andThen]
  | cons tg rest =>
    rw [runTestVectors.submit_skip Unmarshal wtv tg rest h]
    simp [Run.bind_def, Run.andThen]

/-- The claim C1 at a skipped file with two test groups. -/
theorem runTestVectors_skip_witness :
    (testGroupFromTestVector skippedFile).2 = testVariant.Skip ∧
      (runTestVectors unmarshalAll skippedFile [true, false]).out = Outcome.returned true ∧
      (runTestVectors unmarshalAll skippedFile [true, false]).trace = [] :=
  ⟨by decide, runTestVectors_skip unmarshalAll skippedFile [true, false] (by decide)⟩

/-- An algorithm name that is no `case` label of the registry falls to the
`default` branch: no executor, and `Skip` exactly for a JOSE schema. -/
theorem testGroupFromTestVector_default {Raw : Type} (wtv : wycheproofTestVectorsV1 Raw)
    (h : wtv.Algorithm ∉ registryAlgorithms) :
    testGroupFromTestVector wtv =
      (none, if stringsHasPrefix wtv.Schema "json_web_" then testVariant.Skip
        else testVariant.Normal) := by
  simp only [registryAlgorithms, List.mem_cons, List.mem_singleton, not_or, List.not_mem_nil,
    or_false] at h
  simp only [testGroupFromTestVector, List.mem_cons, List.mem_singleton, List.not_mem_nil,
    or_false]
  simp only [h, or_self, if_false]
  split <;> rfl

set_option maxRecDepth 100000 in
/-- Every name listed in `registryAlgorithms` is a `case` label: with it the
`switch` does not reach its `default` branch. -/
theorem registryAlgorithms_labels :
    ∀ a ∈ registryAlgorithms,
      testGroupFromTestVector
        ({ Algorithm := a, Schema := "", NumberOfTests := 0, Header := [], TestGroups := [] } :
          wycheproofTestVectorsV1 Nat) ≠ (none, testVariant.Normal) := by
  decide

/-- C2, as stated, fails: a corpus file whose algorithm the registry does not
know (and whose schema is no JOSE schema) but which has no test group makes
`runTestVectors` return `true`, since the lookup is inside the loop over the
test groups. -/
theorem runTestVectors_unknown_empty_returns :
    unknownEmptyFile.Algorithm ∉ registryAlgorithms ∧
      stringsHasPrefix unknownEmptyFile.Schema "json_web_" = false ∧
      (runTestVectors unmarshalAll unknownEmptyFile []).out = Outcome.returned true := by
  refine ⟨by decide, by decide, ?_⟩
  rfl

/-- C2, amended: for every corpus file with at least one test group whose
algorithm name is no entry of the registry and whose schema does not start
with "json_web_", `runTestVectors` ends in `log.Fatalf` (it returns no
boolean), before any job is submitted and before any result is received. -/
theorem runTestVectors_unknown_fatal {Raw G : Type}
    (Unmarshal : wycheproofTestGroupRunner → Raw → Option G)
    (wtv : wycheproofTestVectorsV1 Raw) (resultCh : List Bool)
    (halg : wtv.Algorithm ∉ registryAlgorithms)
    (hschema : stringsHasPrefix wtv.Schema "json_web_" = false)
    (hgroups : wtv.TestGroups ≠ []) :
    (runTestVectors Unmarshal wtv resultCh).out =
        Outcome.fatal "INFO: Unknown test vector algorithm" ∧
      (runTestVectors Unmarshal wtv resultCh).trace = [] ∧
      ∀ b, (runTestVectors Unmarshal wtv resultCh).out ≠ Outcome.returned b := by
  have hreg := testGroupFromTestVector_default wtv halg
  rw [hschema] at hreg
  simp only [Bool.false_eq_true, if_false] at hreg
  unfold runTestVectors
  cases hg : wtv.TestGroups with
  | nil => exact absurd hg hgroups
  | cons tg rest =>
    have hsub : runTestVectors.submit Unmarshal wtv (tg :: rest) =
        Run.fatal "INFO: Unknown test vector algorithm" := by
      rw [runTestVectors.submit, hreg]
      simp
    rw [hsub]
    simp [Run.bind_def, Run.andThen]

/-- The amended claim C2 at an unknown algorithm with one test group. -/
theorem runTestVectors_unknown_fatal_witness :
    (runTestVectors unmarshalAll unknownFile [true]).out =
        Outcome.fatal "INFO: Unknown test vector algorithm" ∧
      (runTestVectors unmarshalAll unknownFile [true]).trace = [] ∧
      ∀ b, (runTestVectors unmarshalAll unknownFile [true]).out ≠ Outcome.returned b :=
  runTestVectors_unknown_fatal unmarshalAll unknownFile [true] (by decide) (by decide)
    (by decide)

/-- The first loop, on groups that all unmarshal for a variant other than
`Skip`: it submits one job per group and leaves the loop without returning. -/
theorem runTestVectors.submit_all {Raw G : Type}
    (Unmarshal : wycheproofTestGroupRunner → Raw → Option G)
    (wtv : wycheproofTestVectorsV1 Raw)
    (hskip : (testGroupFromTestVector wtv).2 ≠ testVariant.Skip) (tgs : List Raw)
    (hok : ∀ tg ∈ tgs, ∃ wtg g,
      (testGroupFromTestVector wtv).1 = some wtg ∧ Unmarshal wtg tg = some g) :
    runTestVectors.submit Unmarshal wtv tgs =
      ⟨Outcome.returned none,
        (runTestVectors.jobs Unmarshal { wtv with TestGroups := tgs }).map Event.runTest⟩ := by
  induction tgs with
  | nil => rfl
  | cons tg rest ih =>
    obtain ⟨wtg, g, hw, hu⟩ := hok tg (List.mem_cons_self _ _)
    have ih := ih fun tg htg => hok tg (List.mem_cons_of_mem _ htg)
    rw [runTestVectors.submit]
    split
    next wtg0 variant heq =>
      have h1 : wtg0 = some wtg := by rw [heq] at hw; exact hw
      have h2 : variant ≠ testVariant.Skip := by rw [heq] at hskip; exact hskip
      subst h1
      have hj : runTestVectors.jobs Unmarshal { wtv with TestGroups := tg :: rest } =
          ⟨g, wtv.Algorithm, variant⟩ ::
            runTestVectors.jobs Unmarshal { wtv with TestGroups := rest } := by
        have e1 : testGroupFromTestVector { wtv with TestGroups := tg :: rest } =
            (some wtg, variant) := heq
        have e2 : testGroupFromTestVector { wtv with TestGroups := rest } =
            (some wtg, variant) := heq
        simp [runTestVectors.jobs, e1, e2, hu]
      simp [h2, hu, ih, hj, Run.bind_def, Run.andThen]

/-- The second loop, when the channel delivers a result for each group: it
receives exactly these results and returns their conjunction with the
incoming `success`. -/
theorem runTestVectors.collect_all {Raw G : Type} (tgs : List Raw)
    (results rest : List Bool) (success : Bool) (hlen : results.length = tgs.length) :
    (runTestVectors.collect tgs (results ++ rest) success : Run (Event G) Bool) =
      ⟨Outcome.returned (success && results.all id), results.map Event.recv⟩ := by
  induction tgs generalizing results success with
  | nil =>
    cases results with
    | nil => simp [runTestVectors.collect, Run.ext_iff_fields]
    | cons r rs => simp at hlen
  | cons tg tgs ih =>
    cases results with
    | nil => simp at hlen
    | cons r rs =>
      have hlen2 : rs.length = tgs.length := by simpa using hlen
      simp only [List.cons_append, runTestVectors.collect]
      rw [Run.bind_def, ih rs _ hlen2]
      cases r <;> cases success <;> simp [Run.andThen]

/-- C5: for every corpus file with N test groups that is not skipped and
whose groups all resolve to an executor and unmarshal (no fatal exit), when
the result channel delivers `results` (N booleans) to this goroutine,
`runTestVectors` first submits exactly N jobs, one per group, then receives
exactly these N results, and returns `true` if and only if all N received
results are `true` (so `true` when N = 0). -/
theorem runTestVectors_submits_and_collects {Raw G : Type}
    (Unmarshal : wycheproofTestGroupRunner → Raw → Option G)
    (wtv : wycheproofTestVectorsV1 Raw) (results rest : List Bool)
    (hskip : (testGroupFromTestVector wtv).2 ≠ testVariant.Skip)
    (hok : ∀ tg ∈ wtv.TestGroups, ∃ wtg g,
      (testGroupFromTestVector wtv).1 = some wtg ∧ Unmarshal wtg tg = some g)
    (hlen : results.length = wtv.TestGroups.length) :
    (runTestVectors.jobs Unmarshal wtv).length = wtv.TestGroups.length ∧
      (runTestVectors Unmarshal wtv (results ++ rest)).trace =
        (runTestVectors.jobs Unmarshal wtv).map Event.runTest ++ results.map Event.recv ∧
      ∃ b, (runTestVectors Unmarshal wtv (results ++ rest)).out = Outcome.returned b ∧
        (b = true ↔ ∀ r ∈ results, r = true) := by
  have hsub := runTestVectors.submit_all Unmarshal wtv hskip wtv.TestGroups hok
  have hcol : (runTestVectors.collect wtv.TestGroups (results ++ rest) true :
      Run (Event G) Bool) = _ := runTestVectors.collect_all wtv.TestGroups results rest true hlen
  have hjobs : (runTestVectors.jobs Unmarshal wtv).length = wtv.TestGroups.length := by
    have key : ∀ tgs : List Raw, (∀ tg ∈ tgs, ∃ wtg g,
        (testGroupFromTestVector wtv).1 = some wtg ∧ Unmarshal wtg tg = some g) →
        (tgs.filterMap fun tg =>
          match (testGroupFromTestVector wtv).1 with
          | none => none
          | some wtg => (Unmarshal wtg tg).map fun g =>
              (⟨g, wtv.Algorithm, (testGroupFromTestVector wtv).2⟩ : Job G)).length
          = tgs.length := by
      intro tgs
      induction tgs with
      | nil => intro _; rfl
      | cons tg tgs ih =>
        intro h
        obtain ⟨wtg, g, hw, hu⟩ := h tg (List.mem_cons_self _ _)
        have ih := ih fun tg htg => h tg (List.mem_cons_of_mem _ htg)
        simp only [hw] at ih ⊢
        simp [List.filterMap_cons, hu, ih]
    exact key wtv.TestGroups hok
  refine ⟨hjobs, ?_, ?_⟩
  · unfold runTestVectors
    rw [hsub, Run.bind_def]
    simp [Run.andThen, hcol]
  · refine ⟨results.all id, ?_, by simp⟩
    unfold runTestVectors
    rw [hsub, Run.bind_def]
    simp [Run.andThen, hcol]

/-- The claim C5 at a primality file with three groups, the channel
delivering `true, false, true` and then one more value. -/
theorem runTestVectors_submits_and_collects_witness :
    (runTestVectors.jobs unmarshalAll primalityFile).length = 3 ∧
      (runTestVectors unmarshalAll primalityFile ([true, false, true] ++ [true])).trace =
        (runTestVectors.jobs unmarshalAll primalityFile).map Event.runTest ++
          [true, false, true].map Event.recv ∧
      ∃ b, (runTestVectors unmarshalAll primalityFile ([true, false, true] ++ [true])).out =
          Outcome.returned b ∧ (b = true ↔ ∀ r ∈ [true, false, true], r = true) :=
  runTestVectors_submits_and_collects unmarshalAll primalityFile [true, false, true] [true]
    (by decide)
    (by
      intro tg _
      exact ⟨wycheproofTestGroupRunner.wycheproofTestGroupPrimality, tg, by decide, rfl⟩)
    (by decide)

/-! ## The test coordinator -/

theorem list_get?_set_decomp {α : Type} {l : List α} {i : Nat} {x : α} (h : l.get? i = some x) :
    ∃ l₁ l₂, l = l₁ ++ x :: l₂ ∧ l₁.length = i ∧ ∀ y, l.set i y = l₁ ++ y :: l₂ := by
  induction l generalizing i with
  | nil => simp at h
  | cons a l ih =>
    cases i with
    | zero =>
      simp at h
      subst h
      exact ⟨[], l, rfl, rfl, fun y => rfl⟩
    | succ i =>
      simp at h
      obtain ⟨l₁, l₂, h1, h2, h3⟩ := ih (by simpa using h)
      refine ⟨a :: l₁, l₂, by simp [h1], by simp [h2], fun y => by simp [h3]⟩

theorem Harness.step_sound {s t : Harness} {a : Action} (h : s.step a = some t) :
    Harness.Step s t := by
  obtain ⟨⟨⟨tcap, tbuf⟩, ⟨rcap, rbuf⟩⟩, runners, clients, fatal⟩ := s
  unfold Harness.step at h
  cases fatal with
  | true => simp at h
  | false =>
    simp only [Bool.false_eq_true, if_false] at h
    cases a with
    | runTest c =>
      simp only at h
      split at h
      next testFunc pending awaiting got hc =>
        obtain ⟨l₁, l₂, h1, _, h3⟩ := list_get?_set_decomp hc
        split at h
        next hroom =>
          simp only [Option.some.injEq] at h
          subst h
          subst h1
          rw [h3]
          exact Harness.Step.runTest _ _ _ _ _ _ _ _ hroom
        next => simp at h
      next => simp at h
    | take r =>
      simp only at h
      split at h
      next d1 d2 testFunc buf hr =>
        obtain ⟨l₁, l₂, h1, _, h3⟩ := list_get?_set_decomp hr
        simp only [Option.some.injEq] at h
        subst h
        subst h1
        rw [h3]
        exact Harness.Step.take _ _ _ _ _ _ _
      next => simp at h
    | send r =>
      simp only at h
      split at h
      next b hr =>
        obtain ⟨l₁, l₂, h1, _, h3⟩ := list_get?_set_decomp hr
        subst h1
        by_cases hroom : rbuf.length < rcap
        · simp only [testRunner.select, hroom, if_true, Option.some.injEq] at h
          subst h
          rw [h3]
          exact Harness.Step.send ⟨⟨tcap, tbuf⟩, ⟨rcap, rbuf⟩⟩ _ _ _ _ hroom
        · simp only [testRunner.select, hroom, if_false, Option.some.injEq] at h
          subst h
          exact Harness.Step.full ⟨⟨tcap, tbuf⟩, ⟨rcap, rbuf⟩⟩ _ _ _ _ hroom
      next => simp at h
    | recv c =>
      simp only at h
      split at h
      next d1 d2 awaiting got result buf hc =>
        obtain ⟨l₁, l₂, h1, _, h3⟩ := list_get?_set_decomp hc
        simp only [Option.some.injEq] at h
        subst h
        subst h1
        rw [h3]
        exact Harness.Step.recv _ _ _ _ _ _ _ _ _
      next => simp at h

theorem Harness.Step.pool_count {s t : Harness} (h : Harness.Step s t) (b : Bool) :
    t.pool.count b = s.pool.count b := by
  cases h <;>
    simp only [Harness.pool, Harness.unsubmitted, Harness.queued, Harness.unsent,
      Harness.received, List.map_append, List.map_cons, List.flatten_append, List.flatten_cons,
      List.reduceOption_append, List.reduceOption_cons_of_some, List.reduceOption_cons_of_none,
      List.count_append, List.count_cons, List.map_nil, List.count_nil, List.flatten_nil] <;>
    ring

theorem Harness.Step.pool_length {s t : Harness} (h : Harness.Step s t) :
    t.pool.length = s.pool.length := by
  cases h <;>
    simp only [Harness.pool, Harness.unsubmitted, Harness.queued, Harness.unsent,
      Harness.received, List.map_append, List.map_cons, List.flatten_append, List.flatten_cons,
      List.reduceOption_append, List.reduceOption_cons_of_some, List.reduceOption_cons_of_none,
      List.length_append, List.length_cons, List.map_nil, List.length_nil, List.length_map,
      List.flatten_nil] <;>
    ring

theorem Harness.Step.work_decreases {s t : Harness} (h : Harness.Step s t)
    (hf : t.fatal = false) : t.work + 1 = s.work := by
  cases h <;>
    simp only [Harness.work, Harness.unsubmitted, Harness.queued, Harness.unsent,
      List.map_append, List.map_cons, List.flatten_append, List.flatten_cons,
      List.reduceOption_append, List.reduceOption_cons_of_some, List.reduceOption_cons_of_none,
      List.length_append, List.length_cons, List.map_nil, List.length_nil, List.length_map,
      List.flatten_nil] at hf ⊢ <;>
    first | ring1 | simp at hf

theorem Harness.Step.perClient {s t : Harness} (h : Harness.Step s t) :
    (t.clients.map fun c => c.awaiting + c.got.length) =
      s.clients.map fun c => c.awaiting + c.got.length := by
  cases h <;> simp
  ring

theorem Harness.Step.caps {s t : Harness} (h : Harness.Step s t) :
    t.tc.resultCh.cap = s.tc.resultCh.cap ∧ t.tc.testFuncCh.cap = s.tc.testFuncCh.cap ∧
      t.runners.length = s.runners.length := by
  cases h <;> simp

theorem Harness.Step.fatal_full {s t : Harness} (h : Harness.Step s t) (hf : t.fatal = true) :
    s.tc.resultCh.cap + 1 ≤ s.pool.length := by
  cases h <;> simp at hf
  rename_i hfull
  simp only [Harness.pool, Harness.unsent, List.reduceOption_append,
    List.reduceOption_cons_of_some, List.length_append, List.length_cons]
  linarith

theorem reduceOption_replicate_none {α : Type} (n : Nat) :
    (List.replicate n (none : Option α)).reduceOption = [] := by
  induction n with
  | zero => rfl
  | succ n ih => simp [List.replicate_succ, List.reduceOption_cons_of_none, ih]

theorem flatten_map_nil {α β : Type} (l : List α) :
    (l.map fun _ => ([] : List β)).flatten = [] := by
  induction l with
  | nil => rfl
  | cons a l ih => simp [ih]

theorem Harness.start_pool (runnerCount : Nat) (files : List (List (Unit → Bool))) :
    (Harness.start runnerCount files).pool = files.flatten.map fun testFunc => testFunc () := by
  simp [Harness.pool, Harness.start, Harness.unsubmitted, Harness.queued, Harness.unsent,
    Harness.received, newTestCoordinator, Chan.make, reduceOption_replicate_none,
    List.map_flatten, Function.comp_def, flatten_map_nil]

theorem Harness.inv_start (runnerCount : Nat) (files : List (List (Unit → Bool))) :
    Harness.Inv runnerCount files (Harness.start runnerCount files) where
  resultCap := rfl
  testFuncCap := rfl
  runnersLength := by simp [Harness.start]
  conserved := by intro b; rw [Harness.start_pool]
  poolLength := by
    rw [Harness.start_pool, List.length_map, List.length_flatten]
  perClient := by simp [Harness.start, Function.comp_def]
  notFatal := rfl

theorem Harness.inv_step {runnerCount : Nat} {files : List (List (Unit → Bool))}
    (hN : (files.map List.length).sum ≤ 1024) {s t : Harness}
    (hs : Harness.Inv runnerCount files s) (h : Harness.Step s t) :
    Harness.Inv runnerCount files t where
  resultCap := by rw [h.caps.1, hs.resultCap]
  testFuncCap := by rw [h.caps.2.1, hs.testFuncCap]
  runnersLength := by rw [h.caps.2.2, hs.runnersLength]
  conserved := by intro b; rw [h.pool_count, hs.conserved]
  poolLength := by rw [h.pool_length, hs.poolLength]
  perClient := by rw [h.perClient, hs.perClient]
  notFatal := by
    cases hf : t.fatal with
    | false => rfl
    | true =>
      have h1 := h.fatal_full hf
      have h2 := hs.poolLength
      have h3 := hs.resultCap
      omega

theorem Harness.inv_exec {runnerCount : Nat} {files : List (List (Unit → Bool))}
    (hN : (files.map List.length).sum ≤ 1024) (as : List Action) {s t : Harness}
    (hs : Harness.Inv runnerCount files s) (h : s.exec as = some t) :
    Harness.Inv runnerCount files t ∧ t.work + as.length = s.work := by
  induction as generalizing s with
  | nil =>
    simp only [Harness.exec, Option.some.injEq] at h
    subst h
    exact ⟨hs, rfl⟩
  | cons a as ih =>
    simp only [Harness.exec] at h
    cases hstep : s.step a with
    | none => simp [hstep] at h
    | some u =>
      simp only [hstep, Option.some_bind] at h
      have hu := Harness.inv_step hN hs (Harness.step_sound hstep)
      obtain ⟨ht, hw⟩ := ih hu h
      have := (Harness.step_sound hstep).work_decreases hu.notFatal
      refine ⟨ht, ?_⟩
      simp only [List.length_cons]
      omega

theorem Harness.step_send_isSome {s : Harness} {r : Nat} {b : Bool} (hf : s.fatal = false)
    (hr : s.runners.get? r = some (some b)) : (s.step (Action.send r)).isSome = true := by
  unfold Harness.step
  simp only [hf, Bool.false_eq_true, if_false, hr]
  cases testRunner.select s.tc.resultCh b <;> rfl

theorem Harness.step_take_isSome {s : Harness} {r : Nat} {testFunc : Unit → Bool}
    {buf : List (Unit → Bool)} (hf : s.fatal = false) (hr : s.runners.get? r = some none)
    (hb : s.tc.testFuncCh.buf = testFunc :: buf) : (s.step (Action.take r)).isSome = true := by
  unfold Harness.step
  simp only [hf, Bool.false_eq_true, if_false, hr, hb]
  rfl

theorem Harness.step_runTest_isSome {s : Harness} {c : Nat} {testFunc : Unit → Bool}
    {pending : List (Unit → Bool)} {awaiting : Nat} {got : List Bool} (hf : s.fatal = false)
    (hc : s.clients.get? c = some ⟨testFunc :: pending, awaiting, got⟩)
    (hroom : s.tc.testFuncCh.buf.length < s.tc.testFuncCh.cap) :
    (s.step (Action.runTest c)).isSome = true := by
  unfold Harness.step
  simp only [hf, Bool.false_eq_true, if_false, hc, hroom, if_true]
  rfl

theorem Harness.step_recv_isSome {s : Harness} {c : Nat} {awaiting : Nat} {got : List Bool}
    {result : Bool} {buf : List Bool} (hf : s.fatal = false)
    (hc : s.clients.get? c = some ⟨[], awaiting + 1, got⟩)
    (hb : s.tc.resultCh.buf = result :: buf) : (s.step (Action.recv c)).isSome = true := by
  unfold Harness.step
  simp only [hf, Bool.false_eq_true, if_false, hc, hb]
  rfl

theorem sum_map_zero {α : Type} (l : List α) (f : α → Nat) (h : ∀ x ∈ l, f x = 0) :
    (l.map f).sum = 0 := by
  induction l with
  | nil => rfl
  | cons a l ih =>
    simp only [List.map_cons, List.sum_cons]
    rw [h a (List.mem_cons_self _ _), ih fun x hx => h x (List.mem_cons_of_mem _ hx)]

theorem reduceOption_all_none {α : Type} (l : List (Option α)) (h : ∀ x ∈ l, x = none) :
    l.reduceOption = [] := by
  induction l with
  | nil => rfl
  | cons a l ih =>
    have ha := h a (List.mem_cons_self _ _)
    subst ha
    rw [List.reduceOption_cons_of_none]
    exact ih fun x hx => h x (List.mem_cons_of_mem _ hx)

/-- Receives still to do and results received add up to the number of jobs. -/
theorem Harness.Inv.awaiting_add_received {runnerCount : Nat}
    {files : List (List (Unit → Bool))} {s : Harness} (hs : Harness.Inv runnerCount files s) :
    s.awaitingTotal + s.received.length = (files.map List.length).sum := by
  rw [← hs.perClient]
  unfold Harness.awaitingTotal Harness.received
  generalize s.clients = cs
  induction cs with
  | nil => rfl
  | cons c cs ih =>
    simp only [List.map_cons, List.sum_cons, List.flatten_cons, List.length_append] at ih ⊢
    omega

/-- A state in which no goroutine can move has nothing left anywhere but in
the clients' hands. -/
theorem Harness.Inv.terminal {runnerCount : Nat} {files : List (List (Unit → Bool))}
    {s : Harness} (hs : Harness.Inv runnerCount files s) (hrc : 0 < runnerCount)
    (hterm : ∀ a, s.step a = none) :
    s.unsubmitted = [] ∧ s.queued = [] ∧ s.unsent = [] ∧ s.tc.resultCh.buf = [] ∧
      ∀ c ∈ s.clients, c.pending = [] ∧ c.awaiting = 0 := by
  have hf := hs.notFatal
  -- no runner holds a result
  have hrun : ∀ x ∈ s.runners, x = none := by
    intro x hx
    cases x with
    | none => rfl
    | some b =>
      obtain ⟨r, hr⟩ := List.get?_of_mem hx
      have := Harness.step_send_isSome hf hr
      rw [hterm] at this
      simp at this
  have hunsent : s.unsent = [] := reduceOption_all_none _ hrun
  -- runner 0 exists and is idle
  have hr0 : s.runners.get? 0 = some none := by
    have hlen := hs.runnersLength
    cases hrs : s.runners with
    | nil => rw [hrs] at hlen; simp at hlen; omega
    | cons x xs =>
      have := hrun x (by rw [hrs]; exact List.mem_cons_self _ _)
      subst this
      rfl
  -- the work queue is empty
  have hq : s.tc.testFuncCh.buf = [] := by
    cases hb : s.tc.testFuncCh.buf with
    | nil => rfl
    | cons testFunc buf =>
      have := Harness.step_take_isSome hf hr0 hb
      rw [hterm] at this
      simp at this
  -- every client has submitted everything
  have hpend : ∀ c ∈ s.clients, c.pending = [] := by
    intro c hc
    obtain ⟨pending, awaiting, got⟩ := c
    cases pending with
    | nil => rfl
    | cons testFunc pending =>
      obtain ⟨i, hi⟩ := List.get?_of_mem hc
      have hroom : s.tc.testFuncCh.buf.length < s.tc.testFuncCh.cap := by
        rw [hq, hs.testFuncCap]; exact hrc
      have := Harness.step_runTest_isSome hf hi hroom
      rw [hterm] at this
      simp at this
  have hunsub : s.unsubmitted = [] := by
    unfold Harness.unsubmitted
    have : (s.clients.map fun c => c.pending.map fun testFunc => testFunc ()) =
        s.clients.map fun _ => ([] : List Bool) := by
      apply List.map_congr_left
      intro c hc
      rw [hpend c hc]
      rfl
    rw [this, flatten_map_nil]
  have hqueued : s.queued = [] := by
    unfold Harness.queued
    rw [hq]
    rfl
  -- the result queue is empty
  have hres : s.tc.resultCh.buf = [] := by
    cases hb : s.tc.resultCh.buf with
    | nil => rfl
    | cons result buf =>
      have haw : ∀ c ∈ s.clients, c.awaiting = 0 := by
        intro c hc
        have hp := hpend c hc
        obtain ⟨pending, awaiting, got⟩ := c
        simp only at hp
        subst hp
        cases awaiting with
        | zero => rfl
        | succ awaiting =>
          obtain ⟨i, hi⟩ := List.get?_of_mem hc
          have := Harness.step_recv_isSome hf hi hb
          rw [hterm] at this
          simp at this
      have h0 : s.awaitingTotal = 0 := sum_map_zero _ _ haw
      have h1 := hs.awaiting_add_received
      have h2 := hs.poolLength
      simp only [Harness.pool, hunsub, hqueued, hunsent, hb, List.nil_append,
        List.length_append, List.length_cons] at h2
      omega
  refine ⟨hunsub, hqueued, hunsent, hres, ?_⟩
  have h1 := hs.awaiting_add_received
  have h2 := hs.poolLength
  simp only [Harness.pool, hunsub, hqueued, hunsent, hres, List.nil_append] at h2
  have h0 : s.awaitingTotal = 0 := by omega
  intro c hc
  refine ⟨hpend c hc, ?_⟩
  unfold Harness.awaitingTotal at h0
  have hle : c.awaiting ≤ (s.clients.map fun c => c.awaiting).sum :=
    List.single_le_sum (by intro x _; exact Nat.zero_le x) _ (List.mem_map_of_mem _ hc)
  omega

/-- From every reachable state some schedule leads to a state in which no
goroutine can move: the coordinator cannot run forever. -/
theorem Harness.Inv.exists_terminal {runnerCount : Nat} {files : List (List (Unit → Bool))}
    (hN : (files.map List.length).sum ≤ 1024) (n : Nat) :
    ∀ s : Harness, Harness.Inv runnerCount files s → s.work ≤ n →
      ∃ more t, s.exec more = some t ∧ ∀ a, t.step a = none := by
  induction n with
  | zero =>
    intro s hs hw
    by_cases hterm : ∀ a, s.step a = none
    · exact ⟨[], s, rfl, hterm⟩
    · push_neg at hterm
      obtain ⟨a, ha⟩ := hterm
      obtain ⟨u, hu⟩ := Option.ne_none_iff_exists'.mp ha
      have hinv := Harness.inv_step hN hs (Harness.step_sound hu)
      have := (Harness.step_sound hu).work_decreases hinv.notFatal
      omega
  | succ n ih =>
    intro s hs hw
    by_cases hterm : ∀ a, s.step a = none
    · exact ⟨[], s, rfl, hterm⟩
    · push_neg at hterm
      obtain ⟨a, ha⟩ := hterm
      obtain ⟨u, hu⟩ := Option.ne_none_iff_exists'.mp ha
      have hinv := Harness.inv_step hN hs (Harness.step_sound hu)
      have hdec := (Harness.step_sound hu).work_decreases hinv.notFatal
      obtain ⟨more, t, hmore, ht⟩ := ih u hinv (by omega)
      refine ⟨a :: more, t, ?_, ht⟩
      simp [Harness.exec, hu, hmore]

theorem Harness.start_work (runnerCount : Nat) (files : List (List (Unit → Bool))) :
    (Harness.start runnerCount files).work = 4 * (files.map List.length).sum := by
  have hu : (Harness.start runnerCount files).unsubmitted.length =
      (files.map List.length).sum := by
    simp [Harness.start, Harness.unsubmitted, List.length_flatten, List.map_map,
      Function.comp_def]
  have hq : (Harness.start runnerCount files).queued = [] := rfl
  have hr : (Harness.start runnerCount files).unsent = [] := reduceOption_replicate_none _
  have hb : (Harness.start runnerCount files).tc.resultCh.buf = [] := rfl
  rw [Harness.work, hu, hq, hr, hb]
  rfl

/-- C3, amended: with at least one runner and at most 1024 jobs in all
(the capacity of `resultCh`), from any number of concurrent clients, every
schedule of the coordinator keeps the process alive and has at most 4N
steps; it can always be continued to a state where no goroutine can move; and
in every such state each client has received exactly as many booleans as it
submitted jobs, N in all, and the booleans received are the results of the
submitted jobs, each exactly once (a permutation of them), with nothing
left in the result channel. -/
theorem coordinator_delivers_each_result_once (runnerCount : Nat)
    (files : List (List (Unit → Bool))) (as : List Action) (s : Harness)
    (hrc : 0 < runnerCount) (hN : (files.map List.length).sum ≤ 1024)
    (h : (Harness.start runnerCount files).exec as = some s) :
    s.fatal = false ∧ as.length ≤ 4 * (files.map List.length).sum ∧
      (∃ more t, s.exec more = some t ∧ ∀ a, t.step a = none) ∧
      ((∀ a, s.step a = none) →
        (s.clients.map fun c => c.got.length) = files.map List.length ∧
        s.received.length = (files.map List.length).sum ∧
        s.received.Perm (files.flatten.map fun testFunc => testFunc ()) ∧
        s.tc.resultCh.buf = []) := by
  obtain ⟨hs, hw⟩ := Harness.inv_exec hN as (Harness.inv_start runnerCount files) h
  rw [Harness.start_work] at hw
  refine ⟨hs.notFatal, by omega, Harness.Inv.exists_terminal hN s.work s hs le_rfl, ?_⟩
  intro hterm
  obtain ⟨h1, h2, h3, h4, h5⟩ := hs.terminal hrc hterm
  have hpool : s.pool = s.received := by
    simp [Harness.pool, h1, h2, h3, h4]
  refine ⟨?_, ?_, ?_, h4⟩
  · rw [← hs.perClient]
    apply List.map_congr_left
    intro c hc
    rw [(h5 c hc).2, Nat.zero_add]
  · rw [← hpool, hs.poolLength]
  · rw [List.perm_iff_count]
    intro b
    rw [← hpool, hs.conserved]

/-- The amended claim C3 at one runner and one client with one job, after
the schedule submit, take, send, receive. -/
theorem coordinator_delivers_each_result_once_witness :
    oneJobDone.fatal = false ∧
      [Action.runTest 0, Action.take 0, Action.send 0, Action.recv 0].length ≤
        4 * ([[passingJob]].map List.length).sum ∧
      (∃ more t, oneJobDone.exec more = some t ∧ ∀ a, t.step a = none) ∧
      ((∀ a, oneJobDone.step a = none) →
        (oneJobDone.clients.map fun c => c.got.length) = [[passingJob]].map List.length ∧
        oneJobDone.received.length = ([[passingJob]].map List.length).sum ∧
        oneJobDone.received.Perm ([[passingJob]].flatten.map fun testFunc => testFunc ()) ∧
        oneJobDone.tc.resultCh.buf = []) :=
  coordinator_delivers_each_result_once 1 [[passingJob]]
    [Action.runTest 0, Action.take 0, Action.send 0, Action.recv 0] oneJobDone
    (by decide) (by decide) rfl

/-- One round of `serialSchedule` while the result channel has room: the
next job's result joins the result channel. -/
theorem serial_round (p aw : Nat) (rs : List Bool) (rest : List Action)
    (hroom : rs.length < 1024) :
    (⟨⟨⟨1, []⟩, ⟨1024, rs⟩⟩, [none], [⟨List.replicate (p + 1) passingJob, aw, []⟩], false⟩ :
        Harness).exec (Action.runTest 0 :: Action.take 0 :: Action.send 0 :: rest) =
      (⟨⟨⟨1, []⟩, ⟨1024, rs ++ [true]⟩⟩, [none], [⟨List.replicate p passingJob, aw, []⟩],
        false⟩ : Harness).exec rest := by
  simp [Harness.exec, Harness.step, List.replicate_succ, testRunner.select, hroom, passingJob]

/-- One round of `serialSchedule` when the result channel is full: the runner
calls `log.Fatal`. -/
theorem serial_round_full (p aw : Nat) (rs : List Bool) (hfull : rs.length = 1024) :
    (⟨⟨⟨1, []⟩, ⟨1024, rs⟩⟩, [none], [⟨List.replicate (p + 1) passingJob, aw, []⟩], false⟩ :
        Harness).exec [Action.runTest 0, Action.take 0, Action.send 0] =
      some ⟨⟨⟨1, []⟩, ⟨1024, rs⟩⟩, [some true], [⟨List.replicate p passingJob, aw, []⟩],
        true⟩ := by
  simp [Harness.exec, Harness.step, List.replicate_succ, testRunner.select, hfull, passingJob]

theorem serial_overflow (k : Nat) :
    ∀ (p aw : Nat) (rs : List Bool), rs.length + k = 1024 →
      ∃ s, (⟨⟨⟨1, []⟩, ⟨1024, rs⟩⟩, [none],
          [⟨List.replicate (p + k + 1) passingJob, aw, []⟩], false⟩ : Harness).exec
            (serialSchedule (k + 1)) = some s ∧ s.fatal = true ∧ s.received = [] := by
  induction k with
  | zero =>
    intro p aw rs h
    refine ⟨_, serial_round_full p aw rs (by omega), rfl, rfl⟩
  | succ k ih =>
    intro p aw rs h
    have hroom : rs.length < 1024 := by omega
    obtain ⟨s, hs, hf, hr⟩ := ih p aw (rs ++ [true]) (by simp; omega)
    refine ⟨s, ?_, hf, hr⟩
    rw [show serialSchedule (k + 1 + 1) =
      Action.runTest 0 :: Action.take 0 :: Action.send 0 :: serialSchedule (k + 1) from rfl,
      show p + (k + 1) + 1 = (p + k + 1) + 1 from by omega, serial_round _ _ _ _ hroom]
    exact hs

/-- C3, as stated, fails for N = 1025: when one client submits 1025 passing
jobs before it receives, and the one runner handles them as they come, the
result channel is full at the 1025th result and the runner ends the process;
the client has received nothing. -/
theorem coordinator_overflow_1025 :
    ∃ s, (Harness.start 1 [List.replicate 1025 passingJob]).exec (serialSchedule 1025)
      = some s ∧ s.fatal = true ∧ s.received = [] :=
  serial_overflow 1024 0 (List.replicate 1025 passingJob).length [] rfl

/-- C4: when a runner takes a job from the work queue it holds the job's
boolean, and in every later state where it stands at its `select` with that
boolean the step is enabled (the send never blocks) and does one of two
things: with fewer than 1024 results in the result queue it appends the
boolean to the queue and the runner goes back to waiting for work; with a
full queue it ends the process. The runner never continues without the
boolean having been appended. -/
theorem testRunner_sends_or_exits (s : Harness) (r : Nat) (testFunc : Unit → Bool)
    (buf : List (Unit → Bool)) (hf : s.fatal = false)
    (hr : s.runners.get? r = some none) (hb : s.tc.testFuncCh.buf = testFunc :: buf) :
    (∃ t, s.step (Action.take r) = some t ∧ t.fatal = false ∧
        t.runners.get? r = some (some (testFunc ())) ∧ t.tc.resultCh = s.tc.resultCh) ∧
      ∀ u : Harness, u.fatal = false → u.tc.resultCh.cap = 1024 →
        u.runners.get? r = some (some (testFunc ())) →
        ∃ v, u.step (Action.send r) = some v ∧
          (u.tc.resultCh.buf.length < 1024 →
            v.fatal = false ∧ v.tc.resultCh.buf = u.tc.resultCh.buf ++ [testFunc ()] ∧
              v.runners.get? r = some none) ∧
          (¬ u.tc.resultCh.buf.length < 1024 → v.fatal = true) ∧
          (v.fatal = false → v.tc.resultCh.buf = u.tc.resultCh.buf ++ [testFunc ()]) := by
  have hlt : r < s.runners.length := by
    rcases Nat.lt_or_ge r s.runners.length with h | h
    · exact h
    · rw [List.get?_eq_none.mpr h] at hr; simp at hr
  constructor
  · refine ⟨{ s with
        tc := { s.tc with testFuncCh := { s.tc.testFuncCh with buf := buf } }
        runners := s.runners.set r (some (testFunc ())) }, ?_, ?_, ?_, ?_⟩
    · unfold Harness.step
      simp only [hf, Bool.false_eq_true, if_false, hr, hb]
    · exact hf
    · simp [List.getElem?_set, hlt]
    · rfl
  · intro u huf hcap hur
    have hult : r < u.runners.length := by
      rcases Nat.lt_or_ge r u.runners.length with h | h
      · exact h
      · rw [List.get?_eq_none.mpr h] at hur; simp at hur
    have hur2 : u.runners[r]? = some (some (testFunc ())) := by
      rw [← List.get?_eq_getElem?]; exact hur
    by_cases hroom : u.tc.resultCh.buf.length < 1024
    · refine ⟨⟨⟨u.tc.testFuncCh, ⟨u.tc.resultCh.cap, u.tc.resultCh.buf ++ [testFunc ()]⟩⟩,
        u.runners.set r none, u.clients, u.fatal⟩, ?_, ?_, ?_, ?_⟩
      · unfold Harness.step
        simp [huf, hur2, testRunner.select, hcap, hroom]
      · intro _
        refine ⟨huf, rfl, ?_⟩
        simp [List.getElem?_set, hult]
      · intro h; exact absurd hroom h
      · intro _; rfl
    · refine ⟨{ u with fatal := true }, ?_, ?_, ?_, ?_⟩
      · unfold Harness.step
        simp [huf, hur2, testRunner.select, hcap, hroom]
      · intro h; exact absurd h hroom
      · intro _; rfl
      · intro h; simp at h

/-- The claim C4 at the state where one job waits in the work queue and the
one runner is idle. -/
theorem testRunner_sends_or_exits_witness :
    (∃ t, oneJobQueued.step (Action.take 0) = some t ∧ t.fatal = false ∧
        t.runners.get? 0 = some (some (passingJob ())) ∧
        t.tc.resultCh = oneJobQueued.tc.resultCh) ∧
      ∀ u : Harness, u.fatal = false → u.tc.resultCh.cap = 1024 →
        u.runners.get? 0 = some (some (passingJob ())) →
        ∃ v, u.step (Action.send 0) = some v ∧
          (u.tc.resultCh.buf.length < 1024 →
            v.fatal = false ∧ v.tc.resultCh.buf = u.tc.resultCh.buf ++ [passingJob ()] ∧
              v.runners.get? 0 = some none) ∧
          (¬ u.tc.resultCh.buf.length < 1024 → v.fatal = true) ∧
          (v.fatal = false → v.tc.resultCh.buf = u.tc.resultCh.buf ++ [passingJob ()]) :=
  testRunner_sends_or_exits oneJobQueued 0 passingJob [] rfl rfl rfl

/-! ## Test-case checks -/

/-- C6: for every primality test case whose value converts to a BIGNUM,
`runPrimalityTest` returns, and it returns `true` if and only if the declared
result is "acceptable", or it is "invalid" and `BN_is_prime_ex` gave 0
(composite), or it is "valid" and `BN_is_prime_ex` gave 1 (prime). -/
theorem runPrimalityTest_verdict (lib : Libcrypto) (wt : wycheproofTestPrimality) (bnValue : Int)
    (hbn : (mustConvertBigIntToBigNum lib wt.Value).out = Outcome.returned bnValue) :
    ∃ b, (runPrimalityTest lib wt).out = Outcome.returned b ∧
      (b = true ↔ wt.Result = "acceptable" ∨
        (wt.Result = "invalid" ∧ lib.BN_is_prime_ex bnValue = 0) ∨
        (wt.Result = "valid" ∧ lib.BN_is_prime_ex bnValue = 1)) := by
  refine ⟨wt.Result == "acceptable" || (lib.BN_is_prime_ex bnValue == 0 && wt.Result == "invalid") ||
    (lib.BN_is_prime_ex bnValue == 1 && wt.Result == "valid"), ?_, ?_⟩
  · unfold runPrimalityTest
    rw [(Run.bind_returned _ hbn).1]
    rfl
  · simp only [Bool.or_eq_true, Bool.and_eq_true, beq_iff_eq]
    tauto

/-- The claim C6 at the case 7, declared valid, reported prime. -/
theorem runPrimalityTest_verdict_witness :
    ∃ b, (runPrimalityTest acceptingLib primeCase).out = Outcome.returned b ∧
      (b = true ↔ primeCase.Result = "acceptable" ∨
        (primeCase.Result = "invalid" ∧ acceptingLib.BN_is_prime_ex 7 = 0) ∨
        (primeCase.Result = "valid" ∧ acceptingLib.BN_is_prime_ex 7 = 1)) :=
  runPrimalityTest_verdict acceptingLib primeCase 7 rfl


/-- C7: an ECDSA test case that reaches the `ECDSA_verify` call, and an RSA
PKCS#1 v1.5 signature test case that reaches `RSA_verify`, is judged by the
value `ret` of the call: the check returns `true` if and only if the declared
result is "acceptable" or `ret = 1` holds exactly when the declared result is
"valid". -/
theorem signature_verdict (lib : Libcrypto) (ecKey md : Nat) (nid : Int) (variant : testVariant)
    (wtE : wycheproofTestECDSA) (retE : Int) (rsa mdR : Nat) (nidR : Int)
    (wtR : wycheproofTestRSA) (retR : Int) :
    ((runECDSATest.verify lib ecKey md nid variant wtE).out = Outcome.returned (Sum.inr retE) →
      ∃ b, (runECDSATest lib ecKey md nid variant wtE).out = Outcome.returned b ∧
        (b = true ↔ wtE.Result = "acceptable" ∨ (retE = 1 ↔ wtE.Result = "valid"))) ∧
    ((runRSATest.verify lib rsa mdR nidR wtR).out = Outcome.returned retR →
      ∃ b, (runRSATest lib rsa mdR nidR wtR).out = Outcome.returned b ∧
        (b = true ↔ wtR.Result = "acceptable" ∨ (retR = 1 ↔ wtR.Result = "valid"))) := by
  constructor
  · intro h
    refine ⟨!((retE == 1) != (wtE.Result == "valid") && wtE.Result != "acceptable"), ?_, ?_⟩
    · unfold runECDSATest
      rw [(Run.bind_returned _ h).1]
      simp only []
      split <;> simp_all
      tauto
    · by_cases h1 : retE = 1 <;> by_cases h2 : wtE.Result = "valid" <;>
        by_cases h3 : wtE.Result = "acceptable" <;> simp [h1, h2, h3]
  · intro h
    refine ⟨!((retR == 1) != (wtR.Result == "valid") && wtR.Result != "acceptable"), ?_, ?_⟩
    · unfold runRSATest
      rw [(Run.bind_returned _ h).1]
      simp only []
      split <;> simp_all
      tauto
    · by_cases h1 : retR = 1 <;> by_cases h2 : wtR.Result = "valid" <;>
        by_cases h3 : wtR.Result = "acceptable" <;> simp [h1, h2, h3]

/-- The claim C7 at a valid ECDSA case and an acceptable RSA case, both
accepted by the library. -/
theorem signature_verdict_witness :
    (∃ b, (runECDSATest acceptingLib 0 0 0 testVariant.Normal ecdsaCase).out =
        Outcome.returned b ∧
        (b = true ↔ ecdsaCase.Result = "acceptable" ∨ ((1 : Int) = 1 ↔ ecdsaCase.Result = "valid")))
      ∧
    (∃ b, (runRSATest acceptingLib 0 0 0 rsaCase).out = Outcome.returned b ∧
        (b = true ↔ rsaCase.Result = "acceptable" ∨ ((1 : Int) = 1 ↔ rsaCase.Result = "valid"))) :=
  ⟨(signature_verdict acceptingLib 0 0 0 testVariant.Normal ecdsaCase 1 0 0 0 rsaCase 1).1 rfl,
    (signature_verdict acceptingLib 0 0 0 testVariant.Normal ecdsaCase 1 0 0 0 rsaCase 1).2 rfl⟩


/-- C8, as stated, fails: a DSA case and an EdDSA case declared "acceptable"
whose verification call succeeds (returns 1) make `runDSATest` and
`runEdDSATest` return `false`. -/
theorem acceptable_verified_fails :
    dsaAcceptable.Result = "acceptable" ∧
      (runDSATest.verify acceptingLib 0 0 testVariant.Normal dsaAcceptable).out =
        Outcome.returned (Sum.inr 1) ∧
      (runDSATest acceptingLib 0 0 testVariant.Normal dsaAcceptable).out =
        Outcome.returned false ∧
      eddsaAcceptable.Result = "acceptable" ∧
      (runEdDSATest.verify acceptingLib 0 eddsaAcceptable).out = Outcome.returned 1 ∧
      (runEdDSATest acceptingLib 0 eddsaAcceptable).out = Outcome.returned false :=
  ⟨rfl, rfl, rfl, rfl, rfl, rfl⟩

/-- C8, amended: a DSA test case that reaches `DSA_verify`, and an EdDSA test
case that reaches `EVP_DigestVerify`, with declared result "acceptable" is
judged like an invalid one: the check returns `true` if and only if the
verification call does not succeed (its value is not 1). -/
theorem acceptable_judged_as_invalid (lib : Libcrypto) (dsa md : Nat) (variant : testVariant)
    (wtD : wycheproofTestDSA) (retD : Int) (pkey : Nat) (wtE : wycheproofTestEdDSA)
    (retE : Int) :
    (wtD.Result = "acceptable" →
      (runDSATest.verify lib dsa md variant wtD).out = Outcome.returned (Sum.inr retD) →
      ∃ b, (runDSATest lib dsa md variant wtD).out = Outcome.returned b ∧
        (b = true ↔ retD ≠ 1)) ∧
    (wtE.Result = "acceptable" →
      (runEdDSATest.verify lib pkey wtE).out = Outcome.returned retE →
      ∃ b, (runEdDSATest lib pkey wtE).out = Outcome.returned b ∧ (b = true ↔ retE ≠ 1)) := by
  constructor
  · intro hacc h
    refine ⟨!((retD == 1) != (wtD.Result == "valid")), ?_, ?_⟩
    · unfold runDSATest
      rw [(Run.bind_returned _ h).1]
      simp only []
      split <;> simp_all
    · simp [hacc]
  · intro hacc h
    refine ⟨!((retE == 1) != (wtE.Result == "valid")), ?_, ?_⟩
    · unfold runEdDSATest
      rw [(Run.bind_returned _ h).1]
      simp only []
      split <;> simp_all
    · simp [hacc]

/-- The amended claim C8 at acceptable cases the library rejects. -/
theorem acceptable_judged_as_invalid_witness :
    (∃ b, (runDSATest rejectingLib 0 0 testVariant.Normal dsaAcceptable).out =
        Outcome.returned b ∧ (b = true ↔ (0 : Int) ≠ 1)) ∧
    (∃ b, (runEdDSATest rejectingLib 0 eddsaAcceptable).out = Outcome.returned b ∧
        (b = true ↔ (0 : Int) ≠ 1)) :=
  ⟨(acceptable_judged_as_invalid rejectingLib 0 0 testVariant.Normal dsaAcceptable 0 0
      eddsaAcceptable 0).1 rfl rfl,
    (acceptable_judged_as_invalid rejectingLib 0 0 testVariant.Normal dsaAcceptable 0 0
      eddsaAcceptable 0).2 rfl rfl⟩


/-- `mustDecodeHexString` calls no C function. -/
theorem mustDecodeHexString_trace (str descr : String) :
    (mustDecodeHexString str descr).trace = [] := by
  unfold mustDecodeHexString
  split <;> rfl

/-- An operation of a bind was performed by its first part or, the first
part having returned, by its second part. -/
theorem Run.mem_bind_trace {ε α β : Type} {m : Run ε α} {f : α → Run ε β} {e : ε}
    (h : e ∈ (m >>= f).trace) :
    e ∈ m.trace ∨ ∃ a, m.out = Outcome.returned a ∧ e ∈ (f a).trace := by
  rw [Run.bind_def] at h
  unfold Run.andThen at h
  cases hout : m.out with
  | returned a =>
    simp only [hout, List.mem_append] at h
    rcases h with h | h
    · exact Or.inl h
    · exact Or.inr ⟨a, rfl, h⟩
  | fatal msg => simp only [hout] at h; exact Or.inl h
  | blocked => simp only [hout] at h; exact Or.inl h

/-- `mustHashHexMessage` calls `EVP_MD_size` and `EVP_Digest` only. -/
theorem mustHashHexMessage_trace (lib : Libcrypto) (md : Nat) (message : String) :
    ∀ fn ∈ (mustHashHexMessage lib md message).trace, fn = "EVP_MD_size" ∨ fn = "EVP_Digest" := by
  intro fn hfn
  unfold mustHashHexMessage at hfn
  rcases Run.mem_bind_trace hfn with h | ⟨size, _, h⟩
  · simp at h; exact Or.inl h
  · split at h
    · simp at h
    · rcases Run.mem_bind_trace h with h | ⟨⟨msg, msgLen⟩, _, h⟩
      · rw [mustDecodeHexString_trace] at h; simp at h
      · simp only [] at h
        rcases Run.mem_bind_trace h with h | ⟨⟨ret, digest⟩, _, h⟩
        · simp at h; exact Or.inr h
        · simp only [] at h
          split at h <;> simp at h

/-- C9: an ECDSA test case run with variant P1363 whose signature byte length
`len(wt.Sig)/2` differs from twice the curve's order byte length calls
nothing of libcrypto beyond the hashing of the message and the query of the
order size (no re-encoding, no verification), and once the message is hashed
it returns `false` when the declared result is "valid" and `true` otherwise.
The re-encoding (whose first call is `ECDSA_SIG_new`) is attempted only when
the signature byte length is exactly twice the order byte length. -/
theorem runECDSATest_p1363_length (lib : Libcrypto) (ecKey md : Nat) (nid : Int)
    (wt : wycheproofTestECDSA) :
    (((len wt.Sig / 2 : Nat) : Int) ≠ 2 * Int.tdiv (lib.EC_GROUP_order_bits ecKey + 7) 8 →
      (∀ fn ∈ (runECDSATest lib ecKey md nid testVariant.P1363 wt).trace,
        fn = "EVP_MD_size" ∨ fn = "EVP_Digest" ∨ fn = "EC_GROUP_order_bits") ∧
      (∀ digest, (mustHashHexMessage lib md wt.Msg).out = Outcome.returned digest →
        (runECDSATest lib ecKey md nid testVariant.P1363 wt).out =
          Outcome.returned (wt.Result != "valid"))) ∧
    ("ECDSA_SIG_new" ∈ (runECDSATest lib ecKey md nid testVariant.P1363 wt).trace →
      ((len wt.Sig / 2 : Nat) : Int) = 2 * Int.tdiv (lib.EC_GROUP_order_bits ecKey + 7) 8) := by
  have key : ((len wt.Sig / 2 : Nat) : Int) ≠ 2 * Int.tdiv (lib.EC_GROUP_order_bits ecKey + 7) 8 →
      (∀ fn ∈ (runECDSATest lib ecKey md nid testVariant.P1363 wt).trace,
        fn = "EVP_MD_size" ∨ fn = "EVP_Digest" ∨ fn = "EC_GROUP_order_bits") ∧
      (∀ digest, (mustHashHexMessage lib md wt.Msg).out = Outcome.returned digest →
        (runECDSATest lib ecKey md nid testVariant.P1363 wt).out =
          Outcome.returned (wt.Result != "valid")) := by
    intro hmis
    have htr := mustHashHexMessage_trace lib md wt.Msg
    cases hout : (mustHashHexMessage lib md wt.Msg).out with
    | returned p =>
      obtain ⟨msg, msgLen⟩ := p
      constructor
      · intro fn hfn
        simp only [runECDSATest, runECDSATest.verify, Run.bind_def, Run.andThen, hout,
          Run.call_out, Run.call_trace, if_true, hmis, ne_eq, not_false_eq_true] at hfn
        by_cases hv : wt.Result = "valid" <;> simp [hv] at hfn <;>
          rcases hfn with h | h
        · rcases htr fn h with h | h <;> simp [h]
        · simp [h]
        · rcases htr fn h with h | h <;> simp [h]
        · simp [h]
      · intro digest _
        simp only [runECDSATest, runECDSATest.verify, Run.bind_def, Run.andThen, hout,
          Run.call_out, Run.call_trace, if_true, hmis, ne_eq, not_false_eq_true]
        by_cases hv : wt.Result = "valid" <;> simp [hv]
    | fatal msg =>
      constructor
      · intro fn hfn
        simp only [runECDSATest, runECDSATest.verify, Run.bind_def, Run.andThen, hout] at hfn
        rcases htr fn hfn with h | h <;> simp [h]
      · intro digest hd; simp at hd
    | blocked =>
      constructor
      · intro fn hfn
        simp only [runECDSATest, runECDSATest.verify, Run.bind_def, Run.andThen, hout] at hfn
        rcases htr fn hfn with h | h <;> simp [h]
      · intro digest hd; simp at hd
  refine ⟨key, ?_⟩
  intro hmem
  by_contra hmis
  rcases (key hmis).1 _ hmem with h | h | h <;> exact absurd h (by decide)

/-- The claim C9 at a two-byte signature on a curve with a two-byte order. -/
theorem runECDSATest_p1363_length_witness :
    (∀ fn ∈ (runECDSATest acceptingLib 0 0 0 testVariant.P1363 shortSigCase).trace,
        fn = "EVP_MD_size" ∨ fn = "EVP_Digest" ∨ fn = "EC_GROUP_order_bits") ∧
      (∀ digest, (mustHashHexMessage acceptingLib 0 shortSigCase.Msg).out =
          Outcome.returned digest →
        (runECDSATest acceptingLib 0 0 0 testVariant.P1363 shortSigCase).out =
          Outcome.returned (shortSigCase.Result != "valid")) :=
  (runECDSATest_p1363_length acceptingLib 0 0 0 shortSigCase).1 (by decide)


/-- On a hex string that decodes to a non-empty buffer, `mustDecodeHexString`
returns that buffer and its length. -/
theorem mustDecodeHexString_nonempty (str descr : String) (out : List Nat)
    (h : hexDecodeString str = some out) (hne : out ≠ []) :
    mustDecodeHexString str descr = pure (out, out.length) := by
  unfold mustDecodeHexString
  rw [h]
  have : out.length ≠ 0 := by
    intro h0
    exact hne (List.length_eq_zero.mp h0)
  simp [this]

/-- C10: for every ECDH test case whose key decoding and key agreement
succeed with a computed secret `secret` of `secLen` bytes, and whose expected
shared secret `shared` is non-empty, `runECDHTest` returns, and it returns
`true` if and only if `shared` equals `secret`, or `shared` has exactly
`secLen + 1` bytes, its first byte is zero and its remaining bytes equal
`secret`. The zero byte is put in front of the computed secret exactly when
`shared` has `secLen + 1` bytes and its first byte is zero. -/
theorem runECDHTest_leading_zero (lib : Libcrypto) (nid : Int) (variant : testVariant)
    (wt : wycheproofTestECDH) (secLen : Int) (secret shared : List Nat)
    (hagree : (runECDHTest.agree lib nid variant wt).out =
      Outcome.returned (Sum.inr (secLen, secret)))
    (hlen : (secret.length : Int) = secLen)
    (hshared : hexDecodeString wt.Shared = some shared) (hne : shared ≠ []) :
    (∃ b, (runECDHTest lib nid variant wt).out = Outcome.returned b ∧
      (b = true ↔ shared = secret ∨
        ((shared.length : Int) = secLen + 1 ∧ shared.head? = some 0 ∧ shared.tail = secret))) ∧
    (runECDHTest.prepend secLen secret shared shared.length = 0 :: secret ↔
      ((shared.length : Int) = secLen + 1 ∧ shared.head? = some 0)) := by
  constructor
  · refine ⟨!(shared != runECDHTest.prepend secLen secret shared shared.length), ?_, ?_⟩
    · unfold runECDHTest
      rw [(Run.bind_returned _ hagree).1]
      simp only [runECDHTest.compare, mustDecodeHexString_nonempty _ _ shared hshared hne]
      rw [(Run.bind_returned _ (Run.pure_out _)).1]
      simp only []
      split
      · rename_i h; simp [h]
      · rename_i h; simp [h]
    · unfold runECDHTest.prepend
      by_cases hc : (shared.length : Int) = secLen + 1 ∧ shared.head? = some 0
      · rw [if_pos hc]
        obtain ⟨h1, h2⟩ := hc
        cases shared with
        | nil => exact absurd rfl hne
        | cons a rest =>
          simp only [List.head?_cons, Option.some.injEq] at h2
          subst h2
          have hlen2 : ¬ (0 :: rest : List Nat) = secret := by
            intro h
            rw [← h] at hlen
            omega
          simp only [hlen2, h1, false_or, true_and, List.head?_cons, List.tail_cons, and_true,
            true_and]
          simp only [List.singleton_append, bne_iff_ne, ne_eq, List.cons.injEq, true_and,
            Bool.not_eq_true', Bool.not_eq_true, Bool.not_not, decide_eq_true_eq, not_not,
            Bool.not_eq_eq_eq_not, Bool.not_true, bne_eq_false_iff_eq]
      · rw [if_neg hc]
        simp only [bne_iff_ne, ne_eq, Bool.not_eq_true', Bool.not_eq_true, decide_eq_false_iff_not,
          Decidable.not_not, Bool.not_not, decide_eq_true_eq]
        constructor
        · intro h; simp at h; exact Or.inl h
        · rintro (h | ⟨h1, h2, _⟩)
          · simp [h]
          · exact absurd ⟨h1, h2⟩ hc
  · unfold runECDHTest.prepend
    by_cases hc : (shared.length : Int) = secLen + 1 ∧ shared.head? = some 0
    · rw [if_pos hc]; simp [hc]
    · rw [if_neg hc]
      constructor
      · intro h
        have := congrArg List.length h
        simp at this
      · intro h; exact absurd h hc

/-- The claim C10 at a two-byte secret 1, 2 and the shared field 0, 1, 2. -/
theorem runECDHTest_leading_zero_witness :
    (∃ b, (runECDHTest acceptingLib 0 testVariant.Normal ecdhCase).out = Outcome.returned b ∧
      (b = true ↔ [0, 1, 2] = [1, 2] ∨
        ((([0, 1, 2] : List Nat).length : Int) = 2 + 1 ∧ ([0, 1, 2] : List Nat).head? = some 0 ∧
          ([0, 1, 2] : List Nat).tail = [1, 2]))) ∧
    (runECDHTest.prepend 2 [1, 2] [0, 1, 2] ([0, 1, 2] : List Nat).length = 0 :: [1, 2] ↔
      ((([0, 1, 2] : List Nat).length : Int) = 2 + 1 ∧ ([0, 1, 2] : List Nat).head? = some 0)) :=
  runECDHTest_leading_zero acceptingLib 0 testVariant.Normal ecdhCase 2 [1, 2] [0, 1, 2]
    rfl rfl rfl (by decide)

/-! ## Hex fields -/

/-- A successful `hexDecode` consumed an even number of hex digits and gave
one byte per pair of digits, the first digit being the high half. -/
theorem hexDecode_some (bs : List Nat) :
    ∀ out, hexDecode bs = some out →
      bs.length = 2 * out.length ∧ (∀ c ∈ bs, (fromHexChar c).isSome = true) ∧
      ∀ i, i < out.length → ∃ hi lo, (bs.get? (2 * i)).bind fromHexChar = some hi ∧
        (bs.get? (2 * i + 1)).bind fromHexChar = some lo ∧ out.get? i = some (hi * 16 + lo) := by
  induction bs using hexDecode.induct with
  | case1 =>
    intro out h
    simp only [hexDecode, Option.some.injEq] at h
    subst h
    simp
  | case2 a =>
    intro out h
    simp [hexDecode] at h
  | case3 a b rest x y hy hx ih =>
    intro out h
    simp only [hexDecode, hx, hy, Option.map_eq_some'] at h
    obtain ⟨out', hout', rfl⟩ := h
    obtain ⟨h1, h2, h3⟩ := ih out' hout'
    refine ⟨by simp [h1]; omega, ?_, ?_⟩
    · intro c hc
      simp only [List.mem_cons] at hc
      rcases hc with rfl | rfl | hc
      · simp [hx]
      · simp [hy]
      · exact h2 c hc
    · intro i hi
      cases i with
      | zero => exact ⟨x, y, by simp [hx], by simp [hy], by simp⟩
      | succ i =>
        obtain ⟨hi', lo', e1, e2, e3⟩ := h3 i (by simpa using hi)
        refine ⟨hi', lo', ?_, ?_, ?_⟩
        · rw [show 2 * (i + 1) = (2 * i) + 1 + 1 from by ring]
          simpa using e1
        · rw [show 2 * (i + 1) + 1 = (2 * i + 1) + 1 + 1 from by ring]
          simpa using e2
        · simpa using e3
  | case4 a b rest hno =>
    intro out h
    simp only [hexDecode] at h
    simp at h

/-- `hexDecode` succeeds on every even-length list of hex digits. -/
theorem hexDecode_of_wellFormed (bs : List Nat) :
    bs.length % 2 = 0 → (∀ c ∈ bs, (fromHexChar c).isSome = true) →
      ∃ out, hexDecode bs = some out := by
  induction bs using hexDecode.induct with
  | case1 => intro _ _; exact ⟨[], rfl⟩
  | case2 a => intro h _; simp at h
  | case3 a b rest x y hy hx ih =>
    intro hlen hall
    obtain ⟨out, hout⟩ := ih (by simp at hlen; omega)
      (fun c hc => hall c (by simp [hc]))
    exact ⟨(x * 16 + y) :: out, by simp [hexDecode, hx, hy, hout]⟩
  | case4 a b rest hno =>
    intro _ hall
    have ha := hall a (by simp)
    have hb := hall b (by simp)
    obtain ⟨x, hx⟩ := Option.isSome_iff_exists.mp ha
    obtain ⟨y, hy⟩ := Option.isSome_iff_exists.mp hb
    exact absurd hy (hno x y hx)

/-- C19: for every well-formed hex string `s`, `mustDecodeHexString` returns
the logical length `len(s)/2` together with a non-empty buffer: the decoded
bytes (of that length, one byte per pair of digits) when `s` is not empty,
and the one-byte placeholder `[0]` when `s` is empty. For a string that is
not well-formed hex it ends the process. -/
theorem mustDecodeHexString_placeholder (s descr : String) :
    (wellFormedHex s →
      ∃ decoded out, hexDecodeString s = some decoded ∧ decoded.length = len s / 2 ∧
        (∀ i, i < decoded.length → ∃ hi lo,
          ((bytesOf s).get? (2 * i)).bind fromHexChar = some hi ∧
          ((bytesOf s).get? (2 * i + 1)).bind fromHexChar = some lo ∧
          decoded.get? i = some (hi * 16 + lo)) ∧
        (mustDecodeHexString s descr).out = Outcome.returned (out, len s / 2) ∧
        out ≠ [] ∧ (len s ≠ 0 → out = decoded) ∧ (len s = 0 → out = [0])) ∧
    (¬ wellFormedHex s → ∃ msg, (mustDecodeHexString s descr).out = Outcome.fatal msg) := by
  constructor
  · intro ⟨hlen, hall⟩
    obtain ⟨decoded, hdec⟩ := hexDecode_of_wellFormed (bytesOf s) hlen hall
    obtain ⟨h1, _, h3⟩ := hexDecode_some (bytesOf s) decoded hdec
    have hl : decoded.length = len s / 2 := by unfold len; omega
    refine ⟨decoded, if decoded.length = 0 then decoded ++ [0] else decoded, hdec, hl, h3, ?_,
      ?_, ?_, ?_⟩
    · unfold mustDecodeHexString
      rw [show hexDecodeString s = some decoded from hdec]
      simp only [Run.pure_out, hl]
    · split
      · simp
      · rename_i h
        intro h0
        exact h (by simp [h0])
    · intro hne
      have : decoded.length ≠ 0 := by unfold len at hne; omega
      simp [this]
    · intro h0
      have : decoded.length = 0 := by unfold len at h0; omega
      have hnil : decoded = [] := List.length_eq_zero.mp this
      simp [hnil]
  · intro hnot
    have hnone : hexDecodeString s = none := by
      cases h : hexDecodeString s with
      | none => rfl
      | some out =>
        obtain ⟨h1, h2, _⟩ := hexDecode_some (bytesOf s) out h
        exact absurd ⟨by unfold len; omega, h2⟩ hnot
    refine ⟨"Failed to decode " ++ descr, ?_⟩
    unfold mustDecodeHexString
    rw [hnone]
    rfl
/-- The claim C19 at the well-formed strings "00ff" and "" and at the string
"0g", which is no hex string. -/
theorem mustDecodeHexString_placeholder_witness :
    (∃ decoded out, hexDecodeString "00ff" = some decoded ∧ decoded.length = len "00ff" / 2 ∧
        (∀ i, i < decoded.length → ∃ hi lo,
          ((bytesOf "00ff").get? (2 * i)).bind fromHexChar = some hi ∧
          ((bytesOf "00ff").get? (2 * i + 1)).bind fromHexChar = some lo ∧
          decoded.get? i = some (hi * 16 + lo)) ∧
        (mustDecodeHexString "00ff" "key").out = Outcome.returned (out, len "00ff" / 2) ∧
        out ≠ [] ∧ (len "00ff" ≠ 0 → out = decoded) ∧ (len "00ff" = 0 → out = [0])) ∧
      (∃ decoded out, hexDecodeString "" = some decoded ∧ decoded.length = len "" / 2 ∧
        (∀ i, i < decoded.length → ∃ hi lo,
          ((bytesOf "").get? (2 * i)).bind fromHexChar = some hi ∧
          ((bytesOf "").get? (2 * i + 1)).bind fromHexChar = some lo ∧
          decoded.get? i = some (hi * 16 + lo)) ∧
        (mustDecodeHexString "" "key").out = Outcome.returned (out, len "" / 2) ∧
        out ≠ [] ∧ (len "" ≠ 0 → out = decoded) ∧ (len "" = 0 → out = [0])) ∧
      (∃ msg, (mustDecodeHexString "0g" "key").out = Outcome.fatal msg) :=
  ⟨(mustDecodeHexString_placeholder "00ff" "key").1 ⟨by decide, by decide⟩,
    (mustDecodeHexString_placeholder "" "key").1 ⟨by decide, by decide⟩,
    (mustDecodeHexString_placeholder "0g" "key").2 (by unfold wellFormedHex; decide)⟩
/-! ## AEAD test cases -/

/-- C12, as stated, fails: for a case declared "invalid" whose comment is
none of the four nonce comments, `checkAesAead` returns `false` in both
directions, for AES-GCM and for AES-CCM, when the library refuses to set the
IV length. -/
theorem ivlen_rejection_of_other_comment_fails :
    modifiedTagCase.Result = "invalid" ∧
      (checkAesAead ivLenRejectingCipher "AES-GCM" 0 [0] 16 [0] 13 [0] 0 [0] 3 [0] 3 [0] 16
        modifiedTagCase).out = Outcome.returned false ∧
      (checkAesAead ivLenRejectingCipher "AES-GCM" 1 [0] 16 [0] 13 [0] 0 [0] 3 [0] 3 [0] 16
        modifiedTagCase).out = Outcome.returned false ∧
      (checkAesAead ivLenRejectingCipher "AES-CCM" 0 [0] 16 [0] 13 [0] 0 [0] 3 [0] 3 [0] 16
        modifiedTagCase).out = Outcome.returned false ∧
      (checkAesAead ivLenRejectingCipher "AES-CCM" 1 [0] 16 [0] 13 [0] 0 [0] 3 [0] 3 [0] 16
        modifiedTagCase).out = Outcome.returned false :=
  ⟨rfl, rfl, rfl, rfl, rfl⟩

/-- C12, amended: for every AES-GCM or AES-CCM test case, whatever its
declared result, flags and other fields, in either direction, if the library
refuses to set the nonce (IV) length then `checkAesAead` returns, and it
returns `true` if and only if the case's comment is one of "Nonce is too
long", "Invalid nonce size", "0 size IV is not valid", "Very long nonce". -/
theorem checkAesAead_ivlen_rejected (lib : LibcryptoCipher) (algorithm : String)
    (doEncrypt : Int) (key : List Nat) (keyLen : Nat) (iv : List Nat) (ivLen : Nat)
    (aad : List Nat) (aadLen : Nat) (inp : List Nat) (inLen : Nat) (out : List Nat)
    (outLen : Nat) (tag : List Nat) (tagLen : Nat) (wt : wycheproofTestAead)
    (hinit : lib.EVP_CipherInit_ex_enc
      ⟨algorithm, doEncrypt, key, iv.take ivLen, aad.take aadLen, inp.take inLen,
        tag.take tagLen⟩ = 1)
    (hiv : lib.EVP_CIPHER_CTX_ctrl_ivlen
      ⟨algorithm, doEncrypt, key, iv.take ivLen, aad.take aadLen, inp.take inLen,
        tag.take tagLen⟩ ≠ 1) :
    ∃ b, (checkAesAead lib algorithm doEncrypt key keyLen iv ivLen aad aadLen inp inLen out
        outLen tag tagLen wt).out = Outcome.returned b ∧
      (b = true ↔ wt.Comment = "Nonce is too long" ∨ wt.Comment = "Invalid nonce size" ∨
        wt.Comment = "0 size IV is not valid" ∨ wt.Comment = "Very long nonce") := by
  refine ⟨wt.Comment == "Nonce is too long" || wt.Comment == "Invalid nonce size" ||
    wt.Comment == "0 size IV is not valid" || wt.Comment == "Very long nonce", ?_, ?_⟩
  · unfold checkAesAead
    simp only [Run.bind_def, Run.andThen, Run.call_out, hinit, hiv, ne_eq, not_true_eq_false,
      if_false, not_false_eq_true, if_true]
    split <;> simp_all
  · simp only [Bool.or_eq_true, beq_iff_eq]
    tauto

/-- The amended claim C12 at a case with the comment "Nonce is too long". -/
theorem checkAesAead_ivlen_rejected_witness :
    ∃ b, (checkAesAead ivLenRejectingCipher "AES-GCM" 1 [0] 16 [0] 13 [0] 0 [0] 3 [0] 3 [0] 16
        longNonceCase).out = Outcome.returned b ∧
      (b = true ↔ longNonceCase.Comment = "Nonce is too long" ∨
        longNonceCase.Comment = "Invalid nonce size" ∨
        longNonceCase.Comment = "0 size IV is not valid" ∨
        longNonceCase.Comment = "Very long nonce") :=
  checkAesAead_ivlen_rejected ivLenRejectingCipher "AES-GCM" 1 [0] 16 [0] 13 [0] 0 [0] 3 [0] 3
    [0] 16 longNonceCase rfl (by decide)
/-- The seal check compares the computed tag with the buffer it is given:
handed the one-byte placeholder of an empty tag (with `tagLen` 0), it fails
every case declared "valid", whatever the library does. -/
theorem checkAeadSeal_placeholder_tag (lib : LibcryptoAead) (ctx : EVP_AEAD_CTX)
    (iv : List Nat) (ivLen : Nat) (aad : List Nat) (aadLen : Nat) (msg : List Nat)
    (msgLen : Nat) (ct : List Nat) (ctLen : Nat) (wt : wycheproofTestAead)
    (hvalid : wt.Result = "valid") :
    (checkAeadSeal lib ctx iv ivLen aad aadLen msg msgLen ct ctLen [0] 0 wt).out =
      Outcome.returned false := by
  unfold checkAeadSeal
  simp only [Run.bind_def, Run.andThen, Run.call_out, hvalid, Nat.add_zero]
  split_ifs with h1 h2 h3
  · rfl
  · rfl
  · exfalso
    have hlen : ((overwrite (makeBuffer msgLen) (lib.EVP_AEAD_CTX_seal ctx msgLen
        (iv.take ivLen) (msg.take msgLen) (aad.take aadLen)).2).take msgLen).drop msgLen = [] := by
      apply List.drop_eq_nil_of_le
      simp
    rw [hlen] at h3
    simp at h3
  · rfl

/-- A bind that returned went through a first part that returned. -/
theorem Run.bind_out_returned {ε α β : Type} {m : Run ε α} {f : α → Run ε β} {b : β}
    (h : (m >>= f).out = Outcome.returned b) :
    ∃ a, m.out = Outcome.returned a ∧ (f a).out = Outcome.returned b := by
  rw [Run.bind_def] at h
  unfold Run.andThen at h
  cases hm : m.out with
  | returned a =>
    rw [hm] at h
    exact ⟨a, rfl, h⟩
  | fatal msg =>
    rw [hm] at h
    cases h
  | blocked =>
    rw [hm] at h
    cases h

/-- With an AEAD, `runAesAeadTest` never returns `true` for a case declared
"valid" whose tag is empty, whatever the library does: the run ends in a
fatal error or a panic, or one of the checks returns `false`. -/
theorem empty_tag_never_passes (lib : LibcryptoCipher) (alib : LibcryptoAead)
    (algorithm : String) (aead : Nat) (wt : wycheproofTestAead) (haead : aead ≠ 0)
    (hvalid : wt.Result = "valid") (htag : wt.Tag = "") :
    (runAesAeadTest lib alib algorithm aead wt).out ≠ Outcome.returned true := by
  intro h
  unfold runAesAeadTest at h
  obtain ⟨⟨⟨key, keyLen⟩, ⟨iv, ivLen⟩, ⟨aad, aadLen⟩, ⟨msg, msgLen⟩, ⟨ct, ctLen⟩, ⟨tag, tagLen⟩⟩,
    hdec, h⟩ := Run.bind_out_returned h
  simp only at h
  obtain ⟨openEvp, -, h⟩ := Run.bind_out_returned h
  obtain ⟨sealEvp, -, h⟩ := Run.bind_out_returned h
  obtain ⟨⟨openAead, sealAead⟩, hchecks, h⟩ := Run.bind_out_returned h
  simp only [Run.pure_out, Outcome.returned.injEq, Bool.and_eq_true] at h
  have hseal : sealAead = true := h.2
  -- the tag is the placeholder
  have htagdec : tag = [0] ∧ tagLen = 0 := by
    unfold runAesAeadTest.decode at hdec
    obtain ⟨k, -, hdec⟩ := Run.bind_out_returned hdec
    obtain ⟨i, -, hdec⟩ := Run.bind_out_returned hdec
    obtain ⟨a, -, hdec⟩ := Run.bind_out_returned hdec
    obtain ⟨m, -, hdec⟩ := Run.bind_out_returned hdec
    obtain ⟨c, -, hdec⟩ := Run.bind_out_returned hdec
    obtain ⟨t, ht, hdec⟩ := Run.bind_out_returned hdec
    rw [htag] at ht
    have ht2 : t = ([0], 0) := by
      have : (mustDecodeHexString "" "tag").out = Outcome.returned ([0], 0) := rfl
      rw [this] at ht
      exact (Outcome.returned.inj ht).symm
    simp only [Run.pure_out, Outcome.returned.injEq, Prod.mk.injEq] at hdec
    obtain ⟨-, -, -, -, -, h6⟩ := hdec
    rw [ht2] at h6
    simp only [Prod.mk.injEq] at h6
    exact ⟨h6.1.symm, h6.2.symm⟩
  obtain ⟨rfl, rfl⟩ := htagdec
  unfold runAesAeadTest.aeadChecks at hchecks
  rw [if_pos haead] at hchecks
  obtain ⟨new, -, hchecks⟩ := Run.bind_out_returned hchecks
  by_cases h1 : new = false
  · rw [if_pos h1] at hchecks
    cases hchecks
  rw [if_neg h1] at hchecks
  obtain ⟨ini, -, hchecks⟩ := Run.bind_out_returned hchecks
  by_cases h2 : ini ≠ 1
  · rw [if_pos h2] at hchecks
    cases hchecks
  rw [if_neg h2] at hchecks
  obtain ⟨o, -, hchecks⟩ := Run.bind_out_returned hchecks
  obtain ⟨s, hs, hchecks⟩ := Run.bind_out_returned hchecks
  simp only [Run.pure_out, Outcome.returned.injEq, Prod.mk.injEq] at hchecks
  rw [checkAeadSeal_placeholder_tag _ _ _ _ _ _ _ _ _ _ _ hvalid] at hs
  have : s = false := (Outcome.returned.inj hs).symm
  rw [← hchecks.2, this] at hseal
  cases hseal

/-- C11 fails at an AES-GCM case declared "valid" whose tag is empty, as are
`aad`, `msg` and `ct`, with a cipher context that refuses the nonce length, so
that both `checkAesAead` calls return `true` at the length check, before any
tag is read. `runAesAeadTest` decodes the tag to the one-byte placeholder `[0]`
with length 0 and hands it to `checkAeadOpen` and `checkAeadSeal`. With an
AEAD whose seal of the empty message gives the empty output, which is
`decode(ct)` followed by `decode(tag)`, and whose open of that empty input
gives the empty message, `runAesAeadTest` returns `false` after both AEAD
calls; without the AEAD block (`aead` nil) it returns `true`, so the `false`
is the verdict of the AEAD checks. `runChaCha20Poly1305Test`, which decodes
`ct` and `tag` without a placeholder, returns `true` for the same fields. With
a cipher context that accepts every call, a case with these fields ends in the
panic of `checkAesAead` at `&tagOut[0]`, before the AEAD block. -/
theorem runAesAeadTest_empty_tag :
    emptyTagLongNonceCase.Result = "valid" ∧
      hexDecodeString emptyTagLongNonceCase.Msg = some [] ∧
      hexDecodeString emptyTagLongNonceCase.CT = some [] ∧
      hexDecodeString emptyTagLongNonceCase.Tag = some [] ∧
      (∀ aead key nonce, zeroTagAead.EVP_AEAD_CTX_seal ⟨aead, key, 0⟩ 0 nonce [] [] =
        (1, ([] : List Nat) ++ [])) ∧
      (∀ aead key nonce, zeroTagAead.EVP_AEAD_CTX_open ⟨aead, key, 0⟩ 0 nonce ([] ++ []) [] =
        (1, [])) ∧
      runAesAeadTest ivLenRejectingCipher zeroTagAead "AES-GCM" EVP_aead_aes_128_gcm
          emptyTagLongNonceCase =
        ⟨Outcome.returned false,
          ["EVP_CipherInit_ex", "EVP_CIPHER_CTX_ctrl", "EVP_CipherInit_ex", "EVP_CIPHER_CTX_ctrl",
            "EVP_AEAD_CTX_new", "EVP_AEAD_CTX_init", "EVP_AEAD_CTX_open",
            "EVP_AEAD_CTX_seal"]⟩ ∧
      runAesAeadTest ivLenRejectingCipher zeroTagAead "AES-GCM" 0 emptyTagLongNonceCase =
        ⟨Outcome.returned true,
          ["EVP_CipherInit_ex", "EVP_CIPHER_CTX_ctrl", "EVP_CipherInit_ex",
            "EVP_CIPHER_CTX_ctrl"]⟩ ∧
      runChaCha20Poly1305Test zeroTagAead "CHACHA20-POLY1305" emptyTagChaChaCase =
        ⟨Outcome.returned true,
          ["EVP_AEAD_CTX_new", "EVP_AEAD_CTX_init", "EVP_AEAD_CTX_open",
            "EVP_AEAD_CTX_seal"]⟩ ∧
      (runAesAeadTest acceptingCipher zeroTagAead "AES-GCM" EVP_aead_aes_128_gcm
          emptyTagCase).out = Outcome.fatal "panic: index out of range" := by
  refine ⟨rfl, rfl, rfl, rfl, ?_, ?_, rfl, rfl, rfl, rfl⟩
  · intro aead key nonce
    rfl
  · intro aead key nonce
    rfl

/-! ## Key derivation, MAC and key agreement test cases -/

/-- After a successful derivation `runHkdfTest` returns whether the case is
declared "valid", whatever the derived bytes are. -/
theorem runHkdfTest.derive_succeeded (lib : LibcryptoHkdf) (md : Nat) (ikm : List Nat)
    (ikmLen : Nat) (salt : List Nat) (saltLen : Nat) (info : List Nat) (infoLen : Nat)
    (out : List Nat) (outLen : Nat) (wt : wycheproofTestHkdf) (b : Bool)
    (hret : 0 < (lib.EVP_PKEY_derive md (salt.take saltLen) (ikm.take ikmLen)
      (info.take infoLen) outLen).1)
    (hb : (runHkdfTest.derive lib md ikm ikmLen salt saltLen info infoLen out outLen wt).out =
      Outcome.returned b) :
    b = (wt.Result == "valid") := by
  unfold runHkdfTest.derive at hb
  simp only [Run.bind_def, Run.andThen, Run.call_out, not_le.mpr hret, if_false] at hb
  rcases hm : (mustDecodeHexString wt.Okm "okm").out with p | msg | _
  · simp only [hm] at hb
    split_ifs at hb
    · simp at hb
    · simp at hb
      exact hb.symm
  · simp [hm] at hb
  · simp [hm] at hb

/-- C13 fails at an HKDF case declared "valid" whose derivation succeeds
with four bytes 170 while the expected output `okm` is `3cb25f25`:
`runHkdfTest` returns `true` although the derived bytes differ from the
decoded `okm`. -/
theorem runHkdfTest_ignores_okm :
    hkdfCase.Result = "valid" ∧
      constantHkdf.EVP_PKEY_derive 3 [0, 1, 2, 3, 4, 5, 6, 7, 8, 9, 10, 11, 12]
        (List.replicate 22 11) [240, 241, 242, 243, 244, 245, 246, 247, 248, 249] 4 =
        (1, [170, 170, 170, 170], 4) ∧
      hexDecodeString hkdfCase.Okm = some [60, 178, 95, 37] ∧
      (runHkdfTest constantHkdf 3 hkdfCase).out = Outcome.returned true :=
  ⟨rfl, rfl, rfl, rfl⟩

/-- C14 fails at an HMAC case declared "valid" whose expected tag is the
empty string, with a MAC of 32 bytes that starts with a zero byte. With tag
size 0 the first 0 bytes of the MAC equal the decoded tag, and `runHmacTest`
and the group executor return `false`; with tag size 8 the first byte of the
MAC differs from the decoded (empty) tag, and `runHmacTest` returns `true`.
The comparison is made with the one-byte placeholder `[0]`. -/
theorem runHmacTest_empty_tag :
    hmacEmptyTagCase.Result = "valid" ∧
      hexDecodeString hmacEmptyTagCase.Tag = some [] ∧
      constantHmac.HMAC 3
        [1, 2, 3, 4, 5, 6, 7, 8, 9, 10, 11, 12, 13, 14, 15, 16, 17, 18, 19, 20, 21, 22, 23]
        [72, 105, 32, 84, 104, 101, 114, 101] = some (0 :: List.replicate 31 7) ∧
      (0 :: List.replicate 31 7).take 0 = ([] : List Nat) ∧
      (runHmacTest constantHmac 3 (Int.tdiv 0 8) hmacEmptyTagCase).out =
        Outcome.returned false ∧
      (wycheproofTestGroupHmac.run constantHmac hmacEmptyTagGroup "HMACSHA256"
        testVariant.Normal).out = Outcome.returned false ∧
      (0 :: List.replicate 31 7).take 1 ≠ ([] : List Nat) ∧
      (runHmacTest constantHmac 3 (Int.tdiv 8 8) hmacEmptyTagCase).out =
        Outcome.returned true := by
  refine ⟨rfl, rfl, rfl, rfl, rfl, rfl, by decide, rfl⟩

/-! ## RSA encryption test cases -/

/-- C17 fails at an RSAES case declared "invalid" whose ciphertext decrypts
to exactly the declared message, the byte 65: `runRsaesOaepTest` and
`runRsaesPkcs1Test` both return `true`. -/
theorem rsaes_invalid_decrypting_passes :
    rsaesInvalidCase.Result = "invalid" ∧
      hexDecodeString rsaesInvalidCase.Msg = some [65] ∧
      decryptingRsa.RSA_private_decrypt [11, 173, 192, 222, 11, 173, 192, 222] 1
        RSA_PKCS1_PADDING = (1, [65]) ∧
      (runRsaesPkcs1Test decryptingRsa 1 rsaesInvalidCase).out = Outcome.returned true ∧
      decryptingRsa.RSA_private_decrypt [11, 173, 192, 222, 11, 173, 192, 222] 1
        RSA_NO_PADDING = (8, [0, 1, 2, 3, 4, 5, 6, 7]) ∧
      decryptingRsa.RSA_padding_check_PKCS1_OAEP_mgf1 [0, 1, 2, 3, 4, 5, 6, 7] 8 [] 3 3 =
        (1, [65]) ∧
      (runRsaesOaepTest decryptingRsa 1 3 3 rsaesInvalidCase).out = Outcome.returned true :=
  ⟨rfl, rfl, rfl, rfl, rfl, rfl, rfl⟩

/-! ## ML-KEM test cases -/

/-- C18 fails in what is handed to the parser: `runMLKEMEncapsTestGroup`
never reads the field `Ek`, it decodes the field `C`. At a case declared
"invalid" with the encapsulation key `aabb` and an empty `C`, with a parser
that accepts that key and rejects the empty input, it returns `true`. -/
theorem runMLKEMEncapsTestGroup_reads_c :
    (∀ (lib : LibcryptoMLKEM) (rank : Int) (wt : wycheproofTestMLKEM) (ek : String),
      runMLKEMEncapsTestGroup lib rank { wt with Ek := ek } =
        runMLKEMEncapsTestGroup lib rank wt) ∧
      mlkemEncapsCase.Result = "invalid" ∧
      hexDecodeString mlkemEncapsCase.Ek = some [170, 187] ∧
      nonEmptyMLKEM.MLKEM_parse_public_key 3 [170, 187] = 1 ∧
      hexDecodeString mlkemEncapsCase.C = some [] ∧
      nonEmptyMLKEM.MLKEM_parse_public_key 3 [] = 0 ∧
      (runMLKEMEncapsTestGroup nonEmptyMLKEM 3 mlkemEncapsCase).out = Outcome.returned true :=
  ⟨fun _ _ _ _ => rfl, rfl, rfl, rfl, rfl, rfl, rfl⟩
/-- Writing into a buffer leaves its length as it was. -/
theorem overwrite_length (buf data : List Nat) : (overwrite buf data).length = buf.length := by
  simp only [overwrite, List.length_append, List.length_take, List.length_drop]
  omega

/-- A field that decodes gives the decoded bytes, or the one-byte placeholder
when there are none, together with their number. -/
theorem mustDecodeHexString_of_decoded (s descr : String) (decoded : List Nat)
    (h : hexDecodeString s = some decoded) :
    mustDecodeHexString s descr =
      ⟨Outcome.returned (if decoded.length = 0 then decoded ++ [0] else decoded, decoded.length),
        []⟩ := by
  unfold mustDecodeHexString
  rw [h]
  rfl

/-- C15: for every X25519 test case whose three hex fields decode,
`runX25519Test` returns, and it returns `true` if and only if the declared
result is "acceptable", or the statement "the primitive returned 1 and the
32 bytes of its output buffer equal the decoded expected shared secret" holds
exactly when the declared result is "valid". A case declared "acceptable"
therefore passes whatever the computed output is. -/
theorem runX25519Test_verdict (lib : LibcryptoX25519) (wt : wycheproofTestX25519)
    (pub priv shared : List Nat)
    (hpub : hexDecodeString wt.Public = some pub)
    (hpriv : hexDecodeString wt.Private = some priv)
    (hshared : hexDecodeString wt.Shared = some shared) :
    ∃ b, (runX25519Test lib wt).out = Outcome.returned b ∧
      (b = true ↔ (wt.Result = "acceptable" ∨
        (((lib.X25519 (if priv.length = 0 then priv ++ [0] else priv)
              (if pub.length = 0 then pub ++ [0] else pub)).1 = 1 ∧
            overwrite (List.replicate X25519_KEY_LENGTH 0)
              (lib.X25519 (if priv.length = 0 then priv ++ [0] else priv)
                (if pub.length = 0 then pub ++ [0] else pub)).2 = shared) ↔
          wt.Result = "valid"))) ∧
      (wt.Result = "acceptable" → b = true) := by
  have hgot : ∀ got : List Nat, got.length = 32 →
      ((got = if shared = [] then shared ++ [0] else shared) ↔ got = shared) := by
    intro got hlen
    split_ifs with h0
    · subst h0
      constructor
      · intro h
        rw [h] at hlen
        simp at hlen
      · intro h
        rw [h] at hlen
        simp at hlen
    · rfl
  have hlen := overwrite_length (List.replicate X25519_KEY_LENGTH 0)
    (lib.X25519 (if priv.length = 0 then priv ++ [0] else priv)
      (if pub.length = 0 then pub ++ [0] else pub)).2
  rw [List.length_replicate] at hlen
  have hg := hgot _ hlen
  unfold runX25519Test
  rw [mustDecodeHexString_of_decoded _ _ _ hpub, mustDecodeHexString_of_decoded _ _ _ hpriv,
    mustDecodeHexString_of_decoded _ _ _ hshared]
  simp only [Run.bind_def, Run.andThen, Run.call_out]
  generalize (lib.X25519 (if priv.length = 0 then priv ++ [0] else priv)
    (if pub.length = 0 then pub ++ [0] else pub)) = r at hg hlen ⊢
  obtain ⟨ret, written⟩ := r
  simp only at hg ⊢
  by_cases hacc : wt.Result = "acceptable"
  · refine ⟨true, ?_, ?_, fun _ => rfl⟩
    · simp [hacc]
    · simp [hacc]
  · by_cases hval : wt.Result = "valid"
    · by_cases hret : ret = 1
      · by_cases heq : overwrite (List.replicate X25519_KEY_LENGTH 0) written = shared
        · refine ⟨true, ?_, ?_, fun _ => rfl⟩
          · have h1 := hg.mpr heq
            simp [hval, hret, h1]
          · simp [hval, hret, heq]
        · refine ⟨false, ?_, ?_, fun h => absurd h hacc⟩
          · simp [hval, hret, hg, heq]
          · simp [hval, hret, heq, hacc]
      · refine ⟨false, ?_, ?_, fun h => absurd h hacc⟩
        · simp [hval, hret]
        · simp [hval, hret, hacc]
    · by_cases hret : ret = 1
      · by_cases heq : overwrite (List.replicate X25519_KEY_LENGTH 0) written = shared
        · refine ⟨false, ?_, ?_, fun h => absurd h hacc⟩
          · have h1 := hg.mpr heq
            simp [hval, hret, h1, hacc]
          · simp [hval, hret, heq, hacc]
        · refine ⟨true, ?_, ?_, fun _ => rfl⟩
          · simp [hval, hret, hg, heq]
          · simp [hval, hret, heq]
      · refine ⟨true, ?_, ?_, fun _ => rfl⟩
        · simp [hval, hret]
        · simp [hval, hret]

/-- The claim C15 at a case declared "acceptable" whose expected shared
secret differs from the computed one. -/
theorem runX25519Test_verdict_witness :
    ∃ b, (runX25519Test countingX25519 x25519AcceptableCase).out = Outcome.returned b ∧
      (b = true ↔ (x25519AcceptableCase.Result = "acceptable" ∨
        (((countingX25519.X25519
              (if (List.replicate 32 1).length = 0 then List.replicate 32 1 ++ [0]
                else List.replicate 32 1)
              (if (List.replicate 32 0).length = 0 then List.replicate 32 0 ++ [0]
                else List.replicate 32 0)).1 = 1 ∧
            overwrite (List.replicate X25519_KEY_LENGTH 0)
              (countingX25519.X25519
                (if (List.replicate 32 1).length = 0 then List.replicate 32 1 ++ [0]
                  else List.replicate 32 1)
                (if (List.replicate 32 0).length = 0 then List.replicate 32 0 ++ [0]
                  else List.replicate 32 0)).2 = List.replicate 32 0) ↔
          x25519AcceptableCase.Result = "valid"))) ∧
      (x25519AcceptableCase.Result = "acceptable" → b = true) :=
  runX25519Test_verdict countingX25519 x25519AcceptableCase (List.replicate 32 0)
    (List.replicate 32 1) (List.replicate 32 0) rfl rfl rfl

/-! ## CCTV Ed25519 vectors -/

/-- A set of flags has no bit in common with the union of two masks if and
only if it has none in common with either. -/
theorem land_lor_eq_zero (f a b : Nat) : f &&& (a ||| b) = 0 ↔ f &&& a = 0 ∧ f &&& b = 0 := by
  rw [Nat.and_or_distrib_left]
  constructor
  · intro h
    constructor
    · apply Nat.eq_of_testBit_eq
      intro i
      have hi := congrArg (fun n => Nat.testBit n i) h
      simp only [Nat.testBit_or, Nat.zero_testBit, Bool.or_eq_false_iff] at hi
      rw [Nat.zero_testBit]
      exact hi.1
    · apply Nat.eq_of_testBit_eq
      intro i
      have hi := congrArg (fun n => Nat.testBit n i) h
      simp only [Nat.testBit_or, Nat.zero_testBit, Bool.or_eq_false_iff] at hi
      rw [Nat.zero_testBit]
      exact hi.2
  · rintro ⟨h1, h2⟩
    rw [h1, h2]
    rfl
/-- C16: for every CCTV vector whose key and signature decode and for which
both verifications return, `runEd25519Test` returns, and it returns `true` if
and only if the verdict of libcrypto and the verdict of the Go standard
library both equal the expected verdict, which is "must verify" exactly when
neither the bit `LowOrderResidue` nor the bit `NonCanonicalR` of the flags is
set; no other flag has a part in it. -/
theorem runEd25519Test_verdict (lib : LibcryptoEd25519)
    (verify : List Nat → List Nat → List Nat → Bool) (tv : ed25519Vector)
    (pubkey sig : List Nat) (c_verified go_verified : Bool)
    (hpub : hexDecodeString tv.PublicKey = some pubkey)
    (hsig : hexDecodeString tv.Signature = some sig)
    (hc : (evpEd25519Verify lib pubkey (bytesOf tv.Message) sig).out =
      Outcome.returned c_verified)
    (hgo : (ed25519.Verify verify pubkey (bytesOf tv.Message) sig).out =
      Outcome.returned go_verified) :
    ∃ b, (runEd25519Test lib verify tv).out = Outcome.returned b ∧
      (b = true ↔
        (c_verified = true ↔
          (tv.Flags &&& LowOrderResidue = 0 ∧ tv.Flags &&& NonCanonicalR = 0)) ∧
        (go_verified = true ↔
          (tv.Flags &&& LowOrderResidue = 0 ∧ tv.Flags &&& NonCanonicalR = 0))) := by
  unfold runEd25519Test
  simp only [hpub, hsig, Run.bind_def, Run.andThen, hc, hgo]
  rw [← land_lor_eq_zero]
  by_cases hw : tv.Flags &&& (LowOrderResidue ||| NonCanonicalR) = 0
  · cases c_verified <;> cases go_verified <;> simp [hw]
  · cases c_verified <;> cases go_verified <;> simp [hw]

/-- The claim C16 at a vector with the flags `low_order_R` and
`non_canonical_R`, which both implementations accept: the test fails. -/
theorem runEd25519Test_verdict_witness :
    ∃ b, (runEd25519Test acceptingEd25519 acceptingVerify nonCanonicalVector).out =
        Outcome.returned b ∧
      (b = true ↔
        (true = true ↔ (nonCanonicalVector.Flags &&& LowOrderResidue = 0 ∧
          nonCanonicalVector.Flags &&& NonCanonicalR = 0)) ∧
        (true = true ↔ (nonCanonicalVector.Flags &&& LowOrderResidue = 0 ∧
          nonCanonicalVector.Flags &&& NonCanonicalR = 0))) :=
  runEd25519Test_verdict acceptingEd25519 acceptingVerify nonCanonicalVector
    (List.replicate 32 1) [2, 2] true true rfl rfl rfl rfl
/-! ## Test-group executors -/

/-- A loop whose body returns, for every element, the conjunction of the
flag so far and a verdict on the element, returns the conjunction over all
elements; its operations are those of the bodies, in order. -/
theorem forRange_all {ε τ : Type} (body : τ → Bool → Run ε Bool) (g : τ → Bool)
    (t : τ → List ε) (xs : List τ)
    (h : ∀ x ∈ xs, ∀ s, (body x s).out = Outcome.returned (s && g x) ∧ (body x s).trace = t x) :
    ∀ s, (forRange body xs s).out = Outcome.returned (s && xs.all g) ∧
      (forRange body xs s).trace = xs.flatMap t := by
  induction xs with
  | nil =>
    intro s
    simp [forRange]
  | cons x xs ih =>
    intro s
    have hx := h x (List.mem_cons_self x xs) s
    have ih2 := ih (fun y hy => h y (List.mem_cons_of_mem x hy)) (s && g x)
    simp only [forRange, Run.andThen, hx.1, hx.2, ih2.1, ih2.2, List.all_cons,
      List.flatMap_cons, Bool.and_assoc, and_self]

/-! ## Where the placeholder does no harm -/

/-- A buffer made for `n` bytes has room for `n` bytes. -/
theorem makeBuffer_length_ge (n : Nat) : n ≤ (makeBuffer n).length := by
  unfold makeBuffer
  split <;> simp

/-- Writing `data` into a buffer that has room for it leaves `data` in
front. -/
theorem overwrite_take (buf data : List Nat) (n : Nat) (hn : n ≤ data.length)
    (hroom : data.length ≤ buf.length) : (overwrite buf data).take n = data.take n := by
  unfold overwrite
  rw [List.take_of_length_le hroom, List.take_append_of_le_length hn]

/-- For a case declared "valid" and a tag buffer that holds the tag and
nothing else, `checkAeadSeal` returns `true` if and only if the seal call
returns 1 and its output has `msgLen` plus the tag length bytes and is `ct`
followed by `tag`. This is the situation of `runChaCha20Poly1305Test`, and of
`runAesAeadTest` for a non-empty tag. -/
theorem checkAeadSeal_valid (lib : LibcryptoAead) (ctx : EVP_AEAD_CTX) (iv : List Nat)
    (ivLen : Nat) (aad : List Nat) (aadLen : Nat) (msg : List Nat) (msgLen : Nat)
    (ct : List Nat) (ctLen : Nat) (tag : List Nat) (wt : wycheproofTestAead)
    (hvalid : wt.Result = "valid") :
    ∃ b, (checkAeadSeal lib ctx iv ivLen aad aadLen msg msgLen ct ctLen tag tag.length wt).out =
        Outcome.returned b ∧
      (b = true ↔
        (lib.EVP_AEAD_CTX_seal ctx (msgLen + tag.length) (iv.take ivLen) (msg.take msgLen)
          (aad.take aadLen)).1 = 1 ∧
        (lib.EVP_AEAD_CTX_seal ctx (msgLen + tag.length) (iv.take ivLen) (msg.take msgLen)
          (aad.take aadLen)).2.length = msgLen + tag.length ∧
        (lib.EVP_AEAD_CTX_seal ctx (msgLen + tag.length) (iv.take ivLen) (msg.take msgLen)
          (aad.take aadLen)).2 = ct ++ tag) := by
  unfold checkAeadSeal
  simp only [Run.bind_def, Run.andThen, Run.call_out, hvalid]
  generalize lib.EVP_AEAD_CTX_seal ctx (msgLen + tag.length) (iv.take ivLen) (msg.take msgLen)
    (aad.take aadLen) = r
  obtain ⟨ret, written⟩ := r
  simp only
  by_cases hret : ret = 1
  swap
  · exact ⟨false, by simp [hret], by simp [hret]⟩
  by_cases hlen : written.length = msgLen + tag.length
  swap
  · exact ⟨false, by simp [hret, hlen], by simp [hlen]⟩
  have hroom : written.length ≤ (makeBuffer (msgLen + tag.length)).length := by
    rw [hlen]
    exact makeBuffer_length_ge _
  have hct : (overwrite (makeBuffer (msgLen + tag.length)) written).take msgLen =
      written.take msgLen := overwrite_take _ _ _ (by omega) hroom
  have htag : ((overwrite (makeBuffer (msgLen + tag.length)) written).take
      (msgLen + tag.length)).drop msgLen = written.drop msgLen := by
    rw [overwrite_take _ _ _ (by omega) hroom, ← hlen, List.take_length]
  have hsplit : (written.take msgLen = ct ∧ written.drop msgLen = tag) ↔ written = ct ++ tag := by
    constructor
    · rintro ⟨h1, h2⟩
      rw [← h1, ← h2, List.take_append_drop]
    · intro h
      have hctlen : ct.length = msgLen := by
        have := congrArg List.length h
        rw [List.length_append, hlen] at this
        omega
      subst h
      constructor
      · rw [← hctlen, List.take_left']
        rfl
      · rw [← hctlen, List.drop_left']
        rfl
  by_cases heq : written = ct ++ tag
  · obtain ⟨h1, h2⟩ := hsplit.mpr heq
    refine ⟨true, ?_, ⟨fun _ => ⟨hret, hlen, heq⟩, fun _ => rfl⟩⟩
    simp only [hret, hlen, hct, htag, h1, h2]
    simp
  · refine ⟨false, ?_, by simp [heq]⟩
    have hne : ¬ (written.take msgLen = ct ∧ written.drop msgLen = tag) :=
      fun h => heq (hsplit.mp h)
    simp only [hret, hlen, hct, htag]
    by_cases h1 : written.take msgLen = ct
    · have h2 : ¬ written.drop msgLen = tag := fun h2 => hne ⟨h1, h2⟩
      simp [h1, h2]
    · simp [h1]

/-- For a case declared "valid", buffers of `ct` and `tag` that hold these
and nothing else, and a library that writes at most `max_out_len` bytes,
`checkAeadOpen` hands `ct` followed by `tag` to the open call and returns
`true` if and only if the call returns 1 and gives exactly the decoded
message `m`. This is the situation of `runChaCha20Poly1305Test`, and of
`runAesAeadTest` for a non-empty tag. -/
theorem checkAeadOpen_valid (lib : LibcryptoAead) (ctx : EVP_AEAD_CTX) (iv : List Nat)
    (ivLen : Nat) (aad : List Nat) (aadLen : Nat) (m ct tag : List Nat)
    (wt : wycheproofTestAead) (hvalid : wt.Result = "valid")
    (hout : (lib.EVP_AEAD_CTX_open ctx (ct.length + tag.length) (iv.take ivLen) (ct ++ tag)
      (aad.take aadLen)).2.length ≤ ct.length + tag.length) :
    ∃ b, (checkAeadOpen lib ctx iv ivLen aad aadLen (if m.length = 0 then m ++ [0] else m)
        m.length ct ct.length tag tag.length wt).out = Outcome.returned b ∧
      (b = true ↔
        (lib.EVP_AEAD_CTX_open ctx (ct.length + tag.length) (iv.take ivLen) (ct ++ tag)
          (aad.take aadLen)).1 = 1 ∧
        (lib.EVP_AEAD_CTX_open ctx (ct.length + tag.length) (iv.take ivLen) (ct ++ tag)
          (aad.take aadLen)).2 = m) := by
  have hin : (if (ct ++ tag).length = 0 then ct ++ tag ++ [0] else ct ++ tag).take
      (ct ++ tag).length = ct ++ tag := by
    split
    · rw [List.take_left']
      rfl
    · exact List.take_length _
  have hm : (if m.length = 0 then [] else if m.length = 0 then m ++ [0] else m) = m := by
    by_cases h0 : m.length = 0
    · simp [h0, List.length_eq_zero.mp h0]
    · simp [h0]
  unfold checkAeadOpen
  simp only [Run.bind_def, Run.andThen, Run.call_out, hvalid, hin, hm]
  generalize lib.EVP_AEAD_CTX_open ctx (ct.length + tag.length) (iv.take ivLen) (ct ++ tag)
    (aad.take aadLen) = r at hout
  obtain ⟨ret, written⟩ := r
  simp only at hout ⊢
  by_cases hret : ret = 1
  swap
  · exact ⟨false, by simp [hret], by simp [hret]⟩
  by_cases hlen : written.length = m.length
  swap
  · refine ⟨false, by simp [hret, hlen], ?_⟩
    have : written ≠ m := fun h => hlen (congrArg List.length h)
    simp [this]
  have hroom : written.length ≤ (makeBuffer (ct.length + tag.length)).length :=
    le_trans hout (makeBuffer_length_ge _)
  have hopened : (overwrite (makeBuffer (ct.length + tag.length)) written).take written.length =
      written := by
    rw [overwrite_take _ _ _ (le_refl _) hroom, List.take_length]
  have hnopanic : ¬ (overwrite (makeBuffer (ct.length + tag.length)) written).length <
      written.length := by
    rw [overwrite_length]
    omega
  rw [hlen] at hopened hnopanic
  by_cases heq : written = m
  · refine ⟨true, ?_, ⟨fun _ => ⟨hret, heq⟩, fun _ => rfl⟩⟩
    simp only [hret, hlen, hnopanic, hopened]
    simp [heq]
  · refine ⟨false, ?_, by simp [heq]⟩
    simp only [hret, hlen, hnopanic, hopened]
    simp [heq]

/-- For a case declared "valid" whose key, message and tag decode, with a
non-empty tag, a tag size of at most 64 bytes and a MAC of at least that many
bytes, `runHmacTest` returns `true` if and only if the first `t` bytes of the
MAC are the decoded tag. -/
theorem runHmacTest_valid_nonempty_tag (lib : LibcryptoHmac) (md t : Nat)
    (wt : wycheproofTestHmac) (key msg tag mac : List Nat)
    (hvalid : wt.Result = "valid")
    (hkey : hexDecodeString wt.Key = some key)
    (hmsg : hexDecodeString wt.Msg = some msg)
    (htag : hexDecodeString wt.Tag = some tag)
    (hne : tag ≠ [])
    (ht : t ≤ 64)
    (hmac : lib.HMAC md key msg = some mac)
    (hlen : t ≤ mac.length) :
    ∃ b, (runHmacTest lib md t wt).out = Outcome.returned b ∧ (b = true ↔ mac.take t = tag) := by
  have hk : (if key.length = 0 then key ++ [0] else key).take key.length = key := by
    split
    · rw [List.take_left']
      rfl
    · exact List.take_length _
  have hms : (if msg.length = 0 then msg ++ [0] else msg).take msg.length = msg := by
    split
    · rw [List.take_left']
      rfl
    · exact List.take_length _
  have htg : (if tag.length = 0 then tag ++ [0] else tag) = tag := by
    have : tag.length ≠ 0 := fun h => hne (List.length_eq_zero.mp h)
    simp [this]
  have hgot : (overwrite (List.replicate EVP_MAX_MD_SIZE.toNat 0) mac).take t = mac.take t := by
    unfold overwrite
    rw [List.length_replicate]
    have h64 : EVP_MAX_MD_SIZE.toNat = 64 := rfl
    rw [h64, List.take_append_of_le_length (by rw [List.length_take]; omega), List.take_take]
    congr 1
    omega
  unfold runHmacTest
  rw [mustDecodeHexString_of_decoded _ _ _ hkey, mustDecodeHexString_of_decoded _ _ _ hmsg,
    mustDecodeHexString_of_decoded _ _ _ htag]
  simp only [Run.bind_def, Run.andThen, Run.call_out, hk, hms, hmac, htg, hvalid]
  have h1 : ¬ ((mac.length : Int) < (t : Int)) := by omega
  have h2 : ¬ ((t : Int) < 0 ∨
      ((overwrite (List.replicate EVP_MAX_MD_SIZE.toNat 0) mac).length : Int) < (t : Int)) := by
    rw [overwrite_length, List.length_replicate]
    have h64 : EVP_MAX_MD_SIZE.toNat = 64 := rfl
    rw [h64]
    omega
  simp only [h1, h2, if_false, Int.toNat_ofNat, hgot]
  by_cases heq : mac.take t = tag
  · exact ⟨true, by simp [heq], by simp [heq]⟩
  · exact ⟨false, by simp [heq], by simp [heq]⟩

/-! ## Block cipher and key wrap test cases -/

/-- C21: when the fields of the case decode and both direction checks
return, `runAesCbcPkcs5Test` returns the conjunction of the decrypt check and
the encrypt check, `runKWTest` that of the wrap check and the unwrap check,
and `runChaCha20Poly1305Test` (once the AEAD context is set up) that of the
open check and the seal check; in each the library calls of the second check
follow those of the first, whatever the first check returned. -/
theorem both_directions_checked (cbc : LibcryptoCbc) (kw : LibcryptoAesWrap)
    (aead : LibcryptoAead) :
    (∀ (wt : wycheproofTestAesCbcPkcs5) (key iv ct msg : List Nat × Nat) (b1 b2 : Bool),
      (mustDecodeHexString wt.Key "key").out = Outcome.returned key →
      (mustDecodeHexString wt.IV "iv").out = Outcome.returned iv →
      (mustDecodeHexString wt.CT "ct").out = Outcome.returned ct →
      (mustDecodeHexString wt.Msg "message").out = Outcome.returned msg →
      (checkAesCbcPkcs5 cbc 0 key.1 key.2 iv.1 iv.2 ct.1 ct.2 msg.1 msg.2 wt).out =
        Outcome.returned b1 →
      (checkAesCbcPkcs5 cbc 1 key.1 key.2 iv.1 iv.2 msg.1 msg.2 ct.1 ct.2 wt).out =
        Outcome.returned b2 →
      (runAesCbcPkcs5Test cbc wt).out = Outcome.returned (b1 && b2) ∧
        (runAesCbcPkcs5Test cbc wt).trace =
          (checkAesCbcPkcs5 cbc 0 key.1 key.2 iv.1 iv.2 ct.1 ct.2 msg.1 msg.2 wt).trace ++
            (checkAesCbcPkcs5 cbc 1 key.1 key.2 iv.1 iv.2 msg.1 msg.2 ct.1 ct.2 wt).trace) ∧
    (∀ (keySize : Int) (wt : wycheproofTestKW) (key msg ct : List Nat × Nat) (b1 b2 : Bool),
      (mustDecodeHexString wt.Key "key").out = Outcome.returned key →
      (mustDecodeHexString wt.Msg "msg").out = Outcome.returned msg →
      (mustDecodeHexString wt.CT "CT").out = Outcome.returned ct →
      (runKWTestWrap kw keySize key.1 key.2 msg.1 msg.2 ct.1 ct.2 wt).out =
        Outcome.returned b1 →
      (runKWTestUnWrap kw keySize key.1 key.2 msg.1 msg.2 ct.1 ct.2 wt).out =
        Outcome.returned b2 →
      (runKWTest kw keySize wt).out = Outcome.returned (b1 && b2) ∧
        (runKWTest kw keySize wt).trace =
          (runKWTestWrap kw keySize key.1 key.2 msg.1 msg.2 ct.1 ct.2 wt).trace ++
            (runKWTestUnWrap kw keySize key.1 key.2 msg.1 msg.2 ct.1 ct.2 wt).trace) ∧
    (∀ (wt : wycheproofTestAead) (key iv aad msg : List Nat × Nat) (ct tag : List Nat)
        (b1 b2 : Bool),
      (mustDecodeHexString wt.Key "key").out = Outcome.returned key →
      (mustDecodeHexString wt.IV "iv").out = Outcome.returned iv →
      (mustDecodeHexString wt.AAD "aad").out = Outcome.returned aad →
      (mustDecodeHexString wt.Msg "msg").out = Outcome.returned msg →
      hexDecodeString wt.CT = some ct →
      hexDecodeString wt.Tag = some tag →
      aead.EVP_AEAD_CTX_new = true →
      aead.EVP_AEAD_CTX_init EVP_aead_chacha20_poly1305 (key.1.take key.2) tag.length = 1 →
      (checkAeadOpen aead ⟨EVP_aead_chacha20_poly1305, key.1.take key.2, tag.length⟩
        iv.1 iv.2 aad.1 aad.2 msg.1 msg.2 ct ct.length tag tag.length wt).out =
        Outcome.returned b1 →
      (checkAeadSeal aead ⟨EVP_aead_chacha20_poly1305, key.1.take key.2, tag.length⟩
        iv.1 iv.2 aad.1 aad.2 msg.1 msg.2 ct ct.length tag tag.length wt).out =
        Outcome.returned b2 →
      (runChaCha20Poly1305Test aead "CHACHA20-POLY1305" wt).out = Outcome.returned (b1 && b2) ∧
        (runChaCha20Poly1305Test aead "CHACHA20-POLY1305" wt).trace =
          ["EVP_AEAD_CTX_new", "EVP_AEAD_CTX_init"] ++
            (checkAeadOpen aead ⟨EVP_aead_chacha20_poly1305, key.1.take key.2, tag.length⟩
              iv.1 iv.2 aad.1 aad.2 msg.1 msg.2 ct ct.length tag tag.length wt).trace ++
            (checkAeadSeal aead ⟨EVP_aead_chacha20_poly1305, key.1.take key.2, tag.length⟩
              iv.1 iv.2 aad.1 aad.2 msg.1 msg.2 ct ct.length tag tag.length wt).trace) := by
  refine ⟨?_, ?_, ?_⟩
  · intro wt key iv ct msg b1 b2 hkey hiv hct hmsg h1 h2
    obtain ⟨key, keyLen⟩ := key
    obtain ⟨iv, ivLen⟩ := iv
    obtain ⟨ct, ctLen⟩ := ct
    obtain ⟨msg, msgLen⟩ := msg
    simp only at h1 h2 ⊢
    unfold runAesCbcPkcs5Test
    simp only [Run.bind_def, Run.andThen, hkey, hiv, hct, hmsg, h1, h2,
      mustDecodeHexString_trace, Run.pure_out, Run.pure_trace, List.nil_append,
      List.append_nil, and_self]
  · intro keySize wt key msg ct b1 b2 hkey hmsg hct h1 h2
    obtain ⟨key, keyLen⟩ := key
    obtain ⟨msg, msgLen⟩ := msg
    obtain ⟨ct, ctLen⟩ := ct
    simp only at h1 h2 ⊢
    unfold runKWTest
    simp only [Run.bind_def, Run.andThen, hkey, hmsg, hct, h1, h2,
      mustDecodeHexString_trace, Run.pure_out, Run.pure_trace, List.nil_append,
      List.append_nil, and_self]
  · intro wt key iv aad msg ct tag b1 b2 hkey hiv haad hmsg hct htag hnew hinit h1 h2
    obtain ⟨key, keyLen⟩ := key
    obtain ⟨iv, ivLen⟩ := iv
    obtain ⟨aad, aadLen⟩ := aad
    obtain ⟨msg, msgLen⟩ := msg
    simp only at h1 h2 hinit ⊢
    unfold runChaCha20Poly1305Test runChaCha20Poly1305Test.checks
    simp only [Run.bind_def, Run.andThen, hkey, hiv, haad, hmsg, hct, htag, hnew, hinit, h1, h2,
      mustDecodeHexString_trace, Run.pure_out, Run.pure_trace, Run.call_out, Run.call_trace,
      List.nil_append, List.append_nil, if_true, if_false, ne_eq, not_true_eq_false,
      Bool.true_eq_false, List.append_assoc, List.singleton_append, List.cons_append, and_self]

/-- The claim C21 at three cases whose first direction check fails and whose
second passes. -/
theorem both_directions_checked_witness :
    ((runAesCbcPkcs5Test encryptOnlyCbc cbcCase).out = Outcome.returned (false && true) ∧
      (runAesCbcPkcs5Test encryptOnlyCbc cbcCase).trace =
        (checkAesCbcPkcs5 encryptOnlyCbc 0 (List.range 16) 16 (List.range' 16 16) 16 [187] 1
          [170] 1 cbcCase).trace ++
        (checkAesCbcPkcs5 encryptOnlyCbc 1 (List.range 16) 16 (List.range' 16 16) 16 [170] 1
          [187] 1 cbcCase).trace) ∧
    ((runKWTest unwrapOnlyWrap 128 kwCase).out = Outcome.returned (false && true) ∧
      (runKWTest unwrapOnlyWrap 128 kwCase).trace =
        (runKWTestWrap unwrapOnlyWrap 128 (List.range 16) 16
          [0, 17, 34, 51, 68, 85, 102, 119, 136, 153, 170, 187, 204, 221, 238, 255] 16
          (List.replicate 8 166 ++
            [0, 17, 34, 51, 68, 85, 102, 119, 136, 153, 170, 187, 204, 221, 238, 255]) 24
          kwCase).trace ++
        (runKWTestUnWrap unwrapOnlyWrap 128 (List.range 16) 16
          [0, 17, 34, 51, 68, 85, 102, 119, 136, 153, 170, 187, 204, 221, 238, 255] 16
          (List.replicate 8 166 ++
            [0, 17, 34, 51, 68, 85, 102, 119, 136, 153, 170, 187, 204, 221, 238, 255]) 24
          kwCase).trace) ∧
    ((runChaCha20Poly1305Test sealOnlyAead "CHACHA20-POLY1305" chachaCase).out =
        Outcome.returned (false && true) ∧
      (runChaCha20Poly1305Test sealOnlyAead "CHACHA20-POLY1305" chachaCase).trace =
        ["EVP_AEAD_CTX_new", "EVP_AEAD_CTX_init"] ++
          (checkAeadOpen sealOnlyAead ⟨EVP_aead_chacha20_poly1305, (List.range 32).take 32, 1⟩
            (List.range' 80 12) 12 [0] 0 [170] 1 [170] 1 [0] 1 chachaCase).trace ++
          (checkAeadSeal sealOnlyAead ⟨EVP_aead_chacha20_poly1305, (List.range 32).take 32, 1⟩
            (List.range' 80 12) 12 [0] 0 [170] 1 [170] 1 [0] 1 chachaCase).trace) :=
  ⟨(both_directions_checked encryptOnlyCbc unwrapOnlyWrap sealOnlyAead).1 cbcCase
      (List.range 16, 16) (List.range' 16 16, 16) ([187], 1) ([170], 1) false true
      rfl rfl rfl rfl rfl rfl,
    (both_directions_checked encryptOnlyCbc unwrapOnlyWrap sealOnlyAead).2.1 128 kwCase
      (List.range 16, 16)
      ([0, 17, 34, 51, 68, 85, 102, 119, 136, 153, 170, 187, 204, 221, 238, 255], 16)
      (List.replicate 8 166 ++
        [0, 17, 34, 51, 68, 85, 102, 119, 136, 153, 170, 187, 204, 221, 238, 255], 24)
      false true rfl rfl rfl rfl rfl,
    (both_directions_checked encryptOnlyCbc unwrapOnlyWrap sealOnlyAead).2.2 chachaCase
      (List.range 32, 32) (List.range' 80 12, 12) ([0], 0) ([170], 1) [170] [0] false true
      rfl rfl rfl rfl rfl rfl rfl rfl rfl rfl⟩

/-- C29 fails at a key wrap case whose ciphertext has seven bytes, with an
unwrap that reports the error by -1: that value equals `ctLen - 8`, so
`runKWTestUnWrap` goes on to slice `out[0:ret]` with `ret = -1` and panics;
`runKWTest` ends the same way and returns no boolean. -/
theorem runKWTestUnWrap_short_ciphertext :
    hexDecodeString kwShortCase.CT = some [0, 17, 34, 51, 68, 85, 102] ∧
      lengthCheckingWrap.AES_unwrap_key (List.range 16) 128 [0, 17, 34, 51, 68, 85, 102] =
        (-1, []) ∧
      (runKWTestUnWrap lengthCheckingWrap 128 (List.range 16) 16 [0] 0
        [0, 17, 34, 51, 68, 85, 102] 7 kwShortCase).out =
        Outcome.fatal "panic: slice bounds out of range" ∧
      (runKWTest lengthCheckingWrap 128 kwShortCase).out =
        Outcome.fatal "panic: slice bounds out of range" :=
  ⟨rfl, rfl, rfl, rfl⟩

/-! ## The registry -/

open testVariant in
/-- C23: `testGroupFromTestVector` depends on the algorithm and the schema of
the file only (its result is that for the same algorithm and schema with no
test group), and resolves by schema as follows. "DSA": P1363 for
"dsa_p1363_verify_schema_v1.json", else Normal. "ECDSA": P1363 for
"ecdsa_p1363_verify_schema_v1.json", Skip for
"ecdsa_bitcoin_verify_schema.json", else Normal. "ECDH": the web-crypto
executor with Webcrypto for "ecdh_webcrypto_test_schema_v1.json", else the
ECDH executor with EcPoint for "ecdh_ecpoint_test_schema_v1.json", Skip for
"ecdh_pem_test_schema_v1.json" and Normal otherwise. "XDH": Skip for the asn,
jwk and pem comp schemas, else Normal. -/
theorem testGroupFromTestVector_by_schema {Raw : Type} :
    (∀ wtv : wycheproofTestVectorsV1 Raw,
      testGroupFromTestVector wtv =
        testGroupFromTestVector (⟨wtv.Algorithm, wtv.Schema, 0, [], []⟩ :
          wycheproofTestVectorsV1 Raw)) ∧
    (∀ (schema : String) (n : Int) (header : List String) (groups : List Raw),
      testGroupFromTestVector (⟨"DSA", schema, n, header, groups⟩ : wycheproofTestVectorsV1 Raw) =
        (some wycheproofTestGroupRunner.wycheproofTestGroupDSA,
          if schema = "dsa_p1363_verify_schema_v1.json" then P1363 else testVariant.Normal)) ∧
    (∀ (schema : String) (n : Int) (header : List String) (groups : List Raw),
      testGroupFromTestVector (⟨"ECDSA", schema, n, header, groups⟩ :
          wycheproofTestVectorsV1 Raw) =
        (some wycheproofTestGroupRunner.wycheproofTestGroupECDSA,
          if schema = "ecdsa_p1363_verify_schema_v1.json" then P1363
          else if schema = "ecdsa_bitcoin_verify_schema.json" then Skip
          else testVariant.Normal)) ∧
    (∀ (schema : String) (n : Int) (header : List String) (groups : List Raw),
      testGroupFromTestVector (⟨"ECDH", schema, n, header, groups⟩ :
          wycheproofTestVectorsV1 Raw) =
        if schema = "ecdh_webcrypto_test_schema_v1.json" then
          (some wycheproofTestGroupRunner.wycheproofTestGroupECDHWebCrypto, Webcrypto)
        else
          (some wycheproofTestGroupRunner.wycheproofTestGroupECDH,
            if schema = "ecdh_ecpoint_test_schema_v1.json" then EcPoint
            else if schema = "ecdh_pem_test_schema_v1.json" then Skip
            else testVariant.Normal)) ∧
    (∀ (schema : String) (n : Int) (header : List String) (groups : List Raw),
      testGroupFromTestVector (⟨"XDH", schema, n, header, groups⟩ : wycheproofTestVectorsV1 Raw) =
        (some wycheproofTestGroupRunner.wycheproofTestGroupX25519,
          if schema = "xdh_asn_comp_schema_v1.json" ∨ schema = "xdh_jwk_comp_schema_v1.json" ∨
              schema = "xdh_pem_comp_schema_v1.json" then Skip
          else testVariant.Normal)) := by
  refine ⟨fun wtv => rfl, ?_, ?_, ?_, ?_⟩
  · intro schema n header groups
    unfold testGroupFromTestVector
    simp only [List.mem_cons, List.mem_singleton, List.not_mem_nil, or_false]
    simp +decide only [if_false, if_true]
  · intro schema n header groups
    unfold testGroupFromTestVector
    simp only [List.mem_cons, List.mem_singleton, List.not_mem_nil, or_false]
    simp +decide only [if_false, if_true]
  · intro schema n header groups
    unfold testGroupFromTestVector
    simp only [List.mem_cons, List.mem_singleton, List.not_mem_nil, or_false]
    simp +decide only [if_false, if_true]
    by_cases h0 : schema = "ecdh_webcrypto_test_schema_v1.json"
    · simp [h0]
    · by_cases h1 : schema = "ecdh_ecpoint_test_schema_v1.json"
      · simp +decide [h1]
      · by_cases h2 : schema = "ecdh_pem_test_schema_v1.json"
        · simp +decide [h2]
        · simp [h0, h1, h2]
  · intro schema n header groups
    unfold testGroupFromTestVector
    simp only [List.mem_cons, List.mem_singleton, List.not_mem_nil, or_false]
    simp +decide only [if_false, if_true]
    by_cases h0 : schema = "xdh_asn_comp_schema_v1.json" ∨
        schema = "xdh_jwk_comp_schema_v1.json" ∨ schema = "xdh_pem_comp_schema_v1.json"
    · simp [h0]
    · simp only [h0, if_false, ite_self]

/-! ## PBKDF2 test cases and the executors of the key derivations -/

/-- The logical bytes of a decoded buffer are the decoding. -/
theorem take_placeholder (l : List Nat) :
    (if l.length = 0 then l ++ [0] else l).take l.length = l := by
  split
  · rw [List.take_left']
    rfl
  · exact List.take_length _

/-- C24, as stated, fails: a PBKDF2 case declared "invalid" whose derivation
reports an error makes `runPbkdfTest` return `false`. -/
theorem runPbkdfTest_invalid_error_fails :
    pbkdfInvalidCase.Result = "invalid" ∧
      (failingPbkdf.PKCS5_PBKDF2_HMAC [112, 97, 115, 115, 119, 111, 114, 100]
        [115, 97, 108, 116] 0 3 2).1 = 0 ∧
      (runPbkdfTest failingPbkdf 3 pbkdfInvalidCase).out = Outcome.returned false :=
  ⟨rfl, rfl, rfl⟩

/-- C24, amended: for every PBKDF2 test case whose fields decode and whose
`dkLen` is positive, `runPbkdfTest` returns, and it returns `true` if and
only if the declared result is "valid", the derivation call returns 1 and the
`dkLen` bytes of the output buffer equal the buffer of the expected key. A
case declared "invalid" therefore returns `false`, whether or not the
derivation reports an error, and a case declared "valid" with a non-empty
expected key returns `true` if and only if the derivation succeeds and the
derived bytes equal the expected key. -/
theorem runPbkdfTest_verdict (lib : LibcryptoPbkdf) (md : Nat) (wt : wycheproofTestPbkdf)
    (pw salt dk : List Nat)
    (hpw : hexDecodeString wt.Password = some pw)
    (hsalt : hexDecodeString wt.Salt = some salt)
    (hdk : hexDecodeString wt.Dk = some dk)
    (hlen : 0 < wt.DkLen) :
    ∃ b, (runPbkdfTest lib md wt).out = Outcome.returned b ∧
      (b = true ↔ wt.Result = "valid" ∧
        (lib.PKCS5_PBKDF2_HMAC pw salt wt.IterationCount md wt.DkLen).1 = 1 ∧
        overwrite (List.replicate wt.DkLen.toNat 0)
          (lib.PKCS5_PBKDF2_HMAC pw salt wt.IterationCount md wt.DkLen).2 =
            (if dk.length = 0 then dk ++ [0] else dk)) ∧
      (wt.Result = "invalid" → b = false) ∧
      (wt.Result = "valid" → dk ≠ [] →
        (b = true ↔
          (lib.PKCS5_PBKDF2_HMAC pw salt wt.IterationCount md wt.DkLen).1 = 1 ∧
          overwrite (List.replicate wt.DkLen.toNat 0)
            (lib.PKCS5_PBKDF2_HMAC pw salt wt.IterationCount md wt.DkLen).2 = dk)) := by
  have h1 : ¬ wt.DkLen < 0 := by omega
  have h2 : ¬ wt.DkLen = 0 := by omega
  have hout : (runPbkdfTest lib md wt).out = Outcome.returned
      (decide (wt.Result = "valid" ∧
        (lib.PKCS5_PBKDF2_HMAC pw salt wt.IterationCount md wt.DkLen).1 = 1 ∧
        overwrite (List.replicate wt.DkLen.toNat 0)
          (lib.PKCS5_PBKDF2_HMAC pw salt wt.IterationCount md wt.DkLen).2 =
            (if dk.length = 0 then dk ++ [0] else dk))) := by
    unfold runPbkdfTest
    rw [mustDecodeHexString_of_decoded _ _ _ hpw, mustDecodeHexString_of_decoded _ _ _ hsalt,
      mustDecodeHexString_of_decoded _ _ _ hdk]
    simp only [Run.bind_def, Run.andThen, Run.call_out, take_placeholder, h1, h2, if_false]
    generalize lib.PKCS5_PBKDF2_HMAC pw salt wt.IterationCount md wt.DkLen = r
    obtain ⟨ret, written⟩ := r
    simp only
    generalize overwrite (List.replicate wt.DkLen.toNat 0) written = derived
    generalize (if dk.length = 0 then dk ++ [0] else dk) = expected
    by_cases hv : wt.Result = "valid"
    · by_cases hr : ret = 1
      · by_cases he : expected = derived
        · subst he
          simp [hv, hr]
        · have he2 : ¬ derived = expected := fun h => he h.symm
          simp [hv, hr, he, he2]
      · simp [hv, hr]
    · simp [hv]
  refine ⟨_, hout, ?_, ?_, ?_⟩
  · simp only [decide_eq_true_eq]
  · intro hinv
    have : ¬ wt.Result = "valid" := by
      rw [hinv]
      decide
    simp [this]
  · intro hv hne
    have hd : ¬ dk.length = 0 := fun h => hne (List.length_eq_zero.mp h)
    simp only [decide_eq_true_eq, hv, true_and, hd, if_false]

/-- The amended claim C24 at a case declared "valid" whose expected key is
what the derivation gives. -/
theorem runPbkdfTest_verdict_witness :
    ∃ b, (runPbkdfTest constantPbkdf 3 pbkdfValidCase).out = Outcome.returned b ∧
      (b = true ↔ pbkdfValidCase.Result = "valid" ∧
        (constantPbkdf.PKCS5_PBKDF2_HMAC [112, 97, 115, 115, 119, 111, 114, 100]
          [115, 97, 108, 116] pbkdfValidCase.IterationCount 3 pbkdfValidCase.DkLen).1 = 1 ∧
        overwrite (List.replicate pbkdfValidCase.DkLen.toNat 0)
          (constantPbkdf.PKCS5_PBKDF2_HMAC [112, 97, 115, 115, 119, 111, 114, 100]
            [115, 97, 108, 116] pbkdfValidCase.IterationCount 3 pbkdfValidCase.DkLen).2 =
            (if [170, 170].length = 0 then [170, 170] ++ [0] else [170, 170])) ∧
      (pbkdfValidCase.Result = "invalid" → b = false) ∧
      (pbkdfValidCase.Result = "valid" → [170, 170] ≠ [] →
        (b = true ↔
          (constantPbkdf.PKCS5_PBKDF2_HMAC [112, 97, 115, 115, 119, 111, 114, 100]
            [115, 97, 108, 116] pbkdfValidCase.IterationCount 3 pbkdfValidCase.DkLen).1 = 1 ∧
          overwrite (List.replicate pbkdfValidCase.DkLen.toNat 0)
            (constantPbkdf.PKCS5_PBKDF2_HMAC [112, 97, 115, 115, 119, 111, 114, 100]
              [115, 97, 108, 116] pbkdfValidCase.IterationCount 3 pbkdfValidCase.DkLen).2 =
              [170, 170])) :=
  runPbkdfTest_verdict constantPbkdf 3 pbkdfValidCase [112, 97, 115, 115, 119, 111, 114, 100]
    [115, 97, 108, 116] [170, 170] rfl rfl rfl (by decide)
/-- A conditional whose two branches both avoid `x` in the first component
avoids it. -/
theorem ite_fst_ne {α β : Type} {c : Prop} [Decidable c] {a b : α × β} {x : α}
    (ha : c → a.1 ≠ x) (hb : ¬ c → b.1 ≠ x) : (if c then a else b).1 ≠ x := by
  split
  · exact ha ‹_›
  · exact hb ‹_›

/-- The algorithm names that `testGroupFromTestVector` maps to the HMAC, the
HKDF and the PBKDF2 executor are those of the three `case` lines. -/
theorem testGroupFromTestVector_mac_kdf {Raw : Type} (wtv : wycheproofTestVectorsV1 Raw) :
    ((testGroupFromTestVector wtv).1 = some wycheproofTestGroupRunner.wycheproofTestGroupHmac →
      wtv.Algorithm ∈ ["HMACSHA1", "HMACSHA224", "HMACSHA256", "HMACSHA384", "HMACSHA512",
        "HMACSHA512/224", "HMACSHA512/256", "HMACSHA3-224", "HMACSHA3-256", "HMACSHA3-384",
        "HMACSHA3-512", "HMACSM3"]) ∧
    ((testGroupFromTestVector wtv).1 = some wycheproofTestGroupRunner.wycheproofTestGroupHkdf →
      wtv.Algorithm ∈ ["HKDF-SHA-1", "HKDF-SHA-256", "HKDF-SHA-384", "HKDF-SHA-512"]) ∧
    ((testGroupFromTestVector wtv).1 =
        some wycheproofTestGroupRunner.wycheproofTestGroupPbkdf2HmacSha →
      wtv.Algorithm ∈ ["PBKDF2-HMACSHA1", "PBKDF2-HMACSHA224", "PBKDF2-HMACSHA256",
        "PBKDF2-HMACSHA384", "PBKDF2-HMACSHA512"]) := by
  refine ⟨?_, ?_, ?_⟩ <;>
  · intro h
    by_contra hn
    revert h
    unfold testGroupFromTestVector
    dsimp only
    repeat' (apply ite_fst_ne <;> intro hc)
    all_goals first | exact absurd hc hn | simp

/-- C27: for every corpus file that `testGroupFromTestVector` gives to the
HMAC, the HKDF or the PBKDF2 executor, the hash name that `run` derives from
the algorithm name is a key of `evpMds`: `run` is the loop over the test
cases with that digest and never ends in "Failed to get hash". -/
theorem mac_kdf_hash_resolves {Raw : Type} (wtv : wycheproofTestVectorsV1 Raw) :
    ((testGroupFromTestVector wtv).1 = some wycheproofTestGroupRunner.wycheproofTestGroupHmac →
      ∃ hs md, (hs, md) ∈ evpMds ∧
        ∀ (lib : LibcryptoHmac) (wtg : wycheproofTestGroupHmac) (variant : testVariant),
          wycheproofTestGroupHmac.run lib wtg wtv.Algorithm variant =
            (forRange (fun wt success => do
              if !(← runHmacTest lib md (Int.tdiv wtg.TagSize 8) wt) then
                pure false
              else
                pure success) wtg.Tests true) >>= fun success => pure success) ∧
    ((testGroupFromTestVector wtv).1 = some wycheproofTestGroupRunner.wycheproofTestGroupHkdf →
      ∃ hs md, (hs, md) ∈ evpMds ∧
        ∀ (lib : LibcryptoHkdf) (wtg : wycheproofTestGroupHkdf) (variant : testVariant),
          wycheproofTestGroupHkdf.run lib wtg wtv.Algorithm variant =
            (forRange (fun wt success => do
              if !(← runHkdfTest lib md wt) then
                pure false
              else
                pure success) wtg.Tests true) >>= fun success => pure success) ∧
    ((testGroupFromTestVector wtv).1 =
        some wycheproofTestGroupRunner.wycheproofTestGroupPbkdf2HmacSha →
      ∃ hs md, (hs, md) ∈ evpMds ∧
        ∀ (lib : LibcryptoPbkdf) (wtg : wycheproofTestGroupPbkdf2HmacSha)
          (variant : testVariant),
          wycheproofTestGroupPbkdf2HmacSha.run lib wtg wtv.Algorithm variant =
            (forRange (fun wt success => do
              if !(← runPbkdfTest lib md wt) then
                pure false
              else
                pure success) wtg.Tests true) >>= fun success => pure success) := by
  obtain ⟨hmac, hkdf, hpbkdf⟩ := testGroupFromTestVector_mac_kdf wtv
  refine ⟨fun h => ?_, fun h => ?_, fun h => ?_⟩
  · have hmem := hmac h
    simp only [List.mem_cons, List.mem_singleton, List.not_mem_nil, or_false] at hmem
    rcases hmem with e | e | e | e | e | e | e | e | e | e | e | e <;> rw [e]
    · exact ⟨"SHA-1", 1, by decide, fun _ _ _ => rfl⟩
    · exact ⟨"SHA-224", 2, by decide, fun _ _ _ => rfl⟩
    · exact ⟨"SHA-256", 3, by decide, fun _ _ _ => rfl⟩
    · exact ⟨"SHA-384", 4, by decide, fun _ _ _ => rfl⟩
    · exact ⟨"SHA-512", 5, by decide, fun _ _ _ => rfl⟩
    · exact ⟨"SHA-512/224", 6, by decide, fun _ _ _ => rfl⟩
    · exact ⟨"SHA-512/256", 7, by decide, fun _ _ _ => rfl⟩
    · exact ⟨"SHA3-224", 8, by decide, fun _ _ _ => rfl⟩
    · exact ⟨"SHA3-256", 9, by decide, fun _ _ _ => rfl⟩
    · exact ⟨"SHA3-384", 10, by decide, fun _ _ _ => rfl⟩
    · exact ⟨"SHA3-512", 11, by decide, fun _ _ _ => rfl⟩
    · exact ⟨"SM3", 12, by decide, fun _ _ _ => rfl⟩
  · have hmem := hkdf h
    simp only [List.mem_cons, List.mem_singleton, List.not_mem_nil, or_false] at hmem
    rcases hmem with e | e | e | e <;> rw [e]
    · exact ⟨"SHA-1", 1, by decide, fun _ _ _ => rfl⟩
    · exact ⟨"SHA-256", 3, by decide, fun _ _ _ => rfl⟩
    · exact ⟨"SHA-384", 4, by decide, fun _ _ _ => rfl⟩
    · exact ⟨"SHA-512", 5, by decide, fun _ _ _ => rfl⟩
  · have hmem := hpbkdf h
    simp only [List.mem_cons, List.mem_singleton, List.not_mem_nil, or_false] at hmem
    rcases hmem with e | e | e | e | e <;> rw [e]
    · exact ⟨"SHA-1", 1, by decide, fun _ _ _ => rfl⟩
    · exact ⟨"SHA-224", 2, by decide, fun _ _ _ => rfl⟩
    · exact ⟨"SHA-256", 3, by decide, fun _ _ _ => rfl⟩
    · exact ⟨"SHA-384", 4, by decide, fun _ _ _ => rfl⟩
    · exact ⟨"SHA-512", 5, by decide, fun _ _ _ => rfl⟩

/-- The claim C27 at an HMAC-SHA3-256, an HKDF-SHA-512 and a
PBKDF2-HMACSHA224 corpus file. -/
theorem mac_kdf_hash_resolves_witness :
    (∃ hs md, (hs, md) ∈ evpMds ∧
      ∀ (lib : LibcryptoHmac) (wtg : wycheproofTestGroupHmac) (variant : testVariant),
        wycheproofTestGroupHmac.run lib wtg hmacSha3File.Algorithm variant =
          (forRange (fun wt success => do
            if !(← runHmacTest lib md (Int.tdiv wtg.TagSize 8) wt) then
              pure false
            else
              pure success) wtg.Tests true) >>= fun success => pure success) ∧
    (∃ hs md, (hs, md) ∈ evpMds ∧
      ∀ (lib : LibcryptoHkdf) (wtg : wycheproofTestGroupHkdf) (variant : testVariant),
        wycheproofTestGroupHkdf.run lib wtg hkdfFile.Algorithm variant =
          (forRange (fun wt success => do
            if !(← runHkdfTest lib md wt) then
              pure false
            else
              pure success) wtg.Tests true) >>= fun success => pure success) ∧
    (∃ hs md, (hs, md) ∈ evpMds ∧
      ∀ (lib : LibcryptoPbkdf) (wtg : wycheproofTestGroupPbkdf2HmacSha)
        (variant : testVariant),
        wycheproofTestGroupPbkdf2HmacSha.run lib wtg pbkdfFile.Algorithm variant =
          (forRange (fun wt success => do
            if !(← runPbkdfTest lib md wt) then
              pure false
            else
              pure success) wtg.Tests true) >>= fun success => pure success) :=
  ⟨(mac_kdf_hash_resolves hmacSha3File).1 (by decide),
    (mac_kdf_hash_resolves hkdfFile).2.1 (by decide),
    (mac_kdf_hash_resolves pbkdfFile).2.2 (by decide)⟩

/-! ## The executor of the AES AEAD test groups -/

/-- A map from the key sizes 128, 192 and 256 has these keys and no other. -/
theorem lookup_key_size (size : Int) (x y z : Nat) :
    (([(128, x), (192, y), (256, z)] : List (Int × Nat)).lookup size).isSome = true ↔
      (size = 128 ∨ size = 192 ∨ size = 256) := by
  by_cases a : size = 128
  · subst a; simp [List.lookup]
  by_cases b : size = 192
  · subst b; simp [List.lookup]
  by_cases c : size = 256
  · subst c; simp [List.lookup]
  have a2 : (size == 128) = false := by simpa using a
  have b2 : (size == 192) = false := by simpa using b
  have c2 : (size == 256) = false := by simpa using c
  simp [List.lookup, a, b, c, a2, b2, c2]

/-- The three maps of AES ciphers have the key sizes 128, 192 and 256. -/
theorem cipherAes_isSome (algorithm : String) (size : Int) :
    (cipherAes algorithm size).isSome = true ↔
      (algorithm = "AES-CBC" ∨ algorithm = "AES-CCM" ∨ algorithm = "AES-GCM") ∧
        (size = 128 ∨ size = 192 ∨ size = 256) := by
  unfold cipherAes aeses
  by_cases h1 : algorithm = "AES-CBC"
  · subst h1
    simpa [List.lookup, aesCbcs] using lookup_key_size size 11 12 13
  by_cases h2 : algorithm = "AES-CCM"
  · subst h2
    simpa [List.lookup, aesCcms] using lookup_key_size size 21 22 23
  by_cases h3 : algorithm = "AES-GCM"
  · subst h3
    simpa [List.lookup, aesGcms] using lookup_key_size size 31 32 33
  have a2 : (algorithm == "AES-CBC") = false := by simpa using h1
  have b2 : (algorithm == "AES-CCM") = false := by simpa using h2
  have c2 : (algorithm == "AES-GCM") = false := by simpa using h3
  simp [List.lookup, h1, h2, h3, a2, b2, c2]

/-- The map of AES AEADs has the key sizes 128, 192 (with `nil`) and 256. -/
theorem aeadAes_isSome (size : Int) :
    (aeadAes size).isSome = true ↔ (size = 128 ∨ size = 192 ∨ size = 256) := by
  unfold aeadAes aesAeads
  exact lookup_key_size size _ _ _

/-- C28: in `(*wycheproofTestGroupAesAead).run` with the algorithm
"AES-GCM", whenever `cipherAes` finds a cipher for the key size of the group,
`aeadAes` finds an entry too (the `nil` AEAD for 192 bits), so `run` goes on
to the test cases and the fatal branch after `aeadAes` is not taken; and
whenever `cipherAes` finds no cipher, for any algorithm, `run` returns `true`
without a library call or a test case. -/
theorem aesAead_run_lookups (clib : LibcryptoCipherCtx) (lib : LibcryptoCipher)
    (alib : LibcryptoAead) (wtg : wycheproofTestGroupAead) (variant : testVariant) :
    (∀ cipher, cipherAes "AES-GCM" wtg.KeySize = some cipher →
      ∃ aead, aeadAes wtg.KeySize = some aead ∧
        wycheproofTestGroupAesAead.run clib lib alib wtg "AES-GCM" variant =
          wycheproofTestGroupAesAead.run.tests clib lib alib wtg "AES-GCM" cipher aead) ∧
    (∀ algorithm, cipherAes algorithm wtg.KeySize = none →
      wycheproofTestGroupAesAead.run clib lib alib wtg algorithm variant =
        ⟨Outcome.returned true, []⟩) := by
  constructor
  · intro cipher hc
    have hsize := ((cipherAes_isSome "AES-GCM" wtg.KeySize).mp (by rw [hc]; rfl)).2
    have haead := (aeadAes_isSome wtg.KeySize).mpr hsize
    obtain ⟨aead, ha⟩ := Option.isSome_iff_exists.mp haead
    refine ⟨aead, ha, ?_⟩
    unfold wycheproofTestGroupAesAead.run
    simp only [hc, ha, if_true]
  · intro algorithm hc
    unfold wycheproofTestGroupAesAead.run
    simp only [hc]
    rfl

/-- The claim C28 at an AES-GCM group with 192-bit keys, for which the AEAD
is `nil`, and at an AES-CCM group with 512-bit keys. -/
theorem aesAead_run_lookups_witness :
    (∃ aead, aeadAes gcm192Group.KeySize = some aead ∧
      wycheproofTestGroupAesAead.run acceptingCipherCtx acceptingCipher zeroTagAead gcm192Group
          "AES-GCM" testVariant.Normal =
        wycheproofTestGroupAesAead.run.tests acceptingCipherCtx acceptingCipher zeroTagAead
          gcm192Group "AES-GCM" 32 aead) ∧
    wycheproofTestGroupAesAead.run acceptingCipherCtx acceptingCipher zeroTagAead ccm512Group
        "AES-CCM" testVariant.Normal = ⟨Outcome.returned true, []⟩ :=
  ⟨(aesAead_run_lookups acceptingCipherCtx acceptingCipher zeroTagAead gcm192Group
      testVariant.Normal).1 32 (by decide),
    (aesAead_run_lookups acceptingCipherCtx acceptingCipher zeroTagAead ccm512Group
      testVariant.Normal).2 "AES-CCM" (by decide)⟩

/-! ## The names of the CCTV flags -/

/-- On known flag names `(*Flags).UnmarshalJSON` returns the bitwise OR of
the value it starts from and the named bits. -/
theorem unmarshalJSON_known (v : List String) :
    ∀ f : Flags, (∀ flag ∈ v, flag ∈ flagNames) →
      Flags.UnmarshalJSON f v =
        (pure (v.foldl (fun acc flag => acc ||| namedBit flag) f) : Run String Flags) := by
  induction v with
  | nil =>
    intro f _
    rfl
  | cons flag v ih =>
    intro f h
    have hflag := h flag (List.mem_cons_self flag v)
    have hv : ∀ x ∈ v, x ∈ flagNames := fun x hx => h x (List.mem_cons_of_mem flag hx)
    simp only [flagNames, List.mem_cons, List.mem_singleton, List.not_mem_nil, or_false] at hflag
    rw [List.foldl_cons]
    rcases hflag with e | e | e | e | e | e | e | e <;> subst e <;>
      simp +decide only [Flags.UnmarshalJSON, namedBit, if_true, if_false] <;>
      exact ih _ hv

/-- A bit of an OR over a list is set if and only if it is set at the start
or in the value of some element. -/
theorem testBit_foldl_or {α : Type} (g : α → Nat) (v : List α) (i : Nat) :
    ∀ f : Nat, (v.foldl (fun acc x => acc ||| g x) f).testBit i =
      (f.testBit i || v.any fun x => (g x).testBit i) := by
  induction v with
  | nil =>
    intro f
    simp
  | cons x v ih =>
    intro f
    rw [List.foldl_cons, ih, Nat.testBit_or, List.any_cons, Bool.or_assoc]

/-- An OR over a list depends on the set of its elements only. -/
theorem foldl_or_congr {α : Type} (g : α → Nat) (v w : List α) (f : Nat)
    (h : ∀ x, x ∈ v ↔ x ∈ w) :
    v.foldl (fun acc x => acc ||| g x) f = w.foldl (fun acc x => acc ||| g x) f := by
  apply Nat.eq_of_testBit_eq
  intro i
  rw [testBit_foldl_or, testBit_foldl_or]
  congr 1
  rw [Bool.eq_iff_iff, List.any_eq_true, List.any_eq_true]
  constructor
  · rintro ⟨x, hx, hb⟩
    exact ⟨x, (h x).mp hx, hb⟩
  · rintro ⟨x, hx, hb⟩
    exact ⟨x, (h x).mpr hx, hb⟩
/-- Masking with a single bit gives that bit or nothing. -/
theorem land_two_pow (f k : Nat) : f &&& 2 ^ k = if f.testBit k then 2 ^ k else 0 := by
  apply Nat.eq_of_testBit_eq
  intro i
  rw [Nat.testBit_and, Nat.testBit_two_pow]
  by_cases hki : k = i
  · subst hki
    cases hb : f.testBit k <;> simp [Nat.testBit_two_pow]
  · cases hb : f.testBit k <;> simp [Nat.testBit_two_pow, hki]

/-- One step of `Flags.String` followed by the OR over the names: the name of
a single bit `b` is appended exactly when `b` is set in `f`, which adds
`f &&& b` to the result. -/
theorem foldl_or_flag_step (f a : Nat) (l : List String) (flag : String) (b k : Nat)
    (hb : b = 2 ^ k) (hflag : namedBit flag = b) :
    (if f &&& b ≠ 0 then l ++ [flag] else l).foldl (fun acc x => acc ||| namedBit x) a =
      l.foldl (fun acc x => acc ||| namedBit x) a ||| (f &&& b) := by
  subst hb
  rw [land_two_pow]
  cases hbit : f.testBit k
  · simp
  · have hne : (2 : Nat) ^ k ≠ 0 := by positivity
    simp [hne, List.foldl_append, hflag]

/-- The OR of the bits named by `Flags.String` is the value itself, cut to
the eight defined bits. -/
theorem foldl_or_flags (f : Flags) :
    (Flags.String.flags f).foldl (fun acc x => acc ||| namedBit x) 0 = f &&& 255 := by
  unfold Flags.String.flags
  simp only []
  rw [foldl_or_flag_step f 0 _ "reencoded_k" ReencodedK 7 rfl rfl,
    foldl_or_flag_step f 0 _ "non_canonical_R" NonCanonicalR 6 rfl rfl,
    foldl_or_flag_step f 0 _ "non_canonical_A" NonCanonicalA 5 rfl rfl,
    foldl_or_flag_step f 0 _ "low_order_residue" LowOrderResidue 4 rfl rfl,
    foldl_or_flag_step f 0 _ "low_order_component_A" LowOrderComponentA 3 rfl rfl,
    foldl_or_flag_step f 0 _ "low_order_component_R" LowOrderComponentR 2 rfl rfl,
    foldl_or_flag_step f 0 _ "low_order_A" LowOrderA 1 rfl rfl,
    foldl_or_flag_step f 0 _ "low_order_R" LowOrderR 0 rfl rfl]
  rw [List.foldl_nil, Nat.zero_or, ← Nat.and_or_distrib_left, ← Nat.and_or_distrib_left,
    ← Nat.and_or_distrib_left, ← Nat.and_or_distrib_left, ← Nat.and_or_distrib_left,
    ← Nat.and_or_distrib_left, ← Nat.and_or_distrib_left]
  rfl

/-- An element of a slice after a conditional `append` was there before or
is the appended one. -/
theorem mem_ite_append {α : Type} {c : Prop} [Decidable c] {l : List α} {x y : α}
    (h : x ∈ (if c then l ++ [y] else l)) : x ∈ l ∨ x = y := by
  split at h
  · rcases List.mem_append.mp h with h | h
    · exact Or.inl h
    · exact Or.inr (List.mem_singleton.mp h)
  · exact Or.inl h

/-- Every name that `Flags.String` prints is a name that
`(*Flags).UnmarshalJSON` knows. -/
theorem flags_known (f : Flags) : ∀ flag ∈ Flags.String.flags f, flag ∈ flagNames := by
  intro flag h
  unfold Flags.String.flags at h
  simp only [] at h
  rcases mem_ite_append h with h | h
  swap
  · subst h; decide
  rcases mem_ite_append h with h | h
  swap
  · subst h; decide
  rcases mem_ite_append h with h | h
  swap
  · subst h; decide
  rcases mem_ite_append h with h | h
  swap
  · subst h; decide
  rcases mem_ite_append h with h | h
  swap
  · subst h; decide
  rcases mem_ite_append h with h | h
  swap
  · subst h; decide
  rcases mem_ite_append h with h | h
  swap
  · subst h; decide
  rcases mem_ite_append h with h | h
  swap
  · subst h; decide
  exact absurd h (List.not_mem_nil _)
/-- C30: for every value `f` made of the eight defined bits, the loop of
`(*Flags).UnmarshalJSON` over the names that `Flags.String` prints for `f`,
from the zero value, returns `f`; and for every list of known flag names it
returns the bitwise OR of the named bits, the same for every list with the
same names, whatever their order and repetitions. -/
theorem flags_round_trip :
    (∀ f : Flags, f < 256 →
      Flags.UnmarshalJSON 0 (Flags.String.flags f) = (pure f : Run String Flags)) ∧
    (∀ v : List String, (∀ flag ∈ v, flag ∈ flagNames) →
      Flags.UnmarshalJSON 0 v =
          (pure (v.foldl (fun acc flag => acc ||| namedBit flag) 0) : Run String Flags) ∧
        ∀ w : List String, (∀ flag, flag ∈ v ↔ flag ∈ w) →
          Flags.UnmarshalJSON 0 w = Flags.UnmarshalJSON 0 v) := by
  constructor
  · intro f hf
    rw [unmarshalJSON_known _ 0 (flags_known f), foldl_or_flags]
    have h255 : f &&& 255 = f := Nat.and_pow_two_sub_one_of_lt_two_pow (n := 8) hf
    rw [h255]
  · intro v hv
    refine ⟨unmarshalJSON_known v 0 hv, ?_⟩
    intro w hw
    have hwn : ∀ flag ∈ w, flag ∈ flagNames := fun flag h => hv flag ((hw flag).mpr h)
    rw [unmarshalJSON_known v 0 hv, unmarshalJSON_known w 0 hwn,
      foldl_or_congr namedBit w v 0 (fun x => (hw x).symm)]

/-- The claim C30 at the value with the bits `LowOrderResidue` and
`NonCanonicalR`, and at a list that names `non_canonical_R` twice. -/
theorem flags_round_trip_witness :
    Flags.UnmarshalJSON 0 (Flags.String.flags 80) = (pure 80 : Run String Flags) ∧
      Flags.UnmarshalJSON 0 ["non_canonical_R", "low_order_A", "non_canonical_R"] =
        (pure (["non_canonical_R", "low_order_A", "non_canonical_R"].foldl
          (fun acc flag => acc ||| namedBit flag) 0) : Run String Flags) ∧
      Flags.UnmarshalJSON 0 ["low_order_A", "non_canonical_R"] =
        Flags.UnmarshalJSON 0 ["non_canonical_R", "low_order_A", "non_canonical_R"] :=
  ⟨flags_round_trip.1 80 (by decide),
    (flags_round_trip.2 ["non_canonical_R", "low_order_A", "non_canonical_R"] (by decide)).1,
    (flags_round_trip.2 ["non_canonical_R", "low_order_A", "non_canonical_R"] (by decide)).2
      ["low_order_A", "non_canonical_R"] (by
        intro flag
        simp only [List.mem_cons, List.mem_singleton, List.not_mem_nil, or_false]
        tauto)⟩

/-! ## Big integers in the corpus -/

/-- A hex digit is below 16. -/
theorem fromHexChar_lt (c : Nat) : (fromHexChar c).getD 0 < 16 := by
  unfold fromHexChar
  split_ifs <;> simp <;> omega

/-- A hex digit is 8 or more exactly when its character is `8` or above. -/
theorem fromHexChar_ge_eight (c d : Nat) (h : fromHexChar c = some d) : 56 ≤ c ↔ 8 ≤ d := by
  unfold fromHexChar at h
  split_ifs at h <;> simp at h <;> omega

/-- The value of hex digits read after an accumulator `a`. -/
theorem foldl_hex (digits : List Nat) :
    ∀ a : Nat, digits.foldl (fun acc c => acc * 16 + (fromHexChar c).getD 0) a =
      a * 16 ^ digits.length + hexValue digits := by
  induction digits with
  | nil =>
    intro a
    simp [hexValue]
  | cons c digits ih =>
    intro a
    unfold hexValue
    rw [List.foldl_cons, List.foldl_cons, ih, ih (0 * 16 + _), List.length_cons, pow_succ]
    ring

/-- The value of `n` hex digits is below `16 ^ n`. -/
theorem hexValue_lt (digits : List Nat) : hexValue digits < 16 ^ digits.length := by
  induction digits with
  | nil => simp [hexValue]
  | cons c digits ih =>
    unfold hexValue
    rw [List.foldl_cons, foldl_hex, List.length_cons, pow_succ]
    have := fromHexChar_lt c
    nlinarith

/-- The value of a digit string is that of its first digit, shifted, plus
that of the rest. -/
theorem hexValue_cons (c : Nat) (digits : List Nat) :
    hexValue (c :: digits) = (fromHexChar c).getD 0 * 16 ^ digits.length + hexValue digits := by
  unfold hexValue
  rw [List.foldl_cons, foldl_hex]
  simp [hexValue]

/-- The bytes that `hex.Decode` gives have, read big-endian after an
accumulator, the value of the hex digits. -/
theorem hexDecode_value (bs : List Nat) :
    ∀ (out : List Nat) (a : Nat), hexDecode bs = some out →
      out.foldl (fun acc b => acc * 256 + b) a =
        bs.foldl (fun acc c => acc * 16 + (fromHexChar c).getD 0) a := by
  induction bs using hexDecode.induct with
  | case1 =>
    intro out a h
    simp [hexDecode] at h
    subst h
    rfl
  | case2 c =>
    intro out a h
    simp [hexDecode] at h
  | case3 c d rest x y hy hx ih =>
    intro out a h
    simp only [hexDecode, hx, hy, Option.map_eq_some'] at h
    obtain ⟨out2, hout, rfl⟩ := h
    rw [List.foldl_cons, List.foldl_cons, List.foldl_cons, ih out2 _ hout, hx, hy]
    simp only [Option.getD_some]
    congr 1
    ring
  | case4 c d rest hno =>
    intro out a h
    simp only [hexDecode] at h
    simp at h
/-- What `(*BigInt).UnmarshalJSON` makes of a quoted string: the text between
the quotes. -/
theorem unquote (digits : List Nat) :
    ((34 :: (digits ++ [34])).take ((34 :: (digits ++ [34])).length - 1)).drop 1 = digits := by
  have h : (34 :: (digits ++ [34])).length - 1 = (34 :: digits).length := by simp
  rw [h, ← List.cons_append, List.take_left']
  · rfl
  · rfl

/-- The result of `(*BigInt).UnmarshalJSON` once the text between the quotes
is decoded: for an even number of hex digits `data` that starts with `c`. -/
theorem bigInt_of_even (c : Nat) (rest : List Nat)
    (heven : (c :: rest).length % 2 = 0)
    (hhex : ∀ x ∈ c :: rest, (fromHexChar x).isSome = true) :
    ∃ src, hexDecode (c :: rest) = some src ∧
      bigIntSetBytes src = (hexValue (c :: rest) : Int) := by
  obtain ⟨src, hsrc⟩ := hexDecode_of_wellFormed (c :: rest) heven hhex
  refine ⟨src, hsrc, ?_⟩
  unfold bigIntSetBytes hexValue
  rw [hexDecode_value _ _ 0 hsrc]

/-- A hex digit whose character is not `0` to `7` is 8 or more. -/
theorem fromHexChar_high (c : Nat) (hc : (fromHexChar c).isSome = true)
    (h : ¬ (c ≥ 48 ∧ c ≤ 55)) : 56 ≤ c ∧ 8 ≤ (fromHexChar c).getD 0 := by
  obtain ⟨d, hd⟩ := Option.isSome_iff_exists.mp hc
  have h56 : 56 ≤ c := by
    unfold fromHexChar at hd
    split_ifs at hd <;> omega
  exact ⟨h56, by rw [hd]; exact (fromHexChar_ge_eight c d hd).mp h56⟩

/-- A hex digit whose character is `0` to `7` is below 8. -/
theorem fromHexChar_low (c : Nat) (h : c ≥ 48 ∧ c ≤ 55) :
    ¬ 56 ≤ c ∧ (fromHexChar c).getD 0 < 8 := by
  refine ⟨by omega, ?_⟩
  unfold fromHexChar
  rw [if_pos ⟨h.1, by omega⟩]
  simp
  omega

/-- C26: for every non-empty string of `n` hex digits between quotes,
`(*BigInt).UnmarshalJSON` returns the integer whose two's complement
representation in `4 n` bits is the digit string: the unsigned value `u` of
the digits when the leading digit is below 8, and `u - 16 ^ n` otherwise, for
odd `n` as for even `n`; the result lies in `[-16 ^ n / 2, 16 ^ n / 2)`. -/
theorem bigInt_twos_complement (c : Nat) (rest : List Nat)
    (hhex : ∀ x ∈ c :: rest, (fromHexChar x).isSome = true) :
    ∃ z : Int, (BigInt.UnmarshalJSON (34 :: ((c :: rest) ++ [34]))).out = Outcome.returned z ∧
      z = (if (fromHexChar c).getD 0 < 8 then (hexValue (c :: rest) : Int)
        else (hexValue (c :: rest) : Int) - 16 ^ (c :: rest).length) ∧
      -(16 ^ (c :: rest).length : Int) ≤ 2 * z ∧ 2 * z < 16 ^ (c :: rest).length := by
  have hc : (fromHexChar c).isSome = true := hhex c (List.mem_cons_self c rest)
  have hguard : ¬ ((34 :: ((c :: rest) ++ [34])).length < 2 ∨
      (34 :: ((c :: rest) ++ [34])).head? ≠ some 34 ∨
      (34 :: ((c :: rest) ++ [34])).getLast? ≠ some 34) := by
    have hlast : (34 :: ((c :: rest) ++ [34])).getLast? = some 34 := by
      rw [← List.cons_append]
      exact List.getLast?_concat _
    rw [hlast]
    simp
  have hu := hexValue_cons c rest
  have hr := hexValue_lt rest
  have hd16 := fromHexChar_lt c
  have hpow : (16 : Int) ^ (c :: rest).length = 16 * 16 ^ rest.length := by
    rw [List.length_cons, pow_succ]
    ring
  have hpowN : (16 : Nat) ^ (c :: rest).length = 16 * 16 ^ rest.length := by
    rw [List.length_cons, pow_succ]
    ring
  have hval : ∃ z : Int,
      (BigInt.UnmarshalJSON (34 :: ((c :: rest) ++ [34]))).out = Outcome.returned z ∧
      z = (if (fromHexChar c).getD 0 < 8 then (hexValue (c :: rest) : Int)
        else (hexValue (c :: rest) : Int) - 16 ^ (c :: rest).length) := by
    unfold BigInt.UnmarshalJSON
    rw [if_neg hguard]
    simp only [unquote]
    by_cases hodd : (c :: rest).length % 2 = 1
    · simp only [hodd, if_true, List.headD_cons]
      by_cases hlow : c ≥ 48 ∧ c ≤ 55
      · obtain ⟨h56, hlt⟩ := fromHexChar_low c hlow
        have heven : (48 :: c :: rest).length % 2 = 0 := by
          rw [List.length_cons]
          omega
        have hall : ∀ x ∈ 48 :: c :: rest, (fromHexChar x).isSome = true := by
          intro x hx
          rcases List.mem_cons.mp hx with h | h
          · subst h
            decide
          · exact hhex x h
        obtain ⟨src, hsrc, hbi⟩ := bigInt_of_even 48 (c :: rest) heven hall
        have hv : hexValue (48 :: c :: rest) = hexValue (c :: rest) := by
          rw [hexValue_cons 48]
          have : (fromHexChar 48).getD 0 = 0 := by decide
          rw [this]
          omega
        refine ⟨hexValue (c :: rest), ?_, by rw [if_pos hlt]⟩
        simp only [hlow, and_self, if_true, List.singleton_append, hsrc, hbi, hv]
        simp
      · obtain ⟨h56, hge⟩ := fromHexChar_high c hc hlow
        have heven : (102 :: c :: rest).length % 2 = 0 := by
          rw [List.length_cons]
          omega
        have hall : ∀ x ∈ 102 :: c :: rest, (fromHexChar x).isSome = true := by
          intro x hx
          rcases List.mem_cons.mp hx with h | h
          · subst h
            decide
          · exact hhex x h
        obtain ⟨src, hsrc, hbi⟩ := bigInt_of_even 102 (c :: rest) heven hall
        have hv : hexValue (102 :: c :: rest) =
            15 * 16 ^ (c :: rest).length + hexValue (c :: rest) := by
          rw [hexValue_cons 102]
          have : (fromHexChar 102).getD 0 = 15 := by decide
          rw [this]
        refine ⟨(hexValue (c :: rest) : Int) - 16 ^ (c :: rest).length, ?_,
          by rw [if_neg (by omega)]⟩
        simp only [hlow, if_false, List.singleton_append, hsrc, hbi, hv]
        have hp : (2 : Int) ^ (4 * (102 :: c :: rest).length) =
            16 * 16 ^ (c :: rest).length := by
          rw [List.length_cons (a := 102), pow_mul, pow_succ]
          norm_num
          ring
        simp only [ge_iff_le, Nat.reduceLeDiff, if_true, Run.pure_out, hp]
        congr 1
        push_cast
        ring
    · have heven : (c :: rest).length % 2 = 0 := by omega
      obtain ⟨src, hsrc, hbi⟩ := bigInt_of_even c rest heven hhex
      simp only [hodd, if_false, hsrc, hbi]
      have hp : (2 : Int) ^ (4 * (c :: rest).length) = 16 ^ (c :: rest).length := by
        rw [pow_mul]
        norm_num
      by_cases h56 : 56 ≤ c
      · obtain ⟨d, hdd⟩ := Option.isSome_iff_exists.mp hc
        have hge : 8 ≤ (fromHexChar c).getD 0 := by
          rw [hdd]
          exact (fromHexChar_ge_eight c d hdd).mp h56
        refine ⟨(hexValue (c :: rest) : Int) - 16 ^ (c :: rest).length, ?_,
          by rw [if_neg (by omega)]⟩
        simp only [ge_iff_le, h56, if_true, Run.pure_out, hp]
      · obtain ⟨d, hdd⟩ := Option.isSome_iff_exists.mp hc
        have hlt : (fromHexChar c).getD 0 < 8 := by
          rw [hdd]
          have := (fromHexChar_ge_eight c d hdd).not.mp h56
          simp only [Option.getD_some]
          omega
        refine ⟨hexValue (c :: rest), ?_, by rw [if_pos hlt]⟩
        simp only [ge_iff_le, h56, if_false, Run.pure_out]
  obtain ⟨z, hz, hzv⟩ := hval
  refine ⟨z, hz, hzv, ?_, ?_⟩
  · rw [hzv, hpow, hu]
    have hrest : (0 : Int) ≤ ((hexValue rest : Nat) : Int) := Int.ofNat_nonneg _
    have hd0 : (0 : Int) ≤ (((fromHexChar c).getD 0 : Nat) : Int) := Int.ofNat_nonneg _
    split_ifs with hlt
    · have hpos : (0 : Int) ≤ (16 : Int) ^ rest.length := by positivity
      push_cast
      nlinarith
    · have hge : 8 ≤ (fromHexChar c).getD 0 := by omega
      have hz8 : (8 : Int) ≤ ((fromHexChar c).getD 0 : Int) := by exact_mod_cast hge
      have hpos : (0 : Int) ≤ (16 : Int) ^ rest.length := by positivity
      push_cast
      nlinarith
  · rw [hzv, hpow, hu]
    have hrz : ((hexValue rest : Nat) : Int) < 16 ^ rest.length := by exact_mod_cast hr
    have hpos : (0 : Int) < (16 : Int) ^ rest.length := by positivity
    split_ifs with hlt
    · have h7 : ((fromHexChar c).getD 0 : Int) ≤ 7 := by
        have : (fromHexChar c).getD 0 ≤ 7 := by omega
        exact_mod_cast this
      push_cast
      nlinarith
    · have h15 : ((fromHexChar c).getD 0 : Int) ≤ 15 := by
        have : (fromHexChar c).getD 0 ≤ 15 := by omega
        exact_mod_cast this
      push_cast
      nlinarith
/-- The claim C26 at the strings "f" (one digit, the integer -1) and "7f"
(two digits, the integer 127). -/
theorem bigInt_twos_complement_witness :
    (∃ z : Int, (BigInt.UnmarshalJSON (34 :: ((102 :: []) ++ [34]))).out = Outcome.returned z ∧
      z = (if (fromHexChar 102).getD 0 < 8 then (hexValue (102 :: []) : Int)
        else (hexValue (102 :: []) : Int) - 16 ^ (102 :: ([] : List Nat)).length) ∧
      -(16 ^ (102 :: ([] : List Nat)).length : Int) ≤ 2 * z ∧
      2 * z < 16 ^ (102 :: ([] : List Nat)).length) ∧
    (∃ z : Int, (BigInt.UnmarshalJSON (34 :: ((55 :: [102]) ++ [34]))).out = Outcome.returned z ∧
      z = (if (fromHexChar 55).getD 0 < 8 then (hexValue (55 :: [102]) : Int)
        else (hexValue (55 :: [102]) : Int) - 16 ^ (55 :: [102]).length) ∧
      -(16 ^ (55 :: [102]).length : Int) ≤ 2 * z ∧ 2 * z < 16 ^ (55 :: [102]).length) :=
  ⟨bigInt_twos_complement 102 [] (by decide), bigInt_twos_complement 55 [102] (by decide)⟩

/-! ## Protocol versions of the Go interface to libtls -/

/-- The loop of `ProtocolVersionFromString` finds the first entry with the
name asked for. -/
theorem protocolVersionFromString_eq (order : List (ProtocolVersion × String))
    (version : String) :
    ProtocolVersionFromString order version =
      match order.find? (fun e => decide (version = e.2)) with
      | some e => (e.1, none)
      | none => (0, some ("unknown protocol version " ++ version.quote)) := by
  induction order with
  | nil => rfl
  | cons e order ih =>
    obtain ⟨proto, name⟩ := e
    unfold ProtocolVersionFromString
    by_cases h : version = name
    · simp [h]
    · simp [h, ih]

/-- The string for an unknown version is none of the five names. -/
theorem sprintfUnknownVersion_not_name (pv : Nat) :
    sprintfUnknownVersion pv ∉ ["TLSv1", "TLSv1.1", "TLSv1.2", "TLSv1.3", "all"] := by
  intro h
  have hlen : 25 ≤ (sprintfUnknownVersion pv).length := by
    unfold sprintfUnknownVersion
    rw [String.length_append]
    have : ("unknown protocol version " : String).length = 25 := by decide
    omega
  simp only [List.mem_cons, List.mem_singleton, List.not_mem_nil, or_false] at h
  rcases h with h | h | h | h | h <;> rw [h] at hlen <;> revert hlen <;> decide

/-- In a map with distinct keys the lookup of a key gives the value of its
entry. -/
theorem lookup_of_mem (l : List (Nat × String)) (hn : (l.map Prod.fst).Nodup) (k : Nat)
    (v : String) (h : (k, v) ∈ l) : l.lookup k = some v := by
  induction l with
  | nil => exact absurd h (List.not_mem_nil _)
  | cons x l ih =>
    obtain ⟨xk, xv⟩ := x
    rw [List.map_cons, List.nodup_cons] at hn
    rcases List.mem_cons.mp h with e | hmem
    · cases e
      simp [List.lookup]
    · have hne : k ≠ xk := by
        intro e
        subst e
        exact hn.1 (List.mem_map.mpr ⟨(k, v), hmem, rfl⟩)
      have hb : (k == xk) = false := by simpa using hne
      simp only [List.lookup, hb]
      exact ih hn.2 hmem

/-- In a list of entries with distinct names an entry is determined by its
name. -/
theorem entry_of_name (l : List (Nat × String)) (hn : (l.map Prod.snd).Nodup) (a b : Nat)
    (name : String) (h1 : (a, name) ∈ l) (h2 : (b, name) ∈ l) : a = b := by
  induction l with
  | nil => exact absurd h1 (List.not_mem_nil _)
  | cons x l ih =>
    rw [List.map_cons, List.nodup_cons] at hn
    rcases List.mem_cons.mp h1 with e1 | m1 <;> rcases List.mem_cons.mp h2 with e2 | m2
    · rw [← e1] at e2
      exact (Prod.mk.inj e2).1.symm
    · exact absurd (List.mem_map.mpr ⟨(b, name), m2, by rw [← e1]⟩) hn.1
    · exact absurd (List.mem_map.mpr ⟨(a, name), m1, by rw [← e2]⟩) hn.1
    · exact ih hn.2 m1 m2

/-- C25: with distinct protocol constants, and for every order in which Go
ranges over `protocolNames`: for each of the five named protocol versions
`ProtocolVersionFromString(pv.String())` is `pv` with a nil error; for every
string that is none of the five names `ProtocolVersionFromString` returns 0
and an error; and the string that `String` gives for any other version is
none of the five names. -/
theorem protocolVersion_round_trip (h : TlsHeader) (order : List (ProtocolVersion × String))
    (hkeys : ((protocolNames h).map Prod.fst).Nodup)
    (horder : order.Perm (protocolNames h)) :
    (∀ pv ∈ [ProtocolTLSv10 h, ProtocolTLSv11 h, ProtocolTLSv12 h, ProtocolTLSv13 h,
        ProtocolsAll h],
      ProtocolVersionFromString order (ProtocolVersion.String h pv) = (pv, none)) ∧
    (∀ version, version ∉ ["TLSv1", "TLSv1.1", "TLSv1.2", "TLSv1.3", "all"] →
      ∃ err, ProtocolVersionFromString order version = (0, some err)) ∧
    (∀ pv, pv ∉ [ProtocolTLSv10 h, ProtocolTLSv11 h, ProtocolTLSv12 h, ProtocolTLSv13 h,
        ProtocolsAll h] →
      ProtocolVersion.String h pv ∉ ["TLSv1", "TLSv1.1", "TLSv1.2", "TLSv1.3", "all"]) := by
  have hnames : ((protocolNames h).map Prod.snd).Nodup := by
    have hl : (protocolNames h).map Prod.snd = ["TLSv1", "TLSv1.1", "TLSv1.2", "TLSv1.3", "all"] :=
      rfl
    rw [hl]
    decide
  have hkey_mem : ∀ pv ∈ [ProtocolTLSv10 h, ProtocolTLSv11 h, ProtocolTLSv12 h,
      ProtocolTLSv13 h, ProtocolsAll h], ∃ name, (pv, name) ∈ protocolNames h := by
    intro pv hpv
    simp only [List.mem_cons, List.mem_singleton, List.not_mem_nil, or_false] at hpv
    rcases hpv with e | e | e | e | e <;> subst e
    · exact ⟨"TLSv1", by simp [protocolNames]⟩
    · exact ⟨"TLSv1.1", by simp [protocolNames]⟩
    · exact ⟨"TLSv1.2", by simp [protocolNames]⟩
    · exact ⟨"TLSv1.3", by simp [protocolNames]⟩
    · exact ⟨"all", by simp [protocolNames]⟩
  refine ⟨?_, ?_, ?_⟩
  · intro pv hpv
    obtain ⟨name, hmem⟩ := hkey_mem pv hpv
    have hstr : ProtocolVersion.String h pv = name := by
      unfold ProtocolVersion.String
      rw [lookup_of_mem _ hkeys pv name hmem]
    rw [hstr, protocolVersionFromString_eq]
    cases hfind : order.find? (fun e => decide (name = e.2)) with
    | none =>
      have hall := List.find?_eq_none.mp hfind (pv, name) (horder.mem_iff.mpr hmem)
      simp at hall
    | some e =>
      obtain ⟨proto, ename⟩ := e
      have hp := List.find?_some hfind
      have he : name = ename := by simpa using hp
      subst he
      have hin : (proto, name) ∈ protocolNames h :=
        horder.mem_iff.mp (List.mem_of_find?_eq_some hfind)
      have := entry_of_name _ hnames proto pv name hin hmem
      simp [this]
  · intro version hversion
    rw [protocolVersionFromString_eq]
    have hfind : order.find? (fun e => decide (version = e.2)) = none := by
      apply List.find?_eq_none.mpr
      intro e he hp
      have hin : e ∈ protocolNames h := horder.mem_iff.mp he
      have hv : version = e.2 := by simpa using hp
      apply hversion
      rw [hv]
      simp only [protocolNames, List.mem_cons, List.mem_singleton, List.not_mem_nil,
        or_false] at hin
      rcases hin with e1 | e1 | e1 | e1 | e1 <;> rw [e1] <;> simp
    rw [hfind]
    exact ⟨_, rfl⟩
  · intro pv hpv
    have hnone : (protocolNames h).lookup pv = none := by
      simp only [List.mem_cons, List.mem_singleton, List.not_mem_nil, or_false, not_or] at hpv
      obtain ⟨h1, h2, h3, h4, h5⟩ := hpv
      have b1 : (pv == ProtocolTLSv10 h) = false := by simpa using h1
      have b2 : (pv == ProtocolTLSv11 h) = false := by simpa using h2
      have b3 : (pv == ProtocolTLSv12 h) = false := by simpa using h3
      have b4 : (pv == ProtocolTLSv13 h) = false := by simpa using h4
      have b5 : (pv == ProtocolsAll h) = false := by simpa using h5
      simp only [protocolNames, List.lookup, b1, b2, b3, b4, b5]
    unfold ProtocolVersion.String
    rw [hnone]
    exact sprintfUnknownVersion_not_name pv

/-- The claim C25 for a `tls.h` with one bit per version, the loop of
`ProtocolVersionFromString` running through the map from its last entry to
its first: the version TLSv1.2, the string "SSLv3" and the unknown
version 1. -/
theorem protocolVersion_round_trip_witness :
    ProtocolVersionFromString (protocolNames bitwiseTlsHeader).reverse
        (ProtocolVersion.String bitwiseTlsHeader (ProtocolTLSv12 bitwiseTlsHeader)) =
        (ProtocolTLSv12 bitwiseTlsHeader, none) ∧
      (∃ err, ProtocolVersionFromString (protocolNames bitwiseTlsHeader).reverse "SSLv3" =
        (0, some err)) ∧
      ProtocolVersion.String bitwiseTlsHeader 1 ∉
        ["TLSv1", "TLSv1.1", "TLSv1.2", "TLSv1.3", "all"] :=
  ⟨(protocolVersion_round_trip bitwiseTlsHeader (protocolNames bitwiseTlsHeader).reverse
      (by decide) (List.reverse_perm _)).1 (ProtocolTLSv12 bitwiseTlsHeader) (by decide),
    (protocolVersion_round_trip bitwiseTlsHeader (protocolNames bitwiseTlsHeader).reverse
      (by decide) (List.reverse_perm _)).2.1 "SSLv3" (by decide),
    (protocolVersion_round_trip bitwiseTlsHeader (protocolNames bitwiseTlsHeader).reverse
      (by decide) (List.reverse_perm _)).2.2 1 (by decide)⟩

/-! ## Groups over an extendable-output hash -/

/-- C22, as stated, fails: an ECDSA group whose hash name is SHAKE128 and
whose curve name is not in `nids` does not return: `run` ends in the fatal
error of the curve lookup, which comes before both skips. -/
theorem shake_group_unknown_curve_fatal :
    skipHash shakeUnknownCurveGroup.SHA = true ∧
      nidFromString numberedObjectsHeader "curve448" = none ∧
      wycheproofTestGroupECDSA.run numberedObjectsHeader acceptingLib acceptingECKey
        shakeUnknownCurveGroup "ECDSA" testVariant.Normal =
          ⟨Outcome.fatal "Failed to get nid for curve", []⟩ :=
  ⟨rfl, rfl, rfl⟩

/-- C22, amended: for every ECDSA test group with a key whose curve name is in
`nids` and whose hash name is SHAKE128 or SHAKE256,
`wycheproofTestGroupECDSA.run` returns `true` without a call of libcrypto, so
without executing any test case, whatever the key and the test cases are;
likewise every RSASSA-PSS and every RSAES-OAEP group whose hash is SHAKE128 or
SHAKE256 returns `true` without executing any case. -/
theorem shake_groups_skipped (h : ObjectsHeader) (lib : Libcrypto) (klib : LibcryptoECKey)
    (rklib : LibcryptoRsaKey) (plib : LibcryptoRsassa) (olib : LibcryptoRsaes)
    (algorithm : String) (variant : testVariant) :
    (∀ (wtg : wycheproofTestGroupECDSA) (key : wycheproofECDSAKey) (nid : Int),
      wtg.Key = some key → nidFromString h key.Curve = some nid →
      wtg.SHA = "SHAKE128" ∨ wtg.SHA = "SHAKE256" →
      wycheproofTestGroupECDSA.run h lib klib wtg algorithm variant =
        ⟨Outcome.returned true, []⟩) ∧
    (∀ wtg : wycheproofTestGroupRsassa,
      wtg.SHA = "SHAKE128" ∨ wtg.SHA = "SHAKE256" →
      wycheproofTestGroupRsassa.run lib rklib plib wtg algorithm variant =
        ⟨Outcome.returned true, []⟩) ∧
    (∀ wtg : wycheproofTestGroupRsaesOaep,
      wtg.SHA = "SHAKE128" ∨ wtg.SHA = "SHAKE256" →
      wycheproofTestGroupRsaesOaep.run lib rklib olib wtg algorithm variant =
        ⟨Outcome.returned true, []⟩) := by
  have hskip : ∀ s : String, s = "SHAKE128" ∨ s = "SHAKE256" → skipHash s = true := by
    intro s hs
    simp only [skipHash, Bool.or_eq_true, beq_iff_eq]
    exact hs
  refine ⟨?_, ?_, ?_⟩
  · intro wtg key nid hkey hnid hsha
    simp only [wycheproofTestGroupECDSA.run, hkey, hnid, hskip _ hsha, if_true]
    by_cases hc : skipCurve h nid = true
    · simp only [hc, if_true]
      rfl
    · simp only [hc, if_false]
      rfl
  · intro wtg hsha
    simp only [wycheproofTestGroupRsassa.run, hskip _ hsha, if_true]
    rfl
  · intro wtg hsha
    simp only [wycheproofTestGroupRsaesOaep.run, hskip _ hsha, if_true]
    rfl

/-- The amended claim C22 at a SHAKE256 group on `secp256r1`, an RSASSA-PSS
group over SHAKE128 and an RSAES-OAEP group over SHAKE256, each with one test
case. -/
theorem shake_groups_skipped_witness :
    (shakeP256Group.SHA = "SHAKE128" ∨ shakeP256Group.SHA = "SHAKE256") ∧
      nidFromString numberedObjectsHeader "secp256r1" = some 20 ∧
      shakeP256Group.Tests.length = 1 ∧
      wycheproofTestGroupECDSA.run numberedObjectsHeader acceptingLib acceptingECKey
        shakeP256Group "ECDSA" testVariant.Normal = ⟨Outcome.returned true, []⟩ ∧
      wycheproofTestGroupRsassa.run acceptingLib acceptingRsaKey acceptingRsassa
        shakeRsassaGroup "ECDSA" testVariant.Normal = ⟨Outcome.returned true, []⟩ ∧
      wycheproofTestGroupRsaesOaep.run acceptingLib acceptingRsaKey decryptingRsa
        shakeRsaesOaepGroup "ECDSA" testVariant.Normal = ⟨Outcome.returned true, []⟩ :=
  ⟨Or.inr rfl, rfl, rfl,
    (shake_groups_skipped numberedObjectsHeader acceptingLib acceptingECKey acceptingRsaKey
      acceptingRsassa decryptingRsa "ECDSA" testVariant.Normal).1 shakeP256Group
      p256Key 20 rfl rfl (Or.inr rfl),
    (shake_groups_skipped numberedObjectsHeader acceptingLib acceptingECKey acceptingRsaKey
      acceptingRsassa decryptingRsa "ECDSA" testVariant.Normal).2.1 shakeRsassaGroup
      (Or.inl rfl),
    (shake_groups_skipped numberedObjectsHeader acceptingLib acceptingECKey acceptingRsaKey
      acceptingRsassa decryptingRsa "ECDSA" testVariant.Normal).2.2 shakeRsaesOaepGroup
      (Or.inr rfl)⟩

/-! ## Every executor checks every case -/

/-- The loop of a `run` method over a body that, for every test case of the
group, returns the conjunction of the flag so far and a verdict `g` on the
case, with the operations `t` of the case: it returns the conjunction of
all verdicts, and its operations are those of all the cases, in order. -/
theorem run_loop_all {τ : Type} (body : τ → Bool → Run String Bool) (g : τ → Bool)
    (t : τ → List String) (tests : List τ)
    (h : ∀ wt ∈ tests, ∀ s, (body wt s).out = Outcome.returned (s && g wt) ∧
      (body wt s).trace = t wt) :
    (forRange body tests true >>= fun success => (pure success : Run String Bool)).out =
        Outcome.returned (tests.all g) ∧
      (forRange body tests true >>= fun success => (pure success : Run String Bool)).trace =
        tests.flatMap t := by
  have hloop := forRange_all body g t tests h true
  rw [Bool.true_and] at hloop
  have hrun := Run.bind_returned (fun success => (pure success : Run String Bool)) hloop.1
  refine ⟨hrun.1, hrun.2.trans ?_⟩
  rw [hloop.2]
  exact List.append_nil _

/-- A run that is the operations `pre` followed by the loop over the case
check `check` executes the check of every test case, in order, and returns
`true` exactly when every check returned `true`, provided every check
returns. -/
theorem case_loop_verdict {τ : Type} (r : Run String Bool) (pre : List String)
    (check : τ → Run String Bool) (tests : List τ)
    (hout : r.out = (forRange (fun wt success => do
      if !(← check wt) then
        pure false
      else
        pure success) tests true >>= fun success => (pure success : Run String Bool)).out)
    (htrace : r.trace = pre ++ (forRange (fun wt success => do
      if !(← check wt) then
        pure false
      else
        pure success) tests true >>= fun success => (pure success : Run String Bool)).trace)
    (hret : ∀ wt ∈ tests, ∃ b, (check wt).out = Outcome.returned b) :
    ∃ b, r.out = Outcome.returned b ∧
      (b = true ↔ ∀ wt ∈ tests, (check wt).out = Outcome.returned true) ∧
      (tests = [] → b = true) ∧
      r.trace = pre ++ tests.flatMap fun wt => (check wt).trace := by
  have hloop := run_loop_all
    (fun wt success => do
      if !(← check wt) then
        pure false
      else
        pure success)
    (fun wt => decide ((check wt).out = Outcome.returned true))
    (fun wt => (check wt).trace) tests
    (by
      intro wt hwt s
      obtain ⟨b, hb⟩ := hret wt hwt
      simp only [Run.bind_def, Run.andThen, hb]
      cases b <;> cases s <;> simp)
  refine ⟨tests.all fun wt => decide ((check wt).out = Outcome.returned true),
    hout.trans hloop.1, ?_, ?_, ?_⟩
  · simp only [List.all_eq_true, decide_eq_true_eq]
  · intro hnil
    rw [hnil]
    rfl
  · rw [htrace, hloop.2]

/-- C20, as stated, fails for the ChaCha20-Poly1305 executor. The group has
two cases; the first is declared "invalid" for its tag, and the
`EVP_CIPHER_CTX` of the library accepts that tag: `EVP_DecryptFinal_ex`
returns 1 where the declared result calls for 0. `runChaCha20Poly1305Test`
passes this case, `runEvpChaCha20Poly1305Test` ends the process on it, and so
does `run`: its library calls stop at the `EVP_DecryptFinal_ex` of the first
case, and the second case, which both checks would pass, is never
executed. -/
theorem chacha_forged_tag_stops_run :
    chachaForgedGroup.Tests = [chachaForgedCase, chachaCase] ∧
      chachaForgedCase.Result = "invalid" ∧
      (∀ ops, (acceptingEvpChaCha.EVP_DecryptFinal_ex ops).1 = 1) ∧
      (runChaCha20Poly1305Test zeroTagAead "CHACHA20-POLY1305" chachaForgedCase).out =
        Outcome.returned true ∧
      (runEvpChaCha20Poly1305Test acceptingEvpChaCha "CHACHA20-POLY1305" chachaForgedCase).out =
        Outcome.fatal "Failed EVP_EncryptFinal msg" ∧
      (runChaCha20Poly1305Test zeroTagAead "CHACHA20-POLY1305" chachaCase).out =
        Outcome.returned true ∧
      (runEvpChaCha20Poly1305Test acceptingEvpChaCha "CHACHA20-POLY1305" chachaCase).out =
        Outcome.returned true ∧
      wycheproofTestGroupChaCha.run zeroTagAead acceptingEvpChaCha chachaForgedGroup
          "CHACHA20-POLY1305" testVariant.Normal =
        ⟨Outcome.fatal "Failed EVP_EncryptFinal msg",
          ["EVP_CIPHER_CTX_new", "EVP_AEAD_CTX_new", "EVP_AEAD_CTX_init", "EVP_AEAD_CTX_open",
            "EVP_AEAD_CTX_seal", "EVP_EncryptInit_ex", "EVP_CIPHER_CTX_ctrl",
            "EVP_EncryptInit_ex", "EVP_EncryptInit_ex", "EVP_EncryptUpdate", "EVP_EncryptUpdate",
            "EVP_EncryptFinal_ex", "EVP_CIPHER_CTX_ctrl", "EVP_DecryptInit_ex",
            "EVP_DecryptInit_ex", "EVP_CIPHER_CTX_ctrl", "EVP_DecryptInit_ex",
            "EVP_CIPHER_CTX_ctrl", "EVP_DecryptUpdate", "EVP_DecryptUpdate",
            "EVP_DecryptFinal_ex"]⟩ :=
  ⟨rfl, rfl, fun _ => rfl, rfl, rfl, rfl, rfl, rfl⟩

/-- C20, amended: for every test-group executor, once `run` has reached its
loop over the test cases (the conditions before each conclusion say when it
does) and every case check returns, `run` returns, and it returns `true` if
and only if every case check returned `true`; the library calls of `run` are
those made before the loop followed by those of the checks of all test cases,
in the order of the group, also after a check that returned `false`. For a
group with no test case it returns `true`. The executors are, in the order of
the source, those of the AES-CBC-PKCS5, AES AEAD, AES-CMAC, ChaCha20-Poly1305
(two checks per case), DSA (three checks per case), ECDH, ECDH WebCrypto,
ECDSA, EC curve, EdDSA, HKDF, HMAC, key wrap, ML-KEM, PBKDF2, primality,
RSAES-OAEP, RSAES-PKCS1, RSASSA-PSS, RSA signature and X25519 test groups. -/
theorem run_checks_every_case (h : ObjectsHeader) (m : MlkemHeader) (lib : Libcrypto)
    (dsaKey : LibcryptoDSAKey) (ecKeyLib : LibcryptoECKey) (rsaKey : LibcryptoRsaKey)
    (edKey : LibcryptoEdDSAKey) (cbcCtx : LibcryptoCbcCtx) (cbc : LibcryptoCbc)
    (cipherCtx : LibcryptoCipherCtx) (evp : LibcryptoCipher) (aeadLib : LibcryptoAead)
    (cmac : LibcryptoCmac) (chacha : LibcryptoEvpChaCha) (webCrypto : LibcryptoECDHWebCrypto)
    (curve : LibcryptoEcCurve) (hkdf : LibcryptoHkdf) (hmac : LibcryptoHmac)
    (wrap : LibcryptoAesWrap) (mlkem : LibcryptoMLKEM) (decap : LibcryptoMLKEMDecap)
    (pbkdf : LibcryptoPbkdf) (rsaes : LibcryptoRsaes) (rsassa : LibcryptoRsassa)
    (x25519 : LibcryptoX25519) (algorithm : String) (variant : testVariant) :
    (∀ (wtg : wycheproofTestGroupAesCbcPkcs5) (cipher : Nat),
      cipherAes "AES-CBC" wtg.KeySize = some cipher →
      cbcCtx.EVP_CIPHER_CTX_new = true →
      cbcCtx.EVP_CipherInit_ex_cipher cipher = 1 →
      (∀ wt ∈ wtg.Tests,
        ∃ b, (runAesCbcPkcs5Test cbc wt).out = Outcome.returned b) →
      ∃ b, (wycheproofTestGroupAesCbcPkcs5.run cbcCtx cbc wtg algorithm variant).out =
          Outcome.returned b ∧
        (b = true ↔
          ∀ wt ∈ wtg.Tests,
            (runAesCbcPkcs5Test cbc wt).out = Outcome.returned true) ∧
        (wtg.Tests = [] → b = true) ∧
        (wycheproofTestGroupAesCbcPkcs5.run cbcCtx cbc wtg algorithm variant).trace =
          ["EVP_CIPHER_CTX_new", "EVP_CipherInit_ex"] ++
            wtg.Tests.flatMap fun wt => (runAesCbcPkcs5Test cbc wt).trace) ∧
    (∀ (wtg : wycheproofTestGroupAead) (cipher aead : Nat),
      cipherAes algorithm wtg.KeySize = some cipher →
      (if algorithm = "AES-GCM" then aeadAes wtg.KeySize else some 0) = some aead →
      cipherCtx.EVP_CIPHER_CTX_new = true →
      (∀ wt ∈ wtg.Tests,
        ∃ b, (runAesAeadTest evp aeadLib algorithm aead wt).out = Outcome.returned b) →
      ∃ b, (wycheproofTestGroupAesAead.run cipherCtx evp aeadLib wtg algorithm variant).out =
          Outcome.returned b ∧
        (b = true ↔
          ∀ wt ∈ wtg.Tests,
            (runAesAeadTest evp aeadLib algorithm aead wt).out = Outcome.returned true) ∧
        (wtg.Tests = [] → b = true) ∧
        (wycheproofTestGroupAesAead.run cipherCtx evp aeadLib wtg algorithm variant).trace =
          ["EVP_CIPHER_CTX_new", "EVP_CipherInit_ex"] ++
            wtg.Tests.flatMap fun wt => (runAesAeadTest evp aeadLib algorithm aead wt).trace) ∧
    (∀ (wtg : wycheproofTestGroupAesCmac) (cipher : Nat),
      cipherAes "AES-CBC" wtg.KeySize = some cipher →
      (∀ wt ∈ wtg.Tests,
        ∃ b, (runAesCmacTest cmac cipher wt).out = Outcome.returned b) →
      ∃ b, (wycheproofTestGroupAesCmac.run cmac wtg algorithm variant).out =
          Outcome.returned b ∧
        (b = true ↔
          ∀ wt ∈ wtg.Tests,
            (runAesCmacTest cmac cipher wt).out = Outcome.returned true) ∧
        (wtg.Tests = [] → b = true) ∧
        (wycheproofTestGroupAesCmac.run cmac wtg algorithm variant).trace =
          wtg.Tests.flatMap fun wt => (runAesCmacTest cmac cipher wt).trace) ∧
    (∀ wtg : wycheproofTestGroupAead,
      ¬ (algorithm = "CHACHA20-POLY1305" ∧ wtg.IVSize ≠ 96) →
      chacha.EVP_CIPHER_CTX_new = true →
      (∀ wt ∈ wtg.Tests,
        (∃ b, (runChaCha20Poly1305Test aeadLib algorithm wt).out = Outcome.returned b) ∧
        ∃ b, (runEvpChaCha20Poly1305Test chacha algorithm wt).out = Outcome.returned b) →
      ∃ b, (wycheproofTestGroupChaCha.run aeadLib chacha wtg algorithm variant).out =
          Outcome.returned b ∧
        (b = true ↔
          ∀ wt ∈ wtg.Tests,
            (runChaCha20Poly1305Test aeadLib algorithm wt).out = Outcome.returned true ∧
            (runEvpChaCha20Poly1305Test chacha algorithm wt).out = Outcome.returned true) ∧
        (wtg.Tests = [] → b = true) ∧
        (wycheproofTestGroupChaCha.run aeadLib chacha wtg algorithm variant).trace =
          ["EVP_CIPHER_CTX_new"] ++
            wtg.Tests.flatMap fun wt =>
              (runChaCha20Poly1305Test aeadLib algorithm wt).trace ++
                (runEvpChaCha20Poly1305Test chacha algorithm wt).trace) ∧
    (∀ (wtg : wycheproofTestGroupDSA) (dsa md dsaDER dsaPEM : Nat),
      (wycheproofTestGroupDSA.run.keys lib dsaKey wtg).out =
        Outcome.returned (dsa, md, dsaDER, dsaPEM) →
      (∀ wt ∈ wtg.Tests, ∀ key ∈ [dsa, dsaDER, dsaPEM],
        ∃ b, (runDSATest lib key md variant wt).out = Outcome.returned b) →
      ∃ b, (wycheproofTestGroupDSA.run lib dsaKey wtg algorithm variant).out =
          Outcome.returned b ∧
        (b = true ↔ ∀ wt ∈ wtg.Tests, ∀ key ∈ [dsa, dsaDER, dsaPEM],
          (runDSATest lib key md variant wt).out = Outcome.returned true) ∧
        (wtg.Tests = [] → b = true) ∧
        (wycheproofTestGroupDSA.run lib dsaKey wtg algorithm variant).trace =
          (wycheproofTestGroupDSA.run.keys lib dsaKey wtg).trace ++
            wtg.Tests.flatMap fun wt =>
              [dsa, dsaDER, dsaPEM].flatMap fun key =>
                (runDSATest lib key md variant wt).trace) ∧
    (∀ (wtg : wycheproofTestGroupECDH) (nid : Int),
      nidFromString h wtg.Curve = some nid →
      skipCurve h nid = false →
      (∀ wt ∈ wtg.Tests,
        ∃ b, (runECDHTest lib nid variant wt).out = Outcome.returned b) →
      ∃ b, (wycheproofTestGroupECDH.run h lib wtg algorithm variant).out =
          Outcome.returned b ∧
        (b = true ↔
          ∀ wt ∈ wtg.Tests,
            (runECDHTest lib nid variant wt).out = Outcome.returned true) ∧
        (wtg.Tests = [] → b = true) ∧
        (wycheproofTestGroupECDH.run h lib wtg algorithm variant).trace =
          wtg.Tests.flatMap fun wt => (runECDHTest lib nid variant wt).trace) ∧
    (∀ (wtg : wycheproofTestGroupECDHWebCrypto) (nid : Int),
      nidFromString h wtg.Curve = some nid →
      (∀ wt ∈ wtg.Tests,
        ∃ b, (runECDHWebCryptoTest webCrypto nid wt).out = Outcome.returned b) →
      ∃ b, (wycheproofTestGroupECDHWebCrypto.run h webCrypto wtg algorithm variant).out =
          Outcome.returned b ∧
        (b = true ↔
          ∀ wt ∈ wtg.Tests,
            (runECDHWebCryptoTest webCrypto nid wt).out = Outcome.returned true) ∧
        (wtg.Tests = [] → b = true) ∧
        (wycheproofTestGroupECDHWebCrypto.run h webCrypto wtg algorithm variant).trace =
          wtg.Tests.flatMap fun wt => (runECDHWebCryptoTest webCrypto nid wt).trace) ∧
    (∀ (wtg : wycheproofTestGroupECDSA) (key : wycheproofECDSAKey) (curveNid mdNid : Int)
      (ecKey md : Nat) (bnX bnY : Int),
      wtg.Key = some key →
      nidFromString h key.Curve = some curveNid →
      skipCurve h curveNid = false →
      skipHash wtg.SHA = false →
      lib.EC_KEY_new_by_curve_name curveNid 0 = some ecKey →
      lib.BN_hex2bn (cString (bytesOf key.WX)) = some bnX →
      lib.BN_hex2bn (cString (bytesOf key.WY)) = some bnY →
      ecKeyLib.EC_KEY_set_public_key_affine_coordinates ecKey bnX bnY = 1 →
      nidFromString h wtg.SHA = some mdNid →
      hashEvpMdFromString wtg.SHA = some md →
      (∀ wt ∈ wtg.Tests,
        ∃ b, (runECDSATest lib ecKey md mdNid variant wt).out = Outcome.returned b) →
      ∃ b, (wycheproofTestGroupECDSA.run h lib ecKeyLib wtg algorithm variant).out =
          Outcome.returned b ∧
        (b = true ↔
          ∀ wt ∈ wtg.Tests,
            (runECDSATest lib ecKey md mdNid variant wt).out = Outcome.returned true) ∧
        (wtg.Tests = [] → b = true) ∧
        (wycheproofTestGroupECDSA.run h lib ecKeyLib wtg algorithm variant).trace =
          ["EC_KEY_new_by_curve_name", "BN_hex2bn", "BN_hex2bn",
            "EC_KEY_set_public_key_affine_coordinates"] ++
            wtg.Tests.flatMap fun wt => (runECDSATest lib ecKey md mdNid variant wt).trace) ∧
    (∀ (wtg : wycheproofTestGroupEcCurve),
      (∀ wt ∈ wtg.Tests,
        ∃ b, (runEcCurveTest lib curve wt).out = Outcome.returned b) →
      ∃ b, (wycheproofTestGroupEcCurve.run lib curve wtg algorithm variant).out =
          Outcome.returned b ∧
        (b = true ↔
          ∀ wt ∈ wtg.Tests,
            (runEcCurveTest lib curve wt).out = Outcome.returned true) ∧
        (wtg.Tests = [] → b = true) ∧
        (wycheproofTestGroupEcCurve.run lib curve wtg algorithm variant).trace =
          wtg.Tests.flatMap fun wt => (runEcCurveTest lib curve wt).trace) ∧
    (∀ (wtg : wycheproofTestGroupEdDSA) (key : wycheproofEdDSAKey) (pk : List Nat)
      (pkey : Nat),
      wtg.Key = some key →
      key.Curve = "edwards25519" →
      hexDecodeString key.Pk = some pk →
      edKey.EVP_PKEY_new_raw_public_key pk = some pkey →
      (∀ wt ∈ wtg.Tests,
        ∃ b, (runEdDSATest lib pkey wt).out = Outcome.returned b) →
      ∃ b, (wycheproofTestGroupEdDSA.run lib edKey wtg algorithm variant).out =
          Outcome.returned b ∧
        (b = true ↔
          ∀ wt ∈ wtg.Tests,
            (runEdDSATest lib pkey wt).out = Outcome.returned true) ∧
        (wtg.Tests = [] → b = true) ∧
        (wycheproofTestGroupEdDSA.run lib edKey wtg algorithm variant).trace =
          ["EVP_PKEY_new_raw_public_key"] ++
            wtg.Tests.flatMap fun wt => (runEdDSATest lib pkey wt).trace) ∧
    (∀ (wtg : wycheproofTestGroupHkdf) (md : Nat),
      hashEvpMdFromString (stringsTrimPrefix algorithm "HKDF-") = some md →
      (∀ wt ∈ wtg.Tests,
        ∃ b, (runHkdfTest hkdf md wt).out = Outcome.returned b) →
      ∃ b, (wycheproofTestGroupHkdf.run hkdf wtg algorithm variant).out =
          Outcome.returned b ∧
        (b = true ↔
          ∀ wt ∈ wtg.Tests,
            (runHkdfTest hkdf md wt).out = Outcome.returned true) ∧
        (wtg.Tests = [] → b = true) ∧
        (wycheproofTestGroupHkdf.run hkdf wtg algorithm variant).trace =
          wtg.Tests.flatMap fun wt => (runHkdfTest hkdf md wt).trace) ∧
    (∀ (wtg : wycheproofTestGroupHmac) (md : Nat),
      hashEvpMdFromString
          (if algorithm = "HMACSM3" then "SM3"
          else (if stringsHasPrefix algorithm "HMACSHA3-" then "SHA" else "SHA-") ++
            stringsTrimPrefix algorithm "HMACSHA") = some md →
      (∀ wt ∈ wtg.Tests,
        ∃ b, (runHmacTest hmac md (Int.tdiv wtg.TagSize 8) wt).out = Outcome.returned b) →
      ∃ b, (wycheproofTestGroupHmac.run hmac wtg algorithm variant).out =
          Outcome.returned b ∧
        (b = true ↔
          ∀ wt ∈ wtg.Tests,
            (runHmacTest hmac md (Int.tdiv wtg.TagSize 8) wt).out = Outcome.returned true) ∧
        (wtg.Tests = [] → b = true) ∧
        (wycheproofTestGroupHmac.run hmac wtg algorithm variant).trace =
          wtg.Tests.flatMap fun wt => (runHmacTest hmac md (Int.tdiv wtg.TagSize 8) wt).trace) ∧
    (∀ (wtg : wycheproofTestGroupKW),
      (∀ wt ∈ wtg.Tests,
        ∃ b, (runKWTest wrap wtg.KeySize wt).out = Outcome.returned b) →
      ∃ b, (wycheproofTestGroupKW.run wrap wtg algorithm variant).out =
          Outcome.returned b ∧
        (b = true ↔
          ∀ wt ∈ wtg.Tests,
            (runKWTest wrap wtg.KeySize wt).out = Outcome.returned true) ∧
        (wtg.Tests = [] → b = true) ∧
        (wycheproofTestGroupKW.run wrap wtg algorithm variant).trace =
          wtg.Tests.flatMap fun wt => (runKWTest wrap wtg.KeySize wt).trace) ∧
    (∀ (wtg : wycheproofTestGroupMLKEM) (rank : Int)
      (runTest : Int → wycheproofTestMLKEM → Run String Bool),
      wycheproofTestGroupMLKEM.run.select m mlkem decap wtg = pure (some (rank, runTest)) →
      (∀ wt ∈ wtg.Tests, ∃ b, (runTest rank wt).out = Outcome.returned b) →
      ∃ b, (wycheproofTestGroupMLKEM.run m mlkem decap wtg algorithm variant).out =
          Outcome.returned b ∧
        (b = true ↔ ∀ wt ∈ wtg.Tests, (runTest rank wt).out = Outcome.returned true) ∧
        (wtg.Tests = [] → b = true) ∧
        (wycheproofTestGroupMLKEM.run m mlkem decap wtg algorithm variant).trace =
          wtg.Tests.flatMap fun wt => (runTest rank wt).trace) ∧
    (∀ (wtg : wycheproofTestGroupPbkdf2HmacSha) (md : Nat),
      hashEvpMdFromString ("SHA-" ++ stringsTrimPrefix algorithm "PBKDF2-HMACSHA") = some md →
      (∀ wt ∈ wtg.Tests,
        ∃ b, (runPbkdfTest pbkdf md wt).out = Outcome.returned b) →
      ∃ b, (wycheproofTestGroupPbkdf2HmacSha.run pbkdf wtg algorithm variant).out =
          Outcome.returned b ∧
        (b = true ↔
          ∀ wt ∈ wtg.Tests,
            (runPbkdfTest pbkdf md wt).out = Outcome.returned true) ∧
        (wtg.Tests = [] → b = true) ∧
        (wycheproofTestGroupPbkdf2HmacSha.run pbkdf wtg algorithm variant).trace =
          wtg.Tests.flatMap fun wt => (runPbkdfTest pbkdf md wt).trace) ∧
    (∀ (wtg : wycheproofTestGroupPrimality),
      (∀ wt ∈ wtg.Tests,
        ∃ b, (runPrimalityTest lib wt).out = Outcome.returned b) →
      ∃ b, (wycheproofTestGroupPrimality.run lib wtg algorithm variant).out =
          Outcome.returned b ∧
        (b = true ↔
          ∀ wt ∈ wtg.Tests,
            (runPrimalityTest lib wt).out = Outcome.returned true) ∧
        (wtg.Tests = [] → b = true) ∧
        (wycheproofTestGroupPrimality.run lib wtg algorithm variant).trace =
          wtg.Tests.flatMap fun wt => (runPrimalityTest lib wt).trace) ∧
    (∀ (wtg : wycheproofTestGroupRsaesOaep) (priv : wycheproofRSAPrivateKey)
      (rsaD rsaE rsaN : Int) (sha mgfSha : Nat),
      skipHash wtg.SHA = false →
      rsaKey.RSA_new ≠ 0 →
      wtg.PrivateKey = some priv →
      lib.BN_hex2bn (cString (bytesOf priv.PrivateExponent)) = some rsaD →
      lib.BN_hex2bn (cString (bytesOf priv.PublicExponent)) = some rsaE →
      lib.BN_hex2bn (cString (bytesOf priv.Modulus)) = some rsaN →
      rsaKey.RSA_set0_key rsaKey.RSA_new rsaN rsaE (some rsaD) ≠ 0 →
      hashEvpMdFromString wtg.SHA = some sha →
      hashEvpMdFromString wtg.MGFSHA = some mgfSha →
      (∀ wt ∈ wtg.Tests,
        ∃ b, (runRsaesOaepTest rsaes rsaKey.RSA_new sha mgfSha wt).out = Outcome.returned b) →
      ∃ b, (wycheproofTestGroupRsaesOaep.run lib rsaKey rsaes wtg algorithm variant).out =
          Outcome.returned b ∧
        (b = true ↔
          ∀ wt ∈ wtg.Tests,
            (runRsaesOaepTest rsaes rsaKey.RSA_new sha mgfSha wt).out = Outcome.returned true) ∧
        (wtg.Tests = [] → b = true) ∧
        (wycheproofTestGroupRsaesOaep.run lib rsaKey rsaes wtg algorithm variant).trace =
          ["RSA_new", "BN_hex2bn", "BN_hex2bn", "BN_hex2bn", "RSA_set0_key"] ++
            wtg.Tests.flatMap fun wt => (runRsaesOaepTest rsaes rsaKey.RSA_new sha mgfSha wt).trace)
                ∧
    (∀ (wtg : wycheproofTestGroupRsaesPkcs1) (priv : wycheproofRSAPrivateKey)
      (rsaD rsaE rsaN : Int),
      rsaKey.RSA_new ≠ 0 →
      wtg.PrivateKey = some priv →
      lib.BN_hex2bn (cString (bytesOf priv.PrivateExponent)) = some rsaD →
      lib.BN_hex2bn (cString (bytesOf priv.PublicExponent)) = some rsaE →
      lib.BN_hex2bn (cString (bytesOf priv.Modulus)) = some rsaN →
      rsaKey.RSA_set0_key rsaKey.RSA_new rsaN rsaE (some rsaD) ≠ 0 →
      (∀ wt ∈ wtg.Tests,
        ∃ b, (runRsaesPkcs1Test rsaes rsaKey.RSA_new wt).out = Outcome.returned b) →
      ∃ b, (wycheproofTestGroupRsaesPkcs1.run lib rsaKey rsaes wtg algorithm variant).out =
          Outcome.returned b ∧
        (b = true ↔
          ∀ wt ∈ wtg.Tests,
            (runRsaesPkcs1Test rsaes rsaKey.RSA_new wt).out = Outcome.returned true) ∧
        (wtg.Tests = [] → b = true) ∧
        (wycheproofTestGroupRsaesPkcs1.run lib rsaKey rsaes wtg algorithm variant).trace =
          ["RSA_new", "BN_hex2bn", "BN_hex2bn", "BN_hex2bn", "RSA_set0_key"] ++
            wtg.Tests.flatMap fun wt => (runRsaesPkcs1Test rsaes rsaKey.RSA_new wt).trace) ∧
    (∀ (wtg : wycheproofTestGroupRsassa) (publicExponent modulus : String)
      (rsaE rsaN : Int) (sha mgfSha : Nat),
      skipHash wtg.SHA = false →
      rsaKey.RSA_new ≠ 0 →
      (match wtg.PublicKey, wtg.PrivateKey with
        | some pub, _ => (pub.PublicExponent, pub.Modulus)
        | none, some priv => (priv.PublicExponent, priv.Modulus)
        | none, none => ("", "")) = (publicExponent, modulus) →
      publicExponent ≠ "" →
      modulus ≠ "" →
      lib.BN_hex2bn (cString (bytesOf publicExponent)) = some rsaE →
      lib.BN_hex2bn (cString (bytesOf modulus)) = some rsaN →
      rsaKey.RSA_set0_key rsaKey.RSA_new rsaN rsaE none ≠ 0 →
      hashEvpMdFromString wtg.SHA = some sha →
      hashEvpMdFromString wtg.MGFSHA = some mgfSha →
      (∀ wt ∈ wtg.Tests,
        ∃ b, (runRsassaTest lib rsassa rsaKey.RSA_new sha mgfSha wtg.SLen wt).out = Outcome.returned
            b) →
      ∃ b, (wycheproofTestGroupRsassa.run lib rsaKey rsassa wtg algorithm variant).out =
          Outcome.returned b ∧
        (b = true ↔
          ∀ wt ∈ wtg.Tests,
            (runRsassaTest lib rsassa rsaKey.RSA_new sha mgfSha wtg.SLen wt).out = Outcome.returned
                true) ∧
        (wtg.Tests = [] → b = true) ∧
        (wycheproofTestGroupRsassa.run lib rsaKey rsassa wtg algorithm variant).trace =
          ["RSA_new", "BN_hex2bn", "BN_hex2bn", "RSA_set0_key"] ++
            wtg.Tests.flatMap fun wt =>
              (runRsassaTest lib rsassa rsaKey.RSA_new sha mgfSha wtg.SLen wt).trace) ∧
    (∀ (wtg : wycheproofTestGroupRSA) (publicExponent modulus : String)
      (rsaE rsaN : Int) (nid : Int) (md : Nat),
      rsaKey.RSA_new ≠ 0 →
      (match wtg.PublicKey, wtg.PrivateKey with
        | some pub, _ => (pub.PublicExponent, pub.Modulus)
        | none, some priv => (priv.PublicExponent, priv.Modulus)
        | none, none => ("", "")) = (publicExponent, modulus) →
      publicExponent ≠ "" →
      modulus ≠ "" →
      lib.BN_hex2bn (cString (bytesOf publicExponent)) = some rsaE →
      lib.BN_hex2bn (cString (bytesOf modulus)) = some rsaN →
      rsaKey.RSA_set0_key rsaKey.RSA_new rsaN rsaE none ≠ 0 →
      nidFromString h wtg.SHA = some nid →
      hashEvpMdFromString wtg.SHA = some md →
      (∀ wt ∈ wtg.Tests,
        ∃ b, (runRSATest lib rsaKey.RSA_new md nid wt).out = Outcome.returned b) →
      ∃ b, (wycheproofTestGroupRSA.run h lib rsaKey wtg algorithm variant).out =
          Outcome.returned b ∧
        (b = true ↔
          ∀ wt ∈ wtg.Tests,
            (runRSATest lib rsaKey.RSA_new md nid wt).out = Outcome.returned true) ∧
        (wtg.Tests = [] → b = true) ∧
        (wycheproofTestGroupRSA.run h lib rsaKey wtg algorithm variant).trace =
          ["RSA_new", "BN_hex2bn", "BN_hex2bn", "RSA_set0_key"] ++
            wtg.Tests.flatMap fun wt => (runRSATest lib rsaKey.RSA_new md nid wt).trace) ∧
    (∀ (wtg : wycheproofTestGroupX25519),
      wtg.Curve = "curve25519" →
      (∀ wt ∈ wtg.Tests,
        ∃ b, (runX25519Test x25519 wt).out = Outcome.returned b) →
      ∃ b, (wycheproofTestGroupX25519.run x25519 wtg algorithm variant).out =
          Outcome.returned b ∧
        (b = true ↔
          ∀ wt ∈ wtg.Tests,
            (runX25519Test x25519 wt).out = Outcome.returned true) ∧
        (wtg.Tests = [] → b = true) ∧
        (wycheproofTestGroupX25519.run x25519 wtg algorithm variant).trace =
          wtg.Tests.flatMap fun wt => (runX25519Test x25519 wt).trace) := by
  refine ⟨?_, ?_, ?_, ?_, ?_, ?_, ?_, ?_, ?_, ?_, ?_, ?_, ?_, ?_, ?_, ?_, ?_, ?_, ?_, ?_, ?_⟩
  · intro wtg cipher hc hnew hinit hret
    refine case_loop_verdict _ _ _ _ ?_ ?_ hret <;>
      (simp only [wycheproofTestGroupAesCbcPkcs5.run, hc, hnew, hinit, Run.bind_def,
        Run.andThen, Run.call]
       try rfl)
  · intro wtg cipher aead hc haead hnew hret
    by_cases halg : algorithm = "AES-GCM"
    · subst halg
      rw [if_pos rfl] at haead
      refine case_loop_verdict _ _ _ _ ?_ ?_ hret <;>
      (simp only [wycheproofTestGroupAesAead.run, wycheproofTestGroupAesAead.run.tests, hc,
          haead, hnew, if_true, Run.bind_def, Run.andThen, Run.call]
       try rfl)
    · rw [if_neg halg] at haead
      cases haead
      refine case_loop_verdict _ _ _ _ ?_ ?_ hret <;>
      (simp only [wycheproofTestGroupAesAead.run, wycheproofTestGroupAesAead.run.tests, hc, halg,
          hnew, if_false, Run.bind_def, Run.andThen, Run.call]
       try rfl)
  · intro wtg cipher hc hret
    refine case_loop_verdict _ [] _ _ ?_ ?_ hret <;>
      (simp only [wycheproofTestGroupAesCmac.run, hc, Run.bind_def, Run.andThen, Run.call]
       try rfl)
  · intro wtg hiv hnew hret
    have hloop := run_loop_all (wycheproofTestGroupChaCha.run.body aeadLib chacha algorithm)
      (fun wt => decide ((runChaCha20Poly1305Test aeadLib algorithm wt).out =
          Outcome.returned true ∧
        (runEvpChaCha20Poly1305Test chacha algorithm wt).out = Outcome.returned true))
      (fun wt => (runChaCha20Poly1305Test aeadLib algorithm wt).trace ++
        (runEvpChaCha20Poly1305Test chacha algorithm wt).trace)
      wtg.Tests
      (by
        intro wt hwt s
        obtain ⟨⟨b1, hb1⟩, ⟨b2, hb2⟩⟩ := hret wt hwt
        unfold wycheproofTestGroupChaCha.run.body
        simp only [Run.bind_def, Run.andThen, hb1, hb2, Outcome.returned.injEq]
        cases b1 <;> cases b2 <;> cases s <;> simp)
    refine ⟨wtg.Tests.all fun wt =>
      decide ((runChaCha20Poly1305Test aeadLib algorithm wt).out = Outcome.returned true ∧
        (runEvpChaCha20Poly1305Test chacha algorithm wt).out = Outcome.returned true),
      ?_, ?_, ?_, ?_⟩
    · refine Eq.trans ?_ hloop.1
      simp only [wycheproofTestGroupChaCha.run, hiv, hnew, if_false, Run.bind_def, Run.andThen,
        Run.call]
      rfl
    · simp only [List.all_eq_true, decide_eq_true_eq]
    · intro hnil
      rw [hnil]
      rfl
    · rw [← hloop.2]
      simp only [wycheproofTestGroupChaCha.run, hiv, hnew, if_false, Run.bind_def, Run.andThen,
        Run.call]
      rfl
  · intro wtg dsa md dsaDER dsaPEM hkeys hret
    have hloop := forRange_all (wycheproofTestGroupDSA.run.body lib dsa md dsaDER dsaPEM variant)
      (fun wt => decide (∀ key ∈ [dsa, dsaDER, dsaPEM],
        (runDSATest lib key md variant wt).out = Outcome.returned true))
      (fun wt => [dsa, dsaDER, dsaPEM].flatMap fun key => (runDSATest lib key md variant wt).trace)
      wtg.Tests
      (by
        intro wt hwt s
        obtain ⟨b1, hb1⟩ := hret wt hwt dsa (by simp)
        obtain ⟨b2, hb2⟩ := hret wt hwt dsaDER (by simp)
        obtain ⟨b3, hb3⟩ := hret wt hwt dsaPEM (by simp)
        have hiff : (∀ key ∈ [dsa, dsaDER, dsaPEM],
            (runDSATest lib key md variant wt).out = Outcome.returned true) ↔
            (b1 = true ∧ b2 = true ∧ b3 = true) := by
          simp only [List.mem_cons, List.mem_singleton, List.not_mem_nil, or_false,
            forall_eq_or_imp, forall_eq, hb1, hb2, hb3, Outcome.returned.injEq]
        have hg : decide (∀ key ∈ [dsa, dsaDER, dsaPEM],
            (runDSATest lib key md variant wt).out = Outcome.returned true) =
            (b1 && b2 && b3) := by
          rw [decide_eq_decide.mpr hiff]
          cases b1 <;> cases b2 <;> cases b3 <;> rfl
        simp only [hg]
        unfold wycheproofTestGroupDSA.run.body
        simp only [Run.bind_def, Run.andThen, hb1, hb2, hb3]
        cases b1 <;> cases b2 <;> cases b3 <;> cases s <;> simp) true
    rw [Bool.true_and] at hloop
    have hrun := Run.bind_returned
      (fun (keys : Nat × Nat × Nat × Nat) => do
        let success := true
        let success ← forRange
          (wycheproofTestGroupDSA.run.body lib keys.1 keys.2.1 keys.2.2.1 keys.2.2.2 variant)
          wtg.Tests success
        (pure success : Run String Bool)) hkeys
    have hrun2 := Run.bind_returned (fun success => (pure success : Run String Bool)) hloop.1
    refine ⟨wtg.Tests.all fun wt => decide (∀ key ∈ [dsa, dsaDER, dsaPEM],
      (runDSATest lib key md variant wt).out = Outcome.returned true),
      hrun.1.trans hrun2.1, ?_, ?_, ?_⟩
    · simp only [List.all_eq_true, decide_eq_true_eq]
    · intro hnil
      rw [hnil]
      rfl
    · refine hrun.2.trans ?_
      congr 1
      refine hrun2.2.trans ?_
      rw [hloop.2]
      exact List.append_nil _
  · intro wtg nid hnid hskip hret
    refine case_loop_verdict _ [] _ _ ?_ ?_ hret <;>
      (simp only [wycheproofTestGroupECDH.run, hnid, hskip, Run.bind_def, Run.andThen,
        Run.call]
       try rfl)
  · intro wtg nid hnid hret
    refine case_loop_verdict _ [] _ _ ?_ ?_ hret <;>
      (simp only [wycheproofTestGroupECDHWebCrypto.run, hnid, Run.bind_def, Run.andThen,
        Run.call]
       try rfl)
  · intro wtg key curveNid mdNid ecKey md bnX bnY hkey hnid hcurve hhash hnew hx hy hset hmdnid hmd
      hret
    refine case_loop_verdict _ _ _ _ ?_ ?_ hret <;>
      (simp only [wycheproofTestGroupECDSA.run, wycheproofTestGroupECDSA.run.tests, hkey,
        hnid, hcurve, hhash, hnew, hx, hy, hset, hmdnid, hmd, Run.bind_def, Run.andThen,
        Run.call]
       try rfl)
  · intro wtg hret
    refine case_loop_verdict _ [] _ _ ?_ ?_ hret <;>
      (simp only [wycheproofTestGroupEcCurve.run, Run.bind_def, Run.andThen, Run.call]
       try rfl)
  · intro wtg key pk pkey hkey hcurve hpk hnew hret
    refine case_loop_verdict _ _ _ _ ?_ ?_ hret <;>
      (simp only [wycheproofTestGroupEdDSA.run, hkey, hcurve, mustDecodeHexString_of_decoded
        _ _ _ hpk, take_placeholder, hnew, if_true, Run.bind_def, Run.andThen, Run.call]
       try rfl)
  · intro wtg md hmd hret
    refine case_loop_verdict _ [] _ _ ?_ ?_ hret <;>
      (simp only [wycheproofTestGroupHkdf.run, hmd, Run.bind_def, Run.andThen, Run.call]
       try rfl)
  · intro wtg md hmd hret
    by_cases hsm3 : algorithm = "HMACSM3"
    · rw [if_pos hsm3] at hmd
      refine case_loop_verdict _ [] _ _ ?_ ?_ hret <;>
      (simp only [wycheproofTestGroupHmac.run, hsm3, if_true]
       rw [show "" ++ stringsTrimPrefix "SM3" "HMACSHA" = "SM3" from rfl, hmd]
       try rfl)
    · rw [if_neg hsm3] at hmd
      refine case_loop_verdict _ [] _ _ ?_ ?_ hret <;>
      (simp only [wycheproofTestGroupHmac.run, hsm3, if_false, hmd]
       try rfl)
  · intro wtg hret
    refine case_loop_verdict _ [] _ _ ?_ ?_ hret <;>
      (simp only [wycheproofTestGroupKW.run, Run.bind_def, Run.andThen, Run.call]
       try rfl)
  · intro wtg rank runTest hsel hret
    refine case_loop_verdict _ [] _ _ ?_ ?_ hret <;>
      (simp only [wycheproofTestGroupMLKEM.run, hsel, Run.bind_def, Run.andThen, Run.pure_out,
        Run.pure_trace]
       try rfl)
  · intro wtg md hmd hret
    refine case_loop_verdict _ [] _ _ ?_ ?_ hret <;>
      (simp only [wycheproofTestGroupPbkdf2HmacSha.run, hmd, Run.bind_def, Run.andThen,
        Run.call]
       try rfl)
  · intro wtg hret
    refine case_loop_verdict _ [] _ _ ?_ ?_ hret <;>
      (simp only [wycheproofTestGroupPrimality.run, Run.bind_def, Run.andThen, Run.call]
       try rfl)
  · intro wtg priv rsaD rsaE rsaN sha mgfSha hskip hnew hpriv hd he hn hset hsha hmgf hret
    refine case_loop_verdict _ _ _ _ ?_ ?_ hret <;>
      (simp only [wycheproofTestGroupRsaesOaep.run, wycheproofTestGroupRsaesOaep.run.tests,
        hskip, hnew, hpriv, hd, he, hn, hset, hsha, hmgf, if_false, Bool.false_eq_true,
        Run.bind_def, Run.andThen, Run.call]
       try rfl)
  · intro wtg priv rsaD rsaE rsaN hnew hpriv hd he hn hset hret
    refine case_loop_verdict _ _ _ _ ?_ ?_ hret <;>
      (simp only [wycheproofTestGroupRsaesPkcs1.run, hnew, hpriv, hd, he, hn, hset,
        if_false, Run.bind_def, Run.andThen, Run.call]
       try rfl)
  · intro wtg publicExponent modulus rsaE rsaN sha mgfSha hskip hnew hkey hpe hmod he hn hset hsha
      hmgf hret
    refine case_loop_verdict _ _ _ _ ?_ ?_ hret <;>
      (simp only [wycheproofTestGroupRsassa.run, wycheproofTestGroupRsassa.run.tests, hskip,
        hnew, hkey, hpe, hmod, he, hn, hset, hsha, hmgf, if_false, or_self,
        Bool.false_eq_true, Run.bind_def, Run.andThen, Run.call]
       try rfl)
  · intro wtg publicExponent modulus rsaE rsaN nid md hnew hkey hpe hmod he hn hset hnid hmd hret
    refine case_loop_verdict _ _ _ _ ?_ ?_ hret <;>
      (simp only [wycheproofTestGroupRSA.run, hnew, hkey, hpe, hmod, he, hn, hset, hnid,
        hmd, if_false, or_self, Run.bind_def, Run.andThen, Run.call]
       try rfl)
  · intro wtg hcurve hret
    refine case_loop_verdict _ [] _ _ ?_ ?_ hret <;>
      (simp only [wycheproofTestGroupX25519.run, hcurve, if_true, Run.bind_def, Run.andThen,
        Run.call]
       try rfl)

/-- The amended claim C20 at one test group for each executor; the groups of
the AES-CMAC, ChaCha20-Poly1305, DSA, ECDH WebCrypto, ECDSA, PBKDF2 and
primality executors have two cases, of which the first fails and the second
passes. -/
theorem run_checks_every_case_witness :
    (∃ b, (wycheproofTestGroupAesCbcPkcs5.run acceptingCbcCtx encryptOnlyCbc
          cbcGroup "AES-CBC-PKCS5" testVariant.Normal).out =
        Outcome.returned b ∧
      (b = true ↔
        ∀ wt ∈ cbcGroup.Tests,
          (runAesCbcPkcs5Test encryptOnlyCbc wt).out =
            Outcome.returned true) ∧
      (cbcGroup.Tests = [] → b = true) ∧
      (wycheproofTestGroupAesCbcPkcs5.run acceptingCbcCtx encryptOnlyCbc
          cbcGroup "AES-CBC-PKCS5" testVariant.Normal).trace =
        ["EVP_CIPHER_CTX_new", "EVP_CipherInit_ex"] ++
          cbcGroup.Tests.flatMap fun wt =>
            (runAesCbcPkcs5Test encryptOnlyCbc wt).trace) ∧
    (∃ b, (wycheproofTestGroupAesAead.run acceptingCipherCtx acceptingCipher zeroTagAead
          gcm128Group "AES-GCM" testVariant.Normal).out =
        Outcome.returned b ∧
      (b = true ↔
        ∀ wt ∈ gcm128Group.Tests,
          (runAesAeadTest acceptingCipher zeroTagAead "AES-GCM" 3 wt).out =
            Outcome.returned true) ∧
      (gcm128Group.Tests = [] → b = true) ∧
      (wycheproofTestGroupAesAead.run acceptingCipherCtx acceptingCipher zeroTagAead
          gcm128Group "AES-GCM" testVariant.Normal).trace =
        ["EVP_CIPHER_CTX_new", "EVP_CipherInit_ex"] ++
          gcm128Group.Tests.flatMap fun wt =>
            (runAesAeadTest acceptingCipher zeroTagAead "AES-GCM" 3 wt).trace) ∧
    (∃ b, (wycheproofTestGroupAesCmac.run constantCmac
          cmacGroup "AES-CMAC" testVariant.Normal).out =
        Outcome.returned b ∧
      (b = true ↔
        ∀ wt ∈ cmacGroup.Tests,
          (runAesCmacTest constantCmac 11 wt).out =
            Outcome.returned true) ∧
      (cmacGroup.Tests = [] → b = true) ∧
      (wycheproofTestGroupAesCmac.run constantCmac
          cmacGroup "AES-CMAC" testVariant.Normal).trace =
        cmacGroup.Tests.flatMap fun wt =>
          (runAesCmacTest constantCmac 11 wt).trace) ∧
    (∃ b, (wycheproofTestGroupChaCha.run zeroTagAead acceptingEvpChaCha chachaGroup
          "CHACHA20-POLY1305" testVariant.Normal).out = Outcome.returned b ∧
      (b = true ↔
        ∀ wt ∈ chachaGroup.Tests,
          (runChaCha20Poly1305Test zeroTagAead "CHACHA20-POLY1305" wt).out =
            Outcome.returned true ∧
          (runEvpChaCha20Poly1305Test acceptingEvpChaCha "CHACHA20-POLY1305" wt).out =
            Outcome.returned true) ∧
      (chachaGroup.Tests = [] → b = true) ∧
      (wycheproofTestGroupChaCha.run zeroTagAead acceptingEvpChaCha chachaGroup
          "CHACHA20-POLY1305" testVariant.Normal).trace =
        ["EVP_CIPHER_CTX_new"] ++
          chachaGroup.Tests.flatMap fun wt =>
            (runChaCha20Poly1305Test zeroTagAead "CHACHA20-POLY1305" wt).trace ++
              (runEvpChaCha20Poly1305Test acceptingEvpChaCha "CHACHA20-POLY1305" wt).trace) ∧
    (∃ b, (wycheproofTestGroupDSA.run acceptingLib acceptingDSAKey dsaGroup "DSA"
          testVariant.Normal).out = Outcome.returned b ∧
      (b = true ↔ ∀ wt ∈ dsaGroup.Tests, ∀ key ∈ [1, 2, 3],
        (runDSATest acceptingLib key 3 testVariant.Normal wt).out = Outcome.returned true) ∧
      (dsaGroup.Tests = [] → b = true) ∧
      (wycheproofTestGroupDSA.run acceptingLib acceptingDSAKey dsaGroup "DSA"
          testVariant.Normal).trace =
        (wycheproofTestGroupDSA.run.keys acceptingLib acceptingDSAKey dsaGroup).trace ++
          dsaGroup.Tests.flatMap fun wt =>
            [1, 2, 3].flatMap fun key =>
              (runDSATest acceptingLib key 3 testVariant.Normal wt).trace) ∧
    (∃ b, (wycheproofTestGroupECDH.run numberedObjectsHeader acceptingLib
          ecdhGroup "ECDH" testVariant.Normal).out =
        Outcome.returned b ∧
      (b = true ↔
        ∀ wt ∈ ecdhGroup.Tests,
          (runECDHTest acceptingLib 20 testVariant.Normal wt).out =
            Outcome.returned true) ∧
      (ecdhGroup.Tests = [] → b = true) ∧
      (wycheproofTestGroupECDH.run numberedObjectsHeader acceptingLib
          ecdhGroup "ECDH" testVariant.Normal).trace =
        ecdhGroup.Tests.flatMap fun wt =>
          (runECDHTest acceptingLib 20 testVariant.Normal wt).trace) ∧
    (∃ b, (wycheproofTestGroupECDHWebCrypto.run numberedObjectsHeader acceptingWebCrypto
          webCryptoGroup "ECDH" testVariant.Normal).out =
        Outcome.returned b ∧
      (b = true ↔
        ∀ wt ∈ webCryptoGroup.Tests,
          (runECDHWebCryptoTest acceptingWebCrypto 20 wt).out =
            Outcome.returned true) ∧
      (webCryptoGroup.Tests = [] → b = true) ∧
      (wycheproofTestGroupECDHWebCrypto.run numberedObjectsHeader acceptingWebCrypto
          webCryptoGroup "ECDH" testVariant.Normal).trace =
        webCryptoGroup.Tests.flatMap fun wt =>
          (runECDHWebCryptoTest acceptingWebCrypto 20 wt).trace) ∧
    (∃ b, (wycheproofTestGroupECDSA.run numberedObjectsHeader acceptingLib acceptingECKey
          ecdsaGroup "ECDSA" testVariant.Normal).out =
        Outcome.returned b ∧
      (b = true ↔
        ∀ wt ∈ ecdsaGroup.Tests,
          (runECDSATest acceptingLib 0 3 31 testVariant.Normal wt).out =
            Outcome.returned true) ∧
      (ecdsaGroup.Tests = [] → b = true) ∧
      (wycheproofTestGroupECDSA.run numberedObjectsHeader acceptingLib acceptingECKey
          ecdsaGroup "ECDSA" testVariant.Normal).trace =
        ["EC_KEY_new_by_curve_name", "BN_hex2bn", "BN_hex2bn",
        "EC_KEY_set_public_key_affine_coordinates"] ++
          ecdsaGroup.Tests.flatMap fun wt =>
            (runECDSATest acceptingLib 0 3 31 testVariant.Normal wt).trace) ∧
    (∃ b, (wycheproofTestGroupEcCurve.run acceptingLib acceptingEcCurve
          curveGroup "EcCurveTest" testVariant.Normal).out =
        Outcome.returned b ∧
      (b = true ↔
        ∀ wt ∈ curveGroup.Tests,
          (runEcCurveTest acceptingLib acceptingEcCurve wt).out =
            Outcome.returned true) ∧
      (curveGroup.Tests = [] → b = true) ∧
      (wycheproofTestGroupEcCurve.run acceptingLib acceptingEcCurve
          curveGroup "EcCurveTest" testVariant.Normal).trace =
        curveGroup.Tests.flatMap fun wt =>
          (runEcCurveTest acceptingLib acceptingEcCurve wt).trace) ∧
    (∃ b, (wycheproofTestGroupEdDSA.run acceptingLib acceptingEdDSAKey
          eddsaGroup "EDDSA" testVariant.Normal).out =
        Outcome.returned b ∧
      (b = true ↔
        ∀ wt ∈ eddsaGroup.Tests,
          (runEdDSATest acceptingLib 1 wt).out =
            Outcome.returned true) ∧
      (eddsaGroup.Tests = [] → b = true) ∧
      (wycheproofTestGroupEdDSA.run acceptingLib acceptingEdDSAKey
          eddsaGroup "EDDSA" testVariant.Normal).trace =
        ["EVP_PKEY_new_raw_public_key"] ++
          eddsaGroup.Tests.flatMap fun wt =>
            (runEdDSATest acceptingLib 1 wt).trace) ∧
    (∃ b, (wycheproofTestGroupHkdf.run constantHkdf
          hkdfGroup "HKDF-SHA-256" testVariant.Normal).out =
        Outcome.returned b ∧
      (b = true ↔
        ∀ wt ∈ hkdfGroup.Tests,
          (runHkdfTest constantHkdf 3 wt).out =
            Outcome.returned true) ∧
      (hkdfGroup.Tests = [] → b = true) ∧
      (wycheproofTestGroupHkdf.run constantHkdf
          hkdfGroup "HKDF-SHA-256" testVariant.Normal).trace =
        hkdfGroup.Tests.flatMap fun wt =>
          (runHkdfTest constantHkdf 3 wt).trace) ∧
    (∃ b, (wycheproofTestGroupHmac.run constantHmac
          hmacEmptyTagGroup "HMACSHA256" testVariant.Normal).out =
        Outcome.returned b ∧
      (b = true ↔
        ∀ wt ∈ hmacEmptyTagGroup.Tests,
          (runHmacTest constantHmac 3 (Int.tdiv hmacEmptyTagGroup.TagSize 8) wt).out =
            Outcome.returned true) ∧
      (hmacEmptyTagGroup.Tests = [] → b = true) ∧
      (wycheproofTestGroupHmac.run constantHmac
          hmacEmptyTagGroup "HMACSHA256" testVariant.Normal).trace =
        hmacEmptyTagGroup.Tests.flatMap fun wt =>
          (runHmacTest constantHmac 3 (Int.tdiv hmacEmptyTagGroup.TagSize 8) wt).trace) ∧
    (∃ b, (wycheproofTestGroupKW.run lengthCheckingWrap
          kwGroup "AES-WRAP" testVariant.Normal).out =
        Outcome.returned b ∧
      (b = true ↔
        ∀ wt ∈ kwGroup.Tests,
          (runKWTest lengthCheckingWrap kwGroup.KeySize wt).out =
            Outcome.returned true) ∧
      (kwGroup.Tests = [] → b = true) ∧
      (wycheproofTestGroupKW.run lengthCheckingWrap
          kwGroup "AES-WRAP" testVariant.Normal).trace =
        kwGroup.Tests.flatMap fun wt =>
          (runKWTest lengthCheckingWrap kwGroup.KeySize wt).trace) ∧
    (∃ b, (wycheproofTestGroupMLKEM.run mlkemRanks nonEmptyMLKEM acceptingMLKEMDecap
          mlkemEncapsGroup "ML-KEM" testVariant.Normal).out =
        Outcome.returned b ∧
      (b = true ↔
        ∀ wt ∈ mlkemEncapsGroup.Tests,
          (runMLKEMEncapsTestGroup nonEmptyMLKEM 3 wt).out =
            Outcome.returned true) ∧
      (mlkemEncapsGroup.Tests = [] → b = true) ∧
      (wycheproofTestGroupMLKEM.run mlkemRanks nonEmptyMLKEM acceptingMLKEMDecap
          mlkemEncapsGroup "ML-KEM" testVariant.Normal).trace =
        mlkemEncapsGroup.Tests.flatMap fun wt =>
          (runMLKEMEncapsTestGroup nonEmptyMLKEM 3 wt).trace) ∧
    (∃ b, (wycheproofTestGroupPbkdf2HmacSha.run constantPbkdf
          pbkdfGroup "PBKDF2-HMACSHA256" testVariant.Normal).out =
        Outcome.returned b ∧
      (b = true ↔
        ∀ wt ∈ pbkdfGroup.Tests,
          (runPbkdfTest constantPbkdf 3 wt).out =
            Outcome.returned true) ∧
      (pbkdfGroup.Tests = [] → b = true) ∧
      (wycheproofTestGroupPbkdf2HmacSha.run constantPbkdf
          pbkdfGroup "PBKDF2-HMACSHA256" testVariant.Normal).trace =
        pbkdfGroup.Tests.flatMap fun wt =>
          (runPbkdfTest constantPbkdf 3 wt).trace) ∧
    (∃ b, (wycheproofTestGroupPrimality.run acceptingLib
          primalityGroup "PrimalityTest" testVariant.Normal).out =
        Outcome.returned b ∧
      (b = true ↔
        ∀ wt ∈ primalityGroup.Tests,
          (runPrimalityTest acceptingLib wt).out =
            Outcome.returned true) ∧
      (primalityGroup.Tests = [] → b = true) ∧
      (wycheproofTestGroupPrimality.run acceptingLib
          primalityGroup "PrimalityTest" testVariant.Normal).trace =
        primalityGroup.Tests.flatMap fun wt =>
          (runPrimalityTest acceptingLib wt).trace) ∧
    (∃ b, (wycheproofTestGroupRsaesOaep.run acceptingLib acceptingRsaKey decryptingRsa
          rsaesOaepGroup "RSAES-OAEP" testVariant.Normal).out =
        Outcome.returned b ∧
      (b = true ↔
        ∀ wt ∈ rsaesOaepGroup.Tests,
          (runRsaesOaepTest decryptingRsa acceptingRsaKey.RSA_new 1 1 wt).out =
            Outcome.returned true) ∧
      (rsaesOaepGroup.Tests = [] → b = true) ∧
      (wycheproofTestGroupRsaesOaep.run acceptingLib acceptingRsaKey decryptingRsa
          rsaesOaepGroup "RSAES-OAEP" testVariant.Normal).trace =
        ["RSA_new", "BN_hex2bn", "BN_hex2bn", "BN_hex2bn", "RSA_set0_key"] ++
          rsaesOaepGroup.Tests.flatMap fun wt =>
            (runRsaesOaepTest decryptingRsa acceptingRsaKey.RSA_new 1 1 wt).trace) ∧
    (∃ b, (wycheproofTestGroupRsaesPkcs1.run acceptingLib acceptingRsaKey decryptingRsa
          rsaesPkcs1Group "RSAES-PKCS1-v1_5" testVariant.Normal).out =
        Outcome.returned b ∧
      (b = true ↔
        ∀ wt ∈ rsaesPkcs1Group.Tests,
          (runRsaesPkcs1Test decryptingRsa acceptingRsaKey.RSA_new wt).out =
            Outcome.returned true) ∧
      (rsaesPkcs1Group.Tests = [] → b = true) ∧
      (wycheproofTestGroupRsaesPkcs1.run acceptingLib acceptingRsaKey decryptingRsa
          rsaesPkcs1Group "RSAES-PKCS1-v1_5" testVariant.Normal).trace =
        ["RSA_new", "BN_hex2bn", "BN_hex2bn", "BN_hex2bn", "RSA_set0_key"] ++
          rsaesPkcs1Group.Tests.flatMap fun wt =>
            (runRsaesPkcs1Test decryptingRsa acceptingRsaKey.RSA_new wt).trace) ∧
    (∃ b, (wycheproofTestGroupRsassa.run acceptingLib acceptingRsaKey smallRsassa
          rsassaGroup "RSASSA-PSS" testVariant.Normal).out =
        Outcome.returned b ∧
      (b = true ↔
        ∀ wt ∈ rsassaGroup.Tests,
          (runRsassaTest acceptingLib smallRsassa acceptingRsaKey.RSA_new 3 3 rsassaGroup.SLen
              wt).out =
            Outcome.returned true) ∧
      (rsassaGroup.Tests = [] → b = true) ∧
      (wycheproofTestGroupRsassa.run acceptingLib acceptingRsaKey smallRsassa
          rsassaGroup "RSASSA-PSS" testVariant.Normal).trace =
        ["RSA_new", "BN_hex2bn", "BN_hex2bn", "RSA_set0_key"] ++
          rsassaGroup.Tests.flatMap fun wt =>
            (runRsassaTest acceptingLib smallRsassa acceptingRsaKey.RSA_new 3 3 rsassaGroup.SLen
                wt).trace) ∧
    (∃ b, (wycheproofTestGroupRSA.run numberedObjectsHeader acceptingLib acceptingRsaKey
          rsaGroup "RSASSA-PKCS1-v1_5" testVariant.Normal).out =
        Outcome.returned b ∧
      (b = true ↔
        ∀ wt ∈ rsaGroup.Tests,
          (runRSATest acceptingLib acceptingRsaKey.RSA_new 3 31 wt).out =
            Outcome.returned true) ∧
      (rsaGroup.Tests = [] → b = true) ∧
      (wycheproofTestGroupRSA.run numberedObjectsHeader acceptingLib acceptingRsaKey
          rsaGroup "RSASSA-PKCS1-v1_5" testVariant.Normal).trace =
        ["RSA_new", "BN_hex2bn", "BN_hex2bn", "RSA_set0_key"] ++
          rsaGroup.Tests.flatMap fun wt =>
            (runRSATest acceptingLib acceptingRsaKey.RSA_new 3 31 wt).trace) ∧
    (∃ b, (wycheproofTestGroupX25519.run countingX25519
          x25519Group "XDH" testVariant.Normal).out =
        Outcome.returned b ∧
      (b = true ↔
        ∀ wt ∈ x25519Group.Tests,
          (runX25519Test countingX25519 wt).out =
            Outcome.returned true) ∧
      (x25519Group.Tests = [] → b = true) ∧
      (wycheproofTestGroupX25519.run countingX25519
          x25519Group "XDH" testVariant.Normal).trace =
        x25519Group.Tests.flatMap fun wt =>
          (runX25519Test countingX25519 wt).trace) := by
  have key := fun algorithm => run_checks_every_case numberedObjectsHeader mlkemRanks acceptingLib
      acceptingDSAKey
      acceptingECKey acceptingRsaKey acceptingEdDSAKey acceptingCbcCtx encryptOnlyCbc
      acceptingCipherCtx acceptingCipher zeroTagAead constantCmac acceptingEvpChaCha
      acceptingWebCrypto acceptingEcCurve constantHkdf constantHmac lengthCheckingWrap
      nonEmptyMLKEM acceptingMLKEMDecap constantPbkdf decryptingRsa smallRsassa countingX25519
      algorithm testVariant.Normal
  have h_cbc := by
    obtain ⟨c, -, -, -, -, -, -, -, -, -, -, -, -, -, -, -, -, -, -, -, -⟩ := key "AES-CBC-PKCS5"
    exact c
  have h_gcm := by
    obtain ⟨-, c, -, -, -, -, -, -, -, -, -, -, -, -, -, -, -, -, -, -, -⟩ := key "AES-GCM"
    exact c
  have h_cmac := by
    obtain ⟨-, -, c, -, -, -, -, -, -, -, -, -, -, -, -, -, -, -, -, -, -⟩ := key "AES-CMAC"
    exact c
  have h_chacha := by
    obtain ⟨-, -, -, c, -, -, -, -, -, -, -, -, -, -, -, -, -, -, -, -, -⟩ := key
        "CHACHA20-POLY1305"
    exact c
  have h_dsa := by
    obtain ⟨-, -, -, -, c, -, -, -, -, -, -, -, -, -, -, -, -, -, -, -, -⟩ := key "DSA"
    exact c
  have h_ecdh := by
    obtain ⟨-, -, -, -, -, c, -, -, -, -, -, -, -, -, -, -, -, -, -, -, -⟩ := key "ECDH"
    exact c
  have h_web := by
    obtain ⟨-, -, -, -, -, -, c, -, -, -, -, -, -, -, -, -, -, -, -, -, -⟩ := key "ECDH"
    exact c
  have h_ecdsa := by
    obtain ⟨-, -, -, -, -, -, -, c, -, -, -, -, -, -, -, -, -, -, -, -, -⟩ := key "ECDSA"
    exact c
  have h_curve := by
    obtain ⟨-, -, -, -, -, -, -, -, c, -, -, -, -, -, -, -, -, -, -, -, -⟩ := key "EcCurveTest"
    exact c
  have h_eddsa := by
    obtain ⟨-, -, -, -, -, -, -, -, -, c, -, -, -, -, -, -, -, -, -, -, -⟩ := key "EDDSA"
    exact c
  have h_hkdf := by
    obtain ⟨-, -, -, -, -, -, -, -, -, -, c, -, -, -, -, -, -, -, -, -, -⟩ := key "HKDF-SHA-256"
    exact c
  have h_hmac := by
    obtain ⟨-, -, -, -, -, -, -, -, -, -, -, c, -, -, -, -, -, -, -, -, -⟩ := key "HMACSHA256"
    exact c
  have h_kw := by
    obtain ⟨-, -, -, -, -, -, -, -, -, -, -, -, c, -, -, -, -, -, -, -, -⟩ := key "AES-WRAP"
    exact c
  have h_mlkem := by
    obtain ⟨-, -, -, -, -, -, -, -, -, -, -, -, -, c, -, -, -, -, -, -, -⟩ := key "ML-KEM"
    exact c
  have h_pbkdf := by
    obtain ⟨-, -, -, -, -, -, -, -, -, -, -, -, -, -, c, -, -, -, -, -, -⟩ := key
        "PBKDF2-HMACSHA256"
    exact c
  have h_prim := by
    obtain ⟨-, -, -, -, -, -, -, -, -, -, -, -, -, -, -, c, -, -, -, -, -⟩ := key "PrimalityTest"
    exact c
  have h_oaep := by
    obtain ⟨-, -, -, -, -, -, -, -, -, -, -, -, -, -, -, -, c, -, -, -, -⟩ := key "RSAES-OAEP"
    exact c
  have h_pkcs1 := by
    obtain ⟨-, -, -, -, -, -, -, -, -, -, -, -, -, -, -, -, -, c, -, -, -⟩ := key "RSAES-PKCS1-v1_5"
    exact c
  have h_rsassa := by
    obtain ⟨-, -, -, -, -, -, -, -, -, -, -, -, -, -, -, -, -, -, c, -, -⟩ := key "RSASSA-PSS"
    exact c
  have h_rsa := by
    obtain ⟨-, -, -, -, -, -, -, -, -, -, -, -, -, -, -, -, -, -, -, c, -⟩ := key
        "RSASSA-PKCS1-v1_5"
    exact c
  have h_x25519 := by
    obtain ⟨-, -, -, -, -, -, -, -, -, -, -, -, -, -, -, -, -, -, -, -, c⟩ := key "XDH"
    exact c
  refine ⟨?_, ?_, ?_, ?_, ?_, ?_, ?_, ?_, ?_, ?_, ?_, ?_, ?_, ?_, ?_, ?_, ?_, ?_, ?_, ?_, ?_⟩
  · refine h_cbc cbcGroup 11 rfl rfl rfl ?_
    intro wt hwt
    simp only [cbcGroup, List.mem_cons, List.mem_singleton, List.not_mem_nil,
      or_false] at hwt
    rcases hwt with rfl
    exact ⟨_, rfl⟩
  · refine h_gcm gcm128Group 31 3 rfl rfl rfl ?_
    intro wt hwt
    simp only [gcm128Group, List.mem_cons, List.mem_singleton, List.not_mem_nil,
      or_false] at hwt
    rcases hwt with rfl
    exact ⟨_, rfl⟩
  · refine h_cmac cmacGroup 11 rfl ?_
    intro wt hwt
    simp only [cmacGroup, List.mem_cons, List.mem_singleton, List.not_mem_nil,
      or_false] at hwt
    rcases hwt with rfl | rfl <;> exact ⟨_, rfl⟩
  · refine h_chacha chachaGroup (by decide) rfl ?_
    intro wt hwt
    simp only [chachaGroup, List.mem_cons, List.mem_singleton, List.not_mem_nil,
      or_false] at hwt
    rcases hwt with rfl | rfl <;> exact ⟨⟨_, rfl⟩, ⟨_, rfl⟩⟩
  · refine h_dsa dsaGroup 1 3 2 3 rfl ?_
    intro wt hwt key hkey
    simp only [dsaGroup, List.mem_cons, List.mem_singleton, List.not_mem_nil,
      or_false] at hwt hkey
    rcases hwt with rfl | rfl <;> rcases hkey with rfl | rfl | rfl <;> exact ⟨_, rfl⟩
  · refine h_ecdh ecdhGroup 20 rfl rfl ?_
    intro wt hwt
    simp only [ecdhGroup, List.mem_cons, List.mem_singleton, List.not_mem_nil,
      or_false] at hwt
    rcases hwt with rfl
    exact ⟨_, rfl⟩
  · refine h_web webCryptoGroup 20 rfl ?_
    intro wt hwt
    simp only [webCryptoGroup, List.mem_cons, List.mem_singleton, List.not_mem_nil,
      or_false] at hwt
    rcases hwt with rfl | rfl <;> exact ⟨_, rfl⟩
  · refine h_ecdsa ecdsaGroup p256Key 20 31 0 3 1 1 rfl rfl rfl rfl rfl rfl rfl rfl rfl rfl ?_
    intro wt hwt
    simp only [ecdsaGroup, List.mem_cons, List.mem_singleton, List.not_mem_nil,
      or_false] at hwt
    rcases hwt with rfl | rfl <;> exact ⟨_, rfl⟩
  · refine h_curve curveGroup ?_
    intro wt hwt
    simp only [curveGroup, List.mem_cons, List.mem_singleton, List.not_mem_nil,
      or_false] at hwt
    rcases hwt with rfl
    exact ⟨_, rfl⟩
  · refine h_eddsa eddsaGroup ed25519Key [170, 187] 1 rfl rfl rfl rfl ?_
    intro wt hwt
    simp only [eddsaGroup, List.mem_cons, List.mem_singleton, List.not_mem_nil,
      or_false] at hwt
    rcases hwt with rfl
    exact ⟨_, rfl⟩
  · refine h_hkdf hkdfGroup 3 rfl ?_
    intro wt hwt
    simp only [hkdfGroup, List.mem_cons, List.mem_singleton, List.not_mem_nil,
      or_false] at hwt
    rcases hwt with rfl
    exact ⟨_, rfl⟩
  · refine h_hmac hmacEmptyTagGroup 3 rfl ?_
    intro wt hwt
    simp only [hmacEmptyTagGroup, List.mem_cons, List.mem_singleton, List.not_mem_nil,
      or_false] at hwt
    rcases hwt with rfl
    exact ⟨_, rfl⟩
  · refine h_kw kwGroup ?_
    intro wt hwt
    simp only [kwGroup, List.mem_cons, List.mem_singleton, List.not_mem_nil,
      or_false] at hwt
    rcases hwt with rfl
    exact ⟨_, rfl⟩
  · refine h_mlkem mlkemEncapsGroup 3 (runMLKEMEncapsTestGroup nonEmptyMLKEM) rfl ?_
    intro wt hwt
    simp only [mlkemEncapsGroup, List.mem_cons, List.mem_singleton, List.not_mem_nil,
      or_false] at hwt
    rcases hwt with rfl
    exact ⟨_, rfl⟩
  · refine h_pbkdf pbkdfGroup 3 rfl ?_
    intro wt hwt
    simp only [pbkdfGroup, List.mem_cons, List.mem_singleton, List.not_mem_nil,
      or_false] at hwt
    rcases hwt with rfl | rfl <;> exact ⟨_, rfl⟩
  · refine h_prim primalityGroup ?_
    intro wt hwt
    simp only [primalityGroup, List.mem_cons, List.mem_singleton, List.not_mem_nil,
      or_false] at hwt
    rcases hwt with rfl | rfl <;> exact ⟨_, rfl⟩
  · refine h_oaep rsaesOaepGroup smallRsaPrivateKey 1 1 1 1 1 rfl (by decide) rfl rfl rfl rfl (by
      decide) rfl rfl ?_
    intro wt hwt
    simp only [rsaesOaepGroup, List.mem_cons, List.mem_singleton, List.not_mem_nil,
      or_false] at hwt
    rcases hwt with rfl
    exact ⟨_, rfl⟩
  · refine h_pkcs1 rsaesPkcs1Group smallRsaPrivateKey 1 1 1 (by decide) rfl rfl rfl rfl (by decide)
      ?_
    intro wt hwt
    simp only [rsaesPkcs1Group, List.mem_cons, List.mem_singleton, List.not_mem_nil,
      or_false] at hwt
    rcases hwt with rfl
    exact ⟨_, rfl⟩
  · refine h_rsassa rsassaGroup "03" "0a" 1 1 3 3 rfl (by decide) rfl (by decide) (by decide) rfl
      rfl (by decide) rfl rfl ?_
    intro wt hwt
    simp only [rsassaGroup, List.mem_cons, List.mem_singleton, List.not_mem_nil,
      or_false] at hwt
    rcases hwt with rfl
    exact ⟨_, rfl⟩
  · refine h_rsa rsaGroup "03" "0a" 1 1 31 3 (by decide) rfl (by decide) (by decide) rfl rfl (by
      decide) rfl rfl ?_
    intro wt hwt
    simp only [rsaGroup, List.mem_cons, List.mem_singleton, List.not_mem_nil,
      or_false] at hwt
    rcases hwt with rfl
    exact ⟨_, rfl⟩
  · refine h_x25519 x25519Group rfl ?_
    intro wt hwt
    simp only [x25519Group, List.mem_cons, List.mem_singleton, List.not_mem_nil,
      or_false] at hwt
    rcases hwt with rfl
    exact ⟨_, rfl⟩

end Wycheproof
